import Mathlib

/-!
# Feeding-break firmware: feeding-mode orchestration and backend clients

A shallow embedding of the feeding-mode core of the firmware
(`src/main.cpp`, `src/redsea_api.h`, `src/tunze_api.h`, `src/tasmota_api.h`).

* The firmware's global variables are the fields of `State`.
* Everything the firmware reads from the outside world is an oracle in `Env`:
  the answer to the n-th HTTP request, the n-th reading of the WiFi status, the
  socket events delivered during the n-th wait, the clock, the JSON library, the
  button pin, the address of the board and the content of variables read before
  they are assigned.
* Everything the firmware does to the outside world is appended to `State.trace`.
* The Cloud-A operations call themselves after a 401 answer; they are embedded
  with a fuel argument that bounds the nesting depth of these self-calls and
  return `none` when the fuel is used up.
* The scan task is embedded as one run from its creation to its end, not interleaved
  with the main loop; creating it is counted in `State.scanTasksCreated`.
* The counters of the device loops are C `int`s; they count devices of a list held in
  RAM and are embedded as integers without wrap-around.
* Display refresh (`updateDisplay`, `lv_timer_handler`), LED blinking, serial
  logging and `delay`/`yield` do not touch the modelled state and are left out;
  no user-interface callback is dispatched while an operation runs.
-/

namespace FeedingBreak

/-! ## Arduino `String` operations -/

/-- Offset of the first occurrence of `pat` in the text, as C `strstr` finds it. -/
def strstr (pat : List Char) : List Char → Option Nat
  | [] => if pat.isEmpty then some 0 else none
  | c :: cs => if pat.isPrefixOf (c :: cs) then some 0 else (strstr pat cs).map (· + 1)

/-- Arduino `String::indexOf(const String&, unsigned int fromIndex)`: index of the first
occurrence at or after `fromIndex`, or `-1`. -/
def indexOfFrom (s pat : String) (fromIndex : Nat) : Int :=
  if fromIndex ≥ s.data.length then -1
  else
    match strstr pat.data (s.data.drop fromIndex) with
    | some k => ((fromIndex + k : Nat) : Int)
    | none => -1

/-- Arduino `String::indexOf(const String&)`. -/
def indexOf (s pat : String) : Int := indexOfFrom s pat 0

/-- Arduino `String::indexOf(char, unsigned int fromIndex)`. -/
def indexOfChar (s : String) (ch : Char) (fromIndex : Nat) : Int :=
  indexOfFrom s (String.singleton ch) fromIndex

/-- Arduino `String::substring(left, right)`: the characters at positions
`left .. right - 1`, after swapping the bounds when `left > right` and clamping
`right` to the length. -/
def substring (s : String) (left right : Nat) : String :=
  let l := if left > right then right else left
  let r := if left > right then left else right
  if l ≥ s.data.length then ""
  else String.mk ((s.data.take (min r s.data.length)).drop l)

/-- Replace every occurrence of one character in a character list. -/
def replaceCharList (c : Char) (rep : List Char) : List Char → List Char
  | [] => []
  | x :: xs => (if x = c then rep else [x]) ++ replaceCharList c rep xs

/-- Arduino `String::replace(find, replace)` for a one-character `find`. -/
def replaceChar (s : String) (c : Char) (rep : String) : String :=
  String.mk (replaceCharList c rep.data s.data)

/-! ## JSON documents (ArduinoJson) -/

/-- A parsed JSON value. -/
inductive Json where
  | null
  | bool (b : Bool)
  | int (n : Int)
  | real (text : String)
  | str (s : String)
  | arr (items : List Json)
  | obj (members : List (String × Json))

/-- Member access `doc[key]`: the first member with that key, the null variant when
the value is not an object or has no such member. -/
def Json.get (j : Json) (key : String) : Json :=
  match j with
  | .obj members => (members.lookup key).getD .null
  | _ => .null

/-- ArduinoJson `is<JsonArray>()`. -/
def Json.isArray : Json → Bool
  | .arr _ => true
  | _ => false

/-- ArduinoJson `is<JsonObject>()`. -/
def Json.isObject : Json → Bool
  | .obj _ => true
  | _ => false

/-- ArduinoJson `variant | dflt` at type `bool`. -/
def Json.orBool (j : Json) (dflt : Bool) : Bool :=
  match j with
  | .bool b => b
  | _ => dflt

/-- ArduinoJson `as<String>()`: the text of a string value, the serialized JSON of
any other value (so the text `null` for a missing member). -/
def Json.asString (serialize : Json → String) (j : Json) : String :=
  match j with
  | .str s => s
  | other => serialize other

/-- ArduinoJson `is<const char*>()`. -/
def Json.isString : Json → Bool
  | .str _ => true
  | _ => false

/-- ArduinoJson `isNull()`. -/
def Json.isNull : Json → Bool
  | .null => true
  | _ => false

/-- ArduinoJson `is<int>()` together with `as<int>()`: the value of an integer that
fits a 32-bit `int`, nothing for any other value. -/
def Json.asInt? : Json → Option Int
  | .int n => if -2 ^ 31 ≤ n ∧ n < 2 ^ 31 then some n else none
  | _ => none

/-- ArduinoJson `variant | dflt` at type `const char*`. -/
def Json.orString (j : Json) (dflt : String) : String :=
  match j with
  | .str s => s
  | _ => dflt

/-- ArduinoJson `variant | dflt` at type `int`. -/
def Json.orInt (j : Json) (dflt : Int) : Int :=
  (j.asInt?).getD dflt

/-- ArduinoJson `variant | variant`: the left value unless it is null. -/
def Json.orElse (a b : Json) : Json :=
  if a.isNull then b else a

/-- Element access `array[i]`: the null variant when the value is not an array or
is too short. -/
def Json.index (j : Json) (i : Nat) : Json :=
  match j with
  | .arr items => items.getD i .null
  | _ => .null

/-! ## The outside world -/

/-- An HTTP request as handed to `HTTPClient`. -/
structure HttpRequest where
  method : String
  url : String
  headers : List (String × String)
  body : String
deriving DecidableEq, Repr

/-- What `HTTPClient` reports for one request: the status code (negative for a
transport error), the body (`getString()`) and the collected `Set-Cookie` header. -/
structure HttpResponse where
  code : Int
  body : String
  setCookie : String
deriving DecidableEq, Repr

/-- Socket event kinds of the WebSockets client (`WStype_t`); `OTHER` stands for the
binary, fragment, ping and pong kinds, which the handler ignores alike. -/
inductive WStype where
  | ERROR
  | DISCONNECTED
  | CONNECTED
  | TEXT
  | OTHER
deriving DecidableEq, Repr

/-- An effect on the outside world, or a call made by the orchestrator. -/
inductive Event where
  | call (fn : String)
  | http (req : HttpRequest)
  | wsBegin (host : String) (port : Nat) (path : String) (extraHeaders : String)
  | wsSend (msg : String)
deriving DecidableEq, Repr

/-- The oracles: whatever the firmware reads from outside. -/
structure Env where
  /-- Answer to the n-th HTTP request issued since boot. -/
  http : Nat → HttpResponse
  /-- Result of the n-th `WiFi.status() == WL_CONNECTED` test. -/
  wifiStatus : Nat → Bool
  /-- Socket events dispatched to the handler during the n-th wait. -/
  socketEvents : Nat → List (WStype × String)
  /-- Result of the n-th `millis()` reading. -/
  millis : Nat → Nat
  /-- ArduinoJson `deserializeJson`; `none` is a parse error. -/
  deserializeJson : String → Option Json
  /-- ArduinoJson `serializeJson`. -/
  serializeJson : Json → String
  /-- Result of the n-th test `digitalRead(BUTTON_PIN) == LOW`. -/
  buttonLow : Nat → Bool
  /-- The board constant `BUTTON_PIN` (`board_config.h`; negative when the board has no
  button). -/
  BUTTON_PIN : Int
  /-- The four octets of `WiFi.localIP()`. -/
  localIP : Nat × Nat × Nat × Nat
  /-- Values found in variables that the code reads without having initialised them. -/
  indeterminate : Nat → Bool
  /-- The six bytes of `WiFi.macAddress()`. -/
  mac : Nat → Nat

/-- A value kept in the flash store (`Preferences`). -/
inductive PrefValue where
  | bool (b : Bool)
  | int (n : Int)
  | str (s : String)
deriving DecidableEq, Repr

/-- One entry of the local allow-list (`struct TasmotaDevice`). -/
structure TasmotaDevice where
  ip : String
  name : String
  hostname : String
  enabled : Bool
  turnOn : Bool
  powerState : Bool
  reachable : Bool
deriving DecidableEq, Repr

/-- The global variables of the firmware (with the static locals of `handleButton`), the
content of the flash store, the read positions of the oracles, the number of scan tasks
created and the trace of effects. -/
structure State where
  redsea_USERNAME : String
  redsea_PASSWORD : String
  redsea_AQUARIUM_ID : String
  redsea_AQUARIUM_NAME : String
  TUNZE_USERNAME : String
  TUNZE_PASSWORD : String
  TUNZE_DEVICE_ID : String
  TUNZE_DEVICE_NAME : String
  ENABLE_redsea : Bool
  ENABLE_TUNZE : Bool
  redseaToken : String
  tunzeSID : String
  tunzeConnected : Bool
  tunzeMessageId : Nat
  feedingModeActive : Bool
  tasmotaDevices : List TasmotaDevice
  tasmotaPulseTime : Int
  tasmotaEnabled : Bool
  tasmotaFeedingActive : Bool
  tasmotaFeedingStartTime : Nat
  tasmotaScanRunning : Bool
  tasmotaScanComplete : Bool
  tasmotaScanProgress : Int
  tasmotaScanFound : Int
  tasmotaScanResults : List TasmotaDevice
  buttonProcessed : Bool
  lastCheck : Nat
  preferences : List (String × PrefValue)
  httpCount : Nat
  wifiPolls : Nat
  waitCount : Nat
  millisReads : Nat
  pinReads : Nat
  scanTasksCreated : Nat
  trace : List Event
deriving DecidableEq, Repr

/-- The values the globals are initialised with in `main.cpp` and `tasmota_api.h`. -/
def State.boot : State where
  redsea_USERNAME := ""
  redsea_PASSWORD := ""
  redsea_AQUARIUM_ID := ""
  redsea_AQUARIUM_NAME := ""
  TUNZE_USERNAME := ""
  TUNZE_PASSWORD := ""
  TUNZE_DEVICE_ID := ""
  TUNZE_DEVICE_NAME := ""
  ENABLE_redsea := false
  ENABLE_TUNZE := false
  redseaToken := ""
  tunzeSID := ""
  tunzeConnected := false
  tunzeMessageId := 5000
  feedingModeActive := false
  tasmotaDevices := []
  tasmotaPulseTime := 900
  tasmotaEnabled := false
  tasmotaFeedingActive := false
  tasmotaFeedingStartTime := 0
  tasmotaScanRunning := false
  tasmotaScanComplete := false
  tasmotaScanProgress := 0
  tasmotaScanFound := 0
  tasmotaScanResults := []
  buttonProcessed := false
  lastCheck := 0
  preferences := []
  httpCount := 0
  wifiPolls := 0
  waitCount := 0
  millisReads := 0
  pinReads := 0
  scanTasksCreated := 0
  trace := []

/-- Append an effect to the trace. -/
def State.log (s : State) (e : Event) : State :=
  { s with trace := s.trace ++ [e] }

/-- The test `WiFi.status() == WL_CONNECTED`. -/
def wifiConnected (env : Env) (s : State) : Bool × State :=
  (env.wifiStatus s.wifiPolls, { s with wifiPolls := s.wifiPolls + 1 })

/-- Send one HTTP request and receive its answer. -/
def httpSend (env : Env) (req : HttpRequest) (s : State) : HttpResponse × State :=
  (env.http s.httpCount,
   { s with httpCount := s.httpCount + 1, trace := s.trace ++ [Event.http req] })

/-- The reading `millis()`. -/
def readMillis (env : Env) (s : State) : Nat × State :=
  (env.millis s.millisReads, { s with millisReads := s.millisReads + 1 })

/-! ## Flash store (`Preferences`)

The library is outside the repository; it is embedded as an ideal key-value store: a
value put under a key is what the next get of that key and type returns, whatever its
size. -/

/-- Store a value under a key, replacing the value the key had. -/
def prefsPut (store : List (String × PrefValue)) (key : String) (v : PrefValue) :
    List (String × PrefValue) :=
  (key, v) :: store.filter (fun e => decide (e.1 ≠ key))

/-- Library call `preferences.getBool(key, dflt)`. -/
def prefsGetBool (store : List (String × PrefValue)) (key : String) (dflt : Bool) : Bool :=
  match store.lookup key with
  | some (PrefValue.bool b) => b
  | _ => dflt

/-- Library call `preferences.getInt(key, dflt)`. -/
def prefsGetInt (store : List (String × PrefValue)) (key : String) (dflt : Int) : Int :=
  match store.lookup key with
  | some (PrefValue.int n) => n
  | _ => dflt

/-- Library call `preferences.getString(key, dflt)`. -/
def prefsGetString (store : List (String × PrefValue)) (key : String) (dflt : String) :
    String :=
  match store.lookup key with
  | some (PrefValue.str t) => t
  | _ => dflt

/-- Library call `preferences.putBool(key, v)`. -/
def State.putBool (s : State) (key : String) (v : Bool) : State :=
  { s with preferences := prefsPut s.preferences key (PrefValue.bool v) }

/-- Library call `preferences.putInt(key, v)`. -/
def State.putInt (s : State) (key : String) (v : Int) : State :=
  { s with preferences := prefsPut s.preferences key (PrefValue.int v) }

/-- Library call `preferences.putString(key, v)`. -/
def State.putString (s : State) (key : String) (v : String) : State :=
  { s with preferences := prefsPut s.preferences key (PrefValue.str v) }

/-! ## Constants of `config.h` -/

/-- Base URL of the Cloud-A REST API. -/
def redsea_API_BASE : String := "https://cloud.reef-beat.com"

/-- Client authorisation header of the Cloud-A token endpoint. -/
def redsea_CLIENT_AUTH : String := "Basic Z0ZqSHRKcGE6Qzlmb2d3cmpEV09SVDJHWQ=="

/-- Host of the Cloud-B hub. -/
def TUNZE_HUB_HOST : String := "tunze-hub.com"

/-- Port of the Cloud-B hub. -/
def TUNZE_HUB_PORT : Nat := 443

/-- Socket path of the Cloud-B hub. -/
def TUNZE_HUB_PATH : String := "/ws"

/-! ## Cloud-A client (`redsea_api.h`) -/

/-- URL of the Cloud-A token endpoint. -/
def redseaTokenUrl : String := redsea_API_BASE ++ "/oauth/token"

/-- The request `redseaLogin` posts. -/
def redseaLoginRequest (s : State) : HttpRequest where
  method := "POST"
  url := redseaTokenUrl
  headers := [("Content-Type", "application/x-www-form-urlencoded"),
              ("Authorization", redsea_CLIENT_AUTH)]
  body := "grant_type=password&username=" ++ s.redsea_USERNAME ++ "&password="
            ++ replaceChar (replaceChar s.redsea_PASSWORD '&' "%26") '#' "%23"

/-- Function `redseaLogin()`. -/
def redseaLogin (env : Env) (s : State) : Bool × State :=
  let w := wifiConnected env s
  if w.1 = false then (false, w.2)
  else
    let r := httpSend env (redseaLoginRequest w.2) w.2
    if r.1.code = 200 then
      match env.deserializeJson r.1.body with
      | some doc =>
        (true, { r.2 with
                 redseaToken := (doc.get "access_token").asString env.serializeJson })
      | none => (false, r.2)
    else (false, r.2)

/-- The step `if (redseaToken.isEmpty()) { if (!redseaLogin()) return false; }` that
opens every Cloud-A operation: `false` means the operation returns failure now. -/
def redseaEnsureToken (env : Env) (s : State) : Bool × State :=
  if s.redseaToken = "" then redseaLogin env s else (true, s)

/-- The request `redseaCheckFeedingStatus` sends. -/
def redseaStatusRequest (s : State) : HttpRequest where
  method := "GET"
  url := redsea_API_BASE ++ "/aquarium/" ++ s.redsea_AQUARIUM_ID
  headers := [("Authorization", "Bearer " ++ s.redseaToken)]
  body := ""

/-- The request `redseaStartFeeding` posts. -/
def redseaStartRequest (s : State) : HttpRequest where
  method := "POST"
  url := redsea_API_BASE ++ "/aquarium/" ++ s.redsea_AQUARIUM_ID ++ "/feeding/start"
  headers := [("Content-Type", "application/json"),
              ("Authorization", "Bearer " ++ s.redseaToken)]
  body := "\x7b\x7d"

/-- The request `redseaStopFeeding` posts. -/
def redseaStopRequest (s : State) : HttpRequest where
  method := "POST"
  url := redsea_API_BASE ++ "/aquarium/" ++ s.redsea_AQUARIUM_ID ++ "/feeding/stop"
  headers := [("Content-Type", "application/json"),
              ("Authorization", "Bearer " ++ s.redseaToken)]
  body := "\x7b\x7d"

/-- Function `redseaCheckFeedingStatus()`; the fuel bounds the depth of the self-calls. -/
def redseaCheckFeedingStatus (env : Env) : Nat → State → Option (Bool × State)
  | 0, _ => none
  | fuel + 1, s =>
    let t := redseaEnsureToken env s
    if t.1 = false then some (false, t.2)
    else
      let r := httpSend env (redseaStatusRequest t.2) t.2
      if r.1.code = 200 then
        match env.deserializeJson r.1.body with
        | some doc => some (((doc.get "properties").get "feeding").orBool false, r.2)
        | none => some (false, r.2)
      else if r.1.code = 401 then
        redseaCheckFeedingStatus env fuel { r.2 with redseaToken := "" }
      else some (false, r.2)

/-- Function `redseaStartFeeding()`; the fuel bounds the depth of the self-calls. -/
def redseaStartFeeding (env : Env) : Nat → State → Option (Bool × State)
  | 0, _ => none
  | fuel + 1, s =>
    let t := redseaEnsureToken env s
    if t.1 = false then some (false, t.2)
    else
      let r := httpSend env (redseaStartRequest t.2) t.2
      if r.1.code = 200 ∨ r.1.code = 201 ∨ r.1.code = 204 then some (true, r.2)
      else if r.1.code = 400 then
        if indexOf r.1.body "already active" ≥ 0 then some (true, r.2)
        else some (false, r.2)
      else if r.1.code = 401 then
        redseaStartFeeding env fuel { r.2 with redseaToken := "" }
      else some (false, r.2)

/-- Function `redseaStopFeeding()`; the fuel bounds the depth of the self-calls. -/
def redseaStopFeeding (env : Env) : Nat → State → Option (Bool × State)
  | 0, _ => none
  | fuel + 1, s =>
    let t := redseaEnsureToken env s
    if t.1 = false then some (false, t.2)
    else
      let r := httpSend env (redseaStopRequest t.2) t.2
      if r.1.code = 200 ∨ r.1.code = 201 ∨ r.1.code = 204 then some (true, r.2)
      else if r.1.code = 401 then
        redseaStopFeeding env fuel { r.2 with redseaToken := "" }
      else some (false, r.2)

/-! ## Cloud-B client (`tunze_api.h`) -/

/-- The request `tunzeLogin` posts. -/
def tunzeLoginRequest (env : Env) (s : State) : HttpRequest where
  method := "POST"
  url := "https://tunze-hub.com/action/login"
  headers := [("Content-Type", "application/json")]
  body := env.serializeJson
            (Json.obj [("username", Json.str s.TUNZE_USERNAME),
                       ("password", Json.str s.TUNZE_PASSWORD)])

/-- Function `tunzeLogin()`. -/
def tunzeLogin (env : Env) (s : State) : Bool × State :=
  let w := wifiConnected env s
  if w.1 = false then (false, w.2)
  else
    let r := httpSend env (tunzeLoginRequest env w.2) w.2
    if r.1.code = 200 ∨ r.1.code = 302 then
      let setCookie := r.1.setCookie
      let sidStart := indexOf setCookie "SID="
      if sidStart ≥ 0 then
        let sidStart := sidStart + 4
        let sidEnd := indexOfChar setCookie ';' sidStart.toNat
        let sidEnd := if sidEnd < 0 then (setCookie.data.length : Int) else sidEnd
        (true, { r.2 with tunzeSID := substring setCookie sidStart.toNat sidEnd.toNat })
      else (false, r.2)
    else (false, r.2)

/-- Function `tunzeConnect()`. -/
def tunzeConnect (env : Env) (s : State) : State :=
  let w := wifiConnected env s
  if w.1 = false then w.2
  else
    let l := if w.2.tunzeSID = "" then tunzeLogin env w.2 else (true, w.2)
    if l.1 = false then l.2
    else
      l.2.log (Event.wsBegin TUNZE_HUB_HOST TUNZE_HUB_PORT TUNZE_HUB_PATH
                 ("Cookie: SID=" ++ l.2.tunzeSID))

/-- Function `tunzeWebSocketEvent(type, payload, length)`. -/
def tunzeWebSocketEvent (env : Env) (type : WStype) (payload : String) (s : State) : State :=
  match type with
  | .DISCONNECTED => { s with tunzeConnected := false }
  | .CONNECTED =>
    s.log (Event.wsSend ("\x7b\"auth\":[[\"dev\",\"" ++ s.TUNZE_DEVICE_ID ++ "\"]]\x7d"))
  | .TEXT =>
    match env.deserializeJson payload with
    | some doc =>
      let s1 :=
        if (doc.get "ping").isArray then
          let m := readMillis env s
          m.2.log (Event.wsSend ("\x7b\"pong\":[" ++ toString m.1 ++ "]\x7d"))
        else s
      if (doc.get "auth").isObject then { s1 with tunzeConnected := true } else s1
    | none => s
  | .ERROR => s
  | .OTHER => s

/-- Dispatch a batch of socket events to the handler, in order. -/
def dispatchSocketEvents (env : Env) : List (WStype × String) → State → State
  | [], s => s
  | e :: rest, s => dispatchSocketEvents env rest (tunzeWebSocketEvent env e.1 e.2 s)

/-- The wait `delay(2000)` after `tunzeConnect()`: the socket events that arrive in
the meantime are handled (none when the socket is serviced by the same loop). -/
def waitForSocket (env : Env) (s : State) : State :=
  dispatchSocketEvents env (env.socketEvents s.waitCount)
    { s with waitCount := s.waitCount + 1 }

/-- Function `tunzeStartFeeding()`; `tunzeMessageId` is a 32-bit unsigned counter. -/
def tunzeStartFeeding (env : Env) (s : State) : State :=
  let s1 := if s.tunzeConnected = false then waitForSocket env (tunzeConnect env s) else s
  if s1.tunzeConnected = false then s1
  else
    let s2 := { s1 with tunzeMessageId := (s1.tunzeMessageId + 1) % 2 ^ 32 }
    s2.log (Event.wsSend ("\x7b\"mid\":" ++ toString s2.tunzeMessageId ++ ",\""
              ++ s2.TUNZE_DEVICE_ID ++ "-1002-0001\":[[\"acts\",200,600]]\x7d"))

/-- Function `tunzeStopFeeding()`. -/
def tunzeStopFeeding (s : State) : State :=
  if s.tunzeConnected = false then s
  else
    let s2 := { s with tunzeMessageId := (s.tunzeMessageId + 1) % 2 ^ 32 }
    s2.log (Event.wsSend ("\x7b\"mid\":" ++ toString s2.tunzeMessageId ++ ",\""
              ++ s2.TUNZE_DEVICE_ID ++ "-1002-0001\":[[\"deas\"]]\x7d"))

/-! ## Local device controller (`tasmota_api.h`) -/

/-- Upper-case hexadecimal digit of a value below 16. -/
def hexDigit (n : Nat) : Char :=
  if n < 10 then Char.ofNat (48 + n) else Char.ofNat (55 + n)

/-- What `urlEncode` appends for one character (a byte of the Arduino string). -/
def urlEncodeChar (c : Char) : List Char :=
  if c.isAlphanum ∨ c = '-' ∨ c = '_' ∨ c = '.' ∨ c = '~' then [c]
  else if c = ' ' then ['%', '2', '0']
  else ['%', hexDigit (c.toNat % 256 / 16), hexDigit (c.toNat % 256 % 16)]

/-- The loop of `urlEncode` over the characters. -/
def urlEncodeList : List Char → List Char
  | [] => []
  | c :: cs => urlEncodeChar c ++ urlEncodeList cs

/-- Function `urlEncode(str)`. -/
def urlEncode (str : String) : String := String.mk (urlEncodeList str.data)

/-- The request `tasmotaSendCommand` sends. -/
def tasmotaCommandRequest (ip command : String) : HttpRequest where
  method := "GET"
  url := "http://" ++ ip ++ "/cm?cmnd=" ++ urlEncode command
  headers := []
  body := ""

/-- The attempt loop of `tasmotaSendCommand`, by the number of attempts left. -/
def tasmotaSendCommandLoop (env : Env) (ip command : String) : Nat → State → String × State
  | 0, s => ("", s)
  | n + 1, s =>
    let w := wifiConnected env s
    if w.1 = false then tasmotaSendCommandLoop env ip command n w.2
    else
      let r := httpSend env (tasmotaCommandRequest ip command) w.2
      if r.1.code = 200 then (r.1.body, r.2)
      else tasmotaSendCommandLoop env ip command n r.2

/-- Function `tasmotaSendCommand(ip, command, retries)`. -/
def tasmotaSendCommand (env : Env) (ip command : String) (retries : Int) (s : State) :
    String × State :=
  tasmotaSendCommandLoop env ip command retries.toNat s

/-- Function `tasmotaTurnOn(ip)`. -/
def tasmotaTurnOn (env : Env) (ip : String) (s : State) : Bool × State :=
  let r := tasmotaSendCommand env ip "Power ON" 3 s
  (decide (indexOf r.1 "ON" ≥ 0), r.2)

/-- Value of a 32-bit `int` after an arithmetic operation (two's complement). -/
def wrapInt32 (x : Int) : Int := (x + 2 ^ 31) % 2 ^ 32 - 2 ^ 31

/-- The `PulseTime` value `tasmotaTurnOff` computes for a positive delay. -/
def pulseValue (autoOnSeconds : Int) : Int :=
  let v := wrapInt32 (autoOnSeconds + 100)
  if v > 64900 then 64900 else v

/-- Function `tasmotaTurnOff(ip, autoOnSeconds)`. -/
def tasmotaTurnOff (env : Env) (ip : String) (autoOnSeconds : Int) (s : State) :
    Bool × State :=
  let s1 :=
    if autoOnSeconds > 0 then
      let a := tasmotaSendCommand env ip "PowerOnState 5" 2 s
      (tasmotaSendCommand env ip ("PulseTime " ++ toString (pulseValue autoOnSeconds)) 2 a.2).2
    else (tasmotaSendCommand env ip "PulseTime 0" 2 s).2
  let r := tasmotaSendCommand env ip "Power OFF" 3 s1
  (decide (indexOf r.1 "OFF" ≥ 0), r.2)

/-- A loop `for (auto& device : tasmotaDevices)` whose body may update the device. -/
def forEachDevice (body : TasmotaDevice → State → TasmotaDevice × State) :
    List TasmotaDevice → State → List TasmotaDevice × State
  | [], s => ([], s)
  | d :: ds, s =>
    let r := body d s
    let rest := forEachDevice body ds r.2
    (r.1 :: rest.1, rest.2)

/-- Loop body of `tasmotaStartFeeding`. -/
def tasmotaStartFeedingDevice (env : Env) (pulseTime : Int) (device : TasmotaDevice)
    (s : State) : TasmotaDevice × State :=
  if device.enabled then
    if device.turnOn then
      let r := tasmotaTurnOn env device.ip s
      (if r.1 then { device with powerState := true } else device, r.2)
    else
      let r := tasmotaTurnOff env device.ip pulseTime s
      (if r.1 then { device with powerState := false } else device, r.2)
  else (device, s)

/-- Function `tasmotaStartFeeding()`. -/
def tasmotaStartFeeding (env : Env) (s : State) : State :=
  if s.tasmotaEnabled = false ∨ s.tasmotaDevices.isEmpty then s
  else
    let r := forEachDevice (tasmotaStartFeedingDevice env s.tasmotaPulseTime)
               s.tasmotaDevices s
    let m := readMillis env r.2
    { m.2 with tasmotaDevices := r.1, tasmotaFeedingActive := true,
               tasmotaFeedingStartTime := m.1 }

/-- Loop body of `tasmotaStopFeeding`. -/
def tasmotaStopFeedingDevice (env : Env) (device : TasmotaDevice) (s : State) :
    TasmotaDevice × State :=
  if device.enabled then
    let a := tasmotaSendCommand env device.ip "PulseTime 0" 3 s
    let b := tasmotaSendCommand env device.ip "PowerOnState 3" 3 a.2
    if device.turnOn then
      let r := tasmotaTurnOff env device.ip 0 b.2
      (if r.1 then { device with powerState := false } else device, r.2)
    else
      let r := tasmotaTurnOn env device.ip b.2
      (if r.1 then { device with powerState := true } else device, r.2)
  else (device, s)

/-- Function `tasmotaStopFeeding()`. -/
def tasmotaStopFeeding (env : Env) (s : State) : State :=
  if s.tasmotaEnabled = false ∨ s.tasmotaDevices.isEmpty then s
  else
    let r := forEachDevice (tasmotaStopFeedingDevice env) s.tasmotaDevices s
    { r.2 with tasmotaDevices := r.1, tasmotaFeedingActive := false }

/-- The part of `tasmotaGetPowerStateEx` that reads `StatusSTS.POWER`: the value it
returns, if it returns. -/
def powerFromStatusSTS (doc : Json) : Option Int :=
  if (doc.get "StatusSTS").isObject then
    let stspower := ((doc.get "StatusSTS").get "POWER").orString ""
    if stspower = "ON" then some 1
    else if stspower = "OFF" then some 0
    else none
  else none

/-- The part of `tasmotaGetPowerStateEx` that reads `Status.Power`. -/
def powerFromStatus (env : Env) (doc : Json) : Option Int :=
  if (doc.get "Status").isObject then
    let pv := (doc.get "Status").get "Power"
    match pv.asInt? with
    | some power =>
      if power = 1 then some 1
      else if power = 0 then some 0
      else none
    | none =>
      if pv.isString then
        let powerStr := pv.asString env.serializeJson
        if powerStr = "1" ∨ powerStr = "ON" then some 1
        else if powerStr = "0" ∨ powerStr = "OFF" then some 0
        else none
      else none
  else none

/-- The part of `tasmotaGetPowerStateEx` that reads the top-level `POWER` / `POWER1`. -/
def powerFromTopLevel (doc : Json) : Option Int :=
  let powerStr := ((doc.get "POWER").orElse (doc.get "POWER1")).orString ""
  if powerStr.data.length > 0 then
    if powerStr = "ON" then some 1
    else if powerStr = "OFF" then some 0
    else none
  else none

/-- What `tasmotaGetPowerStateEx` makes of a non-empty response. -/
def powerStateOfResponse (env : Env) (response : String) : Int :=
  match env.deserializeJson response with
  | some doc =>
    match powerFromStatusSTS doc with
    | some v => v
    | none =>
      match powerFromStatus env doc with
      | some v => v
      | none =>
        match powerFromTopLevel doc with
        | some v => v
        | none => -1
  | none => -1

/-- Function `tasmotaGetPowerStateEx(ip)`: 1 = ON, 0 = OFF, -1 = unknown. -/
def tasmotaGetPowerStateEx (env : Env) (ip : String) (s : State) : Int × State :=
  let r := tasmotaSendCommand env ip "Status 0" 3 s
  if r.1.data.length = 0 then (-1, r.2)
  else (powerStateOfResponse env r.1, r.2)

/-- Function `tasmotaGetPowerState(ip)`, the legacy wrapper. -/
def tasmotaGetPowerState (env : Env) (ip : String) (s : State) : Bool × State :=
  let r := tasmotaGetPowerStateEx env ip s
  (decide (r.1 = 1), r.2)

/-- Loop body of `tasmotaUpdatePowerStates`. -/
def tasmotaUpdatePowerStatesDevice (env : Env) (device : TasmotaDevice) (s : State) :
    TasmotaDevice × State :=
  if device.enabled then
    let r := tasmotaGetPowerStateEx env device.ip s
    if r.1 ≥ 0 then
      ({ device with powerState := decide (r.1 = 1), reachable := true }, r.2)
    else (device, r.2)
  else (device, s)

/-- Function `tasmotaUpdatePowerStates()`. -/
def tasmotaUpdatePowerStates (env : Env) (s : State) : State :=
  let r := forEachDevice (tasmotaUpdatePowerStatesDevice env) s.tasmotaDevices s
  { r.2 with tasmotaDevices := r.1 }

/-- The loop of `tasmotaCheckFeedingComplete`, with its counters `enabledCount` and
`completedCount`. -/
def tasmotaCheckFeedingCompleteLoop (env : Env) :
    List TasmotaDevice → Int × Int → State → (List TasmotaDevice × (Int × Int)) × State
  | [], counts, s => (([], counts), s)
  | device :: rest, counts, s =>
    if device.enabled then
      let r := tasmotaGetPowerState env device.ip s
      let completedCount :=
        if device.turnOn then (if r.1 = false then counts.2 + 1 else counts.2)
        else (if r.1 = true then counts.2 + 1 else counts.2)
      let t := tasmotaCheckFeedingCompleteLoop env rest (counts.1 + 1, completedCount) r.2
      (({ device with powerState := r.1 } :: t.1.1, t.1.2), t.2)
    else
      let t := tasmotaCheckFeedingCompleteLoop env rest counts s
      ((device :: t.1.1, t.1.2), t.2)

/-- Function `tasmotaCheckFeedingComplete()`. -/
def tasmotaCheckFeedingComplete (env : Env) (s : State) : Bool × State :=
  if s.tasmotaFeedingActive = false ∨ s.tasmotaEnabled = false ∨ s.tasmotaDevices.isEmpty then
    (false, s)
  else
    let t := tasmotaCheckFeedingCompleteLoop env s.tasmotaDevices (0, 0) s
    (decide (t.1.2.1 > 0 ∧ t.1.2.2 = t.1.2.1), { t.2 with tasmotaDevices := t.1.1 })

/-- The entry of one enabled device in the status document. -/
def feedingStatusEntry (device : TasmotaDevice) : Json :=
  Json.obj [("ip", Json.str device.ip), ("name", Json.str device.name),
            ("powerState", Json.bool device.powerState), ("turnOn", Json.bool device.turnOn),
            ("inFeedingState", Json.bool (device.powerState == device.turnOn)),
            ("completed", Json.bool (!(device.powerState == device.turnOn)))]

/-- The read-only loop of `tasmotaGetFeedingStatus` over the devices: the entries
added to `devices`, `enabledCount` and `completedCount`. -/
def feedingStatusLoop : List TasmotaDevice → List Json × Int × Int → List Json × Int × Int
  | [], acc => acc
  | device :: rest, acc =>
    if device.enabled then
      feedingStatusLoop rest
        (acc.1 ++ [feedingStatusEntry device], acc.2.1 + 1,
         if (device.powerState == device.turnOn) = false then acc.2.2 + 1 else acc.2.2)
    else feedingStatusLoop rest acc

/-- Loop body of the clean-up of `tasmotaGetFeedingStatus`. -/
def tasmotaCleanupDevice (env : Env) (device : TasmotaDevice) (s : State) :
    TasmotaDevice × State :=
  if device.enabled then
    let a := tasmotaSendCommand env device.ip "PulseTime 0" 3 s
    let b := tasmotaSendCommand env device.ip "PowerOnState 3" 3 a.2
    (device, b.2)
  else (device, s)

/-- The first step of `tasmotaGetFeedingStatus`: while the local feeding flag is set,
the elapsed seconds (32-bit unsigned arithmetic) are added to the document and the
power states are polled. -/
def feedingStatusPoll (env : Env) (s : State) : List (String × Json) × State :=
  if s.tasmotaFeedingActive then
    let m := readMillis env s
    let elapsed := ((m.1 : Int) - (s.tasmotaFeedingStartTime : Int)) % 2 ^ 32 / 1000
    ([("elapsedSeconds", Json.int elapsed)], tasmotaUpdatePowerStates env m.2)
  else ([], s)

/-- Function `tasmotaGetFeedingStatus()`, with the document before it is serialized. -/
def tasmotaGetFeedingStatusDoc (env : Env) (s : State) : Json × State :=
  let p := feedingStatusPoll env s
  let l := feedingStatusLoop p.2.tasmotaDevices ([], 0, 0)
  let enabledCount := l.2.1
  let completedCount := l.2.2
  let doc := Json.obj
    ([("active", Json.bool s.tasmotaFeedingActive), ("enabled", Json.bool s.tasmotaEnabled),
      ("pulseTime", Json.int s.tasmotaPulseTime)]
     ++ p.1
     ++ [("devices", Json.arr l.1), ("totalDevices", Json.int enabledCount),
         ("completedDevices", Json.int completedCount),
         ("allComplete", Json.bool (decide (enabledCount > 0 ∧ completedCount = enabledCount)))])
  if p.2.tasmotaFeedingActive = true ∧ enabledCount > 0 ∧ completedCount = enabledCount then
    let r := forEachDevice (tasmotaCleanupDevice env) p.2.tasmotaDevices
               { p.2 with tasmotaFeedingActive := false, feedingModeActive := false }
    (doc, { r.2 with tasmotaDevices := r.1 })
  else (doc, p.2)

/-- Function `tasmotaGetFeedingStatus()`. -/
def tasmotaGetFeedingStatus (env : Env) (s : State) : String × State :=
  let r := tasmotaGetFeedingStatusDoc env s
  (env.serializeJson r.1, r.2)

/-- The request `tasmotaCheckDevice` sends. -/
def tasmotaCheckRequest (ip : String) : HttpRequest where
  method := "GET"
  url := "http://" ++ ip ++ "/cm?cmnd=Status"
  headers := []
  body := ""

/-- The name `tasmotaCheckDevice` gives a device with the `Status` object `status`. -/
def checkDeviceName (env : Env) (status : Json) : String :=
  if (status.get "DeviceName").isString then
    (status.get "DeviceName").asString env.serializeJson
  else if (status.get "FriendlyName").isArray ∧
      ((status.get "FriendlyName").index 0).isString then
    ((status.get "FriendlyName").index 0).asString env.serializeJson
  else "Tasmota"

/-- What `tasmotaCheckDevice` makes of the answer to its request: the record it fills
in when it recognises a device (the field `turnOn` is not assigned), nothing when it
returns false. -/
def checkDeviceAnswer (env : Env) (ip : String) (device : TasmotaDevice) (r : HttpResponse) :
    Option TasmotaDevice :=
  if r.code = 200 then
    match env.deserializeJson r.body with
    | none => none
    | some doc =>
      let status := doc.get "Status"
      if status.isObject then
        some { device with
               ip := ip,
               name := checkDeviceName env status,
               hostname := ((doc.get "StatusNET").get "Hostname").orString "",
               reachable := true,
               enabled := false,
               powerState := decide ((status.get "Power").orInt (-1) = 1) }
      else none
  else none

/-- Function `tasmotaCheckDevice(ip, device)`: the result and the record behind the
reference `device`. -/
def tasmotaCheckDevice (env : Env) (ip : String) (device : TasmotaDevice) (s : State) :
    Bool × TasmotaDevice × State :=
  let r := httpSend env (tasmotaCheckRequest ip) s
  match checkDeviceAnswer env ip device r.1 with
  | some found => (true, found, r.2)
  | none => (false, device, r.2)

/-- Arduino `String(uint8_t)` of one octet of an address. -/
def octet (n : Nat) : String := toString (n % 256)

/-- The text `baseIP` of `tasmotaScanTask`: the first three octets, each followed by a dot. -/
def scanBaseIP (env : Env) : String :=
  octet env.localIP.1 ++ "." ++ octet env.localIP.2.1 ++ "." ++ octet env.localIP.2.2.1 ++ "."

/-- The text `localIP.toString()`. -/
def localIPString (env : Env) : String :=
  octet env.localIP.1 ++ "." ++ octet env.localIP.2.1 ++ "." ++ octet env.localIP.2.2.1 ++ "."
    ++ octet env.localIP.2.2.2

/-- The record `TasmotaDevice device;` declared in round `i` of the scan: the strings
are empty, the flags are not initialised. -/
def scanFreshDevice (env : Env) (i : Nat) : TasmotaDevice :=
  { ip := "", name := "", hostname := "",
    enabled := env.indeterminate (4 * i), turnOn := env.indeterminate (4 * i + 1),
    powerState := env.indeterminate (4 * i + 2), reachable := env.indeterminate (4 * i + 3) }

/-- The loop `for (int i = ...; i < 255; i++)` of `tasmotaScanTask`, by the number of
rounds left and the value of `i`. -/
def tasmotaScanLoop (env : Env) : Nat → Nat → State → State
  | 0, _, s => s
  | n + 1, i, s =>
    if s.tasmotaScanRunning = false then s
    else
      let s1 := { s with tasmotaScanProgress := (i : Int) }
      let ip := scanBaseIP env ++ toString i
      if ip = localIPString env then tasmotaScanLoop env n (i + 1) s1
      else
        let r := tasmotaCheckDevice env ip (scanFreshDevice env i) s1
        let s2 :=
          if r.1 then
            { r.2.2 with
              tasmotaScanResults := r.2.2.tasmotaScanResults ++ [r.2.1],
              tasmotaScanFound := ((r.2.2.tasmotaScanResults ++ [r.2.1]).length : Int) }
          else r.2.2
        tasmotaScanLoop env n (i + 1) s2

/-- Function `tasmotaScanTask(parameter)`, run to its end. -/
def tasmotaScanTask (env : Env) (s : State) : State :=
  let s0 := { s with tasmotaScanResults := [], tasmotaScanProgress := 0, tasmotaScanFound := 0 }
  let s1 := tasmotaScanLoop env 254 1 s0
  { s1 with tasmotaScanRunning := false, tasmotaScanComplete := true }

/-- Function `tasmotaStartScan()`; creating the task is counted in `scanTasksCreated`. -/
def tasmotaStartScan (s : State) : String × State :=
  if s.tasmotaScanRunning then
    ("\x7b\"success\":false,\"message\":\"Scan already running\"\x7d", s)
  else
    ("\x7b\"success\":true,\"message\":\"Scan started\"\x7d",
     { s with tasmotaScanRunning := true, tasmotaScanComplete := false,
              scanTasksCreated := s.scanTasksCreated + 1 })

/-- The entry `tasmotaSaveConfig` writes for one device. -/
def savedDeviceEntry (device : TasmotaDevice) : Json :=
  Json.obj [("ip", Json.str device.ip), ("name", Json.str device.name),
            ("turnOn", Json.bool device.turnOn)]

/-- The document `tasmotaSaveConfig` builds: an array with one entry per enabled device. -/
def savedDevicesDoc (devices : List TasmotaDevice) : Json :=
  Json.arr ((devices.filter (fun d => d.enabled)).map savedDeviceEntry)

/-- Function `tasmotaSaveConfig()`. -/
def tasmotaSaveConfig (env : Env) (s : State) : State :=
  ((s.putBool "tasmota_en" s.tasmotaEnabled).putInt "tasmota_pulse"
    s.tasmotaPulseTime).putString "tasmota_devs"
    (env.serializeJson (savedDevicesDoc s.tasmotaDevices))

/-- ArduinoJson `as<JsonArray>()` as a range to iterate over: the elements of an array,
nothing for any other value. -/
def Json.elements : Json → List Json
  | .arr items => items
  | _ => []

/-- The device `tasmotaLoadConfig` makes of one element of the stored array. -/
def loadedDevice (env : Env) (d : Json) : TasmotaDevice :=
  { ip := (d.get "ip").asString env.serializeJson,
    name := (d.get "name").asString env.serializeJson,
    hostname := "",
    turnOn := (d.get "turnOn").orBool false,
    enabled := true,
    reachable := false,
    powerState := false }

/-- Function `tasmotaLoadConfig()`. -/
def tasmotaLoadConfig (env : Env) (s : State) : State :=
  let s1 := { s with tasmotaEnabled := prefsGetBool s.preferences "tasmota_en" false,
                     tasmotaPulseTime := prefsGetInt s.preferences "tasmota_pulse" 900 }
  match env.deserializeJson (prefsGetString s.preferences "tasmota_devs" "[]") with
  | some doc => { s1 with tasmotaDevices := doc.elements.map (loadedDevice env) }
  | none => s1

/-- The device `tasmotaUpdateSettings` makes of one element of `devices`. -/
def settingsDevice (env : Env) (d : Json) : TasmotaDevice :=
  { ip := (d.get "ip").asString env.serializeJson,
    name := (d.get "name").asString env.serializeJson,
    hostname := "",
    enabled := (d.get "enabled").orBool true,
    turnOn := (d.get "turnOn").orBool false,
    reachable := true,
    powerState := false }

/-- Function `tasmotaUpdateSettings(json)`. -/
def tasmotaUpdateSettings (env : Env) (json : String) (s : State) : Bool × State :=
  match env.deserializeJson json with
  | none => (false, s)
  | some doc =>
    let s1 := { s with
      tasmotaEnabled := (doc.get "enabled").orBool false,
      tasmotaPulseTime := ((doc.get "pulseTime").orElse (doc.get "pulse_time")).orInt 900 }
    let s2 :=
      if (doc.get "devices").isArray then
        { s1 with tasmotaDevices := (doc.get "devices").elements.map (settingsDevice env) }
      else s1
    (true, tasmotaSaveConfig env s2)

/-! ## Credential cipher (`crypto.h`) -/

/-- Byte `key[i]` as `getEncryptionKey` computes it from the MAC address. -/
def getEncryptionKey (env : Env) (i : Nat) : Nat :=
  ((env.mac (i % 6) % 256) ^^^ (0xA5 + i * 0x17) ^^^ ((i * 31) &&& 0xFF)) % 256

/-- The two loops of `encryptString` from position `i` on: every byte is combined with
the key byte and printed as `%02X`. -/
def encryptBytes (key : Nat → Nat) : Nat → List Char → List Char
  | _, [] => []
  | i, c :: cs =>
    let b := ((c.toNat % 256) ^^^ key (i % 16)) % 256
    hexDigit (b / 16) :: hexDigit (b % 16) :: encryptBytes key (i + 1) cs

/-- Function `encryptString` for a given key. -/
def encryptWith (key : Nat → Nat) (plaintext : String) : String :=
  if plaintext.data.length = 0 then "" else String.mk (encryptBytes key 0 plaintext.data)

/-- Function `encryptString(plaintext)`. -/
def encryptString (env : Env) (plaintext : String) : String :=
  encryptWith (getEncryptionKey env) plaintext

/-- The test of `decryptString` for one character of a hex string. -/
def isHexChar (c : Char) : Bool :=
  (decide ('0' ≤ c) && decide (c ≤ '9')) || (decide ('A' ≤ c) && decide (c ≤ 'F')) ||
  (decide ('a' ≤ c) && decide (c ≤ 'f'))

/-- Value of a hexadecimal digit, as `strtol(..., 16)` reads it. -/
def hexValue (c : Char) : Nat :=
  if '0' ≤ c ∧ c ≤ '9' then c.toNat - 48
  else if 'A' ≤ c ∧ c ≤ 'F' then c.toNat - 55
  else if 'a' ≤ c ∧ c ≤ 'f' then c.toNat - 87
  else 0

/-- The two loops of `decryptString` from position `i` on, over the hex digits taken in
pairs: nothing when a decrypted byte fails the sanity check (the function then returns
its argument). -/
def decryptBytes (key : Nat → Nat) : Nat → List Char → Option (List Char)
  | _, [] => some []
  | _, [_] => some []
  | i, h :: l :: rest =>
    let decrypted := ((hexValue h * 16 + hexValue l) % 256) ^^^ key (i % 16)
    if decrypted < 32 ∨ decrypted > 126 then none
    else (decryptBytes key (i + 1) rest).map (fun t => Char.ofNat decrypted :: t)

/-- Function `decryptString` for a given key. -/
def decryptWith (key : Nat → Nat) (ciphertext : String) : String :=
  if ciphertext.data.length = 0 then ""
  else if ciphertext.data.all isHexChar = false ∨ ciphertext.data.length % 2 ≠ 0 then ciphertext
  else
    match decryptBytes key 0 ciphertext.data with
    | some t => String.mk t
    | none => ciphertext

/-- Function `decryptString(ciphertext)`. -/
def decryptString (env : Env) (ciphertext : String) : String :=
  decryptWith (getEncryptionKey env) ciphertext

/-! ## Credential storage (`credentials.h`) -/

/-- Function `saveCredentials()`. -/
def saveCredentials (env : Env) (s : State) : State :=
  ((((((((((s.putString "redsea_user" s.redsea_USERNAME).putString "redsea_pass"
    (encryptString env s.redsea_PASSWORD)).putString "redsea_aqua_id"
    s.redsea_AQUARIUM_ID).putString "rs_aqua_name" s.redsea_AQUARIUM_NAME).putString
    "tunze_user" s.TUNZE_USERNAME).putString "tunze_pass"
    (encryptString env s.TUNZE_PASSWORD)).putString "tunze_dev_id"
    s.TUNZE_DEVICE_ID).putString "tz_dev_name" s.TUNZE_DEVICE_NAME).putBool "enable_redsea"
    s.ENABLE_redsea).putBool "enable_tunze" s.ENABLE_TUNZE)

/-- The step `if (saved.length() > 0) variable = value;` of `loadCredentials`. -/
def loadedOr (saved value current : String) : String :=
  if saved.data.length > 0 then value else current

/-- Function `loadCredentials()`. -/
def loadCredentials (env : Env) (s : State) : State :=
  let savedredseaUser := prefsGetString s.preferences "redsea_user" ""
  let savedredseaPass := prefsGetString s.preferences "redsea_pass" ""
  let savedredseaAquaId := prefsGetString s.preferences "redsea_aqua_id" ""
  let savedredseaAquaName := prefsGetString s.preferences "rs_aqua_name" ""
  let savedTunzeUser := prefsGetString s.preferences "tunze_user" ""
  let savedTunzePass := prefsGetString s.preferences "tunze_pass" ""
  let savedTunzeDevId := prefsGetString s.preferences "tunze_dev_id" ""
  let savedTunzeDevName := prefsGetString s.preferences "tz_dev_name" ""
  { s with
    redsea_USERNAME := loadedOr savedredseaUser savedredseaUser s.redsea_USERNAME,
    redsea_PASSWORD :=
      loadedOr savedredseaPass (decryptString env savedredseaPass) s.redsea_PASSWORD,
    redsea_AQUARIUM_ID := loadedOr savedredseaAquaId savedredseaAquaId s.redsea_AQUARIUM_ID,
    redsea_AQUARIUM_NAME :=
      loadedOr savedredseaAquaName savedredseaAquaName s.redsea_AQUARIUM_NAME,
    TUNZE_USERNAME := loadedOr savedTunzeUser savedTunzeUser s.TUNZE_USERNAME,
    TUNZE_PASSWORD :=
      loadedOr savedTunzePass (decryptString env savedTunzePass) s.TUNZE_PASSWORD,
    TUNZE_DEVICE_ID := loadedOr savedTunzeDevId savedTunzeDevId s.TUNZE_DEVICE_ID,
    TUNZE_DEVICE_NAME := loadedOr savedTunzeDevName savedTunzeDevName s.TUNZE_DEVICE_NAME,
    ENABLE_redsea := prefsGetBool s.preferences "enable_redsea" false,
    ENABLE_TUNZE := prefsGetBool s.preferences "enable_tunze" false }

/-! ## Feeding orchestrator (`main.cpp`) -/

/-- Function `startFeedingMode()`. Each call of a backend operation is marked in the trace. -/
def startFeedingMode (env : Env) (fuel : Nat) (s : State) : Option State :=
  let a : Option (Bool × State) :=
    if s.ENABLE_redsea then redseaStartFeeding env fuel (s.log (Event.call "redseaStartFeeding"))
    else some (true, s)
  match a with
  | none => none
  | some (redseaSuccess, s1) =>
    let s2 :=
      if s1.ENABLE_TUNZE then tunzeStartFeeding env (s1.log (Event.call "tunzeStartFeeding"))
      else s1
    let s3 := tasmotaStartFeeding env (s2.log (Event.call "tasmotaStartFeeding"))
    if redseaSuccess = true ∨ s3.ENABLE_redsea = false then
      some { s3 with feedingModeActive := true }
    else some s3

/-- Function `stopFeedingMode()`. Each call of a backend operation is marked in the trace. -/
def stopFeedingMode (env : Env) (fuel : Nat) (s : State) : Option State :=
  let a : Option (Bool × State) :=
    if s.ENABLE_redsea then redseaStopFeeding env fuel (s.log (Event.call "redseaStopFeeding"))
    else some (true, s)
  match a with
  | none => none
  | some (_, s1) =>
    let s2 :=
      if s1.ENABLE_TUNZE then tunzeStopFeeding (s1.log (Event.call "tunzeStopFeeding"))
      else s1
    let s3 := tasmotaStopFeeding env (s2.log (Event.call "tasmotaStopFeeding"))
    some { s3 with feedingModeActive := false }

/-- The test `digitalRead(BUTTON_PIN) == LOW`. -/
def digitalReadLow (env : Env) (s : State) : Bool × State :=
  (env.buttonLow s.pinReads, { s with pinReads := s.pinReads + 1 })

/-- The part of `handleButton` that synchronises the flag with the cloud status, just
before start or stop is called. -/
def handleButtonSync (env : Env) (fuel : Nat) (s : State) : Option State :=
  if s.ENABLE_redsea then
    match redseaCheckFeedingStatus env fuel s with
    | none => none
    | some (cloudStatus, s1) =>
      if cloudStatus ≠ s1.feedingModeActive then some { s1 with feedingModeActive := cloudStatus }
      else some s1
  else some s

/-- The part of `handleButton` run for a confirmed press. -/
def handleButtonPressed (env : Env) (fuel : Nat) (s : State) : Option State :=
  match handleButtonSync env fuel s with
  | none => none
  | some s1 =>
    let r := if s1.feedingModeActive then stopFeedingMode env fuel s1
             else startFeedingMode env fuel s1
    match r with
    | none => none
    | some s2 => some { s2 with buttonProcessed := true }

/-- Function `handleButton()`; `millis() - lastCheck` is 32-bit unsigned arithmetic. -/
def handleButton (env : Env) (fuel : Nat) (s : State) : Option State :=
  if env.BUTTON_PIN < 0 then some s
  else
    let m := readMillis env s
    if ((m.1 : Int) - (m.2.lastCheck : Int)) % 2 ^ 32 < 50 then some m.2
    else
      let m2 := readMillis env m.2
      let reading := digitalReadLow env { m2.2 with lastCheck := m2.1 }
      let after : Option State :=
        if reading.1 = true ∧ reading.2.buttonProcessed = false then
          let again := digitalReadLow env reading.2
          if again.1 = true then handleButtonPressed env fuel again.2 else some again.2
        else some reading.2
      match after with
      | none => none
      | some s2 => some (if reading.1 = false then { s2 with buttonProcessed := false } else s2)

/-! ## Observations on traces -/

/-- The backend operations the orchestrator called, in order. -/
def calls (tr : List Event) : List String :=
  tr.filterMap (fun e => match e with
    | Event.call fn => some fn
    | _ => none)

/-- Number of HTTP requests sent to the given URL. -/
def httpCountTo (url : String) (tr : List Event) : Nat :=
  tr.countP (fun e => match e with
    | Event.http req => decide (req.url = url)
    | _ => false)

/-- An effect of the Cloud-A client: an HTTP request to the Cloud-A host. -/
def Event.ofCloudA : Event → Prop
  | Event.http req => ∃ rest, req.url.data = redsea_API_BASE.data ++ rest
  | _ => False

/-- An effect of the Cloud-B client: the login request to the hub, opening the socket,
or a message sent on the socket. -/
def Event.ofCloudB : Event → Prop
  | Event.http req => req.url = "https://tunze-hub.com/action/login"
  | Event.wsBegin _ _ _ _ => True
  | Event.wsSend _ => True
  | Event.call _ => False

/-- An effect of the local controller: a plain-HTTP command request to a device. -/
def Event.ofLocal : Event → Prop
  | Event.http req => ∃ rest, req.url.data = "http://".data ++ rest
  | _ => False

/-- The second state extends the trace of the first by events that all satisfy `P`. -/
def Appends (P : Event → Prop) (s s' : State) : Prop :=
  ∃ d : List Event, s'.trace = s.trace ++ d ∧ ∀ e ∈ d, P e

/-- What no backend operation changes: the enable flags, the global feeding flag and
the list of calls made by the orchestrator. -/
def Frame (s s' : State) : Prop :=
  s'.ENABLE_redsea = s.ENABLE_redsea ∧ s'.ENABLE_TUNZE = s.ENABLE_TUNZE ∧
  s'.feedingModeActive = s.feedingModeActive ∧ calls s'.trace = calls s.trace

/-! ## Observations on the Cloud-A retry cycle -/

/-- Number of login requests (requests to the token endpoint) in a trace. -/
def redseaLogins (tr : List Event) : Nat := httpCountTo redseaTokenUrl tr

/-- The token endpoint accepts a login: WiFi is up at the `w`-th status reading and
the `h`-th HTTP answer is a 200 whose body parses. -/
def LoginAccepted (env : Env) (h w : Nat) : Prop :=
  env.wifiStatus w = true ∧ (env.http h).code = 200 ∧
  (env.deserializeJson (env.http h).body).isSome = true

/-- Starting at the `h`-th HTTP answer and the `w`-th WiFi reading, `k` times in a
row a protected request is answered 401 and the login that follows is accepted. -/
def RetryRounds (env : Env) (h w : Nat) : Nat → Prop
  | 0 => True
  | k + 1 =>
    (env.http h).code = 401 ∧ LoginAccepted env (h + 1) w ∧ RetryRounds env (h + 2) (w + 1) k

/-- Result of `redseaStartFeeding` for an answer other than 401. -/
def redseaStartOutcome (r : HttpResponse) : Bool :=
  decide (r.code = 200 ∨ r.code = 201 ∨ r.code = 204) ||
  (decide (r.code = 400) && decide (indexOf r.body "already active" ≥ 0))

/-- Result of `redseaStopFeeding` for an answer other than 401. -/
def redseaStopOutcome (r : HttpResponse) : Bool :=
  decide (r.code = 200 ∨ r.code = 201 ∨ r.code = 204)

/-- Result of `redseaCheckFeedingStatus` for an answer other than 401. -/
def redseaStatusOutcome (env : Env) (r : HttpResponse) : Bool :=
  decide (r.code = 200) &&
  (match env.deserializeJson r.body with
   | some doc => ((doc.get "properties").get "feeding").orBool false
   | none => false)

/-- The three Cloud-A operations that send a protected request. -/
inductive CloudAOp where
  | checkStatus
  | startFeeding
  | stopFeeding
deriving DecidableEq, Repr

/-- The firmware function behind a Cloud-A operation. -/
def CloudAOp.run : CloudAOp → Env → Nat → State → Option (Bool × State)
  | CloudAOp.checkStatus => redseaCheckFeedingStatus
  | CloudAOp.startFeeding => redseaStartFeeding
  | CloudAOp.stopFeeding => redseaStopFeeding

/-- The protected request of a Cloud-A operation. -/
def CloudAOp.request : CloudAOp → State → HttpRequest
  | CloudAOp.checkStatus => redseaStatusRequest
  | CloudAOp.startFeeding => redseaStartRequest
  | CloudAOp.stopFeeding => redseaStopRequest

/-- The result of a Cloud-A operation for an answer other than 401. -/
def CloudAOp.outcome : CloudAOp → Env → HttpResponse → Bool
  | CloudAOp.checkStatus, env => redseaStatusOutcome env
  | CloudAOp.startFeeding, _ => redseaStartOutcome
  | CloudAOp.stopFeeding, _ => redseaStopOutcome

/-- Number of protected requests of the given operation in a trace (the URL of the
request depends on the aquarium id of `s` only). -/
def protectedRequests (op : CloudAOp) (s : State) (tr : List Event) : Nat :=
  httpCountTo (op.request s).url tr

/-! ## Command lists of the local controller -/

/-- One call `tasmotaSendCommand(ip, command, retries)`. -/
structure Command where
  ip : String
  command : String
  retries : Int
deriving DecidableEq, Repr

/-- Issue a list of commands, one call of `tasmotaSendCommand` after the other,
whatever the answers are. -/
def runCommands (env : Env) : List Command → State → State
  | [], s => s
  | c :: cs, s => runCommands env cs (tasmotaSendCommand env c.ip c.command c.retries s).2

/-- What a run of the controller shows to the outside and draws from it: the trace and
the read positions of the HTTP and WiFi oracles. -/
def State.net (s : State) : List Event × Nat × Nat :=
  (s.trace, s.httpCount, s.wifiPolls)

/-- Specification of the start of feeding for one device: nothing for a disabled device,
`Power ON` for an inverted one, the timer and `Power OFF` for a normal one. -/
def startCommands (pulseTime : Int) (d : TasmotaDevice) : List Command :=
  if d.enabled then
    if d.turnOn then [⟨d.ip, "Power ON", 3⟩]
    else if pulseTime > 0 then
      [⟨d.ip, "PowerOnState 5", 2⟩,
       ⟨d.ip, "PulseTime " ++ toString (pulseValue pulseTime), 2⟩,
       ⟨d.ip, "Power OFF", 3⟩]
    else [⟨d.ip, "PulseTime 0", 2⟩, ⟨d.ip, "Power OFF", 3⟩]
  else []

/-- Specification of the stop of feeding for one device: the timer is disarmed and the
power-on behaviour restored, then a normal device is switched on; an inverted device has
its timer disarmed once more and is switched off. -/
def stopCommands (d : TasmotaDevice) : List Command :=
  if d.enabled then
    if d.turnOn then
      [⟨d.ip, "PulseTime 0", 3⟩, ⟨d.ip, "PowerOnState 3", 3⟩,
       ⟨d.ip, "PulseTime 0", 2⟩, ⟨d.ip, "Power OFF", 3⟩]
    else
      [⟨d.ip, "PulseTime 0", 3⟩, ⟨d.ip, "PowerOnState 3", 3⟩, ⟨d.ip, "Power ON", 3⟩]
  else []

/-- Specification of a status poll for one device. -/
def pollCommands (d : TasmotaDevice) : List Command :=
  if d.enabled then [⟨d.ip, "Status 0", 3⟩] else []

/-- Specification of the clean-up after the automatic end of feeding for one device. -/
def cleanupCommands (d : TasmotaDevice) : List Command :=
  if d.enabled then [⟨d.ip, "PulseTime 0", 3⟩, ⟨d.ip, "PowerOnState 3", 3⟩] else []

/-- What an operation of the controller keeps of a device: address, names, the enabled
flag and the polarity of every device, and every field of a disabled device. -/
def DeviceKept (d d' : TasmotaDevice) : Prop :=
  d'.ip = d.ip ∧ d'.name = d.name ∧ d'.hostname = d.hostname ∧ d'.enabled = d.enabled ∧
  d'.turnOn = d.turnOn ∧ (d.enabled = false → d' = d)

/-- An operation took the controller from `s` to `s'` by calls of `tasmotaSendCommand`
that were all addressed to enabled devices of the list, and left the disabled devices
as they were. -/
def OnlyEnabledCommanded (env : Env) (s s' : State) : Prop :=
  ∃ cmds : List Command,
    s'.net = (runCommands env cmds s).net ∧
    (∀ c ∈ cmds, ∃ d ∈ s.tasmotaDevices, d.enabled = true ∧ d.ip = c.ip) ∧
    List.Forall₂ DeviceKept s.tasmotaDevices s'.tasmotaDevices

/-- Specification of the first field of a status answer: `StatusSTS.POWER`, decisive
when it is the text `ON` or `OFF`. -/
def stsDecision (doc : Json) : Option Int :=
  match (doc.get "StatusSTS").get "POWER" with
  | Json.str t => if t = "ON" then some 1 else if t = "OFF" then some 0 else none
  | _ => none

/-- Specification of the second field: `Status.Power`, decisive when it is the integer 1
or 0 or one of the texts `1`, `ON`, `0`, `OFF`. -/
def statusDecision (doc : Json) : Option Int :=
  match (doc.get "Status").get "Power" with
  | Json.int n => if n = 1 then some 1 else if n = 0 then some 0 else none
  | Json.str t =>
    if t = "1" ∨ t = "ON" then some 1 else if t = "0" ∨ t = "OFF" then some 0 else none
  | _ => none

/-- Specification of the third field: the top-level `POWER`, or `POWER1` when there is no
`POWER`, decisive when it is the text `ON` or `OFF`. -/
def topLevelDecision (doc : Json) : Option Int :=
  match (doc.get "POWER").orElse (doc.get "POWER1") with
  | Json.str t => if t = "ON" then some 1 else if t = "OFF" then some 0 else none
  | _ => none

/-- Specification of the power state read from a parsed answer: the first decisive
field in this order, and -1 when none is decisive. -/
def powerStateSpec (doc : Json) : Int :=
  match stsDecision doc with
  | some v => v
  | none =>
    match statusDecision doc with
    | some v => v
    | none =>
      match topLevelDecision doc with
      | some v => v
      | none => -1

/-- The state `s` with the configuration of the local controller replaced. -/
def State.withConfig (s : State) (enabled : Bool) (pulseTime : Int)
    (devices : List TasmotaDevice) : State :=
  { s with tasmotaEnabled := enabled, tasmotaPulseTime := pulseTime, tasmotaDevices := devices }

/-- Specification of what a reload makes of a saved device: address, name and polarity
are kept, the device is enabled, the host name is empty, the power state and the
reachability are reset. -/
def reloaded (d : TasmotaDevice) : TasmotaDevice :=
  { ip := d.ip, name := d.name, hostname := "", enabled := true, turnOn := d.turnOn,
    powerState := false, reachable := false }

/-- The state after a restart: every variable has its initial value, the flash store
is what it was. -/
def State.reboot (s : State) : State :=
  { State.boot with preferences := s.preferences }

/-- Specification of the escaping of one character of the password in the login body. -/
def escapeChar (x : Char) : List Char :=
  if x = '&' then "%26".data else if x = '#' then "%23".data else [x]

/-- The pieces of a text between the occurrences of a separator character. -/
def splitOnChar (c : Char) : List Char → List (List Char)
  | [] => [[]]
  | x :: xs =>
    if x = c then [] :: splitOnChar c xs
    else
      match splitOnChar c xs with
      | [] => [[x]]
      | field :: fields => (x :: field) :: fields

/-- An upper-case hexadecimal digit. -/
def isUpperHexChar (c : Char) : Bool :=
  (decide ('0' ≤ c) && decide (c ≤ '9')) || (decide ('A' ≤ c) && decide (c ≤ 'F'))

/-- A character `urlEncode` copies: an ASCII letter or digit or one of `-`, `_`, `.`, `~`. -/
def isUnreserved (c : Char) : Bool :=
  c.isAlphanum || c == '-' || c == '_' || c == '.' || c == '~'

/-- Percent-decoding with the part of an escape read so far: nothing, the `%`, or the
`%` and the first digit. -/
def percentDecodeFrom : Option (Option Char) → List Char → List Char
  | none, [] => []
  | some none, [] => ['%']
  | some (some h), [] => ['%', h]
  | none, c :: rest =>
    if c = '%' then percentDecodeFrom (some none) rest else c :: percentDecodeFrom none rest
  | some none, c :: rest => percentDecodeFrom (some (some c)) rest
  | some (some h), c :: rest =>
    Char.ofNat (hexValue h * 16 + hexValue c) :: percentDecodeFrom none rest

/-- Percent-decoding: `%` and two hexadecimal digits stand for the byte with that
value, every other character for itself. -/
def percentDecode (text : List Char) : List Char := percentDecodeFrom none text

/-- Shape of a percent-encoded text, with the number of hexadecimal digits an escape
begun earlier still needs: every character is unreserved or a `%` followed by two
upper-case hexadecimal digits. -/
def wellEscapedFrom : Nat → List Char → Bool
  | 0, [] => true
  | _ + 1, [] => false
  | 0, c :: rest =>
    if c = '%' then wellEscapedFrom 2 rest else isUnreserved c && wellEscapedFrom 0 rest
  | n + 1, c :: rest => isUpperHexChar c && wellEscapedFrom n rest

/-- Specification of what a poll leaves of a device whose query was answered `answer`:
for an enabled device the answer ON (1) or OFF (0) becomes its power state and the
device is marked reachable; without a valid answer, and for a disabled device, the device
is as before. -/
def polledDevice (answer : Int) (d : TasmotaDevice) : TasmotaDevice :=
  if d.enabled = true ∧ answer = 1 then { d with powerState := true, reachable := true }
  else if d.enabled = true ∧ answer = 0 then { d with powerState := false, reachable := true }
  else d

/-- Specification of the device list after a poll begun in state `s`: the enabled
devices are queried one after the other in list order, a disabled device is not
queried. -/
def polledDevices (env : Env) : List TasmotaDevice → State → List TasmotaDevice
  | [], _ => []
  | d :: ds, s =>
    polledDevice (tasmotaGetPowerStateEx env d.ip s).1 d ::
      polledDevices env ds (if d.enabled then (tasmotaGetPowerStateEx env d.ip s).2 else s)

/-- Specification of a confirmed press seen by `handleButton` in state `s`: the board has
a button pin, at least 50 ms have passed since the last check, the pin reads low, the
press has not been handled yet, and the pin reads low again after the debounce delay. -/
def confirmedPress (env : Env) (s : State) : Prop :=
  0 ≤ env.BUTTON_PIN ∧
  50 ≤ ((env.millis s.millisReads : Int) - (s.lastCheck : Int)) % 2 ^ 32 ∧
  env.buttonLow s.pinReads = true ∧ s.buttonProcessed = false ∧
  env.buttonLow (s.pinReads + 1) = true

instance (env : Env) (s : State) : Decidable (confirmedPress env s) := by
  unfold confirmedPress
  exact inferInstance

/-- The state in which `handleButton` handles a confirmed press: the clock has been read
twice, the time of the check is noted and the pin has been read twice. -/
def pressedState (env : Env) (s : State) : State :=
  { s with millisReads := s.millisReads + 2, lastCheck := env.millis (s.millisReads + 1),
           pinReads := s.pinReads + 2 }

/-- The state `s` with the fields a scan writes replaced. -/
def State.withScan (s : State) (progress : Int) (trace : List Event) (httpCount : Nat)
    (results : List TasmotaDevice) (found : Int) : State :=
  { s with tasmotaScanProgress := progress, trace := trace, httpCount := httpCount,
           tasmotaScanResults := results, tasmotaScanFound := found }

/-- The condition under which `tasmotaGetFeedingStatus` ends the feeding by itself, on
the device list as the poll left it: the local feeding flag is set, there is an enabled
device and every enabled device has left its in-feeding state. -/
def autoEnds (active : Bool) (polled : List TasmotaDevice) : Prop :=
  active = true ∧ 0 < polled.countP (fun d => d.enabled) ∧
  polled.countP (fun d => d.enabled && (d.powerState != d.turnOn)) =
    polled.countP (fun d => d.enabled)

instance (active : Bool) (polled : List TasmotaDevice) : Decidable (autoEnds active polled) := by
  unfold autoEnds
  exact inferInstance

/-- A message on the socket is a command message when it carries a message id. -/
def isCommandMessage (msg : String) : Bool :=
  "\x7b\"mid\":".data.isPrefixOf msg.data

/-- The event is anything but a command message sent on the socket. -/
def Event.notCommand : Event → Prop
  | Event.wsSend msg => isCommandMessage msg = false
  | _ => True

/-- Nothing of the command channel moved between two states: the message counter is
the same and no command message was sent. -/
def Quiet (s s' : State) : Prop :=
  s'.tunzeMessageId = s.tunzeMessageId ∧ Appends Event.notCommand s s'

/-- The inbound text acknowledges the handshake: it parses and has an `auth` object. -/
def authAcknowledged (env : Env) (payload : String) : Bool :=
  match env.deserializeJson payload with
  | some doc => (doc.get "auth").isObject
  | none => false

/-- Value of a decimal numeral given by its digits. -/
def digitsValue (digits : List Char) : Nat :=
  digits.foldl (fun n c => 10 * n + (c.toNat - 48)) 0

/-- The hosts a scan probes when the board has the host number `own`: 1 to 254 in
ascending order without the own number. -/
def probedHosts (own : Nat) : List Nat :=
  (List.range' 1 254).filter (fun i => decide (i ≠ own))

/-- The hosts probed by the `n` rounds of the scan loop that start with `i`: the
rounds whose address is not the board's own. -/
def scanHosts (env : Env) (i n : Nat) : List Nat :=
  (List.range' i n).filter (fun j => decide (scanBaseIP env ++ toString j ≠ localIPString env))

/-- The probe request for a host number. -/
def probeOf (env : Env) (j : Nat) : Event :=
  Event.http (tasmotaCheckRequest (scanBaseIP env ++ toString j))

/-- Specification of the result list of a scan: the answers to the probes of the hosts,
the first of which is the `h`-th HTTP answer, are read in order and the recognised
devices are collected. -/
def scanResultsSpec (env : Env) (hosts : List Nat) (h : Nat) : List TasmotaDevice :=
  (hosts.enumFrom h).filterMap (fun p =>
    checkDeviceAnswer env (scanBaseIP env ++ toString p.2) (scanFreshDevice env p.2)
      (env.http p.1))

/-! ## Worked examples: scripted environments and configurations -/

/-- What `HTTPClient` reports when no answer arrives (connection refused). -/
def noAnswer : HttpResponse := { code := -1, body := "", setCookie := "" }

/-- An answer with a status code and a body. -/
def answer (code : Int) (body : String) : HttpResponse :=
  { code := code, body := body, setCookie := "" }

/-- JSON reader of the examples: it reads the few documents the examples use as
ArduinoJson does and rejects every other text. -/
def exampleParse (text : String) : Option Json :=
  if text = "\x7b\x7d" then some (Json.obj [])
  else if text = "\x7b\"access_token\":\"tok2\"\x7d" then
    some (Json.obj [("access_token", Json.str "tok2")])
  else if text = "\x7b\"access_token\":\"tok3\"\x7d" then
    some (Json.obj [("access_token", Json.str "tok3")])
  else if text = "\x7b\"properties\":\x7b\"feeding\":true\x7d\x7d" then
    some (Json.obj [("properties", Json.obj [("feeding", Json.bool true)])])
  else if text = "\x7b\"StatusSTS\":\x7b\"POWER\":\"ON\"\x7d\x7d" then
    some (Json.obj [("StatusSTS", Json.obj [("POWER", Json.str "ON")])])
  else if text = "\x7b\"StatusSTS\":\x7b\"POWER\":\"OFF\"\x7d\x7d" then
    some (Json.obj [("StatusSTS", Json.obj [("POWER", Json.str "OFF")])])
  else if text = "\x7b\"Status\":\x7b\"DeviceName\":\"Plug\",\"Power\":1\x7d,\"StatusNET\":\x7b\"Hostname\":\"plug-37\"\x7d\x7d" then
    some (Json.obj [("Status", Json.obj [("DeviceName", Json.str "Plug"), ("Power", Json.int 1)]),
                    ("StatusNET", Json.obj [("Hostname", Json.str "plug-37")])])
  else none

/-- JSON writer of the examples: scalars, and objects of two string members. -/
def exampleSerialize : Json → String
  | Json.null => "null"
  | Json.bool true => "true"
  | Json.bool false => "false"
  | Json.int n => toString n
  | Json.str s => "\"" ++ s ++ "\""
  | Json.obj [(k1, Json.str v1), (k2, Json.str v2)] =>
    "\x7b\"" ++ k1 ++ "\":\"" ++ v1 ++ "\",\"" ++ k2 ++ "\":\"" ++ v2 ++ "\"\x7d"
  | _ => ""

/-- An environment that answers the HTTP requests from a script, in order, and
answers nothing once the script is used up; the WiFi status is constant, no socket
event arrives, the button is never pressed and the board has the address
192.168.1.10. -/
def scriptedEnv (answers : List HttpResponse) (wifi : Bool) : Env where
  http := fun n => answers.getD n noAnswer
  wifiStatus := fun _ => wifi
  socketEvents := fun _ => []
  millis := fun _ => 0
  deserializeJson := exampleParse
  serializeJson := exampleSerialize
  buttonLow := fun _ => false
  BUTTON_PIN := 0
  localIP := (192, 168, 1, 10)
  indeterminate := fun _ => false
  mac := fun i => [0x24, 0x6F, 0x28, 0xAB, 0xCD, 0xEF].getD i 0

/-- A normal-polarity device (switched off while feeding). -/
def examplePump : TasmotaDevice :=
  { ip := "192.168.1.50", name := "Pump", hostname := "", enabled := true,
    turnOn := false, powerState := true, reachable := true }

/-- An inverted device (switched on while feeding). -/
def exampleLight : TasmotaDevice :=
  { ip := "192.168.1.51", name := "Light", hostname := "", enabled := true,
    turnOn := true, powerState := false, reachable := true }

/-- All three backends enabled, a Cloud-A token cached, the hub socket not
authenticated, two local devices, feeding mode active. -/
def exampleActive : State :=
  { State.boot with
    redsea_AQUARIUM_ID := "42", TUNZE_DEVICE_ID := "dev1",
    ENABLE_redsea := true, ENABLE_TUNZE := true, redseaToken := "tok1",
    feedingModeActive := true, tasmotaEnabled := true, tasmotaFeedingActive := true,
    tasmotaDevices := [examplePump, exampleLight] }

/-- Cloud-A disabled, Cloud-B enabled but not authenticated, no local device,
feeding mode inactive. -/
def exampleCloudBOnly : State :=
  { State.boot with TUNZE_DEVICE_ID := "dev1", ENABLE_TUNZE := true }

/-- Cloud-A enabled without a cached token, the other backends off, feeding mode
inactive. -/
def exampleCloudAOnly : State :=
  { State.boot with redsea_AQUARIUM_ID := "42", ENABLE_redsea := true }

/-- Cloud-A enabled with a cached token, the other backends off. -/
def exampleCached : State :=
  { State.boot with redsea_AQUARIUM_ID := "42", ENABLE_redsea := true, redseaToken := "tok1" }

/-- A server script: the protected request is answered 401 twice, each time followed by
an accepted login, and 200 the third time. -/
def scriptTwice401 : List HttpResponse :=
  [answer 401 "", answer 200 "\x7b\"access_token\":\"tok2\"\x7d",
   answer 401 "", answer 200 "\x7b\"access_token\":\"tok3\"\x7d",
   answer 200 "\x7b\"properties\":\x7b\"feeding\":true\x7d\x7d"]

/-- A server script: the protected request is answered 401, the login is accepted and
the repeated request is answered 200. -/
def scriptOnce401 : List HttpResponse :=
  [answer 401 "", answer 200 "\x7b\"access_token\":\"tok2\"\x7d",
   answer 200 "\x7b\"properties\":\x7b\"feeding\":true\x7d\x7d"]

/-- A login answer of the Cloud-B hub that sets the session cookie `abc123`. -/
def exampleHubLogin : HttpResponse :=
  { code := 200, body := "", setCookie := "lang=en; SID=abc123; Path=/; HttpOnly" }

/-- The local backend enabled with an empty device list, nothing else configured. -/
def exampleNoDevices : State :=
  { State.boot with tasmotaEnabled := true }

/-- The local backend enabled with the inverted device alone, feeding active. -/
def exampleInvertedOnly : State :=
  { State.boot with tasmotaEnabled := true, tasmotaFeedingActive := true,
                    feedingModeActive := true, tasmotaDevices := [exampleLight] }

/-- A disabled device of the list. -/
def exampleSpare : TasmotaDevice :=
  { ip := "192.168.1.52", name := "Spare", hostname := "", enabled := false,
    turnOn := false, powerState := false, reachable := true }

/-- The local backend alone, with a normal, an inverted and a disabled device. -/
def exampleLocal : State :=
  { State.boot with tasmotaEnabled := true,
                    tasmotaDevices := [examplePump, exampleLight, exampleSpare] }

/-- A script in which every one of the first `n` requests is answered 200 with an
empty body. -/
def scriptOk (n : Nat) : List HttpResponse := List.replicate n (answer 200 "")

/-- The status answer of a device that reports its relay off. -/
def answerOff : HttpResponse := answer 200 "\x7b\"StatusSTS\":\x7b\"POWER\":\"OFF\"\x7d\x7d"

/-- The answer of a device to the probe of a scan. -/
def answerProbe : HttpResponse :=
  answer 200
    "\x7b\"Status\":\x7b\"DeviceName\":\"Plug\",\"Power\":1\x7d,\"StatusNET\":\x7b\"Hostname\":\"plug-37\"\x7d\x7d"

/-- An environment in which the button is held down and the clock reads one second;
otherwise as `scriptedEnv` with WiFi up. -/
def pressedEnv (answers : List HttpResponse) : Env :=
  { scriptedEnv answers true with buttonLow := fun _ => true, millis := fun _ => 1000 }

/-- An environment in which only the 36th request is answered, by a device: on the board
with the address 192.168.1.10 that is the probe of host 37. -/
def scanEnv : Env :=
  { scriptedEnv [] true with http := fun n => if n = 35 then answerProbe else noAnswer }

/-- A scan has been started and its task has not run yet. -/
def exampleScanning : State :=
  { State.boot with tasmotaScanRunning := true, scanTasksCreated := 1 }

/-- The record the scan makes of the device of `answerProbe` at host 37. -/
def examplePlug : TasmotaDevice :=
  { ip := "192.168.1.37", name := "Plug", hostname := "plug-37", enabled := false,
    turnOn := false, powerState := true, reachable := true }

/-- The inverted device switched on, as it is while feeding. -/
def exampleLightOn : TasmotaDevice :=
  { exampleLight with powerState := true }

/-- The local backend enabled and feeding, with the inverted device switched on. -/
def exampleFeedingLight : State :=
  { State.boot with tasmotaEnabled := true, tasmotaFeedingActive := true,
                    feedingModeActive := true, tasmotaDevices := [exampleLightOn] }

/-- Cloud-A credentials with a password that needs escaping. -/
def exampleLogin : State :=
  { State.boot with redsea_USERNAME := "me@x.org", redsea_PASSWORD := "a&b#c",
                    TUNZE_PASSWORD := "hub pass" }

/-- JSON writer of the store examples, for scalars. -/
def writeScalar : Json → String
  | Json.str t => "\"" ++ t ++ "\""
  | Json.bool true => "true"
  | Json.bool false => "false"
  | Json.int n => toString n
  | _ => "null"

/-- JSON writer of the store examples, for objects with scalar members. -/
def writeObject : Json → String
  | Json.obj members =>
    "\x7b" ++ ",".intercalate (members.map (fun m => "\"" ++ m.1 ++ "\":" ++ writeScalar m.2))
      ++ "\x7d"
  | other => writeScalar other

/-- JSON writer of the store examples, for arrays of such objects. -/
def writeArray : Json → String
  | Json.arr items => "[" ++ ",".intercalate (items.map writeObject) ++ "]"
  | other => writeObject other

/-- The text `tasmotaSaveConfig` stores for the devices of `exampleLocal`. -/
def exampleSavedText : String :=
  "[\x7b\"ip\":\"192.168.1.50\",\"name\":\"Pump\",\"turnOn\":false\x7d,\x7b\"ip\":\"192.168.1.51\",\"name\":\"Light\",\"turnOn\":true\x7d]"

/-- An environment for the store examples: it writes arrays of flat objects and reads
the text `exampleSavedText`, besides the texts `exampleParse` reads. -/
def storeEnv : Env :=
  { scriptedEnv [] true with
    serializeJson := writeArray,
    deserializeJson := fun text =>
      if text = exampleSavedText then
        some (Json.arr
          [Json.obj [("ip", Json.str "192.168.1.50"), ("name", Json.str "Pump"),
                     ("turnOn", Json.bool false)],
           Json.obj [("ip", Json.str "192.168.1.51"), ("name", Json.str "Light"),
                     ("turnOn", Json.bool true)]])
      else exampleParse text }

/-- The status answer of a device that reports its relay on. -/
def answerOn : HttpResponse := answer 200 "\x7b\"StatusSTS\":\x7b\"POWER\":\"ON\"\x7d\x7d"

/-- The normal device as it is cached during a feeding: switched off. -/
def examplePumpOff : TasmotaDevice :=
  { examplePump with powerState := false }

/-- The local backend enabled and feeding, with the normal device cached as switched
off. -/
def exampleFeedingPump : State :=
  { State.boot with tasmotaEnabled := true, tasmotaFeedingActive := true,
                    feedingModeActive := true, tasmotaDevices := [examplePumpOff] }

end FeedingBreak

/-! # Theorems -/

namespace FeedingBreak

/-! ## Frame lemmas -/

theorem Frame.refl (s : State) : Frame s s := ⟨rfl, rfl, rfl, rfl⟩

theorem Frame.trans {a b c : State} (h1 : Frame a b) (h2 : Frame b c) : Frame a c :=
  ⟨h2.1.trans h1.1, h2.2.1.trans h1.2.1, h2.2.2.1.trans h1.2.2.1, h2.2.2.2.trans h1.2.2.2⟩

theorem calls_append (a b : List Event) : calls (a ++ b) = calls a ++ calls b := by
  simp [calls, List.filterMap_append]

theorem frame_wifiConnected (env : Env) (s : State) : Frame s (wifiConnected env s).2 :=
  ⟨rfl, rfl, rfl, rfl⟩

theorem frame_httpSend (env : Env) (req : HttpRequest) (s : State) :
    Frame s (httpSend env req s).2 := by
  refine ⟨rfl, rfl, rfl, ?_⟩
  simp [httpSend, calls_append, calls]

theorem frame_readMillis (env : Env) (s : State) : Frame s (readMillis env s).2 :=
  ⟨rfl, rfl, rfl, rfl⟩

theorem frame_redseaLogin (env : Env) (s : State) : Frame s (redseaLogin env s).2 := by
  have h1 := frame_wifiConnected env s
  have h2 := frame_httpSend env (redseaLoginRequest (wifiConnected env s).2) (wifiConnected env s).2
  unfold redseaLogin
  simp only []
  split
  · exact h1
  · split
    · split
      · exact h1.trans (h2.trans ⟨rfl, rfl, rfl, rfl⟩)
      · exact h1.trans h2
    · exact h1.trans h2

theorem frame_redseaEnsureToken (env : Env) (s : State) :
    Frame s (redseaEnsureToken env s).2 := by
  unfold redseaEnsureToken
  split
  · exact frame_redseaLogin env s
  · exact Frame.refl s


theorem frame_redseaStartFeeding (env : Env) (fuel : Nat) :
    ∀ (s : State) (b : Bool) (s' : State),
      redseaStartFeeding env fuel s = some (b, s') → Frame s s' := by
  induction fuel with
  | zero => intro s b s' h; simp [redseaStartFeeding] at h
  | succ n ih =>
    intro s b s' h
    have h1 := frame_redseaEnsureToken env s
    have h2 := frame_httpSend env (redseaStartRequest (redseaEnsureToken env s).2)
      (redseaEnsureToken env s).2
    unfold redseaStartFeeding at h
    simp only [] at h
    split at h
    · cases h; exact h1
    · split at h
      · cases h; exact h1.trans h2
      · split at h
        · split at h <;> (cases h; exact h1.trans h2)
        · split at h
          · have h3 := ih _ _ _ h
            exact h1.trans (h2.trans (Frame.trans ⟨rfl, rfl, rfl, rfl⟩ h3))
          · cases h; exact h1.trans h2

theorem frame_redseaStopFeeding (env : Env) (fuel : Nat) :
    ∀ (s : State) (b : Bool) (s' : State),
      redseaStopFeeding env fuel s = some (b, s') → Frame s s' := by
  induction fuel with
  | zero => intro s b s' h; simp [redseaStopFeeding] at h
  | succ n ih =>
    intro s b s' h
    have h1 := frame_redseaEnsureToken env s
    have h2 := frame_httpSend env (redseaStopRequest (redseaEnsureToken env s).2)
      (redseaEnsureToken env s).2
    unfold redseaStopFeeding at h
    simp only [] at h
    split at h
    · cases h; exact h1
    · split at h
      · cases h; exact h1.trans h2
      · split at h
        · have h3 := ih _ _ _ h
          exact h1.trans (h2.trans (Frame.trans ⟨rfl, rfl, rfl, rfl⟩ h3))
        · cases h; exact h1.trans h2

theorem frame_log_http (s : State) (e : Event) (he : ∀ fn, e ≠ Event.call fn) :
    Frame s (s.log e) := by
  refine ⟨rfl, rfl, rfl, ?_⟩
  simp only [State.log, calls_append]
  cases e with
  | call fn => exact absurd rfl (he fn)
  | http req => simp [calls]
  | wsBegin a b c d => simp [calls]
  | wsSend m => simp [calls]

theorem frame_tunzeLogin (env : Env) (s : State) : Frame s (tunzeLogin env s).2 := by
  have h1 := frame_wifiConnected env s
  have h2 := frame_httpSend env (tunzeLoginRequest env (wifiConnected env s).2)
    (wifiConnected env s).2
  unfold tunzeLogin
  simp only []
  split
  · exact h1
  · split
    · split
      · exact h1.trans (h2.trans ⟨rfl, rfl, rfl, rfl⟩)
      · exact h1.trans h2
    · exact h1.trans h2

theorem frame_tunzeConnect (env : Env) (s : State) : Frame s (tunzeConnect env s) := by
  have h1 := frame_wifiConnected env s
  unfold tunzeConnect
  simp only []
  by_cases hw : (wifiConnected env s).1 = false
  · rw [if_pos hw]; exact h1
  · rw [if_neg hw]
    by_cases hs : (wifiConnected env s).2.tunzeSID = ""
    · rw [if_pos hs]
      have h2 := frame_tunzeLogin env (wifiConnected env s).2
      by_cases hl : (tunzeLogin env (wifiConnected env s).2).1 = false
      · rw [if_pos hl]; exact h1.trans h2
      · rw [if_neg hl]
        exact h1.trans (h2.trans (frame_log_http _ _ (by intro fn h; cases h)))
    · rw [if_neg hs]
      simp only [Bool.true_eq_false, if_false]
      exact h1.trans (frame_log_http _ _ (by intro fn h; cases h))

theorem frame_tunzeWebSocketEvent (env : Env) (type : WStype) (payload : String) (s : State) :
    Frame s (tunzeWebSocketEvent env type payload s) := by
  unfold tunzeWebSocketEvent
  cases type with
  | ERROR => exact Frame.refl s
  | OTHER => exact Frame.refl s
  | DISCONNECTED => exact ⟨rfl, rfl, rfl, rfl⟩
  | CONNECTED => exact frame_log_http _ _ (by intro fn h; cases h)
  | TEXT =>
    simp only []
    split
    · rename_i doc _
      have h1 : Frame s (if (doc.get "ping").isArray = true then
          (readMillis env s).2.log
            (Event.wsSend ("\x7b\"pong\":[" ++ toString (readMillis env s).1 ++ "]\x7d"))
          else s) := by
        split
        · exact (frame_readMillis env s).trans (frame_log_http _ _ (by intro fn h; cases h))
        · exact Frame.refl s
      split
      · exact h1.trans ⟨rfl, rfl, rfl, rfl⟩
      · exact h1
    · exact Frame.refl s

theorem frame_dispatchSocketEvents (env : Env) (evs : List (WStype × String)) :
    ∀ s : State, Frame s (dispatchSocketEvents env evs s) := by
  induction evs with
  | nil => intro s; exact Frame.refl s
  | cons e rest ih =>
    intro s
    exact (frame_tunzeWebSocketEvent env e.1 e.2 s).trans (ih _)

theorem frame_waitForSocket (env : Env) (s : State) : Frame s (waitForSocket env s) :=
  Frame.trans ⟨rfl, rfl, rfl, rfl⟩ (frame_dispatchSocketEvents env _ _)

theorem frame_tunzeStartFeeding (env : Env) (s : State) :
    Frame s (tunzeStartFeeding env s) := by
  have h1 : Frame s (if s.tunzeConnected = false then waitForSocket env (tunzeConnect env s)
      else s) := by
    split
    · exact (frame_tunzeConnect env s).trans (frame_waitForSocket env _)
    · exact Frame.refl s
  unfold tunzeStartFeeding
  simp only []
  generalize (if s.tunzeConnected = false then waitForSocket env (tunzeConnect env s)
      else s) = s1 at h1 ⊢
  by_cases hc : s1.tunzeConnected = false
  · rw [if_pos hc]; exact h1
  · rw [if_neg hc]
    exact h1.trans (Frame.trans ⟨rfl, rfl, rfl, rfl⟩
      (frame_log_http _ _ (by intro fn h; cases h)))

theorem frame_tunzeStopFeeding (s : State) : Frame s (tunzeStopFeeding s) := by
  unfold tunzeStopFeeding
  split
  · exact Frame.refl s
  · exact Frame.trans ⟨rfl, rfl, rfl, rfl⟩ (frame_log_http _ _ (by intro fn h; cases h))


theorem frame_tasmotaSendCommandLoop (env : Env) (ip command : String) (n : Nat) :
    ∀ s : State, Frame s (tasmotaSendCommandLoop env ip command n s).2 := by
  induction n with
  | zero => intro s; exact Frame.refl s
  | succ k ih =>
    intro s
    have h1 := frame_wifiConnected env s
    have h2 := frame_httpSend env (tasmotaCommandRequest ip command) (wifiConnected env s).2
    unfold tasmotaSendCommandLoop
    simp only []
    by_cases hw : (wifiConnected env s).1 = false
    · rw [if_pos hw]; exact h1.trans (ih _)
    · rw [if_neg hw]
      by_cases hc : (httpSend env (tasmotaCommandRequest ip command)
          (wifiConnected env s).2).1.code = 200
      · rw [if_pos hc]; exact h1.trans h2
      · rw [if_neg hc]; exact h1.trans (h2.trans (ih _))

theorem frame_tasmotaSendCommand (env : Env) (ip command : String) (retries : Int)
    (s : State) : Frame s (tasmotaSendCommand env ip command retries s).2 :=
  frame_tasmotaSendCommandLoop env ip command _ s

theorem frame_tasmotaTurnOn (env : Env) (ip : String) (s : State) :
    Frame s (tasmotaTurnOn env ip s).2 :=
  frame_tasmotaSendCommand env ip _ _ s

theorem frame_tasmotaTurnOff (env : Env) (ip : String) (autoOnSeconds : Int) (s : State) :
    Frame s (tasmotaTurnOff env ip autoOnSeconds s).2 := by
  unfold tasmotaTurnOff
  simp only []
  by_cases ha : autoOnSeconds > 0
  · rw [if_pos ha]
    exact (frame_tasmotaSendCommand env ip _ _ s).trans
      ((frame_tasmotaSendCommand env ip _ _ _).trans (frame_tasmotaSendCommand env ip _ _ _))
  · rw [if_neg ha]
    exact (frame_tasmotaSendCommand env ip _ _ s).trans (frame_tasmotaSendCommand env ip _ _ _)

theorem frame_forEachDevice (body : TasmotaDevice → State → TasmotaDevice × State)
    (hbody : ∀ d s, Frame s (body d s).2) (ds : List TasmotaDevice) :
    ∀ s : State, Frame s (forEachDevice body ds s).2 := by
  induction ds with
  | nil => intro s; exact Frame.refl s
  | cons d rest ih => intro s; exact (hbody d s).trans (ih _)

theorem frame_tasmotaStartFeedingDevice (env : Env) (pulseTime : Int) (d : TasmotaDevice)
    (s : State) : Frame s (tasmotaStartFeedingDevice env pulseTime d s).2 := by
  unfold tasmotaStartFeedingDevice
  by_cases he : d.enabled = true
  · rw [if_pos he]
    by_cases ht : d.turnOn = true
    · rw [if_pos ht]; exact frame_tasmotaTurnOn env d.ip s
    · rw [if_neg ht]; exact frame_tasmotaTurnOff env d.ip pulseTime s
  · rw [if_neg he]; exact Frame.refl s

theorem frame_tasmotaStopFeedingDevice (env : Env) (d : TasmotaDevice) (s : State) :
    Frame s (tasmotaStopFeedingDevice env d s).2 := by
  have h1 := frame_tasmotaSendCommand env d.ip "PulseTime 0" 3 s
  have h2 := frame_tasmotaSendCommand env d.ip "PowerOnState 3" 3
    (tasmotaSendCommand env d.ip "PulseTime 0" 3 s).2
  unfold tasmotaStopFeedingDevice
  by_cases he : d.enabled = true
  · rw [if_pos he]
    simp only []
    by_cases ht : d.turnOn = true
    · rw [if_pos ht]; exact h1.trans (h2.trans (frame_tasmotaTurnOff env d.ip 0 _))
    · rw [if_neg ht]; exact h1.trans (h2.trans (frame_tasmotaTurnOn env d.ip _))
  · rw [if_neg he]; exact Frame.refl s

theorem frame_tasmotaStartFeeding (env : Env) (s : State) :
    Frame s (tasmotaStartFeeding env s) := by
  unfold tasmotaStartFeeding
  by_cases h : s.tasmotaEnabled = false ∨ s.tasmotaDevices.isEmpty = true
  · rw [if_pos h]; exact Frame.refl s
  · rw [if_neg h]
    exact (frame_forEachDevice _ (frame_tasmotaStartFeedingDevice env s.tasmotaPulseTime)
      s.tasmotaDevices s).trans ⟨rfl, rfl, rfl, rfl⟩

theorem frame_tasmotaStopFeeding (env : Env) (s : State) :
    Frame s (tasmotaStopFeeding env s) := by
  unfold tasmotaStopFeeding
  by_cases h : s.tasmotaEnabled = false ∨ s.tasmotaDevices.isEmpty = true
  · rw [if_pos h]; exact Frame.refl s
  · rw [if_neg h]
    exact (frame_forEachDevice _ (frame_tasmotaStopFeedingDevice env)
      s.tasmotaDevices s).trans ⟨rfl, rfl, rfl, rfl⟩

/-! ## The orchestrator -/

/-- Marking a call changes the list of calls only. -/
theorem frame_log_call (s : State) (fn : String) :
    (s.log (Event.call fn)).ENABLE_redsea = s.ENABLE_redsea ∧
    (s.log (Event.call fn)).ENABLE_TUNZE = s.ENABLE_TUNZE ∧
    (s.log (Event.call fn)).feedingModeActive = s.feedingModeActive ∧
    calls (s.log (Event.call fn)).trace = calls s.trace ++ [fn] := by
  refine ⟨rfl, rfl, rfl, ?_⟩
  simp [State.log, calls_append, calls]


theorem startFeedingMode_tail (env : Env) (fuel : Nat) (s : State) (b : Bool) (s1 : State)
    (h : (if s.ENABLE_redsea = true then
            redseaStartFeeding env fuel (s.log (Event.call "redseaStartFeeding"))
          else some (true, s)) = some (b, s1)) :
    ∃ s3 : State, s3.ENABLE_redsea = s1.ENABLE_redsea ∧ s3.ENABLE_TUNZE = s1.ENABLE_TUNZE ∧
      s3.feedingModeActive = s1.feedingModeActive ∧
      calls s3.trace = calls s1.trace
        ++ (if s1.ENABLE_TUNZE = true then ["tunzeStartFeeding"] else [])
        ++ ["tasmotaStartFeeding"] ∧
      startFeedingMode env fuel s =
        some (if b = true ∨ s3.ENABLE_redsea = false then
                { s3 with feedingModeActive := true } else s3) := by
  have hB : ∃ s2 : State, s2 = (if s1.ENABLE_TUNZE = true then
        tunzeStartFeeding env (s1.log (Event.call "tunzeStartFeeding")) else s1) ∧
      s2.ENABLE_redsea = s1.ENABLE_redsea ∧ s2.ENABLE_TUNZE = s1.ENABLE_TUNZE ∧
      s2.feedingModeActive = s1.feedingModeActive ∧
      calls s2.trace = calls s1.trace
        ++ (if s1.ENABLE_TUNZE = true then ["tunzeStartFeeding"] else []) := by
    refine ⟨_, rfl, ?_⟩
    by_cases ht : s1.ENABLE_TUNZE = true
    · simp only [if_pos ht]
      have f := frame_tunzeStartFeeding env (s1.log (Event.call "tunzeStartFeeding"))
      have g := frame_log_call s1 "tunzeStartFeeding"
      exact ⟨f.1.trans g.1, f.2.1.trans g.2.1,
        f.2.2.1.trans g.2.2.1, f.2.2.2.trans g.2.2.2⟩
    · simp only [if_neg ht]
      simp
  obtain ⟨s2, hs2, e1, e2, e3, e4⟩ := hB
  have f := frame_tasmotaStartFeeding env (s2.log (Event.call "tasmotaStartFeeding"))
  have g := frame_log_call s2 "tasmotaStartFeeding"
  refine ⟨tasmotaStartFeeding env (s2.log (Event.call "tasmotaStartFeeding")),
    (f.1.trans g.1).trans e1, (f.2.1.trans g.2.1).trans e2, (f.2.2.1.trans g.2.2.1).trans e3,
    ?_, ?_⟩
  · rw [f.2.2.2, g.2.2.2, e4]
  · unfold startFeedingMode
    simp only []
    rw [h]
    simp only []
    rw [← hs2]
    split <;> rfl


theorem stopFeedingMode_tail (env : Env) (fuel : Nat) (s : State) (b : Bool) (s1 : State)
    (h : (if s.ENABLE_redsea = true then
            redseaStopFeeding env fuel (s.log (Event.call "redseaStopFeeding"))
          else some (true, s)) = some (b, s1)) :
    ∃ s3 : State, s3.ENABLE_redsea = s1.ENABLE_redsea ∧ s3.ENABLE_TUNZE = s1.ENABLE_TUNZE ∧
      calls s3.trace = calls s1.trace
        ++ (if s1.ENABLE_TUNZE = true then ["tunzeStopFeeding"] else [])
        ++ ["tasmotaStopFeeding"] ∧
      stopFeedingMode env fuel s = some { s3 with feedingModeActive := false } := by
  have hB : ∃ s2 : State, s2 = (if s1.ENABLE_TUNZE = true then
        tunzeStopFeeding (s1.log (Event.call "tunzeStopFeeding")) else s1) ∧
      s2.ENABLE_redsea = s1.ENABLE_redsea ∧ s2.ENABLE_TUNZE = s1.ENABLE_TUNZE ∧
      calls s2.trace = calls s1.trace
        ++ (if s1.ENABLE_TUNZE = true then ["tunzeStopFeeding"] else []) := by
    refine ⟨_, rfl, ?_⟩
    by_cases ht : s1.ENABLE_TUNZE = true
    · simp only [if_pos ht]
      have f := frame_tunzeStopFeeding (s1.log (Event.call "tunzeStopFeeding"))
      have g := frame_log_call s1 "tunzeStopFeeding"
      exact ⟨f.1.trans g.1, f.2.1.trans g.2.1,
        f.2.2.2.trans g.2.2.2⟩
    · simp only [if_neg ht]
      simp
  obtain ⟨s2, hs2, e1, e2, e4⟩ := hB
  have f := frame_tasmotaStopFeeding env (s2.log (Event.call "tasmotaStopFeeding"))
  have g := frame_log_call s2 "tasmotaStopFeeding"
  refine ⟨tasmotaStopFeeding env (s2.log (Event.call "tasmotaStopFeeding")),
    (f.1.trans g.1).trans e1, (f.2.1.trans g.2.1).trans e2, ?_, ?_⟩
  · rw [f.2.2.2, g.2.2.2, e4]
  · unfold stopFeedingMode
    simp only []
    rw [h]
    simp only []
    rw [← hs2]


theorem startFeedingMode_cloudA_leg (env : Env) (fuel : Nat) (s : State) (b : Bool)
    (s1 : State)
    (h : (if s.ENABLE_redsea = true then
            redseaStartFeeding env fuel (s.log (Event.call "redseaStartFeeding"))
          else some (true, s)) = some (b, s1)) :
    s1.ENABLE_redsea = s.ENABLE_redsea ∧ s1.ENABLE_TUNZE = s.ENABLE_TUNZE ∧
    s1.feedingModeActive = s.feedingModeActive ∧
    calls s1.trace = calls s.trace
      ++ (if s.ENABLE_redsea = true then ["redseaStartFeeding"] else []) := by
  by_cases hA : s.ENABLE_redsea = true
  · rw [if_pos hA] at h
    have f := frame_redseaStartFeeding env fuel _ _ _ h
    have g := frame_log_call s "redseaStartFeeding"
    rw [if_pos hA]
    exact ⟨f.1.trans g.1, f.2.1.trans g.2.1, f.2.2.1.trans g.2.2.1, f.2.2.2.trans g.2.2.2⟩
  · rw [if_neg hA] at h
    cases h
    rw [if_neg hA]
    simp

theorem stopFeedingMode_cloudA_leg (env : Env) (fuel : Nat) (s : State) (b : Bool)
    (s1 : State)
    (h : (if s.ENABLE_redsea = true then
            redseaStopFeeding env fuel (s.log (Event.call "redseaStopFeeding"))
          else some (true, s)) = some (b, s1)) :
    s1.ENABLE_redsea = s.ENABLE_redsea ∧ s1.ENABLE_TUNZE = s.ENABLE_TUNZE ∧
    calls s1.trace = calls s.trace
      ++ (if s.ENABLE_redsea = true then ["redseaStopFeeding"] else []) := by
  by_cases hA : s.ENABLE_redsea = true
  · rw [if_pos hA] at h
    have f := frame_redseaStopFeeding env fuel _ _ _ h
    have g := frame_log_call s "redseaStopFeeding"
    rw [if_pos hA]
    exact ⟨f.1.trans g.1, f.2.1.trans g.2.1, f.2.2.2.trans g.2.2.2⟩
  · rw [if_neg hA] at h
    cases h
    rw [if_neg hA]
    simp

theorem startFeedingMode_none (env : Env) (fuel : Nat) (s : State)
    (h : (if s.ENABLE_redsea = true then
            redseaStartFeeding env fuel (s.log (Event.call "redseaStartFeeding"))
          else some (true, s)) = none) :
    startFeedingMode env fuel s = none := by
  unfold startFeedingMode
  simp only []
  rw [h]

theorem stopFeedingMode_none (env : Env) (fuel : Nat) (s : State)
    (h : (if s.ENABLE_redsea = true then
            redseaStopFeeding env fuel (s.log (Event.call "redseaStopFeeding"))
          else some (true, s)) = none) :
    stopFeedingMode env fuel s = none := by
  unfold stopFeedingMode
  simp only []
  rw [h]

/-- What a completed `startFeedingMode` did: the outcome `b` of its Cloud-A leg (true
when Cloud-A is disabled), the flag, and the calls it made. -/
theorem startFeedingMode_run (env : Env) (fuel : Nat) (s s' : State)
    (h : startFeedingMode env fuel s = some s') :
    ∃ (b : Bool) (s1 : State),
      (if s.ENABLE_redsea = true then
          redseaStartFeeding env fuel (s.log (Event.call "redseaStartFeeding"))
        else some (true, s)) = some (b, s1) ∧
      s'.feedingModeActive
        = (if b = true ∨ s.ENABLE_redsea = false then true else s.feedingModeActive) ∧
      calls s'.trace = calls s.trace
        ++ (if s.ENABLE_redsea = true then ["redseaStartFeeding"] else [])
        ++ (if s.ENABLE_TUNZE = true then ["tunzeStartFeeding"] else [])
        ++ ["tasmotaStartFeeding"] := by
  cases hleg : (if s.ENABLE_redsea = true then
      redseaStartFeeding env fuel (s.log (Event.call "redseaStartFeeding"))
      else some (true, s)) with
  | none => rw [startFeedingMode_none env fuel s hleg] at h; cases h
  | some r =>
    obtain ⟨b, s1⟩ := r
    obtain ⟨a1, a2, a3, a4⟩ := startFeedingMode_cloudA_leg env fuel s b s1 hleg
    obtain ⟨s3, t1, t2, t3, t4, t5⟩ := startFeedingMode_tail env fuel s b s1 hleg
    rw [t5] at h
    cases h
    refine ⟨b, s1, rfl, ?_, ?_⟩
    · rw [t1, a1]
      by_cases hc : b = true ∨ s.ENABLE_redsea = false
      · rw [if_pos hc, if_pos hc]
      · rw [if_neg hc, if_neg hc, t3, a3]
    · have : calls (if b = true ∨ s3.ENABLE_redsea = false then
          { s3 with feedingModeActive := true } else s3).trace = calls s3.trace := by
        split <;> rfl
      rw [this, t4, a4, a2]

/-- What a completed `stopFeedingMode` did: the flag and the calls it made. -/
theorem stopFeedingMode_run (env : Env) (fuel : Nat) (s s' : State)
    (h : stopFeedingMode env fuel s = some s') :
    s'.feedingModeActive = false ∧
    calls s'.trace = calls s.trace
      ++ (if s.ENABLE_redsea = true then ["redseaStopFeeding"] else [])
      ++ (if s.ENABLE_TUNZE = true then ["tunzeStopFeeding"] else [])
      ++ ["tasmotaStopFeeding"] := by
  cases hleg : (if s.ENABLE_redsea = true then
      redseaStopFeeding env fuel (s.log (Event.call "redseaStopFeeding"))
      else some (true, s)) with
  | none => rw [stopFeedingMode_none env fuel s hleg] at h; cases h
  | some r =>
    obtain ⟨b, s1⟩ := r
    obtain ⟨a1, a2, a4⟩ := stopFeedingMode_cloudA_leg env fuel s b s1 hleg
    obtain ⟨s3, t1, t2, t4, t5⟩ := stopFeedingMode_tail env fuel s b s1 hleg
    rw [t5] at h
    cases h
    refine ⟨rfl, ?_⟩
    show calls s3.trace = _
    rw [t4, a4, a2]

/-- Function `stopFeedingMode` returns exactly when its Cloud-A leg does. -/
theorem stopFeedingMode_isSome (env : Env) (fuel : Nat) (s : State) :
    (stopFeedingMode env fuel s).isSome =
      (if s.ENABLE_redsea = true then
         (redseaStopFeeding env fuel (s.log (Event.call "redseaStopFeeding"))).isSome
       else true) := by
  cases hleg : (if s.ENABLE_redsea = true then
      redseaStopFeeding env fuel (s.log (Event.call "redseaStopFeeding"))
      else some (true, s)) with
  | none =>
    rw [stopFeedingMode_none env fuel s hleg]
    by_cases hA : s.ENABLE_redsea = true
    · rw [if_pos hA] at hleg ⊢; rw [hleg]; rfl
    · rw [if_neg hA] at hleg; cases hleg
  | some r =>
    obtain ⟨b, s1⟩ := r
    obtain ⟨s3, _, _, _, t5⟩ := stopFeedingMode_tail env fuel s b s1 hleg
    rw [t5]
    by_cases hA : s.ENABLE_redsea = true
    · rw [if_pos hA] at hleg ⊢; rw [hleg]; rfl
    · rw [if_neg hA]; rfl

/-- Function `startFeedingMode` returns exactly when its Cloud-A leg does. -/
theorem startFeedingMode_isSome (env : Env) (fuel : Nat) (s : State) :
    (startFeedingMode env fuel s).isSome =
      (if s.ENABLE_redsea = true then
         (redseaStartFeeding env fuel (s.log (Event.call "redseaStartFeeding"))).isSome
       else true) := by
  cases hleg : (if s.ENABLE_redsea = true then
      redseaStartFeeding env fuel (s.log (Event.call "redseaStartFeeding"))
      else some (true, s)) with
  | none =>
    rw [startFeedingMode_none env fuel s hleg]
    by_cases hA : s.ENABLE_redsea = true
    · rw [if_pos hA] at hleg ⊢; rw [hleg]; rfl
    · rw [if_neg hA] at hleg; cases hleg
  | some r =>
    obtain ⟨b, s1⟩ := r
    obtain ⟨s3, _, _, _, _, t5⟩ := startFeedingMode_tail env fuel s b s1 hleg
    rw [t5]
    by_cases hA : s.ENABLE_redsea = true
    · rw [if_pos hA] at hleg ⊢; rw [hleg]; rfl
    · rw [if_neg hA]; rfl


/-! ## Arduino `String` searches -/

theorem isPrefixOf_iff_append (pat l : List Char) :
    pat.isPrefixOf l = true ↔ ∃ q, l = pat ++ q := by
  rw [ List.isPrefixOf_iff_prefix]
  constructor
  · rintro ⟨q, hq⟩; exact ⟨q, hq.symm⟩
  · rintro ⟨q, hq⟩; exact ⟨q, hq.symm⟩

/-- Function `strstr` finds nothing exactly when the pattern does not occur. -/
theorem strstr_eq_none_iff (pat : List Char) :
    ∀ l : List Char, strstr pat l = none ↔ ¬ ∃ p q, l = p ++ pat ++ q := by
  intro l
  induction l with
  | nil =>
    unfold strstr
    cases pat with
    | nil => simp
    | cons a as => simp
  | cons x xs ih =>
    unfold strstr
    by_cases hp : pat.isPrefixOf (x :: xs) = true
    · rw [if_pos hp]
      obtain ⟨q, hq⟩ := (isPrefixOf_iff_append pat (x :: xs)).1 hp
      simp only [reduceCtorEq, false_iff, not_not]
      exact ⟨[], q, by simpa using hq⟩
    · rw [if_neg hp, Option.map_eq_none', ih]
      constructor
      · intro hno hocc
        obtain ⟨p, q, hpq⟩ := hocc
        cases p with
        | nil =>
          apply hp
          exact (isPrefixOf_iff_append pat (x :: xs)).2 ⟨q, by simpa using hpq⟩
        | cons y p' =>
          apply hno
          simp only [List.cons_append, List.cons.injEq] at hpq
          exact ⟨p', q, hpq.2⟩
      · intro hno hocc
        obtain ⟨p, q, hpq⟩ := hocc
        apply hno
        exact ⟨x :: p, q, by simp [hpq]⟩

/-- Function `strstr` returns the offset of the first occurrence. -/
theorem strstr_first (pat : List Char) :
    ∀ (l pre rest : List Char), l = pre ++ pat ++ rest →
      (∀ p q, l = p ++ pat ++ q → pre.length ≤ p.length) →
      strstr pat l = some pre.length := by
  intro l
  induction l with
  | nil =>
    intro pre rest hl _
    have h1 : pre = [] := by
      cases pre with
      | nil => rfl
      | cons a as => simp at hl
    have h2 : pat = [] := by
      cases pat with
      | nil => rfl
      | cons a as => subst h1; simp at hl
    subst h1; subst h2
    simp [strstr]
  | cons x xs ih =>
    intro pre rest hl hmin
    unfold strstr
    by_cases hp : pat.isPrefixOf (x :: xs) = true
    · rw [if_pos hp]
      obtain ⟨q, hq⟩ := (isPrefixOf_iff_append pat (x :: xs)).1 hp
      have := hmin [] q (by simpa using hq)
      simp only [List.length_nil, Nat.le_zero] at this
      rw [this]
    · rw [if_neg hp]
      cases pre with
      | nil =>
        exfalso
        apply hp
        exact (isPrefixOf_iff_append pat (x :: xs)).2 ⟨rest, by simpa using hl⟩
      | cons y pre' =>
        simp only [List.cons_append, List.cons.injEq] at hl
        have hrec := ih pre' rest hl.2 (by
          intro p q hpq
          have := hmin (x :: p) q (by simp [hpq])
          simpa using this)
        rw [hrec]
        simp

/-- Searching a one-character pattern: nothing found means the character is absent. -/
theorem strstr_char_none (c : Char) :
    ∀ l : List Char, strstr [c] l = none → l.takeWhile (fun x => decide (x ≠ c)) = l := by
  intro l
  induction l with
  | nil => intro _; rfl
  | cons x xs ih =>
    intro h
    unfold strstr at h
    by_cases hp : [c].isPrefixOf (x :: xs) = true
    · rw [if_pos hp] at h; cases h
    · rw [if_neg hp, Option.map_eq_none'] at h
      have hx : x ≠ c := by
        intro hxc
        apply hp
        subst hxc
        simp [List.isPrefixOf]
      have hd : decide (x ≠ c) = true := by simpa using hx
      rw [List.takeWhile_cons, hd, if_pos rfl, ih h]

/-- Searching a one-character pattern: the offset found is the length of the run of
other characters. -/
theorem strstr_char_some (c : Char) :
    ∀ (l : List Char) (k : Nat), strstr [c] l = some k →
      l.take k = l.takeWhile (fun x => decide (x ≠ c)) ∧ k < l.length := by
  intro l
  induction l with
  | nil => intro k h; simp [strstr] at h
  | cons x xs ih =>
    intro k h
    unfold strstr at h
    by_cases hp : [c].isPrefixOf (x :: xs) = true
    · rw [if_pos hp] at h
      cases h
      have hx : x = c := by
        simp [List.isPrefixOf] at hp
        exact hp.symm
      have hd : decide (x ≠ c) = false := by simpa using hx
      rw [List.takeWhile_cons, hd]
      simp
    · rw [if_neg hp] at h
      have hx : x ≠ c := by
        intro hxc
        apply hp
        subst hxc
        simp [List.isPrefixOf]
      cases hk : strstr [c] xs with
      | none => rw [hk] at h; cases h
      | some j =>
        rw [hk] at h
        simp only [Option.map_some', Option.some.injEq] at h
        subst h
        obtain ⟨h1, h2⟩ := ih j hk
        have hd : decide (x ≠ c) = true := by simpa using hx
        rw [List.takeWhile_cons, hd, if_pos rfl, List.take_succ_cons, h1]
        exact ⟨rfl, by simpa using h2⟩

/-- Function `indexOf` is non-negative exactly when the (non-empty) pattern occurs. -/
theorem indexOf_nonneg_iff (s pat : String) (hpat : pat.data ≠ []) :
    indexOf s pat ≥ 0 ↔ ∃ p q, s.data = p ++ pat.data ++ q := by
  unfold indexOf indexOfFrom
  by_cases hlen : 0 ≥ s.data.length
  · rw [if_pos hlen]
    have hnil : s.data = [] := List.length_eq_zero.1 (Nat.le_zero.1 hlen)
    constructor
    · intro h; exact absurd h (by decide)
    · rintro ⟨p, q, hpq⟩
      rw [hnil] at hpq
      exfalso
      apply hpat
      cases hd : pat.data with
      | nil => rfl
      | cons a as => rw [hd] at hpq; simp at hpq
  · rw [if_neg hlen, List.drop_zero]
    cases hk : strstr pat.data s.data with
    | none =>
      simp only []
      constructor
      · intro h; exact absurd h (by decide)
      · intro h; exact absurd h ((strstr_eq_none_iff pat.data s.data).1 hk)
    | some k =>
      simp only []
      constructor
      · intro _
        by_contra hno
        have := (strstr_eq_none_iff pat.data s.data).2 hno
        rw [hk] at this
        cases this
      · intro _
        exact Int.natCast_nonneg _


/-! ## One invocation of a Cloud-A operation -/

theorem redseaStartFeeding_step_fail (env : Env) (n : Nat) (s : State)
    (h : (redseaEnsureToken env s).1 = false) :
    redseaStartFeeding env (n + 1) s = some (false, (redseaEnsureToken env s).2) := by
  unfold redseaStartFeeding
  simp only []
  rw [if_pos h]

theorem redseaStartFeeding_step_401 (env : Env) (n : Nat) (s : State)
    (h : (redseaEnsureToken env s).1 = true)
    (hc : (env.http (redseaEnsureToken env s).2.httpCount).code = 401) :
    redseaStartFeeding env (n + 1) s =
      redseaStartFeeding env n
        { (httpSend env (redseaStartRequest (redseaEnsureToken env s).2)
            (redseaEnsureToken env s).2).2 with redseaToken := "" } := by
  have hc' : (httpSend env (redseaStartRequest (redseaEnsureToken env s).2)
      (redseaEnsureToken env s).2).1.code = 401 := hc
  conv => lhs; unfold redseaStartFeeding
  simp only []
  rw [if_neg (by rw [h]; decide), hc']
  simp

theorem redseaStartFeeding_step_other (env : Env) (n : Nat) (s : State)
    (h : (redseaEnsureToken env s).1 = true)
    (hc : (env.http (redseaEnsureToken env s).2.httpCount).code ≠ 401) :
    redseaStartFeeding env (n + 1) s =
      some (redseaStartOutcome (env.http (redseaEnsureToken env s).2.httpCount),
        (httpSend env (redseaStartRequest (redseaEnsureToken env s).2)
          (redseaEnsureToken env s).2).2) := by
  have hr : (httpSend env (redseaStartRequest (redseaEnsureToken env s).2)
      (redseaEnsureToken env s).2).1 = env.http (redseaEnsureToken env s).2.httpCount := rfl
  conv => lhs; unfold redseaStartFeeding
  simp only []
  rw [if_neg (by rw [h]; decide), hr]
  generalize env.http (redseaEnsureToken env s).2.httpCount = r at hc ⊢
  unfold redseaStartOutcome
  by_cases h1 : r.code = 200 ∨ r.code = 201 ∨ r.code = 204
  · rw [if_pos h1]; simp [h1]
  · rw [if_neg h1]
    by_cases h2 : r.code = 400
    · rw [if_pos h2]
      by_cases h3 : indexOf r.body "already active" ≥ 0
      · rw [if_pos h3]; simp [h2, h3]
      · rw [if_neg h3]; simp [h2, h3]
    · rw [if_neg h2, if_neg hc]; simp [h1, h2]


theorem redseaStopFeeding_step_fail (env : Env) (n : Nat) (s : State)
    (h : (redseaEnsureToken env s).1 = false) :
    redseaStopFeeding env (n + 1) s = some (false, (redseaEnsureToken env s).2) := by
  unfold redseaStopFeeding
  simp only []
  rw [if_pos h]

theorem redseaStopFeeding_step_401 (env : Env) (n : Nat) (s : State)
    (h : (redseaEnsureToken env s).1 = true)
    (hc : (env.http (redseaEnsureToken env s).2.httpCount).code = 401) :
    redseaStopFeeding env (n + 1) s =
      redseaStopFeeding env n
        { (httpSend env (redseaStopRequest (redseaEnsureToken env s).2)
            (redseaEnsureToken env s).2).2 with redseaToken := "" } := by
  have hc' : (httpSend env (redseaStopRequest (redseaEnsureToken env s).2)
      (redseaEnsureToken env s).2).1.code = 401 := hc
  conv => lhs; unfold redseaStopFeeding
  simp only []
  rw [if_neg (by rw [h]; decide), hc']
  simp

theorem redseaStopFeeding_step_other (env : Env) (n : Nat) (s : State)
    (h : (redseaEnsureToken env s).1 = true)
    (hc : (env.http (redseaEnsureToken env s).2.httpCount).code ≠ 401) :
    redseaStopFeeding env (n + 1) s =
      some (redseaStopOutcome (env.http (redseaEnsureToken env s).2.httpCount),
        (httpSend env (redseaStopRequest (redseaEnsureToken env s).2)
          (redseaEnsureToken env s).2).2) := by
  have hr : (httpSend env (redseaStopRequest (redseaEnsureToken env s).2)
      (redseaEnsureToken env s).2).1 = env.http (redseaEnsureToken env s).2.httpCount := rfl
  conv => lhs; unfold redseaStopFeeding
  simp only []
  rw [if_neg (by rw [h]; decide), hr]
  generalize env.http (redseaEnsureToken env s).2.httpCount = r at hc ⊢
  unfold redseaStopOutcome
  by_cases h1 : r.code = 200 ∨ r.code = 201 ∨ r.code = 204
  · rw [if_pos h1]; simp [h1]
  · rw [if_neg h1, if_neg hc]; simp [h1]

theorem redseaCheckFeedingStatus_step_fail (env : Env) (n : Nat) (s : State)
    (h : (redseaEnsureToken env s).1 = false) :
    redseaCheckFeedingStatus env (n + 1) s = some (false, (redseaEnsureToken env s).2) := by
  unfold redseaCheckFeedingStatus
  simp only []
  rw [if_pos h]

theorem redseaCheckFeedingStatus_step_401 (env : Env) (n : Nat) (s : State)
    (h : (redseaEnsureToken env s).1 = true)
    (hc : (env.http (redseaEnsureToken env s).2.httpCount).code = 401) :
    redseaCheckFeedingStatus env (n + 1) s =
      redseaCheckFeedingStatus env n
        { (httpSend env (redseaStatusRequest (redseaEnsureToken env s).2)
            (redseaEnsureToken env s).2).2 with redseaToken := "" } := by
  have hc' : (httpSend env (redseaStatusRequest (redseaEnsureToken env s).2)
      (redseaEnsureToken env s).2).1.code = 401 := hc
  conv => lhs; unfold redseaCheckFeedingStatus
  simp only []
  rw [if_neg (by rw [h]; decide), hc']
  simp

theorem redseaCheckFeedingStatus_step_other (env : Env) (n : Nat) (s : State)
    (h : (redseaEnsureToken env s).1 = true)
    (hc : (env.http (redseaEnsureToken env s).2.httpCount).code ≠ 401) :
    redseaCheckFeedingStatus env (n + 1) s =
      some (redseaStatusOutcome env (env.http (redseaEnsureToken env s).2.httpCount),
        (httpSend env (redseaStatusRequest (redseaEnsureToken env s).2)
          (redseaEnsureToken env s).2).2) := by
  have hr : (httpSend env (redseaStatusRequest (redseaEnsureToken env s).2)
      (redseaEnsureToken env s).2).1 = env.http (redseaEnsureToken env s).2.httpCount := rfl
  conv => lhs; unfold redseaCheckFeedingStatus
  simp only []
  rw [if_neg (by rw [h]; decide), hr]
  generalize env.http (redseaEnsureToken env s).2.httpCount = r at hc ⊢
  unfold redseaStatusOutcome
  by_cases h1 : r.code = 200
  · rw [if_pos h1]
    cases env.deserializeJson r.body <;> simp [h1]
  · rw [if_neg h1, if_neg hc]; simp [h1]


/-! ## `redseaLogin` case by case -/

theorem redseaLogin_wifi_down (env : Env) (s : State)
    (hw : env.wifiStatus s.wifiPolls = false) :
    redseaLogin env s = (false, (wifiConnected env s).2) := by
  have hw' : (wifiConnected env s).1 = false := hw
  unfold redseaLogin
  simp only []
  rw [if_pos hw']

theorem redseaLogin_rejected (env : Env) (s : State)
    (hw : env.wifiStatus s.wifiPolls = true)
    (h : (env.http s.httpCount).code ≠ 200 ∨
         env.deserializeJson (env.http s.httpCount).body = none) :
    redseaLogin env s =
      (false, (httpSend env (redseaLoginRequest s) (wifiConnected env s).2).2) := by
  have hw' : ¬ (wifiConnected env s).1 = false := by
    show ¬ env.wifiStatus s.wifiPolls = false
    rw [hw]; decide
  have hr : (httpSend env (redseaLoginRequest (wifiConnected env s).2)
      (wifiConnected env s).2).1 = env.http s.httpCount := rfl
  unfold redseaLogin
  simp only []
  rw [if_neg hw', hr]
  by_cases hc : (env.http s.httpCount).code = 200
  · rw [if_pos hc]
    rcases h with h | h
    · exact absurd hc h
    · rw [h]; rfl
  · rw [if_neg hc]; rfl

theorem redseaLogin_accepted (env : Env) (s : State) (doc : Json)
    (hw : env.wifiStatus s.wifiPolls = true)
    (hc : (env.http s.httpCount).code = 200)
    (hp : env.deserializeJson (env.http s.httpCount).body = some doc) :
    redseaLogin env s =
      (true, { (httpSend env (redseaLoginRequest s) (wifiConnected env s).2).2 with
               redseaToken := (doc.get "access_token").asString env.serializeJson }) := by
  have hw' : ¬ (wifiConnected env s).1 = false := by
    show ¬ env.wifiStatus s.wifiPolls = false
    rw [hw]; decide
  have hr : (httpSend env (redseaLoginRequest (wifiConnected env s).2)
      (wifiConnected env s).2).1 = env.http s.httpCount := rfl
  unfold redseaLogin
  simp only []
  rw [if_neg hw', hr, if_pos hc, hp]
  rfl

/-- Function `redseaLogin` succeeds exactly when the token endpoint accepts the login. -/
theorem redseaLogin_true_iff (env : Env) (s : State) :
    (redseaLogin env s).1 = true ↔ LoginAccepted env s.httpCount s.wifiPolls := by
  unfold LoginAccepted
  by_cases hw : env.wifiStatus s.wifiPolls = true
  · by_cases hc : (env.http s.httpCount).code = 200
    · cases hp : env.deserializeJson (env.http s.httpCount).body with
      | none =>
        rw [redseaLogin_rejected env s hw (Or.inr hp)]
        simp
      | some doc =>
        rw [redseaLogin_accepted env s doc hw hc hp]
        simp [hw, hc]
    · rw [redseaLogin_rejected env s hw (Or.inl hc)]
      simp [hc]
  · have hw2 : env.wifiStatus s.wifiPolls = false := by
      cases h : env.wifiStatus s.wifiPolls
      · rfl
      · exact absurd h hw
    rw [redseaLogin_wifi_down env s hw2]
    simp [hw2]

/-! ## Counting requests -/

theorem httpCountTo_append (url : String) (a b : List Event) :
    httpCountTo url (a ++ b) = httpCountTo url a + httpCountTo url b := by
  simp [httpCountTo, List.countP_append]

theorem httpCountTo_http_same (url : String) (req : HttpRequest) (h : req.url = url) :
    httpCountTo url [Event.http req] = 1 := by
  simp [httpCountTo, List.countP_cons, h]

theorem httpCountTo_http_other (url : String) (req : HttpRequest) (h : req.url ≠ url) :
    httpCountTo url [Event.http req] = 0 := by
  simp [httpCountTo, List.countP_cons, h]

theorem redseaStartRequest_url_ne (s : State) : (redseaStartRequest s).url ≠ redseaTokenUrl := by
  intro h
  have := congrArg String.data h
  simp [redseaStartRequest, redseaTokenUrl, redsea_API_BASE, String.data_append] at this

theorem redseaStopRequest_url_ne (s : State) : (redseaStopRequest s).url ≠ redseaTokenUrl := by
  intro h
  have := congrArg String.data h
  simp [redseaStopRequest, redseaTokenUrl, redsea_API_BASE, String.data_append] at this

theorem redseaStatusRequest_url_ne (s : State) :
    (redseaStatusRequest s).url ≠ redseaTokenUrl := by
  intro h
  have := congrArg String.data h
  simp [redseaStatusRequest, redseaTokenUrl, redsea_API_BASE, String.data_append] at this


/-! ## The retry cycle of the Cloud-A operations -/

theorem CloudAOp.run_zero (op : CloudAOp) (env : Env) (s : State) : op.run env 0 s = none := by
  cases op <;> rfl

theorem CloudAOp.step_fail (op : CloudAOp) (env : Env) (n : Nat) (s : State)
    (h : (redseaEnsureToken env s).1 = false) :
    op.run env (n + 1) s = some (false, (redseaEnsureToken env s).2) := by
  cases op
  · exact redseaCheckFeedingStatus_step_fail env n s h
  · exact redseaStartFeeding_step_fail env n s h
  · exact redseaStopFeeding_step_fail env n s h

theorem CloudAOp.step_401 (op : CloudAOp) (env : Env) (n : Nat) (s : State)
    (h : (redseaEnsureToken env s).1 = true)
    (hc : (env.http (redseaEnsureToken env s).2.httpCount).code = 401) :
    op.run env (n + 1) s =
      op.run env n
        { (httpSend env (op.request (redseaEnsureToken env s).2)
            (redseaEnsureToken env s).2).2 with redseaToken := "" } := by
  cases op
  · exact redseaCheckFeedingStatus_step_401 env n s h hc
  · exact redseaStartFeeding_step_401 env n s h hc
  · exact redseaStopFeeding_step_401 env n s h hc

theorem CloudAOp.step_other (op : CloudAOp) (env : Env) (n : Nat) (s : State)
    (h : (redseaEnsureToken env s).1 = true)
    (hc : (env.http (redseaEnsureToken env s).2.httpCount).code ≠ 401) :
    op.run env (n + 1) s =
      some (op.outcome env (env.http (redseaEnsureToken env s).2.httpCount),
        (httpSend env (op.request (redseaEnsureToken env s).2)
          (redseaEnsureToken env s).2).2) := by
  cases op
  · exact redseaCheckFeedingStatus_step_other env n s h hc
  · exact redseaStartFeeding_step_other env n s h hc
  · exact redseaStopFeeding_step_other env n s h hc

theorem CloudAOp.request_url_ne (op : CloudAOp) (s : State) :
    (op.request s).url ≠ redseaTokenUrl := by
  cases op
  · exact redseaStatusRequest_url_ne s
  · exact redseaStartRequest_url_ne s
  · exact redseaStopRequest_url_ne s

theorem CloudAOp.request_url_congr (op : CloudAOp) (s t : State)
    (h : t.redsea_AQUARIUM_ID = s.redsea_AQUARIUM_ID) :
    (op.request t).url = (op.request s).url := by
  cases op <;>
    simp [CloudAOp.request, redseaStatusRequest, redseaStartRequest, redseaStopRequest, h]

/-- With a cached token the token step does nothing. -/
theorem redseaEnsureToken_cached (env : Env) (s : State) (h : s.redseaToken ≠ "") :
    redseaEnsureToken env s = (true, s) := by
  unfold redseaEnsureToken
  rw [if_neg h]

/-- Without a token, an accepted login: what the token step leaves behind. -/
theorem redseaEnsureToken_accepted (env : Env) (s : State) (h : s.redseaToken = "")
    (ha : LoginAccepted env s.httpCount s.wifiPolls) :
    ∃ sL : State, redseaEnsureToken env s = (true, sL) ∧
      sL.httpCount = s.httpCount + 1 ∧ sL.wifiPolls = s.wifiPolls + 1 ∧
      sL.trace = s.trace ++ [Event.http (redseaLoginRequest s)] ∧
      sL.redsea_AQUARIUM_ID = s.redsea_AQUARIUM_ID := by
  obtain ⟨hw, hc, hp⟩ := ha
  cases hd : env.deserializeJson (env.http s.httpCount).body with
  | none => rw [hd] at hp; cases hp
  | some doc =>
    have hens : redseaEnsureToken env s = redseaLogin env s := by
      unfold redseaEnsureToken
      rw [if_pos h]
    exact ⟨_, hens.trans (redseaLogin_accepted env s doc hw hc hd), rfl, rfl, rfl, rfl⟩

/-- Without a token, a rejected login: the token step fails and sends at most the login
request. -/
theorem redseaEnsureToken_rejected (env : Env) (s : State) (h : s.redseaToken = "")
    (ha : ¬ LoginAccepted env s.httpCount s.wifiPolls) :
    ∃ sL : State, redseaEnsureToken env s = (false, sL) ∧
      sL.redseaToken = "" ∧
      (sL.trace = s.trace ∨ sL.trace = s.trace ++ [Event.http (redseaLoginRequest s)]) := by
  have hfalse : (redseaLogin env s).1 = false := by
    cases hb : (redseaLogin env s).1
    · rfl
    · exact absurd ((redseaLogin_true_iff env s).1 hb) ha
  have hens : redseaEnsureToken env s = redseaLogin env s := by
    unfold redseaEnsureToken
    rw [if_pos h]
  by_cases hw : env.wifiStatus s.wifiPolls = true
  · have hrej : (env.http s.httpCount).code ≠ 200 ∨
        env.deserializeJson (env.http s.httpCount).body = none := by
      by_cases hc : (env.http s.httpCount).code = 200
      · right
        cases hp : env.deserializeJson (env.http s.httpCount).body with
        | none => rfl
        | some doc => exact absurd ⟨hw, hc, by rw [hp]; rfl⟩ ha
      · left; exact hc
    exact ⟨_, hens.trans (redseaLogin_rejected env s hw hrej), h, Or.inr rfl⟩
  · have hw2 : env.wifiStatus s.wifiPolls = false := by
      cases hx : env.wifiStatus s.wifiPolls
      · rfl
      · exact absurd hx hw
    exact ⟨_, hens.trans (redseaLogin_wifi_down env s hw2), h, Or.inl rfl⟩


theorem protectedRequests_congr (op : CloudAOp) (s t : State) (tr : List Event)
    (h : t.redsea_AQUARIUM_ID = s.redsea_AQUARIUM_ID) :
    protectedRequests op t tr = protectedRequests op s tr := by
  unfold protectedRequests
  rw [CloudAOp.request_url_congr op s t h]

/-- Counting after one protected request. -/
theorem count_after_request (op : CloudAOp) (s t : State) (tr : List Event)
    (h : t.redsea_AQUARIUM_ID = s.redsea_AQUARIUM_ID) :
    redseaLogins (tr ++ [Event.http (op.request t)]) = redseaLogins tr ∧
    protectedRequests op s (tr ++ [Event.http (op.request t)])
      = protectedRequests op s tr + 1 := by
  unfold redseaLogins protectedRequests
  rw [httpCountTo_append, httpCountTo_append,
    httpCountTo_http_other _ _ (CloudAOp.request_url_ne op t),
    httpCountTo_http_same _ _ (CloudAOp.request_url_congr op s t h)]
  exact ⟨rfl, rfl⟩

/-- Counting after one login request. -/
theorem count_after_login (op : CloudAOp) (s t : State) (tr : List Event) :
    redseaLogins (tr ++ [Event.http (redseaLoginRequest t)]) = redseaLogins tr + 1 ∧
    protectedRequests op s (tr ++ [Event.http (redseaLoginRequest t)])
      = protectedRequests op s tr := by
  unfold redseaLogins protectedRequests
  rw [httpCountTo_append, httpCountTo_append,
    httpCountTo_http_same redseaTokenUrl (redseaLoginRequest t) rfl,
    httpCountTo_http_other (op.request s).url (redseaLoginRequest t)
      (fun h => CloudAOp.request_url_ne op s h.symm)]
  exact ⟨rfl, rfl⟩

/-- Started without a token: an accepted login, then `k` rounds of a 401 answer and an
accepted login, then an answer other than 401. The operation returns the outcome of
that answer after `k + 1` logins and `k + 1` protected requests. -/
theorem CloudAOp.run_after_login (op : CloudAOp) (env : Env) :
    ∀ (k fuel : Nat) (s : State), k < fuel → s.redseaToken = "" →
      LoginAccepted env s.httpCount s.wifiPolls →
      RetryRounds env (s.httpCount + 1) (s.wifiPolls + 1) k →
      (env.http (s.httpCount + 1 + 2 * k)).code ≠ 401 →
      ∃ s' : State,
        op.run env fuel s = some (op.outcome env (env.http (s.httpCount + 1 + 2 * k)), s') ∧
        redseaLogins s'.trace = redseaLogins s.trace + (k + 1) ∧
        protectedRequests op s s'.trace = protectedRequests op s s.trace + (k + 1) ∧
        s'.httpCount = s.httpCount + 2 * k + 2 := by
  intro k
  induction k with
  | zero =>
    intro fuel s hk htok hacc _ hfin
    obtain ⟨m, rfl⟩ := Nat.exists_eq_succ_of_ne_zero (Nat.pos_iff_ne_zero.1 hk)
    obtain ⟨sL, hens, hL1, hL2, hL3, hL4⟩ := redseaEnsureToken_accepted env s htok hacc
    have hstep := op.step_other env m s (by rw [hens]) (by
      rw [hens]
      show (env.http sL.httpCount).code ≠ 401
      rw [hL1]
      simpa using hfin)
    rw [hens] at hstep
    refine ⟨(httpSend env (op.request sL) sL).2, ?_, ?_, ?_, ?_⟩
    · rw [hstep]
      show some (op.outcome env (env.http sL.httpCount), _) = _
      rw [hL1]
    · show redseaLogins (sL.trace ++ [Event.http (op.request sL)]) = _
      rw [(count_after_request op s sL sL.trace hL4).1, hL3, (count_after_login op s s s.trace).1]
    · show protectedRequests op s (sL.trace ++ [Event.http (op.request sL)]) = _
      rw [(count_after_request op s sL sL.trace hL4).2, hL3, (count_after_login op s s s.trace).2]
    · show sL.httpCount + 1 = _
      rw [hL1]
  | succ k ih =>
    intro fuel s hk htok hacc hrounds hfin
    obtain ⟨m, rfl⟩ := Nat.exists_eq_succ_of_ne_zero (Nat.not_eq_zero_of_lt hk)
    obtain ⟨sL, hens, hL1, hL2, hL3, hL4⟩ := redseaEnsureToken_accepted env s htok hacc
    obtain ⟨h401, hacc2, hrest⟩ := hrounds
    have hstep := op.step_401 env m s (by rw [hens]) (by
      rw [hens]
      show (env.http sL.httpCount).code = 401
      rw [hL1]
      exact h401)
    rw [hens] at hstep
    have e1 : sL.httpCount + 1 = s.httpCount + 1 + 1 := by rw [hL1]
    obtain ⟨s', r1, r2, r3, r4⟩ := ih m
      { (httpSend env (op.request sL) sL).2 with redseaToken := "" }
      (Nat.lt_of_succ_lt_succ hk) rfl
      (by
        show LoginAccepted env (sL.httpCount + 1) sL.wifiPolls
        rw [e1, hL2]; exact hacc2)
      (by
        show RetryRounds env (sL.httpCount + 1 + 1) (sL.wifiPolls + 1) k
        rw [e1, hL2]; exact hrest)
      (by
        show (env.http (sL.httpCount + 1 + 1 + 2 * k)).code ≠ 401
        rw [e1]
        have : s.httpCount + 1 + 1 + 1 + 2 * k = s.httpCount + 1 + 2 * (k + 1) := by omega
        rw [this]; exact hfin)
    refine ⟨s', ?_, ?_, ?_, ?_⟩
    · have hrun := hstep.trans r1
      rw [hrun]
      have : sL.httpCount + 1 + 1 + 2 * k = s.httpCount + 1 + 2 * (k + 1) := by
        rw [hL1]; omega
      show some (op.outcome env (env.http (sL.httpCount + 1 + 1 + 2 * k)), s') = _
      rw [this]
    · rw [r2]
      show redseaLogins (sL.trace ++ [Event.http (op.request sL)]) + (k + 1) = _
      rw [(count_after_request op s sL sL.trace hL4).1, hL3, (count_after_login op s s s.trace).1]
      omega
    · have hid : ({ (httpSend env (op.request sL) sL).2 with redseaToken := "" } :
          State).redsea_AQUARIUM_ID = s.redsea_AQUARIUM_ID := hL4
      rw [protectedRequests_congr op s _ s'.trace hid,
        protectedRequests_congr op s _ _ hid] at r3
      rw [r3]
      show protectedRequests op s (sL.trace ++ [Event.http (op.request sL)]) + (k + 1) = _
      rw [(count_after_request op s sL sL.trace hL4).2, hL3, (count_after_login op s s s.trace).2]
      omega
    · rw [r4]
      show sL.httpCount + 1 + 2 * k + 2 = _
      rw [hL1]; omega


/-- Started without a token: an accepted login, `k` rounds of a 401 answer and an
accepted login, and one more 401 answer. The operation is then about to call itself
for the `k + 1`-th time, without a token, after `k + 1` logins and `k + 1` protected
requests. -/
theorem CloudAOp.run_rounds (op : CloudAOp) (env : Env) :
    ∀ (k fuel : Nat) (s : State), s.redseaToken = "" →
      LoginAccepted env s.httpCount s.wifiPolls →
      RetryRounds env (s.httpCount + 1) (s.wifiPolls + 1) k →
      (env.http (s.httpCount + 1 + 2 * k)).code = 401 →
      ∃ sk : State,
        op.run env (k + 1 + fuel) s = op.run env fuel sk ∧
        sk.redseaToken = "" ∧
        sk.httpCount = s.httpCount + 2 * k + 2 ∧
        sk.wifiPolls = s.wifiPolls + k + 1 ∧
        sk.redsea_AQUARIUM_ID = s.redsea_AQUARIUM_ID ∧
        redseaLogins sk.trace = redseaLogins s.trace + (k + 1) ∧
        protectedRequests op s sk.trace = protectedRequests op s s.trace + (k + 1) := by
  intro k
  induction k with
  | zero =>
    intro fuel s htok hacc _ hfin
    obtain ⟨sL, hens, hL1, hL2, hL3, hL4⟩ := redseaEnsureToken_accepted env s htok hacc
    have hstep := op.step_401 env fuel s (by rw [hens]) (by
      rw [hens]
      show (env.http sL.httpCount).code = 401
      rw [hL1]
      simpa using hfin)
    rw [hens] at hstep
    refine ⟨{ (httpSend env (op.request sL) sL).2 with redseaToken := "" },
      ?_, rfl, ?_, ?_, hL4, ?_, ?_⟩
    · rw [← hstep, Nat.zero_add, Nat.add_comm]
    · show sL.httpCount + 1 = _
      rw [hL1]
    · show sL.wifiPolls = _
      rw [hL2]
    · show redseaLogins (sL.trace ++ [Event.http (op.request sL)]) = _
      rw [(count_after_request op s sL sL.trace hL4).1, hL3, (count_after_login op s s s.trace).1]
    · show protectedRequests op s (sL.trace ++ [Event.http (op.request sL)]) = _
      rw [(count_after_request op s sL sL.trace hL4).2, hL3, (count_after_login op s s s.trace).2]
  | succ k ih =>
    intro fuel s htok hacc hrounds hfin
    obtain ⟨sL, hens, hL1, hL2, hL3, hL4⟩ := redseaEnsureToken_accepted env s htok hacc
    obtain ⟨h401, hacc2, hrest⟩ := hrounds
    have hstep := op.step_401 env (k + 1 + fuel) s (by rw [hens]) (by
      rw [hens]
      show (env.http sL.httpCount).code = 401
      rw [hL1]
      exact h401)
    rw [hens] at hstep
    have e1 : sL.httpCount + 1 = s.httpCount + 1 + 1 := by rw [hL1]
    obtain ⟨sk, r1, r2, r3, r4, r5, r6, r7⟩ := ih fuel
      { (httpSend env (op.request sL) sL).2 with redseaToken := "" } rfl
      (by
        show LoginAccepted env (sL.httpCount + 1) sL.wifiPolls
        rw [e1, hL2]; exact hacc2)
      (by
        show RetryRounds env (sL.httpCount + 1 + 1) (sL.wifiPolls + 1) k
        rw [e1, hL2]; exact hrest)
      (by
        show (env.http (sL.httpCount + 1 + 1 + 2 * k)).code = 401
        rw [e1]
        have : s.httpCount + 1 + 1 + 1 + 2 * k = s.httpCount + 1 + 2 * (k + 1) := by omega
        rw [this]; exact hfin)
    have hid : ({ (httpSend env (op.request sL) sL).2 with redseaToken := "" } :
        State).redsea_AQUARIUM_ID = s.redsea_AQUARIUM_ID := hL4
    refine ⟨sk, ?_, r2, ?_, ?_, r5.trans hid, ?_, ?_⟩
    · have : k + 1 + 1 + fuel = (k + 1 + fuel) + 1 := by omega
      rw [this]
      exact hstep.trans r1
    · rw [r3]
      show sL.httpCount + 1 + 2 * k + 2 = _
      rw [hL1]; omega
    · rw [r4]
      show sL.wifiPolls + k + 1 = _
      rw [hL2]; omega
    · rw [r6]
      show redseaLogins (sL.trace ++ [Event.http (op.request sL)]) + (k + 1) = _
      rw [(count_after_request op s sL sL.trace hL4).1, hL3, (count_after_login op s s s.trace).1]
      omega
    · rw [protectedRequests_congr op s _ sk.trace hid,
        protectedRequests_congr op s _ _ hid] at r7
      rw [r7]
      show protectedRequests op s (sL.trace ++ [Event.http (op.request sL)]) + (k + 1) = _
      rw [(count_after_request op s sL sL.trace hL4).2, hL3, (count_after_login op s s s.trace).2]
      omega

/-- A rejected login ends the operation: failure, no protected request. -/
theorem CloudAOp.run_login_rejected (op : CloudAOp) (env : Env) (n : Nat) (s t : State)
    (htok : t.redseaToken = "") (hrej : ¬ LoginAccepted env t.httpCount t.wifiPolls) :
    ∃ s' : State, op.run env (n + 1) t = some (false, s') ∧ s'.redseaToken = "" ∧
      protectedRequests op s s'.trace = protectedRequests op s t.trace ∧
      redseaLogins s'.trace ≤ redseaLogins t.trace + 1 := by
  obtain ⟨sR, hens, hR1, hR2⟩ := redseaEnsureToken_rejected env t htok hrej
  have hstep := op.step_fail env n t (by rw [hens])
  rw [hens] at hstep
  refine ⟨sR, hstep, hR1, ?_, ?_⟩
  · rcases hR2 with h | h
    · rw [h]
    · rw [h, (count_after_login op s t t.trace).2]
  · rcases hR2 with h | h
    · rw [h]; omega
    · rw [h, (count_after_login op s t t.trace).1]

/-- The last of `k + 1` rounds starts with a 401 answer, after `k` rounds. -/
theorem RetryRounds_last (env : Env) :
    ∀ (k h w : Nat), RetryRounds env h w (k + 1) →
      RetryRounds env h w k ∧ (env.http (h + 2 * k)).code = 401 ∧
      LoginAccepted env (h + 2 * k + 1) (w + k) := by
  intro k
  induction k with
  | zero =>
    intro h w hr
    obtain ⟨h1, h2, _⟩ := hr
    exact ⟨trivial, h1, h2⟩
  | succ k ih =>
    intro h w hr
    obtain ⟨h1, h2, h3⟩ := hr
    obtain ⟨i1, i2, i3⟩ := ih (h + 2) (w + 1) h3
    refine ⟨⟨h1, h2, i1⟩, ?_, ?_⟩
    · have : h + 2 * (k + 1) = h + 2 + 2 * k := by omega
      rw [this]; exact i2
    · have e1 : h + 2 * (k + 1) + 1 = h + 2 + 2 * k + 1 := by omega
      have e2 : w + (k + 1) = w + 1 + k := by omega
      rw [e1, e2]; exact i3


/-- Started with a cached token and answered 401: the token is cleared and the
operation calls itself. -/
theorem CloudAOp.run_cached_401 (op : CloudAOp) (env : Env) (n : Nat) (s : State)
    (htok : s.redseaToken ≠ "") (h401 : (env.http s.httpCount).code = 401) :
    op.run env (n + 1) s =
      op.run env n { (httpSend env (op.request s) s).2 with redseaToken := "" } := by
  have hens := redseaEnsureToken_cached env s htok
  have hstep := op.step_401 env n s (by rw [hens]) (by rw [hens]; exact h401)
  rw [hens] at hstep
  exact hstep

/-- Started with a cached token: `k` rounds of a 401 answer and an accepted login, then
an answer other than 401. The operation returns the outcome of that answer after `k`
logins and `k + 1` protected requests. -/
theorem CloudAOp.run_cached_returns (op : CloudAOp) (env : Env) (k fuel : Nat) (s : State)
    (hk : k < fuel) (htok : s.redseaToken ≠ "")
    (hrounds : RetryRounds env s.httpCount s.wifiPolls k)
    (hfin : (env.http (s.httpCount + 2 * k)).code ≠ 401) :
    ∃ s' : State,
      op.run env fuel s = some (op.outcome env (env.http (s.httpCount + 2 * k)), s') ∧
      redseaLogins s'.trace = redseaLogins s.trace + k ∧
      protectedRequests op s s'.trace = protectedRequests op s s.trace + (k + 1) ∧
      s'.httpCount = s.httpCount + 2 * k + 1 := by
  obtain ⟨m, rfl⟩ := Nat.exists_eq_succ_of_ne_zero (Nat.not_eq_zero_of_lt hk)
  cases k with
  | zero =>
    have hens := redseaEnsureToken_cached env s htok
    have hstep := op.step_other env m s (by rw [hens]) (by rw [hens]; simpa using hfin)
    rw [hens] at hstep
    refine ⟨(httpSend env (op.request s) s).2, ?_, ?_, ?_, rfl⟩
    · rw [hstep]; rfl
    · show redseaLogins (s.trace ++ [Event.http (op.request s)]) = _
      rw [(count_after_request op s s s.trace rfl).1]; rfl
    · show protectedRequests op s (s.trace ++ [Event.http (op.request s)]) = _
      rw [(count_after_request op s s s.trace rfl).2]
  | succ k =>
    obtain ⟨h401, hacc, hrest⟩ := hrounds
    have hstep := op.run_cached_401 env m s htok h401
    obtain ⟨s', r1, r2, r3, r4⟩ := op.run_after_login env k m
      { (httpSend env (op.request s) s).2 with redseaToken := "" }
      (Nat.lt_of_succ_lt_succ hk) rfl hacc hrest (by
        show (env.http (s.httpCount + 1 + 1 + 2 * k)).code ≠ 401
        have : s.httpCount + 1 + 1 + 2 * k = s.httpCount + 2 * (k + 1) := by omega
        rw [this]; exact hfin)
    have hid : ({ (httpSend env (op.request s) s).2 with redseaToken := "" } :
        State).redsea_AQUARIUM_ID = s.redsea_AQUARIUM_ID := rfl
    refine ⟨s', ?_, ?_, ?_, ?_⟩
    · rw [hstep, r1]
      have : s.httpCount + 1 + 1 + 2 * k = s.httpCount + 2 * (k + 1) := by omega
      show some (op.outcome env (env.http (s.httpCount + 1 + 1 + 2 * k)), s') = _
      rw [this]
    · rw [r2]
      show redseaLogins (s.trace ++ [Event.http (op.request s)]) + (k + 1) = _
      rw [(count_after_request op s s s.trace rfl).1]
    · rw [protectedRequests_congr op s _ s'.trace hid,
        protectedRequests_congr op s _ _ hid] at r3
      rw [r3]
      show protectedRequests op s (s.trace ++ [Event.http (op.request s)]) + (k + 1) = _
      rw [(count_after_request op s s s.trace rfl).2]
      omega
    · rw [r4]
      show s.httpCount + 1 + 2 * k + 2 = _
      omega

/-- Started with a cached token: `k` rounds of a 401 answer and an accepted login, one
more 401 answer and a rejected login. The operation returns failure after `k + 1`
protected requests. -/
theorem CloudAOp.run_cached_login_rejected (op : CloudAOp) (env : Env) (k fuel : Nat)
    (s : State) (hk : k + 1 < fuel) (htok : s.redseaToken ≠ "")
    (hrounds : RetryRounds env s.httpCount s.wifiPolls k)
    (h401 : (env.http (s.httpCount + 2 * k)).code = 401)
    (hrej : ¬ LoginAccepted env (s.httpCount + 2 * k + 1) (s.wifiPolls + k)) :
    ∃ s' : State,
      op.run env fuel s = some (false, s') ∧ s'.redseaToken = "" ∧
      protectedRequests op s s'.trace = protectedRequests op s s.trace + (k + 1) ∧
      redseaLogins s'.trace ≤ redseaLogins s.trace + (k + 1) := by
  obtain ⟨n, rfl⟩ : ∃ n, fuel = k + 1 + n + 1 := ⟨fuel - (k + 2), by omega⟩
  have hid : ({ (httpSend env (op.request s) s).2 with redseaToken := "" } :
      State).redsea_AQUARIUM_ID = s.redsea_AQUARIUM_ID := rfl
  cases k with
  | zero =>
    have hstep := op.run_cached_401 env (n + 1) s htok (by simpa using h401)
    obtain ⟨s', r1, r2, r3, r4⟩ := op.run_login_rejected env n s
      { (httpSend env (op.request s) s).2 with redseaToken := "" } rfl (by
        show ¬ LoginAccepted env (s.httpCount + 1) s.wifiPolls
        simpa using hrej)
    refine ⟨s', ?_, r2, ?_, ?_⟩
    · have : 0 + 1 + n + 1 = (n + 1) + 1 := by omega
      rw [this, hstep, r1]
    · rw [r3]
      show protectedRequests op s (s.trace ++ [Event.http (op.request s)]) = _
      rw [(count_after_request op s s s.trace rfl).2]
    · refine Nat.le_trans r4 ?_
      show redseaLogins (s.trace ++ [Event.http (op.request s)]) + 1 ≤ _
      rw [(count_after_request op s s s.trace rfl).1]
  | succ k =>
    obtain ⟨h1, hacc, hrest⟩ := hrounds
    have hstep := op.run_cached_401 env (k + 1 + (n + 1)) s htok h1
    obtain ⟨sk, q1, q2, q3, q4, q5, q6, q7⟩ := op.run_rounds env k (n + 1)
      { (httpSend env (op.request s) s).2 with redseaToken := "" } rfl hacc hrest (by
        show (env.http (s.httpCount + 1 + 1 + 2 * k)).code = 401
        have : s.httpCount + 1 + 1 + 2 * k = s.httpCount + 2 * (k + 1) := by omega
        rw [this]; exact h401)
    obtain ⟨s', r1, r2, r3, r4⟩ := op.run_login_rejected env n s sk q2 (by
      rw [q3, q4]
      show ¬ LoginAccepted env (s.httpCount + 1 + 2 * k + 2) (s.wifiPolls + k + 1)
      have e1 : s.httpCount + 1 + 2 * k + 2 = s.httpCount + 2 * (k + 1) + 1 := by omega
      rw [e1]; exact hrej)
    rw [protectedRequests_congr op s _ sk.trace hid,
      protectedRequests_congr op s _ _ hid] at q7
    refine ⟨s', ?_, r2, ?_, ?_⟩
    · have : k + 1 + 1 + n + 1 = (k + 1 + (n + 1)) + 1 := by omega
      rw [this, hstep, q1, r1]
    · rw [r3, q7]
      show protectedRequests op s (s.trace ++ [Event.http (op.request s)]) + (k + 1) = _
      rw [(count_after_request op s s s.trace rfl).2]
      omega
    · refine Nat.le_trans r4 ?_
      rw [q6]
      show redseaLogins (s.trace ++ [Event.http (op.request s)]) + (k + 1) + 1 ≤ _
      rw [(count_after_request op s s s.trace rfl).1]
      omega

/-- Started with a cached token against a server that answers every protected request
with 401 and accepts every login: the operation never returns. -/
theorem CloudAOp.run_cached_diverges (op : CloudAOp) (env : Env) (s : State)
    (htok : s.redseaToken ≠ "")
    (hrounds : ∀ k, RetryRounds env s.httpCount s.wifiPolls k) (fuel : Nat) :
    op.run env fuel s = none := by
  cases fuel with
  | zero => exact op.run_zero env s
  | succ m =>
    obtain ⟨h401, hacc, _⟩ := hrounds 1
    rw [op.run_cached_401 env m s htok h401]
    cases m with
    | zero => exact op.run_zero env _
    | succ j =>
      obtain ⟨_, l1, l2⟩ := RetryRounds_last env (j + 1) s.httpCount s.wifiPolls
        (hrounds (j + 2))
      obtain ⟨_, _, hrest⟩ := hrounds (j + 1)
      obtain ⟨sk, q1, _⟩ := op.run_rounds env j 0
        { (httpSend env (op.request s) s).2 with redseaToken := "" } rfl hacc hrest (by
          show (env.http (s.httpCount + 1 + 1 + 2 * j)).code = 401
          have : s.httpCount + 1 + 1 + 2 * j = s.httpCount + 2 * (j + 1) := by omega
          rw [this]; exact l1)
      have : j + 1 = j + 1 + 0 := rfl
      rw [this, q1]
      exact op.run_zero env sk


/-! ## Claims on the Cloud-A client -/

theorem redseaStartOutcome_iff (r : HttpResponse) :
    redseaStartOutcome r = true ↔
      (r.code = 200 ∨ r.code = 201 ∨ r.code = 204 ∨
        (r.code = 400 ∧ ∃ p q, r.body.data = p ++ "already active".data ++ q)) := by
  unfold redseaStartOutcome
  rw [Bool.or_eq_true, Bool.and_eq_true, decide_eq_true_iff, decide_eq_true_iff,
    decide_eq_true_iff, indexOf_nonneg_iff r.body "already active" (by decide)]
  constructor
  · rintro (h | h)
    · rcases h with h | h | h
      · exact Or.inl h
      · exact Or.inr (Or.inl h)
      · exact Or.inr (Or.inr (Or.inl h))
    · exact Or.inr (Or.inr (Or.inr h))
  · rintro (h | h | h | h)
    · exact Or.inl (Or.inl h)
    · exact Or.inl (Or.inr (Or.inl h))
    · exact Or.inl (Or.inr (Or.inr h))
    · exact Or.inr h

/-- C5: when `redseaStartFeeding` sends its start request (a token is cached or the
login succeeded) and the answer has a status other than 401, the call returns after
that one request, and it returns true exactly when the status is 200, 201 or 204, or
the status is 400 and the body contains the text "already active". -/
theorem redseaStartFeeding_outcome (env : Env) (fuel : Nat) (s : State)
    (hsent : (redseaEnsureToken env s).1 = true)
    (h401 : (env.http (redseaEnsureToken env s).2.httpCount).code ≠ 401) :
    ∃ (b : Bool) (s' : State),
      redseaStartFeeding env (fuel + 1) s = some (b, s') ∧
      s'.trace = (redseaEnsureToken env s).2.trace
        ++ [Event.http (redseaStartRequest (redseaEnsureToken env s).2)] ∧
      (b = true ↔
        ((env.http (redseaEnsureToken env s).2.httpCount).code = 200 ∨
         (env.http (redseaEnsureToken env s).2.httpCount).code = 201 ∨
         (env.http (redseaEnsureToken env s).2.httpCount).code = 204 ∨
         ((env.http (redseaEnsureToken env s).2.httpCount).code = 400 ∧
           ∃ p q, (env.http (redseaEnsureToken env s).2.httpCount).body.data
             = p ++ "already active".data ++ q))) :=
  ⟨_, _, redseaStartFeeding_step_other env fuel s hsent h401, rfl,
    redseaStartOutcome_iff _⟩

/-- C5, worked example: with a cached token, a 400 answer saying that feeding is
already active gives success, a 400 answer with another body gives failure. -/
theorem redseaStartFeeding_outcome_witness :
    (∃ s' : State,
      redseaStartFeeding (scriptedEnv [answer 400 "Feeding is already active"] true) 1
        exampleCached = some (true, s')) ∧
    (redseaStartFeeding (scriptedEnv [answer 400 "Unknown aquarium"] true) 1
        exampleCached).map Prod.fst = some false := by
  constructor
  · obtain ⟨b, s', hrun, _, hb⟩ := redseaStartFeeding_outcome
      (scriptedEnv [answer 400 "Feeding is already active"] true) 0 exampleCached
      (by decide) (by decide)
    have hbt : b = true :=
      hb.2 (Or.inr (Or.inr (Or.inr ⟨by decide, "Feeding is ".data, [], by decide⟩)))
    rw [hbt] at hrun
    exact ⟨s', hrun⟩
  · decide

theorem CloudAOp.outcome_200 (op : CloudAOp) (env : Env) (r : HttpResponse)
    (hc : r.code = 200)
    (hbody : op = CloudAOp.checkStatus → ∃ doc, env.deserializeJson r.body = some doc ∧
      ((doc.get "properties").get "feeding").orBool false = true) :
    op.outcome env r = true := by
  cases op with
  | checkStatus =>
    obtain ⟨doc, hd, hf⟩ := hbody rfl
    show redseaStatusOutcome env r = true
    unfold redseaStatusOutcome
    rw [hd]
    simp [hc, hf]
  | startFeeding =>
    show redseaStartOutcome r = true
    unfold redseaStartOutcome
    simp [hc]
  | stopFeeding =>
    show redseaStopOutcome r = true
    unfold redseaStopOutcome
    simp [hc]

/-- C6: for each Cloud-A operation started with a cached token, if the first protected
request is answered 401, the login that follows is accepted and the repeated request is
answered 200 (for the status check: with a body reporting feeding as active), then the
operation returns true after exactly one login request and two protected requests. -/
theorem cloudA_retry_once (op : CloudAOp) (env : Env) (fuel : Nat) (s : State)
    (htok : s.redseaToken ≠ "")
    (h401 : (env.http s.httpCount).code = 401)
    (hlogin : LoginAccepted env (s.httpCount + 1) s.wifiPolls)
    (h200 : (env.http (s.httpCount + 2)).code = 200)
    (hbody : op = CloudAOp.checkStatus →
      ∃ doc, env.deserializeJson (env.http (s.httpCount + 2)).body = some doc ∧
        ((doc.get "properties").get "feeding").orBool false = true) :
    ∃ s' : State,
      op.run env (fuel + 2) s = some (true, s') ∧
      redseaLogins s'.trace = redseaLogins s.trace + 1 ∧
      protectedRequests op s s'.trace = protectedRequests op s s.trace + 2 ∧
      s'.httpCount = s.httpCount + 3 := by
  obtain ⟨s', r1, r2, r3, r4⟩ := op.run_cached_returns env 1 (fuel + 2) s (by omega) htok
    ⟨h401, hlogin, trivial⟩ (by
      show (env.http (s.httpCount + 2)).code ≠ 401
      rw [h200]; decide)
  have hout : op.outcome env (env.http (s.httpCount + 2 * 1)) = true :=
    op.outcome_200 env _ h200 hbody
  rw [hout] at r1
  exact ⟨s', r1, r2, r3, r4⟩

/-- C6, worked example: each of the three operations, started with the token `tok1`,
answered 401, then an accepted login, then 200. -/
theorem cloudA_retry_once_witness :
    (∃ s' : State,
      redseaCheckFeedingStatus (scriptedEnv scriptOnce401 true) 2 exampleCached
        = some (true, s') ∧
      redseaLogins s'.trace = 1 ∧
      protectedRequests CloudAOp.checkStatus exampleCached s'.trace = 2 ∧
      s'.httpCount = 3) ∧
    (∃ s' : State,
      redseaStartFeeding (scriptedEnv scriptOnce401 true) 2 exampleCached = some (true, s') ∧
      redseaLogins s'.trace = 1 ∧
      protectedRequests CloudAOp.startFeeding exampleCached s'.trace = 2 ∧
      s'.httpCount = 3) ∧
    (∃ s' : State,
      redseaStopFeeding (scriptedEnv scriptOnce401 true) 2 exampleCached = some (true, s') ∧
      redseaLogins s'.trace = 1 ∧
      protectedRequests CloudAOp.stopFeeding exampleCached s'.trace = 2 ∧
      s'.httpCount = 3) :=
  ⟨cloudA_retry_once CloudAOp.checkStatus (scriptedEnv scriptOnce401 true) 0
      exampleCached (by decide) (by decide) ⟨by decide, by decide, by decide⟩ (by decide)
      (fun _ => ⟨Json.obj [("properties", Json.obj [("feeding", Json.bool true)])],
        rfl, rfl⟩),
   cloudA_retry_once CloudAOp.startFeeding (scriptedEnv scriptOnce401 true) 0
      exampleCached (by decide) (by decide) ⟨by decide, by decide, by decide⟩ (by decide)
      (fun h => by cases h),
   cloudA_retry_once CloudAOp.stopFeeding (scriptedEnv scriptOnce401 true) 0
      exampleCached (by decide) (by decide) ⟨by decide, by decide, by decide⟩ (by decide)
      (fun h => by cases h)⟩


/-- C7, counterexample: `redseaStartFeeding` starts with a cached token; the start
request is answered 401, the login is accepted, the repeated request is answered 401
again. The call does not return failure: it logs in a second time, sends a third start
request and returns the outcome of that one (true). -/
theorem redseaStartFeeding_retry_counterexample :
    (redseaStartFeeding (scriptedEnv scriptTwice401 true) 3 exampleCached).map
      (fun r => (r.1, redseaLogins r.2.trace,
        protectedRequests CloudAOp.startFeeding exampleCached r.2.trace))
      = some (true, 2, 3) := by
  decide

/-- C7, amended: for each Cloud-A operation started with a cached token, every 401
answer clears the token and makes the operation call itself, which logs in afresh and
repeats the protected request; a further 401 is handled in the same way. After `k`
rounds of a 401 answer followed by an accepted login:
* an answer other than 401 makes the call return the outcome of that answer, after
  exactly `k` logins and `k + 1` protected requests;
* a 401 answer followed by a rejected login makes the call return false, after `k + 1`
  protected requests and at most `k + 1` login requests;
and when such rounds go on for ever the call never returns. -/
theorem cloudA_retry_cycle (op : CloudAOp) (env : Env) (s : State) (k : Nat)
    (htok : s.redseaToken ≠ "")
    (hrounds : RetryRounds env s.httpCount s.wifiPolls k) :
    ((env.http (s.httpCount + 2 * k)).code ≠ 401 →
      ∀ fuel, k < fuel → ∃ s' : State,
        op.run env fuel s = some (op.outcome env (env.http (s.httpCount + 2 * k)), s') ∧
        redseaLogins s'.trace = redseaLogins s.trace + k ∧
        protectedRequests op s s'.trace = protectedRequests op s s.trace + (k + 1)) ∧
    ((env.http (s.httpCount + 2 * k)).code = 401 →
      ¬ LoginAccepted env (s.httpCount + 2 * k + 1) (s.wifiPolls + k) →
      ∀ fuel, k + 1 < fuel → ∃ s' : State,
        op.run env fuel s = some (false, s') ∧
        protectedRequests op s s'.trace = protectedRequests op s s.trace + (k + 1) ∧
        redseaLogins s'.trace ≤ redseaLogins s.trace + (k + 1)) ∧
    ((∀ j, RetryRounds env s.httpCount s.wifiPolls j) →
      ∀ fuel, op.run env fuel s = none) := by
  refine ⟨?_, ?_, ?_⟩
  · intro hfin fuel hk
    obtain ⟨s', r1, r2, r3, _⟩ := op.run_cached_returns env k fuel s hk htok hrounds hfin
    exact ⟨s', r1, r2, r3⟩
  · intro h401 hrej fuel hk
    obtain ⟨s', r1, _, r3, r4⟩ :=
      op.run_cached_login_rejected env k fuel s hk htok hrounds h401 hrej
    exact ⟨s', r1, r3, r4⟩
  · intro hall fuel
    exact op.run_cached_diverges env s htok hall fuel

/-- C7 amended, worked example: two rounds of 401 and accepted login, then 200;
`redseaStartFeeding` and `redseaStopFeeding` return true after two logins and three
protected requests. -/
theorem cloudA_retry_cycle_witness :
    RetryRounds (scriptedEnv scriptTwice401 true) 0 0 2 ∧
    (∃ s' : State,
      redseaStartFeeding (scriptedEnv scriptTwice401 true) 3 exampleCached = some (true, s') ∧
      redseaLogins s'.trace = 2 ∧
      protectedRequests CloudAOp.startFeeding exampleCached s'.trace = 3) ∧
    (∃ s' : State,
      redseaStopFeeding (scriptedEnv scriptTwice401 true) 3 exampleCached = some (true, s') ∧
      redseaLogins s'.trace = 2 ∧
      protectedRequests CloudAOp.stopFeeding exampleCached s'.trace = 3) := by
  have hr : RetryRounds (scriptedEnv scriptTwice401 true) 0 0 2 :=
    ⟨by decide, ⟨by decide, by decide, by decide⟩,
      by decide, ⟨by decide, by decide, by decide⟩, trivial⟩
  exact ⟨hr,
    (cloudA_retry_cycle CloudAOp.startFeeding (scriptedEnv scriptTwice401 true)
      exampleCached 2 (by decide) hr).1 (by decide) 3 (by decide),
    (cloudA_retry_cycle CloudAOp.stopFeeding (scriptedEnv scriptTwice401 true)
      exampleCached 2 (by decide) hr).1 (by decide) 3 (by decide)⟩

/-- C8: `redseaLogin` returns false and leaves `redseaToken` as it was when WiFi is
down, when the status of the token request is not 200 and when the body of a 200 answer
does not parse; when it returns true the answer was a 200 whose body parsed, and
`redseaToken` holds the `access_token` member of that body converted to a string.
Hence without a cached token and with a failing login each of the three Cloud-A
operations returns false, and the only request it may have sent is the login request. -/
theorem redseaLogin_failure (env : Env) (s : State) :
    ((env.wifiStatus s.wifiPolls = false ∨ (env.http s.httpCount).code ≠ 200 ∨
        env.deserializeJson (env.http s.httpCount).body = none) →
      (redseaLogin env s).1 = false ∧ (redseaLogin env s).2.redseaToken = s.redseaToken) ∧
    ((redseaLogin env s).1 = true →
      env.wifiStatus s.wifiPolls = true ∧ (env.http s.httpCount).code = 200 ∧
      ∃ doc, env.deserializeJson (env.http s.httpCount).body = some doc ∧
        (redseaLogin env s).2.redseaToken
          = (doc.get "access_token").asString env.serializeJson) ∧
    (s.redseaToken = "" → (redseaLogin env s).1 = false →
      ∀ (op : CloudAOp) (fuel : Nat),
        op.run env (fuel + 1) s = some (false, (redseaLogin env s).2) ∧
        ((redseaLogin env s).2.trace = s.trace ∨
         (redseaLogin env s).2.trace = s.trace ++ [Event.http (redseaLoginRequest s)])) := by
  refine ⟨?_, ?_, ?_⟩
  · intro h
    by_cases hw : env.wifiStatus s.wifiPolls = true
    · have hrej : (env.http s.httpCount).code ≠ 200 ∨
          env.deserializeJson (env.http s.httpCount).body = none := by
        rcases h with h | h | h
        · rw [hw] at h; cases h
        · exact Or.inl h
        · exact Or.inr h
      rw [redseaLogin_rejected env s hw hrej]
      exact ⟨rfl, rfl⟩
    · have hw2 : env.wifiStatus s.wifiPolls = false := by
        cases hx : env.wifiStatus s.wifiPolls
        · rfl
        · exact absurd hx hw
      rw [redseaLogin_wifi_down env s hw2]
      exact ⟨rfl, rfl⟩
  · intro h
    obtain ⟨hw, hc, hp⟩ := (redseaLogin_true_iff env s).1 h
    refine ⟨hw, hc, ?_⟩
    cases hd : env.deserializeJson (env.http s.httpCount).body with
    | none => rw [hd] at hp; cases hp
    | some doc =>
      refine ⟨doc, rfl, ?_⟩
      rw [redseaLogin_accepted env s doc hw hc hd]
  · intro htok hfail op fuel
    have hens : redseaEnsureToken env s = redseaLogin env s := by
      unfold redseaEnsureToken
      rw [if_pos htok]
    constructor
    · have hstep := op.step_fail env fuel s (by rw [hens]; exact hfail)
      rw [hens] at hstep
      exact hstep
    · have hrej : ¬ LoginAccepted env s.httpCount s.wifiPolls := by
        intro ha
        have := (redseaLogin_true_iff env s).2 ha
        rw [hfail] at this
        cases this
      obtain ⟨sR, hR, _, htr⟩ := redseaEnsureToken_rejected env s htok hrej
      rw [hens] at hR
      rw [hR]
      exact htr

/-- C8, worked example: no token is cached and the token endpoint answers 500; the
login fails, the token stays empty and `redseaStartFeeding` returns false after the
login request alone. -/
theorem redseaLogin_failure_witness :
    (redseaLogin (scriptedEnv [answer 500 "oops"] true) exampleCloudAOnly).1 = false ∧
    (redseaLogin (scriptedEnv [answer 500 "oops"] true) exampleCloudAOnly).2.redseaToken = "" ∧
    ∃ s' : State,
      redseaStartFeeding (scriptedEnv [answer 500 "oops"] true) 1 exampleCloudAOnly
        = some (false, s') ∧
      s'.trace = [Event.http (redseaLoginRequest exampleCloudAOnly)] := by
  have h := redseaLogin_failure (scriptedEnv [answer 500 "oops"] true) exampleCloudAOnly
  have h1 := h.1 (Or.inr (Or.inl (by decide)))
  refine ⟨h1.1, h1.2, _, (h.2.2 rfl h1.1 CloudAOp.startFeeding 0).1, ?_⟩
  decide

/-- C9, the code at the failing input: when the token endpoint answers 200 with a JSON
object that has no `access_token` member, `redseaLogin` returns true and stores the
string form of the missing member (the serialized null variant) as the token. -/
theorem redseaLogin_missing_access_token (env : Env) (s : State)
    (members : List (String × Json))
    (hw : env.wifiStatus s.wifiPolls = true)
    (hc : (env.http s.httpCount).code = 200)
    (hp : env.deserializeJson (env.http s.httpCount).body = some (Json.obj members))
    (hmiss : members.lookup "access_token" = none) :
    (redseaLogin env s).1 = true ∧
    (redseaLogin env s).2.redseaToken = env.serializeJson Json.null := by
  rw [redseaLogin_accepted env s (Json.obj members) hw hc hp]
  refine ⟨rfl, ?_⟩
  show ((Json.obj members).get "access_token").asString env.serializeJson = _
  unfold Json.get
  simp only []
  rw [hmiss]
  rfl

/-- C9, worked example: the token endpoint answers 200 with the body `{}`; the login
reports success and the token becomes the text `null`. -/
theorem redseaLogin_missing_access_token_witness :
    exampleCloudAOnly.redseaToken = "" ∧
    (redseaLogin (scriptedEnv [answer 200 "\x7b\x7d"] true) exampleCloudAOnly).1 = true ∧
    (redseaLogin (scriptedEnv [answer 200 "\x7b\x7d"] true) exampleCloudAOnly).2.redseaToken
      = "null" :=
  ⟨rfl, redseaLogin_missing_access_token (scriptedEnv [answer 200 "\x7b\x7d"] true)
    exampleCloudAOnly [] (by decide) (by decide) rfl rfl⟩


/-! ## Claims on the Cloud-B client -/

/-- No occurrence of the pattern starts before the offset `strstr` returns. -/
theorem strstr_le (pat : List Char) :
    ∀ (l : List Char) (k : Nat), strstr pat l = some k →
      ∀ p q, l = p ++ pat ++ q → k ≤ p.length := by
  intro l
  induction l with
  | nil =>
    intro k h p q hpq
    have hp : p = [] := by
      cases p with
      | nil => rfl
      | cons a as => simp at hpq
    have hpat : pat = [] := by
      subst hp
      cases pat with
      | nil => rfl
      | cons a as => simp at hpq
    subst hpat
    simp [strstr] at h
    omega
  | cons x xs ih =>
    intro k h p q hpq
    unfold strstr at h
    by_cases hp : pat.isPrefixOf (x :: xs) = true
    · rw [if_pos hp] at h
      cases h
      exact Nat.zero_le _
    · rw [if_neg hp] at h
      cases hj : strstr pat xs with
      | none => rw [hj] at h; cases h
      | some j =>
        rw [hj] at h
        simp only [Option.map_some', Option.some.injEq] at h
        subst h
        cases p with
        | nil =>
          exfalso
          apply hp
          exact (isPrefixOf_iff_append pat (x :: xs)).2 ⟨q, by simpa using hpq⟩
        | cons y p' =>
          simp only [List.cons_append, List.cons.injEq] at hpq
          have := ih j hj p' q hpq.2
          simpa using this

/-- Function `indexOf` returns the position of the first occurrence. -/
theorem indexOf_first (s pat : String) (pre rest : List Char) (hpat : pat.data ≠ [])
    (h : s.data = pre ++ pat.data ++ rest)
    (hmin : ∀ p q, s.data = p ++ pat.data ++ q → pre.length ≤ p.length) :
    indexOf s pat = (pre.length : Int) := by
  unfold indexOf indexOfFrom
  have hlen : ¬ 0 ≥ s.data.length := by
    intro h0
    have hnil : s.data = [] := List.length_eq_zero.1 (Nat.le_zero.1 h0)
    rw [hnil] at h
    apply hpat
    cases hd : pat.data with
    | nil => rfl
    | cons a as => rw [hd] at h; simp at h
  rw [if_neg hlen, List.drop_zero, strstr_first pat.data s.data pre rest h hmin]
  simp

/-- The characters between the end of `SID=` and the next `;` (or the end of the
header), as `tunzeLogin` cuts them out. -/
theorem substring_sid (c : String) (pre rest : List Char)
    (h : c.data = pre ++ "SID=".data ++ rest) :
    substring c (pre.length + 4)
        (if indexOfChar c ';' (pre.length + 4) < 0 then (c.data.length : Int)
         else indexOfChar c ';' (pre.length + 4)).toNat
      = String.mk (rest.takeWhile (fun x => decide (x ≠ ';'))) := by
  have hlen : c.data.length = pre.length + 4 + rest.length := by
    rw [h]; simp [List.length_append]; omega
  have hdrop : c.data.drop (pre.length + 4) = rest := by
    rw [h]
    have : (pre ++ "SID=".data).length = pre.length + 4 := by simp [List.length_append]
    rw [← this, List.drop_left]
  unfold indexOfChar indexOfFrom
  by_cases hr : rest = []
  · subst hr
    have hge : pre.length + 4 ≥ c.data.length := by rw [hlen]; simp
    rw [if_pos hge]
    simp only [Int.reduceNeg, Int.reduceLT, if_true, Int.toNat_ofNat, List.takeWhile_nil]
    unfold substring
    simp only []
    rw [if_pos (by
      split
      · rename_i hgt; omega
      · exact hge)]
  · have hpos : 0 < rest.length := List.length_pos.2 hr
    have hlt : ¬ pre.length + 4 ≥ c.data.length := by rw [hlen]; omega
    rw [if_neg hlt, hdrop]
    have hsing : (String.singleton ';').data = [';'] := rfl
    rw [hsing]
    cases hk : strstr [';'] rest with
    | none =>
      simp only [Int.reduceNeg, Int.reduceLT, if_true, Int.toNat_ofNat]
      rw [strstr_char_none ';' rest hk]
      unfold substring
      simp only []
      have hle : ¬ pre.length + 4 > c.data.length := by omega
      rw [if_neg hle, if_neg hle, if_neg hlt, Nat.min_self, List.take_length, hdrop]
    | some k =>
      obtain ⟨htake, hklt⟩ := strstr_char_some ';' rest k hk
      have hnn : ¬ ((pre.length + 4 + k : Nat) : Int) < 0 := by omega
      simp only []
      rw [if_neg hnn, Int.toNat_ofNat, ← htake]
      unfold substring
      simp only []
      have hle : ¬ pre.length + 4 > pre.length + 4 + k := by omega
      rw [if_neg hle, if_neg hle, if_neg hlt]
      have hmin : min (pre.length + 4 + k) c.data.length = pre.length + 4 + k := by
        rw [hlen]; omega
      rw [hmin, List.drop_take, hdrop]
      congr 2
      omega


/-- C10: `tunzeLogin` with WiFi up, a login answer of status 200 or 302 and a
`Set-Cookie` header whose first occurrence of `SID=` is preceded by `pre` and followed
by `rest`: the result is true and `tunzeSID` becomes the characters of `rest` up to but
excluding the first `;` (all of `rest` when it has no `;`). With WiFi down, another
status, or no `SID=` in the header: the result is false and `tunzeSID` is unchanged. -/
theorem tunzeLogin_sid (env : Env) (s : State) :
    (env.wifiStatus s.wifiPolls = true →
      ((env.http s.httpCount).code = 200 ∨ (env.http s.httpCount).code = 302) →
      ∀ pre rest : List Char,
        (env.http s.httpCount).setCookie.data = pre ++ "SID=".data ++ rest →
        (∀ p q, (env.http s.httpCount).setCookie.data = p ++ "SID=".data ++ q →
          pre.length ≤ p.length) →
        (tunzeLogin env s).1 = true ∧
        (tunzeLogin env s).2.tunzeSID
          = String.mk (rest.takeWhile (fun x => decide (x ≠ ';')))) ∧
    ((env.wifiStatus s.wifiPolls = false ∨
        ((env.http s.httpCount).code ≠ 200 ∧ (env.http s.httpCount).code ≠ 302) ∨
        ¬ ∃ p q, (env.http s.httpCount).setCookie.data = p ++ "SID=".data ++ q) →
      (tunzeLogin env s).1 = false ∧ (tunzeLogin env s).2.tunzeSID = s.tunzeSID) := by
  have hr : (httpSend env (tunzeLoginRequest env (wifiConnected env s).2)
      (wifiConnected env s).2).1 = env.http s.httpCount := rfl
  constructor
  · intro hw hcode pre rest hdec hmin
    have hw' : ¬ (wifiConnected env s).1 = false := by
      show ¬ env.wifiStatus s.wifiPolls = false
      rw [hw]; decide
    have hidx := indexOf_first (env.http s.httpCount).setCookie "SID=" pre rest
      (by decide) hdec hmin
    have hsub := substring_sid (env.http s.httpCount).setCookie pre rest hdec
    have hnat : ((pre.length : Int) + 4).toNat = pre.length + 4 := by omega
    unfold tunzeLogin
    simp only []
    rw [if_neg hw', hr, if_pos hcode, hidx, if_pos (Int.natCast_nonneg _), hnat]
    exact ⟨rfl, hsub⟩
  · intro h
    by_cases hw : env.wifiStatus s.wifiPolls = false
    · have hw' : (wifiConnected env s).1 = false := hw
      unfold tunzeLogin
      simp only []
      rw [if_pos hw']
      exact ⟨rfl, rfl⟩
    · have hw' : ¬ (wifiConnected env s).1 = false := hw
      unfold tunzeLogin
      simp only []
      rw [if_neg hw', hr]
      by_cases hcode : (env.http s.httpCount).code = 200 ∨ (env.http s.httpCount).code = 302
      · rw [if_pos hcode]
        have hno : ¬ ∃ p q, (env.http s.httpCount).setCookie.data = p ++ "SID=".data ++ q := by
          rcases h with h | h | h
          · exact absurd h hw
          · rcases hcode with hc | hc
            · exact absurd hc h.1
            · exact absurd hc h.2
          · exact h
        have hneg : ¬ indexOf (env.http s.httpCount).setCookie "SID=" ≥ 0 := by
          intro hge
          exact hno ((indexOf_nonneg_iff _ "SID=" (by decide)).1 hge)
        rw [if_neg hneg]
        exact ⟨rfl, rfl⟩
      · rw [if_neg hcode]
        exact ⟨rfl, rfl⟩


/-- C10, worked example: the hub answers 200 with the header
`lang=en; SID=abc123; Path=/; HttpOnly`, so the session becomes `abc123`; a 401 answer
leaves the session empty. -/
theorem tunzeLogin_sid_witness :
    ((tunzeLogin (scriptedEnv [exampleHubLogin] true) exampleCloudBOnly).1 = true ∧
     (tunzeLogin (scriptedEnv [exampleHubLogin] true) exampleCloudBOnly).2.tunzeSID
       = "abc123") ∧
    ((tunzeLogin (scriptedEnv [answer 401 ""] true) exampleCloudBOnly).1 = false ∧
     (tunzeLogin (scriptedEnv [answer 401 ""] true) exampleCloudBOnly).2.tunzeSID = "") := by
  constructor
  · have h := (tunzeLogin_sid (scriptedEnv [exampleHubLogin] true) exampleCloudBOnly).1
      (by decide) (Or.inl (by decide)) "lang=en; ".data "abc123; Path=/; HttpOnly".data
      (by decide)
      (strstr_le "SID=".data "lang=en; SID=abc123; Path=/; HttpOnly".data 9 (by decide))
    exact ⟨h.1, h.2.trans (by decide)⟩
  · exact (tunzeLogin_sid (scriptedEnv [answer 401 ""] true) exampleCloudBOnly).2
      (Or.inr (Or.inl ⟨by decide, by decide⟩))


/-! ## Which backend an effect belongs to -/

theorem Appends.nil (P : Event → Prop) (s : State) : Appends P s s :=
  ⟨[], (List.append_nil _).symm, fun _ h => absurd h (List.not_mem_nil _)⟩

theorem Appends.of_trace_eq (P : Event → Prop) {s s' : State} (h : s'.trace = s.trace) :
    Appends P s s' :=
  ⟨[], by rw [h, List.append_nil], fun _ h => absurd h (List.not_mem_nil _)⟩

theorem Appends.andThen {P : Event → Prop} {a b c : State} (h1 : Appends P a b)
    (h2 : Appends P b c) : Appends P a c := by
  obtain ⟨d1, e1, p1⟩ := h1
  obtain ⟨d2, e2, p2⟩ := h2
  refine ⟨d1 ++ d2, by rw [e2, e1, List.append_assoc], ?_⟩
  intro e he
  rcases List.mem_append.1 he with h | h
  · exact p1 e h
  · exact p2 e h

theorem appends_log (P : Event → Prop) (s : State) (e : Event) (hP : P e) :
    Appends P s (s.log e) :=
  ⟨[e], rfl, fun x hx => by rw [List.mem_singleton.1 hx]; exact hP⟩

theorem appends_httpSend (P : Event → Prop) (env : Env) (req : HttpRequest) (s : State)
    (hP : P (Event.http req)) : Appends P s (httpSend env req s).2 :=
  ⟨[Event.http req], rfl, fun x hx => by rw [List.mem_singleton.1 hx]; exact hP⟩

theorem ofCloudA_login (s : State) : (Event.http (redseaLoginRequest s)).ofCloudA :=
  ⟨"/oauth/token".data, by simp [redseaLoginRequest, redseaTokenUrl, String.data_append]⟩

theorem ofCloudA_request (op : CloudAOp) (s : State) :
    (Event.http (op.request s)).ofCloudA := by
  cases op
  · exact ⟨("/aquarium/" ++ s.redsea_AQUARIUM_ID).data, by
      simp [CloudAOp.request, redseaStatusRequest, String.data_append, List.append_assoc]⟩
  · exact ⟨("/aquarium/" ++ s.redsea_AQUARIUM_ID ++ "/feeding/start").data, by
      simp [CloudAOp.request, redseaStartRequest, String.data_append, List.append_assoc]⟩
  · exact ⟨("/aquarium/" ++ s.redsea_AQUARIUM_ID ++ "/feeding/stop").data, by
      simp [CloudAOp.request, redseaStopRequest, String.data_append, List.append_assoc]⟩

theorem ofLocal_command (ip command : String) :
    (Event.http (tasmotaCommandRequest ip command)).ofLocal :=
  ⟨(ip ++ "/cm?cmnd=" ++ urlEncode command).data, by
    simp [tasmotaCommandRequest, String.data_append, List.append_assoc]⟩

/-- The three kinds of effects exclude each other. -/
theorem backends_disjoint (e : Event) :
    ¬ (e.ofCloudA ∧ e.ofCloudB) ∧ ¬ (e.ofCloudA ∧ e.ofLocal) ∧ ¬ (e.ofCloudB ∧ e.ofLocal) := by
  cases e with
  | call fn => exact ⟨fun h => h.1, fun h => h.1, fun h => h.1⟩
  | wsBegin a b c d => exact ⟨fun h => h.1, fun h => h.1, fun h => h.2⟩
  | wsSend m => exact ⟨fun h => h.1, fun h => h.1, fun h => h.2⟩
  | http req =>
    refine ⟨?_, ?_, ?_⟩
    · rintro ⟨⟨rest, h1⟩, h2⟩
      have h3 : req.url = "https://tunze-hub.com/action/login" := h2
      rw [h3] at h1
      simp [redsea_API_BASE] at h1
    · rintro ⟨⟨r1, h1⟩, ⟨r2, h2⟩⟩
      rw [h1] at h2
      simp [redsea_API_BASE] at h2
    · rintro ⟨h1, ⟨r2, h2⟩⟩
      have h3 : req.url = "https://tunze-hub.com/action/login" := h1
      rw [h3] at h2
      simp at h2

theorem appends_redseaLogin (env : Env) (s : State) :
    Appends Event.ofCloudA s (redseaLogin env s).2 := by
  have h1 : Appends Event.ofCloudA s (wifiConnected env s).2 := Appends.of_trace_eq _ rfl
  have h2 := appends_httpSend Event.ofCloudA env (redseaLoginRequest (wifiConnected env s).2)
    (wifiConnected env s).2 (ofCloudA_login _)
  unfold redseaLogin
  simp only []
  split
  · exact h1
  · split
    · split
      · exact h1.andThen (h2.andThen (Appends.of_trace_eq _ rfl))
      · exact h1.andThen h2
    · exact h1.andThen h2

theorem appends_redseaEnsureToken (env : Env) (s : State) :
    Appends Event.ofCloudA s (redseaEnsureToken env s).2 := by
  unfold redseaEnsureToken
  split
  · exact appends_redseaLogin env s
  · exact Appends.nil _ s

theorem appends_cloudA_run (op : CloudAOp) (env : Env) (fuel : Nat) :
    ∀ (s : State) (b : Bool) (s' : State),
      op.run env fuel s = some (b, s') → Appends Event.ofCloudA s s' := by
  induction fuel with
  | zero => intro s b s' h; rw [op.run_zero env s] at h; cases h
  | succ n ih =>
    intro s b s' h
    have h1 := appends_redseaEnsureToken env s
    have h2 := appends_httpSend Event.ofCloudA env (op.request (redseaEnsureToken env s).2)
      (redseaEnsureToken env s).2 (ofCloudA_request op _)
    cases ht : (redseaEnsureToken env s).1 with
    | false =>
      rw [op.step_fail env n s ht] at h
      cases h
      exact h1
    | true =>
      by_cases hc : (env.http (redseaEnsureToken env s).2.httpCount).code = 401
      · rw [op.step_401 env n s ht hc] at h
        have h3 := ih _ _ _ h
        exact h1.andThen (h2.andThen (Appends.andThen (Appends.of_trace_eq _ rfl) h3))
      · rw [op.step_other env n s ht hc] at h
        cases h
        exact h1.andThen h2


theorem appends_tunzeLogin (env : Env) (s : State) :
    Appends Event.ofCloudB s (tunzeLogin env s).2 := by
  have h1 : Appends Event.ofCloudB s (wifiConnected env s).2 := Appends.of_trace_eq _ rfl
  have h2 := appends_httpSend Event.ofCloudB env (tunzeLoginRequest env (wifiConnected env s).2)
    (wifiConnected env s).2 rfl
  unfold tunzeLogin
  simp only []
  split
  · exact h1
  · split
    · split
      · exact h1.andThen (h2.andThen (Appends.of_trace_eq _ rfl))
      · exact h1.andThen h2
    · exact h1.andThen h2

theorem appends_tunzeConnect (env : Env) (s : State) :
    Appends Event.ofCloudB s (tunzeConnect env s) := by
  have h1 : Appends Event.ofCloudB s (wifiConnected env s).2 := Appends.of_trace_eq _ rfl
  unfold tunzeConnect
  simp only []
  by_cases hw : (wifiConnected env s).1 = false
  · rw [if_pos hw]; exact h1
  · rw [if_neg hw]
    by_cases hs : (wifiConnected env s).2.tunzeSID = ""
    · rw [if_pos hs]
      have h2 := appends_tunzeLogin env (wifiConnected env s).2
      by_cases hl : (tunzeLogin env (wifiConnected env s).2).1 = false
      · rw [if_pos hl]; exact h1.andThen h2
      · rw [if_neg hl]
        exact h1.andThen (h2.andThen (appends_log _ _ _ trivial))
    · rw [if_neg hs]
      simp only [Bool.true_eq_false, if_false]
      exact h1.andThen (appends_log _ _ _ trivial)

theorem appends_tunzeWebSocketEvent (env : Env) (type : WStype) (payload : String)
    (s : State) : Appends Event.ofCloudB s (tunzeWebSocketEvent env type payload s) := by
  unfold tunzeWebSocketEvent
  cases type with
  | ERROR => exact Appends.nil _ s
  | OTHER => exact Appends.nil _ s
  | DISCONNECTED => exact Appends.of_trace_eq _ rfl
  | CONNECTED => exact appends_log _ _ _ trivial
  | TEXT =>
    simp only []
    split
    · rename_i doc _
      have h1 : Appends Event.ofCloudB s (if (doc.get "ping").isArray = true then
          (readMillis env s).2.log
            (Event.wsSend ("\x7b\"pong\":[" ++ toString (readMillis env s).1 ++ "]\x7d"))
          else s) := by
        split
        · exact Appends.andThen (Appends.of_trace_eq _ rfl) (appends_log _ _ _ trivial)
        · exact Appends.nil _ s
      split
      · exact h1.andThen (Appends.of_trace_eq _ rfl)
      · exact h1
    · exact Appends.nil _ s

theorem appends_dispatchSocketEvents (env : Env) (evs : List (WStype × String)) :
    ∀ s : State, Appends Event.ofCloudB s (dispatchSocketEvents env evs s) := by
  induction evs with
  | nil => intro s; exact Appends.nil _ s
  | cons e rest ih =>
    intro s
    exact (appends_tunzeWebSocketEvent env e.1 e.2 s).andThen (ih _)

theorem appends_waitForSocket (env : Env) (s : State) :
    Appends Event.ofCloudB s (waitForSocket env s) :=
  Appends.andThen (Appends.of_trace_eq _ rfl) (appends_dispatchSocketEvents env _ _)

theorem appends_tunzeStartFeeding (env : Env) (s : State) :
    Appends Event.ofCloudB s (tunzeStartFeeding env s) := by
  have h1 : Appends Event.ofCloudB s
      (if s.tunzeConnected = false then waitForSocket env (tunzeConnect env s) else s) := by
    split
    · exact (appends_tunzeConnect env s).andThen (appends_waitForSocket env _)
    · exact Appends.nil _ s
  unfold tunzeStartFeeding
  simp only []
  generalize (if s.tunzeConnected = false then waitForSocket env (tunzeConnect env s)
      else s) = s1 at h1 ⊢
  by_cases hc : s1.tunzeConnected = false
  · rw [if_pos hc]; exact h1
  · rw [if_neg hc]
    exact h1.andThen (Appends.andThen (Appends.of_trace_eq _ rfl) (appends_log _ _ _ trivial))

theorem appends_tunzeStopFeeding (s : State) :
    Appends Event.ofCloudB s (tunzeStopFeeding s) := by
  unfold tunzeStopFeeding
  split
  · exact Appends.nil _ s
  · exact Appends.andThen (Appends.of_trace_eq _ rfl) (appends_log _ _ _ trivial)

theorem appends_tasmotaSendCommandLoop (env : Env) (ip command : String) (n : Nat) :
    ∀ s : State, Appends Event.ofLocal s (tasmotaSendCommandLoop env ip command n s).2 := by
  induction n with
  | zero => intro s; exact Appends.nil _ s
  | succ k ih =>
    intro s
    have h1 : Appends Event.ofLocal s (wifiConnected env s).2 := Appends.of_trace_eq _ rfl
    have h2 := appends_httpSend Event.ofLocal env (tasmotaCommandRequest ip command)
      (wifiConnected env s).2 (ofLocal_command ip command)
    unfold tasmotaSendCommandLoop
    simp only []
    by_cases hw : (wifiConnected env s).1 = false
    · rw [if_pos hw]; exact h1.andThen (ih _)
    · rw [if_neg hw]
      by_cases hc : (httpSend env (tasmotaCommandRequest ip command)
          (wifiConnected env s).2).1.code = 200
      · rw [if_pos hc]; exact h1.andThen h2
      · rw [if_neg hc]; exact h1.andThen (h2.andThen (ih _))

theorem appends_tasmotaSendCommand (env : Env) (ip command : String) (retries : Int)
    (s : State) : Appends Event.ofLocal s (tasmotaSendCommand env ip command retries s).2 :=
  appends_tasmotaSendCommandLoop env ip command _ s

theorem appends_tasmotaTurnOn (env : Env) (ip : String) (s : State) :
    Appends Event.ofLocal s (tasmotaTurnOn env ip s).2 :=
  appends_tasmotaSendCommand env ip _ _ s

theorem appends_tasmotaTurnOff (env : Env) (ip : String) (autoOnSeconds : Int) (s : State) :
    Appends Event.ofLocal s (tasmotaTurnOff env ip autoOnSeconds s).2 := by
  unfold tasmotaTurnOff
  simp only []
  by_cases ha : autoOnSeconds > 0
  · rw [if_pos ha]
    exact (appends_tasmotaSendCommand env ip _ _ s).andThen
      ((appends_tasmotaSendCommand env ip _ _ _).andThen
        (appends_tasmotaSendCommand env ip _ _ _))
  · rw [if_neg ha]
    exact (appends_tasmotaSendCommand env ip _ _ s).andThen
      (appends_tasmotaSendCommand env ip _ _ _)

theorem appends_forEachDevice (P : Event → Prop)
    (body : TasmotaDevice → State → TasmotaDevice × State)
    (hbody : ∀ d s, Appends P s (body d s).2) (ds : List TasmotaDevice) :
    ∀ s : State, Appends P s (forEachDevice body ds s).2 := by
  induction ds with
  | nil => intro s; exact Appends.nil _ s
  | cons d rest ih => intro s; exact (hbody d s).andThen (ih _)

theorem appends_tasmotaStartFeedingDevice (env : Env) (pulseTime : Int) (d : TasmotaDevice)
    (s : State) : Appends Event.ofLocal s (tasmotaStartFeedingDevice env pulseTime d s).2 := by
  unfold tasmotaStartFeedingDevice
  by_cases he : d.enabled = true
  · rw [if_pos he]
    by_cases ht : d.turnOn = true
    · rw [if_pos ht]; exact appends_tasmotaTurnOn env d.ip s
    · rw [if_neg ht]; exact appends_tasmotaTurnOff env d.ip pulseTime s
  · rw [if_neg he]; exact Appends.nil _ s

theorem appends_tasmotaStopFeedingDevice (env : Env) (d : TasmotaDevice) (s : State) :
    Appends Event.ofLocal s (tasmotaStopFeedingDevice env d s).2 := by
  have h1 := appends_tasmotaSendCommand env d.ip "PulseTime 0" 3 s
  have h2 := appends_tasmotaSendCommand env d.ip "PowerOnState 3" 3
    (tasmotaSendCommand env d.ip "PulseTime 0" 3 s).2
  unfold tasmotaStopFeedingDevice
  by_cases he : d.enabled = true
  · rw [if_pos he]
    simp only []
    by_cases ht : d.turnOn = true
    · rw [if_pos ht]; exact h1.andThen (h2.andThen (appends_tasmotaTurnOff env d.ip 0 _))
    · rw [if_neg ht]; exact h1.andThen (h2.andThen (appends_tasmotaTurnOn env d.ip _))
  · rw [if_neg he]; exact Appends.nil _ s

theorem appends_tasmotaStartFeeding (env : Env) (s : State) :
    Appends Event.ofLocal s (tasmotaStartFeeding env s) := by
  unfold tasmotaStartFeeding
  by_cases h : s.tasmotaEnabled = false ∨ s.tasmotaDevices.isEmpty = true
  · rw [if_pos h]; exact Appends.nil _ s
  · rw [if_neg h]
    exact (appends_forEachDevice _ _ (appends_tasmotaStartFeedingDevice env s.tasmotaPulseTime)
      s.tasmotaDevices s).andThen (Appends.of_trace_eq _ rfl)

theorem appends_tasmotaStopFeeding (env : Env) (s : State) :
    Appends Event.ofLocal s (tasmotaStopFeeding env s) := by
  unfold tasmotaStopFeeding
  by_cases h : s.tasmotaEnabled = false ∨ s.tasmotaDevices.isEmpty = true
  · rw [if_pos h]; exact Appends.nil _ s
  · rw [if_neg h]
    exact (appends_forEachDevice _ _ (appends_tasmotaStopFeedingDevice env)
      s.tasmotaDevices s).andThen (Appends.of_trace_eq _ rfl)


/-! ## The trace of a completed orchestrator call -/

theorem startFeedingMode_eq (env : Env) (fuel : Nat) (s : State) (b : Bool) (s1 : State)
    (h : (if s.ENABLE_redsea = true then
            redseaStartFeeding env fuel (s.log (Event.call "redseaStartFeeding"))
          else some (true, s)) = some (b, s1)) :
    ∃ s' : State, startFeedingMode env fuel s = some s' ∧
      s'.trace = (tasmotaStartFeeding env
        ((if s1.ENABLE_TUNZE = true then
            tunzeStartFeeding env (s1.log (Event.call "tunzeStartFeeding"))
          else s1).log (Event.call "tasmotaStartFeeding"))).trace := by
  unfold startFeedingMode
  simp only []
  rw [h]
  simp only []
  generalize tasmotaStartFeeding env
    ((if s1.ENABLE_TUNZE = true then
        tunzeStartFeeding env (s1.log (Event.call "tunzeStartFeeding"))
      else s1).log (Event.call "tasmotaStartFeeding")) = s3
  by_cases hc : b = true ∨ s3.ENABLE_redsea = false
  · rw [if_pos hc]; exact ⟨_, rfl, rfl⟩
  · rw [if_neg hc]; exact ⟨_, rfl, rfl⟩

theorem stopFeedingMode_eq (env : Env) (fuel : Nat) (s : State) (b : Bool) (s1 : State)
    (h : (if s.ENABLE_redsea = true then
            redseaStopFeeding env fuel (s.log (Event.call "redseaStopFeeding"))
          else some (true, s)) = some (b, s1)) :
    ∃ s' : State, stopFeedingMode env fuel s = some s' ∧
      s'.trace = (tasmotaStopFeeding env
        ((if s1.ENABLE_TUNZE = true then
            tunzeStopFeeding (s1.log (Event.call "tunzeStopFeeding"))
          else s1).log (Event.call "tasmotaStopFeeding"))).trace := by
  unfold stopFeedingMode
  simp only []
  rw [h]
  exact ⟨_, rfl, rfl⟩

/-- The trace of a completed `startFeedingMode`: the Cloud-A segment, then the Cloud-B
segment, then the local segment, each opened by the mark of the call. -/
theorem startFeedingMode_segments (env : Env) (fuel : Nat) (s s' : State)
    (h : startFeedingMode env fuel s = some s') :
    ∃ dA dB dL : List Event,
      s'.trace = s.trace
        ++ (if s.ENABLE_redsea = true then Event.call "redseaStartFeeding" :: dA else [])
        ++ (if s.ENABLE_TUNZE = true then Event.call "tunzeStartFeeding" :: dB else [])
        ++ Event.call "tasmotaStartFeeding" :: dL ∧
      (∀ e ∈ dA, e.ofCloudA) ∧ (∀ e ∈ dB, e.ofCloudB) ∧ (∀ e ∈ dL, e.ofLocal) := by
  cases hleg : (if s.ENABLE_redsea = true then
      redseaStartFeeding env fuel (s.log (Event.call "redseaStartFeeding"))
      else some (true, s)) with
  | none => rw [startFeedingMode_none env fuel s hleg] at h; cases h
  | some r =>
    obtain ⟨b, s1⟩ := r
    obtain ⟨_, a2, _, _⟩ := startFeedingMode_cloudA_leg env fuel s b s1 hleg
    obtain ⟨t, ht, htr⟩ := startFeedingMode_eq env fuel s b s1 hleg
    rw [ht] at h
    cases h
    -- Cloud-A segment
    have hA : ∃ dA, s1.trace = s.trace
        ++ (if s.ENABLE_redsea = true then Event.call "redseaStartFeeding" :: dA else []) ∧
        ∀ e ∈ dA, e.ofCloudA := by
      by_cases hA : s.ENABLE_redsea = true
      · rw [if_pos hA] at hleg
        obtain ⟨dA, e1, p1⟩ := appends_cloudA_run CloudAOp.startFeeding env fuel _ _ _ hleg
        refine ⟨dA, ?_, p1⟩
        rw [if_pos hA, e1]
        show (s.trace ++ [Event.call "redseaStartFeeding"]) ++ dA = _
        simp
      · rw [if_neg hA] at hleg
        cases hleg
        exact ⟨[], by rw [if_neg hA, List.append_nil], fun _ hx => absurd hx (List.not_mem_nil _)⟩
    -- Cloud-B segment
    have hB : ∃ dB, (if s1.ENABLE_TUNZE = true then
          tunzeStartFeeding env (s1.log (Event.call "tunzeStartFeeding")) else s1).trace
        = s1.trace
          ++ (if s.ENABLE_TUNZE = true then Event.call "tunzeStartFeeding" :: dB else []) ∧
        ∀ e ∈ dB, e.ofCloudB := by
      by_cases hT : s1.ENABLE_TUNZE = true
      · obtain ⟨dB, e1, p1⟩ :=
          appends_tunzeStartFeeding env (s1.log (Event.call "tunzeStartFeeding"))
        refine ⟨dB, ?_, p1⟩
        rw [if_pos hT, if_pos (a2 ▸ hT), e1]
        show (s1.trace ++ [Event.call "tunzeStartFeeding"]) ++ dB = _
        simp
      · refine ⟨[], ?_, fun _ hx => absurd hx (List.not_mem_nil _)⟩
        rw [if_neg hT, if_neg (a2 ▸ hT), List.append_nil]
    obtain ⟨dA, eA, pA⟩ := hA
    obtain ⟨dB, eB, pB⟩ := hB
    obtain ⟨dL, eL, pL⟩ := appends_tasmotaStartFeeding env
      ((if s1.ENABLE_TUNZE = true then
          tunzeStartFeeding env (s1.log (Event.call "tunzeStartFeeding"))
        else s1).log (Event.call "tasmotaStartFeeding"))
    refine ⟨dA, dB, dL, ?_, pA, pB, pL⟩
    rw [htr, eL]
    show ((if s1.ENABLE_TUNZE = true then
          tunzeStartFeeding env (s1.log (Event.call "tunzeStartFeeding"))
        else s1).trace ++ [Event.call "tasmotaStartFeeding"]) ++ dL = _
    rw [eB, eA]
    simp

/-- The trace of a completed `stopFeedingMode`: the Cloud-A segment, then the Cloud-B
segment, then the local segment, each opened by the mark of the call. -/
theorem stopFeedingMode_segments (env : Env) (fuel : Nat) (s s' : State)
    (h : stopFeedingMode env fuel s = some s') :
    ∃ dA dB dL : List Event,
      s'.trace = s.trace
        ++ (if s.ENABLE_redsea = true then Event.call "redseaStopFeeding" :: dA else [])
        ++ (if s.ENABLE_TUNZE = true then Event.call "tunzeStopFeeding" :: dB else [])
        ++ Event.call "tasmotaStopFeeding" :: dL ∧
      (∀ e ∈ dA, e.ofCloudA) ∧ (∀ e ∈ dB, e.ofCloudB) ∧ (∀ e ∈ dL, e.ofLocal) := by
  cases hleg : (if s.ENABLE_redsea = true then
      redseaStopFeeding env fuel (s.log (Event.call "redseaStopFeeding"))
      else some (true, s)) with
  | none => rw [stopFeedingMode_none env fuel s hleg] at h; cases h
  | some r =>
    obtain ⟨b, s1⟩ := r
    obtain ⟨_, a2, _⟩ := stopFeedingMode_cloudA_leg env fuel s b s1 hleg
    obtain ⟨t, ht, htr⟩ := stopFeedingMode_eq env fuel s b s1 hleg
    rw [ht] at h
    cases h
    have hA : ∃ dA, s1.trace = s.trace
        ++ (if s.ENABLE_redsea = true then Event.call "redseaStopFeeding" :: dA else []) ∧
        ∀ e ∈ dA, e.ofCloudA := by
      by_cases hA : s.ENABLE_redsea = true
      · rw [if_pos hA] at hleg
        obtain ⟨dA, e1, p1⟩ := appends_cloudA_run CloudAOp.stopFeeding env fuel _ _ _ hleg
        refine ⟨dA, ?_, p1⟩
        rw [if_pos hA, e1]
        show (s.trace ++ [Event.call "redseaStopFeeding"]) ++ dA = _
        simp
      · rw [if_neg hA] at hleg
        cases hleg
        exact ⟨[], by rw [if_neg hA, List.append_nil], fun _ hx => absurd hx (List.not_mem_nil _)⟩
    have hB : ∃ dB, (if s1.ENABLE_TUNZE = true then
          tunzeStopFeeding (s1.log (Event.call "tunzeStopFeeding")) else s1).trace
        = s1.trace
          ++ (if s.ENABLE_TUNZE = true then Event.call "tunzeStopFeeding" :: dB else []) ∧
        ∀ e ∈ dB, e.ofCloudB := by
      by_cases hT : s1.ENABLE_TUNZE = true
      · obtain ⟨dB, e1, p1⟩ :=
          appends_tunzeStopFeeding (s1.log (Event.call "tunzeStopFeeding"))
        refine ⟨dB, ?_, p1⟩
        rw [if_pos hT, if_pos (a2 ▸ hT), e1]
        show (s1.trace ++ [Event.call "tunzeStopFeeding"]) ++ dB = _
        simp
      · refine ⟨[], ?_, fun _ hx => absurd hx (List.not_mem_nil _)⟩
        rw [if_neg hT, if_neg (a2 ▸ hT), List.append_nil]
    obtain ⟨dA, eA, pA⟩ := hA
    obtain ⟨dB, eB, pB⟩ := hB
    obtain ⟨dL, eL, pL⟩ := appends_tasmotaStopFeeding env
      ((if s1.ENABLE_TUNZE = true then
          tunzeStopFeeding (s1.log (Event.call "tunzeStopFeeding"))
        else s1).log (Event.call "tasmotaStopFeeding"))
    refine ⟨dA, dB, dL, ?_, pA, pB, pL⟩
    rw [htr, eL]
    show ((if s1.ENABLE_TUNZE = true then
          tunzeStopFeeding (s1.log (Event.call "tunzeStopFeeding"))
        else s1).trace ++ [Event.call "tasmotaStopFeeding"]) ++ dL = _
    rw [eB, eA]
    simp


/-! ## Claims on the orchestrator -/

/-- C1: for every prior state, every setting of the enable flags and every environment
(every outcome of Cloud-A, Cloud-B and the local devices, all failing included),
`feedingModeActive` is false in the state `stopFeedingMode` returns; and
`stopFeedingMode` returns exactly when its Cloud-A leg returns, so always when
Cloud-A is disabled. -/
theorem stopFeedingMode_inactive (env : Env) (fuel : Nat) (s : State) :
    (∀ s' : State, stopFeedingMode env fuel s = some s' → s'.feedingModeActive = false) ∧
    (stopFeedingMode env fuel s).isSome =
      (if s.ENABLE_redsea = true then
         (redseaStopFeeding env fuel (s.log (Event.call "redseaStopFeeding"))).isSome
       else true) :=
  ⟨fun s' h => (stopFeedingMode_run env fuel s s' h).1, stopFeedingMode_isSome env fuel s⟩

/-- C1, worked example: feeding mode is active, Cloud-A answers 500, the hub socket is
not authenticated and no local device answers; the stop still clears the flag. -/
theorem stopFeedingMode_inactive_witness :
    exampleActive.feedingModeActive = true ∧
    (redseaStopFeeding (scriptedEnv [answer 500 "oops"] true) 1
        (exampleActive.log (Event.call "redseaStopFeeding"))).map Prod.fst = some false ∧
    ∃ s' : State,
      stopFeedingMode (scriptedEnv [answer 500 "oops"] true) 1 exampleActive = some s' ∧
      s'.feedingModeActive = false := by
  refine ⟨by decide, by decide, ?_⟩
  cases h : stopFeedingMode (scriptedEnv [answer 500 "oops"] true) 1 exampleActive with
  | none => exact absurd h (by decide)
  | some s' => exact ⟨s', rfl, (stopFeedingMode_inactive _ 1 exampleActive).1 s' h⟩

/-- C2: a completed `startFeedingMode` leaves `feedingModeActive` true when Cloud-A is
disabled or `redseaStartFeeding` returned true, and leaves it at its prior value when
Cloud-A is enabled and `redseaStartFeeding` returned false: in every environment, so
whatever Cloud-B and the local devices did. -/
theorem startFeedingMode_sets_flag (env : Env) (fuel : Nat) (s s' : State)
    (h : startFeedingMode env fuel s = some s') :
    (s.ENABLE_redsea = false → s'.feedingModeActive = true) ∧
    (s.ENABLE_redsea = true →
      ∃ (b : Bool) (s1 : State),
        redseaStartFeeding env fuel (s.log (Event.call "redseaStartFeeding")) = some (b, s1) ∧
        (b = true → s'.feedingModeActive = true) ∧
        (b = false → s'.feedingModeActive = s.feedingModeActive)) := by
  obtain ⟨b, s1, hleg, hflag, _⟩ := startFeedingMode_run env fuel s s' h
  constructor
  · intro hA
    rw [hflag, if_pos (Or.inr hA)]
  · intro hA
    rw [if_pos hA] at hleg
    refine ⟨b, s1, hleg, ?_, ?_⟩
    · intro hb; rw [hflag, if_pos (Or.inl hb)]
    · intro hb
      rw [hflag, if_neg]
      intro hc
      rcases hc with hc | hc
      · rw [hb] at hc; cases hc
      · rw [hA] at hc; cases hc

/-- C2, worked example: with Cloud-A disabled and the hub socket unauthenticated (its
login gets no answer) the flag becomes true. -/
theorem startFeedingMode_sets_flag_witness :
    exampleCloudBOnly.ENABLE_redsea = false ∧ exampleCloudBOnly.feedingModeActive = false ∧
    ∃ s' : State, startFeedingMode (scriptedEnv [] true) 0 exampleCloudBOnly = some s' ∧
      s'.tunzeConnected = false ∧ s'.feedingModeActive = true := by
  refine ⟨by decide, by decide, ?_⟩
  cases h : startFeedingMode (scriptedEnv [] true) 0 exampleCloudBOnly with
  | none => exact absurd h (by decide)
  | some s' =>
    refine ⟨s', rfl, ?_, (startFeedingMode_sets_flag _ 0 exampleCloudBOnly s' h).1 (by decide)⟩
    have : (startFeedingMode (scriptedEnv [] true) 0 exampleCloudBOnly).map
        (fun t => t.tunzeConnected) = some false := by decide
    rw [h] at this
    exact Option.some.inj this

/-- C3, counterexample: Cloud-A is enabled, no token is cached and WiFi is down, so
`redseaStartFeeding` fails; the completed `startFeedingMode` leaves the flag false. -/
theorem startFeedingMode_flag_counterexample :
    (startFeedingMode (scriptedEnv [] false) 1 exampleCloudAOnly).map
      (fun s' => s'.feedingModeActive) = some false := by
  decide

/-- C3, amended: after every completed `stopFeedingMode` the flag is false; after every
completed `startFeedingMode` the flag is true if Cloud-A is disabled or
`redseaStartFeeding` returned true, and otherwise has its prior value. -/
theorem feedingModeActive_after_call (env : Env) (fuel : Nat) (s s' : State) :
    (stopFeedingMode env fuel s = some s' → s'.feedingModeActive = false) ∧
    (startFeedingMode env fuel s = some s' →
      ∃ (b : Bool) (s1 : State),
        (if s.ENABLE_redsea = true then
           redseaStartFeeding env fuel (s.log (Event.call "redseaStartFeeding"))
         else some (true, s)) = some (b, s1) ∧
        s'.feedingModeActive
          = (if b = true ∨ s.ENABLE_redsea = false then true else s.feedingModeActive)) := by
  constructor
  · intro h; exact (stopFeedingMode_run env fuel s s' h).1
  · intro h
    obtain ⟨b, s1, hleg, hflag, _⟩ := startFeedingMode_run env fuel s s' h
    exact ⟨b, s1, hleg, hflag⟩

/-- C3 amended, worked example: a stop with every backend failing, and a start with
Cloud-A disabled. -/
theorem feedingModeActive_after_call_witness :
    (∃ s' : State,
      stopFeedingMode (scriptedEnv [answer 500 "oops"] true) 1 exampleActive = some s' ∧
      s'.feedingModeActive = false) ∧
    (∃ s' : State, startFeedingMode (scriptedEnv [] true) 0 exampleCloudBOnly = some s' ∧
      s'.feedingModeActive = true) := by
  constructor
  · cases h : stopFeedingMode (scriptedEnv [answer 500 "oops"] true) 1 exampleActive with
    | none => exact absurd h (by decide)
    | some s' => exact ⟨s', rfl, (feedingModeActive_after_call _ 1 exampleActive s').1 h⟩
  · cases h : startFeedingMode (scriptedEnv [] true) 0 exampleCloudBOnly with
    | none => exact absurd h (by decide)
    | some s' =>
      obtain ⟨b, s1, hleg, hflag⟩ :=
        (feedingModeActive_after_call _ 0 exampleCloudBOnly s').2 h
      refine ⟨s', rfl, ?_⟩
      rw [hflag, if_pos (Or.inr (by decide))]

/-- C4: in every environment a completed `startFeedingMode` has called, in this order,
`redseaStartFeeding` (once, exactly when `ENABLE_redsea` is set), `tunzeStartFeeding`
(once, exactly when `ENABLE_TUNZE` is set) and `tasmotaStartFeeding` (once, always),
and its trace is the mark of each call followed by the effects of that backend alone:
Cloud-A requests, then Cloud-B login and socket traffic, then local device commands.
A completed `stopFeedingMode` has called the three stop operations in the same way. -/
theorem orchestrator_call_order (env : Env) (fuel : Nat) (s s' : State) :
    (startFeedingMode env fuel s = some s' →
      calls s'.trace = calls s.trace
        ++ (if s.ENABLE_redsea = true then ["redseaStartFeeding"] else [])
        ++ (if s.ENABLE_TUNZE = true then ["tunzeStartFeeding"] else [])
        ++ ["tasmotaStartFeeding"] ∧
      ∃ dA dB dL : List Event,
        s'.trace = s.trace
          ++ (if s.ENABLE_redsea = true then Event.call "redseaStartFeeding" :: dA else [])
          ++ (if s.ENABLE_TUNZE = true then Event.call "tunzeStartFeeding" :: dB else [])
          ++ Event.call "tasmotaStartFeeding" :: dL ∧
        (∀ e ∈ dA, e.ofCloudA) ∧ (∀ e ∈ dB, e.ofCloudB) ∧ (∀ e ∈ dL, e.ofLocal)) ∧
    (stopFeedingMode env fuel s = some s' →
      calls s'.trace = calls s.trace
        ++ (if s.ENABLE_redsea = true then ["redseaStopFeeding"] else [])
        ++ (if s.ENABLE_TUNZE = true then ["tunzeStopFeeding"] else [])
        ++ ["tasmotaStopFeeding"] ∧
      ∃ dA dB dL : List Event,
        s'.trace = s.trace
          ++ (if s.ENABLE_redsea = true then Event.call "redseaStopFeeding" :: dA else [])
          ++ (if s.ENABLE_TUNZE = true then Event.call "tunzeStopFeeding" :: dB else [])
          ++ Event.call "tasmotaStopFeeding" :: dL ∧
        (∀ e ∈ dA, e.ofCloudA) ∧ (∀ e ∈ dB, e.ofCloudB) ∧ (∀ e ∈ dL, e.ofLocal)) := by
  constructor
  · intro h
    obtain ⟨_, _, _, _, hc⟩ := startFeedingMode_run env fuel s s' h
    exact ⟨hc, startFeedingMode_segments env fuel s s' h⟩
  · intro h
    exact ⟨(stopFeedingMode_run env fuel s s' h).2, stopFeedingMode_segments env fuel s s' h⟩

/-- C4, worked example: with all backends enabled and Cloud-A answering 500 the stop
calls Cloud-A, Cloud-B and Local in this order; with only Cloud-B enabled the start
calls Cloud-B and Local. -/
theorem orchestrator_call_order_witness :
    (∃ s' : State,
      stopFeedingMode (scriptedEnv [answer 500 "oops"] true) 1 exampleActive = some s' ∧
      calls s'.trace = ["redseaStopFeeding", "tunzeStopFeeding", "tasmotaStopFeeding"]) ∧
    (∃ s' : State, startFeedingMode (scriptedEnv [] true) 0 exampleCloudBOnly = some s' ∧
      calls s'.trace = ["tunzeStartFeeding", "tasmotaStartFeeding"]) := by
  constructor
  · cases h : stopFeedingMode (scriptedEnv [answer 500 "oops"] true) 1 exampleActive with
    | none => exact absurd h (by decide)
    | some s' =>
      exact ⟨s', rfl, ((orchestrator_call_order _ 1 exampleActive s').2 h).1⟩
  · cases h : startFeedingMode (scriptedEnv [] true) 0 exampleCloudBOnly with
    | none => exact absurd h (by decide)
    | some s' =>
      exact ⟨s', rfl, ((orchestrator_call_order _ 0 exampleCloudBOnly s').1 h).1⟩

end FeedingBreak

namespace FeedingBreak

/-! ## The command channel of the Cloud-B socket -/

theorem Quiet.unchanged {s s' : State} (hid : s'.tunzeMessageId = s.tunzeMessageId)
    (htr : s'.trace = s.trace) : Quiet s s' :=
  ⟨hid, Appends.of_trace_eq _ htr⟩

theorem Quiet.step {a b c : State} (h1 : Quiet a b) (h2 : Quiet b c) : Quiet a c :=
  ⟨h2.1.trans h1.1, h1.2.andThen h2.2⟩

theorem quiet_log (s : State) (e : Event) (he : e.notCommand) : Quiet s (s.log e) :=
  ⟨rfl, appends_log _ s e he⟩

theorem isCommandMessage_auth (id : String) :
    isCommandMessage ("\x7b\"auth\":[[\"dev\",\"" ++ id ++ "\"]]\x7d") = false := by
  have h : ∀ rest : List Char,
      List.isPrefixOf "\x7b\"mid\":".data ("\x7b\"auth\":[[\"dev\",\"".data ++ rest) = false :=
    fun _ => rfl
  unfold isCommandMessage
  rw [String.data_append, String.data_append, List.append_assoc]
  exact h _

theorem isCommandMessage_pong (t : String) :
    isCommandMessage ("\x7b\"pong\":[" ++ t ++ "]\x7d") = false := by
  have h : ∀ rest : List Char,
      List.isPrefixOf "\x7b\"mid\":".data ("\x7b\"pong\":[".data ++ rest) = false :=
    fun _ => rfl
  unfold isCommandMessage
  rw [String.data_append, String.data_append, List.append_assoc]
  exact h _

theorem quiet_tunzeLogin (env : Env) (s : State) : Quiet s (tunzeLogin env s).2 := by
  have h1 : Quiet s (wifiConnected env s).2 := Quiet.unchanged rfl rfl
  have h2 : Quiet (wifiConnected env s).2
      (httpSend env (tunzeLoginRequest env (wifiConnected env s).2) (wifiConnected env s).2).2 :=
    ⟨rfl, appends_httpSend _ env _ _ trivial⟩
  unfold tunzeLogin
  simp only []
  split
  · exact h1
  · split
    · split
      · exact h1.step (h2.step (Quiet.unchanged rfl rfl))
      · exact h1.step h2
    · exact h1.step h2

theorem quiet_tunzeConnect (env : Env) (s : State) : Quiet s (tunzeConnect env s) := by
  have h1 : Quiet s (wifiConnected env s).2 := Quiet.unchanged rfl rfl
  unfold tunzeConnect
  simp only []
  by_cases hw : (wifiConnected env s).1 = false
  · rw [if_pos hw]; exact h1
  · rw [if_neg hw]
    by_cases hs : (wifiConnected env s).2.tunzeSID = ""
    · rw [if_pos hs]
      have h2 := quiet_tunzeLogin env (wifiConnected env s).2
      by_cases hl : (tunzeLogin env (wifiConnected env s).2).1 = false
      · rw [if_pos hl]; exact h1.step h2
      · rw [if_neg hl]
        exact h1.step (h2.step (quiet_log _ _ trivial))
    · rw [if_neg hs]
      simp only [Bool.true_eq_false, if_false]
      exact h1.step (quiet_log _ _ trivial)

theorem quiet_tunzeWebSocketEvent (env : Env) (type : WStype) (payload : String) (s : State) :
    Quiet s (tunzeWebSocketEvent env type payload s) := by
  unfold tunzeWebSocketEvent
  cases type with
  | ERROR => exact Quiet.unchanged rfl rfl
  | OTHER => exact Quiet.unchanged rfl rfl
  | DISCONNECTED => exact Quiet.unchanged rfl rfl
  | CONNECTED => exact quiet_log _ _ (isCommandMessage_auth _)
  | TEXT =>
    simp only []
    split
    · rename_i doc _
      have h1 : Quiet s (if (doc.get "ping").isArray = true then
          (readMillis env s).2.log
            (Event.wsSend ("\x7b\"pong\":[" ++ toString (readMillis env s).1 ++ "]\x7d"))
          else s) := by
        split
        · exact Quiet.step (Quiet.unchanged rfl rfl) (quiet_log _ _ (isCommandMessage_pong _))
        · exact Quiet.unchanged rfl rfl
      split
      · exact h1.step (Quiet.unchanged rfl rfl)
      · exact h1
    · exact Quiet.unchanged rfl rfl

theorem quiet_dispatchSocketEvents (env : Env) (evs : List (WStype × String)) :
    ∀ s : State, Quiet s (dispatchSocketEvents env evs s) := by
  induction evs with
  | nil => intro s; exact Quiet.unchanged rfl rfl
  | cons e rest ih =>
    intro s
    exact (quiet_tunzeWebSocketEvent env e.1 e.2 s).step (ih _)

theorem quiet_waitForSocket (env : Env) (s : State) : Quiet s (waitForSocket env s) :=
  Quiet.step (Quiet.unchanged rfl rfl) (quiet_dispatchSocketEvents env _ _)

/-! ## Claims on the Cloud-B socket -/

/-- C11: The socket event handler follows the Disconnected / Connected / Authenticated
machine: a disconnect event sets `tunzeConnected` to false; a connect event sends exactly
one message, the handshake carrying the device id, and leaves `tunzeConnected` as it was;
for every event the flag afterwards is false after a disconnect, true after an inbound
text that parses with an `auth` object, and its previous value in every other case. -/
theorem tunzeWebSocketEvent_machine (env : Env) (type : WStype) (payload : String)
    (s : State) :
    (tunzeWebSocketEvent env WStype.DISCONNECTED payload s).tunzeConnected = false ∧
    (tunzeWebSocketEvent env WStype.CONNECTED payload s).trace =
      s.trace ++ [Event.wsSend ("\x7b\"auth\":[[\"dev\",\"" ++ s.TUNZE_DEVICE_ID ++ "\"]]\x7d")] ∧
    (tunzeWebSocketEvent env WStype.CONNECTED payload s).tunzeConnected = s.tunzeConnected ∧
    (tunzeWebSocketEvent env type payload s).tunzeConnected =
      (match type with
       | WStype.DISCONNECTED => false
       | WStype.TEXT => authAcknowledged env payload || s.tunzeConnected
       | _ => s.tunzeConnected) := by
  refine ⟨rfl, rfl, rfl, ?_⟩
  cases type with
  | ERROR => rfl
  | OTHER => rfl
  | DISCONNECTED => rfl
  | CONNECTED => rfl
  | TEXT =>
    unfold tunzeWebSocketEvent authAcknowledged
    simp only []
    cases env.deserializeJson payload with
    | none => simp
    | some doc =>
      simp only []
      have h1 : (if (doc.get "ping").isArray = true then
          (readMillis env s).2.log
            (Event.wsSend ("\x7b\"pong\":[" ++ toString (readMillis env s).1 ++ "]\x7d"))
          else s).tunzeConnected = s.tunzeConnected := by
        split <;> rfl
      by_cases ha : (doc.get "auth").isObject = true
      · rw [if_pos ha, ha]; rfl
      · rw [if_neg ha, h1]
        simp only [Bool.not_eq_true] at ha
        rw [ha]; rfl

/-- C12: While the session is not authenticated, `tunzeStopFeeding` does nothing at all,
and `tunzeStartFeeding` is one call of `tunzeConnect` followed by the wait; when the
session is still not authenticated after the wait, the message counter is as before and
no command message has been sent. -/
theorem tunze_unauthenticated_sends_nothing (env : Env) (s : State)
    (h : s.tunzeConnected = false) :
    tunzeStopFeeding s = s ∧
    ((waitForSocket env (tunzeConnect env s)).tunzeConnected = false →
      tunzeStartFeeding env s = waitForSocket env (tunzeConnect env s) ∧
      (tunzeStartFeeding env s).tunzeMessageId = s.tunzeMessageId ∧
      ∃ sent : List Event, (tunzeStartFeeding env s).trace = s.trace ++ sent ∧
        ∀ msg : String, Event.wsSend msg ∈ sent → isCommandMessage msg = false) := by
  constructor
  · unfold tunzeStopFeeding
    rw [if_pos h]
  · intro h2
    have e : tunzeStartFeeding env s = waitForSocket env (tunzeConnect env s) := by
      unfold tunzeStartFeeding
      simp only []
      rw [if_pos h, if_pos h2]
    have q : Quiet s (waitForSocket env (tunzeConnect env s)) :=
      (quiet_tunzeConnect env s).step (quiet_waitForSocket env _)
    rw [e]
    refine ⟨rfl, q.1, ?_⟩
    obtain ⟨sent, hs, hp⟩ := q.2
    exact ⟨sent, hs, fun msg hm => hp _ hm⟩

/-- C12, worked example: Cloud-B alone is enabled, the hub accepts the login and no socket
event arrives during the wait; the stop does nothing, the start is the connect and the
wait, and the message counter still reads 5000. -/
theorem tunze_unauthenticated_sends_nothing_witness :
    exampleCloudBOnly.tunzeConnected = false ∧
    tunzeStopFeeding exampleCloudBOnly = exampleCloudBOnly ∧
    tunzeStartFeeding (scriptedEnv [exampleHubLogin] true) exampleCloudBOnly =
      waitForSocket (scriptedEnv [exampleHubLogin] true)
        (tunzeConnect (scriptedEnv [exampleHubLogin] true) exampleCloudBOnly) ∧
    (tunzeStartFeeding (scriptedEnv [exampleHubLogin] true) exampleCloudBOnly).tunzeMessageId
      = 5000 :=
  ⟨by decide,
   (tunze_unauthenticated_sends_nothing (scriptedEnv [exampleHubLogin] true)
      exampleCloudBOnly (by decide)).1,
   ((tunze_unauthenticated_sends_nothing (scriptedEnv [exampleHubLogin] true)
      exampleCloudBOnly (by decide)).2 (by decide)).1,
   ((tunze_unauthenticated_sends_nothing (scriptedEnv [exampleHubLogin] true)
      exampleCloudBOnly (by decide)).2 (by decide)).2.1⟩

/-- C13: In an authenticated session each call of `tunzeStartFeeding` or
`tunzeStopFeeding` advances the 32-bit counter `tunzeMessageId` by one and sends exactly
one message, whose `mid` is the new counter value and whose channel is
`<TUNZE_DEVICE_ID>-1002-0001`, with the payload `[["acts",200,600]]` for start and
`[["deas"]]` for stop; the session stays authenticated. As long as the counter does not
wrap the new value is the old one plus one, hence larger than every earlier one; the
counter starts at 5000, so the first message has the id 5001. -/
theorem tunze_command_message (env : Env) (s : State) (h : s.tunzeConnected = true) :
    (tunzeStartFeeding env s).tunzeMessageId = (s.tunzeMessageId + 1) % 2 ^ 32 ∧
    (tunzeStartFeeding env s).trace = s.trace ++
      [Event.wsSend ("\x7b\"mid\":" ++ toString ((s.tunzeMessageId + 1) % 2 ^ 32) ++ ",\""
         ++ s.TUNZE_DEVICE_ID ++ "-1002-0001\":[[\"acts\",200,600]]\x7d")] ∧
    (tunzeStartFeeding env s).tunzeConnected = true ∧
    (tunzeStopFeeding s).tunzeMessageId = (s.tunzeMessageId + 1) % 2 ^ 32 ∧
    (tunzeStopFeeding s).trace = s.trace ++
      [Event.wsSend ("\x7b\"mid\":" ++ toString ((s.tunzeMessageId + 1) % 2 ^ 32) ++ ",\""
         ++ s.TUNZE_DEVICE_ID ++ "-1002-0001\":[[\"deas\"]]\x7d")] ∧
    (tunzeStopFeeding s).tunzeConnected = true ∧
    (s.tunzeMessageId + 1 < 2 ^ 32 →
      (tunzeStartFeeding env s).tunzeMessageId = s.tunzeMessageId + 1 ∧
      (tunzeStopFeeding s).tunzeMessageId = s.tunzeMessageId + 1 ∧
      s.tunzeMessageId < (tunzeStartFeeding env s).tunzeMessageId ∧
      s.tunzeMessageId < (tunzeStopFeeding s).tunzeMessageId) ∧
    State.boot.tunzeMessageId + 1 = 5001 := by
  have hne : ¬ s.tunzeConnected = false := by rw [h]; decide
  have e1 : tunzeStartFeeding env s =
      ({ s with tunzeMessageId := (s.tunzeMessageId + 1) % 2 ^ 32 } : State).log
        (Event.wsSend ("\x7b\"mid\":" ++ toString ((s.tunzeMessageId + 1) % 2 ^ 32) ++ ",\""
          ++ s.TUNZE_DEVICE_ID ++ "-1002-0001\":[[\"acts\",200,600]]\x7d")) := by
    unfold tunzeStartFeeding
    simp only []
    rw [if_neg hne, if_neg hne]
  have e2 : tunzeStopFeeding s =
      ({ s with tunzeMessageId := (s.tunzeMessageId + 1) % 2 ^ 32 } : State).log
        (Event.wsSend ("\x7b\"mid\":" ++ toString ((s.tunzeMessageId + 1) % 2 ^ 32) ++ ",\""
          ++ s.TUNZE_DEVICE_ID ++ "-1002-0001\":[[\"deas\"]]\x7d")) := by
    unfold tunzeStopFeeding
    rw [if_neg hne]
  rw [e1, e2]
  refine ⟨rfl, rfl, h, rfl, rfl, h, ?_, rfl⟩
  intro hw
  have hm : (s.tunzeMessageId + 1) % 2 ^ 32 = s.tunzeMessageId + 1 := Nat.mod_eq_of_lt hw
  refine ⟨hm, hm, ?_, ?_⟩
  · show s.tunzeMessageId < (s.tunzeMessageId + 1) % 2 ^ 32
    omega
  · show s.tunzeMessageId < (s.tunzeMessageId + 1) % 2 ^ 32
    omega

/-- C13, worked example: in an authenticated session after boot a start sends the message
with the id 5001 and a stop after it the message with the id 5002. -/
theorem tunze_command_message_witness :
    (tunzeStartFeeding (scriptedEnv [] true)
        { exampleCloudBOnly with tunzeConnected := true }).trace =
      [Event.wsSend "\x7b\"mid\":5001,\"dev1-1002-0001\":[[\"acts\",200,600]]\x7d"] ∧
    (tunzeStopFeeding
        (tunzeStartFeeding (scriptedEnv [] true)
          { exampleCloudBOnly with tunzeConnected := true })).trace =
      [Event.wsSend "\x7b\"mid\":5001,\"dev1-1002-0001\":[[\"acts\",200,600]]\x7d",
       Event.wsSend "\x7b\"mid\":5002,\"dev1-1002-0001\":[[\"deas\"]]\x7d"] ∧
    (tunzeStartFeeding (scriptedEnv [] true)
        { exampleCloudBOnly with tunzeConnected := true }).tunzeMessageId = 5000 + 1 :=
  ⟨(tunze_command_message (scriptedEnv [] true)
      { exampleCloudBOnly with tunzeConnected := true } (by decide)).2.1,
   (tunze_command_message (scriptedEnv [] true)
      (tunzeStartFeeding (scriptedEnv [] true)
        { exampleCloudBOnly with tunzeConnected := true }) (by decide)).2.2.2.2.1,
   ((tunze_command_message (scriptedEnv [] true)
      { exampleCloudBOnly with tunzeConnected := true } (by decide)).2.2.2.2.2.2.1
        (by decide)).1⟩

end FeedingBreak

namespace FeedingBreak

/-! ## Runs of command lists -/

theorem net_eq_iff (s t : State) :
    s.net = t.net ↔ s.trace = t.trace ∧ s.httpCount = t.httpCount ∧ s.wifiPolls = t.wifiPolls := by
  simp [State.net]

theorem runCommands_append (env : Env) (a b : List Command) :
    ∀ s : State, runCommands env (a ++ b) s = runCommands env b (runCommands env a s) := by
  induction a with
  | nil => intro s; rfl
  | cons c cs ih => intro s; exact ih _

theorem net_tasmotaSendCommandLoop (env : Env) (ip command : String) (n : Nat) :
    ∀ s t : State, s.net = t.net →
      (tasmotaSendCommandLoop env ip command n s).1 =
        (tasmotaSendCommandLoop env ip command n t).1 ∧
      (tasmotaSendCommandLoop env ip command n s).2.net =
        (tasmotaSendCommandLoop env ip command n t).2.net := by
  induction n with
  | zero => intro s t h; exact ⟨rfl, h⟩
  | succ n ih =>
    intro s t h
    obtain ⟨h1, h2, h3⟩ := (net_eq_iff s t).1 h
    have hw : (wifiConnected env s).1 = (wifiConnected env t).1 := by
      show env.wifiStatus s.wifiPolls = env.wifiStatus t.wifiPolls
      rw [h3]
    have hwn : (wifiConnected env s).2.net = (wifiConnected env t).2.net := by
      rw [net_eq_iff]
      exact ⟨h1, h2, by show s.wifiPolls + 1 = t.wifiPolls + 1; rw [h3]⟩
    have hr : (httpSend env (tasmotaCommandRequest ip command) (wifiConnected env s).2).1 =
        (httpSend env (tasmotaCommandRequest ip command) (wifiConnected env t).2).1 := by
      show env.http s.httpCount = env.http t.httpCount
      rw [h2]
    have hrn : (httpSend env (tasmotaCommandRequest ip command) (wifiConnected env s).2).2.net =
        (httpSend env (tasmotaCommandRequest ip command) (wifiConnected env t).2).2.net := by
      rw [net_eq_iff]
      refine ⟨?_, ?_, ?_⟩
      · show s.trace ++ _ = t.trace ++ _
        rw [h1]
      · show s.httpCount + 1 = t.httpCount + 1
        rw [h2]
      · show s.wifiPolls + 1 = t.wifiPolls + 1
        rw [h3]
    unfold tasmotaSendCommandLoop
    simp only []
    rw [hw]
    by_cases hc : (wifiConnected env t).1 = false
    · rw [if_pos hc, if_pos hc]
      exact ih _ _ hwn
    · rw [if_neg hc, if_neg hc, hr]
      by_cases h200 :
          (httpSend env (tasmotaCommandRequest ip command) (wifiConnected env t).2).1.code = 200
      · rw [if_pos h200, if_pos h200]
        exact ⟨rfl, hrn⟩
      · rw [if_neg h200, if_neg h200]
        exact ih _ _ hrn

theorem net_runCommands (env : Env) (cmds : List Command) :
    ∀ s t : State, s.net = t.net → (runCommands env cmds s).net = (runCommands env cmds t).net := by
  induction cmds with
  | nil => intro s t h; exact h
  | cons c cs ih =>
    intro s t h
    exact ih _ _ (net_tasmotaSendCommandLoop env c.ip c.command c.retries.toNat s t h).2

theorem forEachDevice_runCommands (env : Env)
    (body : TasmotaDevice → State → TasmotaDevice × State)
    (cmds : TasmotaDevice → List Command)
    (hbody : ∀ d s, (body d s).2 = runCommands env (cmds d) s) (ds : List TasmotaDevice) :
    ∀ s : State, (forEachDevice body ds s).2 = runCommands env (ds.flatMap cmds) s := by
  induction ds with
  | nil => intro s; rfl
  | cons d rest ih =>
    intro s
    rw [List.flatMap_cons, runCommands_append, ← hbody d s]
    exact ih _

theorem tasmotaStartFeedingDevice_commands (env : Env) (pulseTime : Int)
    (d : TasmotaDevice) (s : State) :
    (tasmotaStartFeedingDevice env pulseTime d s).2 =
      runCommands env (startCommands pulseTime d) s := by
  unfold tasmotaStartFeedingDevice startCommands
  by_cases he : d.enabled = true
  · rw [if_pos he, if_pos he]
    by_cases ht : d.turnOn = true
    · rw [if_pos ht, if_pos ht]; rfl
    · rw [if_neg ht, if_neg ht]
      by_cases hp : pulseTime > 0
      · rw [if_pos hp]
        show (tasmotaTurnOff env d.ip pulseTime s).2 = _
        unfold tasmotaTurnOff
        simp only []
        rw [if_pos hp]
        rfl
      · rw [if_neg hp]
        show (tasmotaTurnOff env d.ip pulseTime s).2 = _
        unfold tasmotaTurnOff
        simp only []
        rw [if_neg hp]
        rfl
  · rw [if_neg he, if_neg he]; rfl

theorem tasmotaStopFeedingDevice_commands (env : Env) (d : TasmotaDevice) (s : State) :
    (tasmotaStopFeedingDevice env d s).2 = runCommands env (stopCommands d) s := by
  unfold tasmotaStopFeedingDevice stopCommands
  by_cases he : d.enabled = true
  · rw [if_pos he, if_pos he]
    by_cases ht : d.turnOn = true
    · rw [if_pos ht, if_pos ht]; rfl
    · rw [if_neg ht, if_neg ht]; rfl
  · rw [if_neg he, if_neg he]; rfl

theorem tasmotaUpdatePowerStatesDevice_commands (env : Env) (d : TasmotaDevice) (s : State) :
    (tasmotaUpdatePowerStatesDevice env d s).2 = runCommands env (pollCommands d) s := by
  unfold tasmotaUpdatePowerStatesDevice pollCommands
  by_cases he : d.enabled = true
  · rw [if_pos he, if_pos he]
    simp only []
    have hx : (tasmotaGetPowerStateEx env d.ip s).2 =
        (tasmotaSendCommand env d.ip "Status 0" 3 s).2 := by
      unfold tasmotaGetPowerStateEx
      simp only []
      split <;> rfl
    split
    · exact hx
    · exact hx
  · rw [if_neg he, if_neg he]; rfl

theorem tasmotaCleanupDevice_commands (env : Env) (d : TasmotaDevice) (s : State) :
    (tasmotaCleanupDevice env d s).2 = runCommands env (cleanupCommands d) s := by
  unfold tasmotaCleanupDevice cleanupCommands
  by_cases he : d.enabled = true
  · rw [if_pos he, if_pos he]; rfl
  · rw [if_neg he, if_neg he]; rfl

theorem tasmotaCheckFeedingCompleteLoop_commands (env : Env) (ds : List TasmotaDevice) :
    ∀ (counts : Int × Int) (s : State),
      (tasmotaCheckFeedingCompleteLoop env ds counts s).2 =
        runCommands env (ds.flatMap pollCommands) s := by
  induction ds with
  | nil => intro counts s; rfl
  | cons d rest ih =>
    intro counts s
    have hx : (tasmotaGetPowerState env d.ip s).2 =
        (tasmotaSendCommand env d.ip "Status 0" 3 s).2 := by
      unfold tasmotaGetPowerState tasmotaGetPowerStateEx
      simp only []
      split <;> rfl
    rw [List.flatMap_cons, runCommands_append]
    unfold tasmotaCheckFeedingCompleteLoop pollCommands
    by_cases he : d.enabled = true
    · rw [if_pos he, if_pos he]
      simp only []
      rw [ih, hx]
      rfl
    · rw [if_neg he, if_neg he]
      simp only []
      rw [ih]
      rfl

end FeedingBreak

namespace FeedingBreak

/-! ## What the local controller keeps of the device list -/

theorem DeviceKept.self (d : TasmotaDevice) : DeviceKept d d :=
  ⟨rfl, rfl, rfl, rfl, rfl, fun _ => rfl⟩

theorem DeviceKept.of_enabled {d d' : TasmotaDevice} (he : d.enabled = true)
    (h1 : d'.ip = d.ip) (h2 : d'.name = d.name) (h3 : d'.hostname = d.hostname)
    (h4 : d'.enabled = d.enabled) (h5 : d'.turnOn = d.turnOn) : DeviceKept d d' :=
  ⟨h1, h2, h3, h4, h5, fun hf => by rw [he] at hf; cases hf⟩

theorem DeviceKept.next {a b c : TasmotaDevice} (h1 : DeviceKept a b) (h2 : DeviceKept b c) :
    DeviceKept a c := by
  obtain ⟨a1, a2, a3, a4, a5, a6⟩ := h1
  obtain ⟨b1, b2, b3, b4, b5, b6⟩ := h2
  refine ⟨b1.trans a1, b2.trans a2, b3.trans a3, b4.trans a4, b5.trans a5, ?_⟩
  intro hf
  have hb : b = a := a6 hf
  have hc : c = b := b6 (by rw [hb]; exact hf)
  rw [hc, hb]

theorem devicesKept_same (ds : List TasmotaDevice) : List.Forall₂ DeviceKept ds ds := by
  induction ds with
  | nil => exact List.Forall₂.nil
  | cons d rest ih => exact List.Forall₂.cons (DeviceKept.self d) ih

theorem devicesKept_next {as bs cs : List TasmotaDevice} (h1 : List.Forall₂ DeviceKept as bs) :
    List.Forall₂ DeviceKept bs cs → List.Forall₂ DeviceKept as cs := by
  induction h1 generalizing cs with
  | nil => intro h2; cases h2; exact List.Forall₂.nil
  | cons hab _ ih =>
    intro h2
    cases h2 with
    | cons hbc hrest => exact List.Forall₂.cons (hab.next hbc) (ih hrest)

theorem forEachDevice_kept (body : TasmotaDevice → State → TasmotaDevice × State)
    (hbody : ∀ d s, DeviceKept d (body d s).1) (ds : List TasmotaDevice) :
    ∀ s : State, List.Forall₂ DeviceKept ds (forEachDevice body ds s).1 := by
  induction ds with
  | nil => intro s; exact List.Forall₂.nil
  | cons d rest ih => intro s; exact List.Forall₂.cons (hbody d s) (ih _)

theorem kept_tasmotaStartFeedingDevice (env : Env) (pulseTime : Int) (d : TasmotaDevice)
    (s : State) : DeviceKept d (tasmotaStartFeedingDevice env pulseTime d s).1 := by
  unfold tasmotaStartFeedingDevice
  by_cases he : d.enabled = true
  · rw [if_pos he]
    by_cases ht : d.turnOn = true
    · rw [if_pos ht]
      simp only []
      split
      · exact DeviceKept.of_enabled he rfl rfl rfl rfl rfl
      · exact DeviceKept.self d
    · rw [if_neg ht]
      simp only []
      split
      · exact DeviceKept.of_enabled he rfl rfl rfl rfl rfl
      · exact DeviceKept.self d
  · rw [if_neg he]; exact DeviceKept.self d

theorem kept_tasmotaStopFeedingDevice (env : Env) (d : TasmotaDevice) (s : State) :
    DeviceKept d (tasmotaStopFeedingDevice env d s).1 := by
  unfold tasmotaStopFeedingDevice
  by_cases he : d.enabled = true
  · rw [if_pos he]
    simp only []
    by_cases ht : d.turnOn = true
    · rw [if_pos ht]
      simp only []
      split
      · exact DeviceKept.of_enabled he rfl rfl rfl rfl rfl
      · exact DeviceKept.self d
    · rw [if_neg ht]
      simp only []
      split
      · exact DeviceKept.of_enabled he rfl rfl rfl rfl rfl
      · exact DeviceKept.self d
  · rw [if_neg he]; exact DeviceKept.self d

theorem kept_tasmotaUpdatePowerStatesDevice (env : Env) (d : TasmotaDevice) (s : State) :
    DeviceKept d (tasmotaUpdatePowerStatesDevice env d s).1 := by
  unfold tasmotaUpdatePowerStatesDevice
  by_cases he : d.enabled = true
  · rw [if_pos he]
    simp only []
    split
    · exact DeviceKept.of_enabled he rfl rfl rfl rfl rfl
    · exact DeviceKept.self d
  · rw [if_neg he]; exact DeviceKept.self d

theorem tasmotaCleanupDevice_device (env : Env) (d : TasmotaDevice) (s : State) :
    (tasmotaCleanupDevice env d s).1 = d := by
  unfold tasmotaCleanupDevice
  split <;> rfl

theorem forEachDevice_cleanup_devices (env : Env) (ds : List TasmotaDevice) :
    ∀ s : State, (forEachDevice (tasmotaCleanupDevice env) ds s).1 = ds := by
  induction ds with
  | nil => intro s; rfl
  | cons d rest ih =>
    intro s
    show (tasmotaCleanupDevice env d s).1 :: _ = d :: rest
    rw [tasmotaCleanupDevice_device, ih]

theorem kept_tasmotaCheckFeedingCompleteLoop (env : Env) (ds : List TasmotaDevice) :
    ∀ (counts : Int × Int) (s : State),
      List.Forall₂ DeviceKept ds (tasmotaCheckFeedingCompleteLoop env ds counts s).1.1 := by
  induction ds with
  | nil => intro counts s; exact List.Forall₂.nil
  | cons d rest ih =>
    intro counts s
    unfold tasmotaCheckFeedingCompleteLoop
    by_cases he : d.enabled = true
    · rw [if_pos he]
      exact List.Forall₂.cons (DeviceKept.of_enabled he rfl rfl rfl rfl rfl) (ih _ _)
    · rw [if_neg he]
      exact List.Forall₂.cons (DeviceKept.self d) (ih _ _)

/-! ## The addressees of the command lists -/

theorem flatMap_addressees (cmds : TasmotaDevice → List Command)
    (h : ∀ d c, c ∈ cmds d → d.enabled = true ∧ d.ip = c.ip) (ds : List TasmotaDevice) :
    ∀ c ∈ ds.flatMap cmds, ∃ d ∈ ds, d.enabled = true ∧ d.ip = c.ip := by
  intro c hc
  obtain ⟨d, hd, hcd⟩ := List.mem_flatMap.1 hc
  exact ⟨d, hd, h d c hcd⟩

theorem startCommands_addressee (pulseTime : Int) (d : TasmotaDevice) (c : Command)
    (hc : c ∈ startCommands pulseTime d) : d.enabled = true ∧ d.ip = c.ip := by
  unfold startCommands at hc
  by_cases he : d.enabled = true
  · refine ⟨he, ?_⟩
    rw [if_pos he] at hc
    split at hc
    · simp only [List.mem_singleton] at hc
      rw [hc]
    · split at hc
      · simp only [List.mem_cons, List.mem_singleton, List.not_mem_nil, or_false] at hc
        rcases hc with h | h | h <;> rw [h]
      · simp only [List.mem_cons, List.mem_singleton, List.not_mem_nil, or_false] at hc
        rcases hc with h | h <;> rw [h]
  · rw [if_neg he] at hc
    cases hc

theorem stopCommands_addressee (d : TasmotaDevice) (c : Command)
    (hc : c ∈ stopCommands d) : d.enabled = true ∧ d.ip = c.ip := by
  unfold stopCommands at hc
  by_cases he : d.enabled = true
  · refine ⟨he, ?_⟩
    rw [if_pos he] at hc
    split at hc
    · simp only [List.mem_cons, List.mem_singleton, List.not_mem_nil, or_false] at hc
      rcases hc with h | h | h | h <;> rw [h]
    · simp only [List.mem_cons, List.mem_singleton, List.not_mem_nil, or_false] at hc
      rcases hc with h | h | h <;> rw [h]
  · rw [if_neg he] at hc
    cases hc

theorem pollCommands_addressee (d : TasmotaDevice) (c : Command)
    (hc : c ∈ pollCommands d) : d.enabled = true ∧ d.ip = c.ip := by
  unfold pollCommands at hc
  by_cases he : d.enabled = true
  · refine ⟨he, ?_⟩
    rw [if_pos he] at hc
    simp only [List.mem_singleton] at hc
    rw [hc]
  · rw [if_neg he] at hc
    cases hc

theorem cleanupCommands_addressee (d : TasmotaDevice) (c : Command)
    (hc : c ∈ cleanupCommands d) : d.enabled = true ∧ d.ip = c.ip := by
  unfold cleanupCommands at hc
  by_cases he : d.enabled = true
  · refine ⟨he, ?_⟩
    rw [if_pos he] at hc
    simp only [List.mem_cons, List.mem_singleton, List.not_mem_nil, or_false] at hc
    rcases hc with h | h <;> rw [h]
  · rw [if_neg he] at hc
    cases hc

theorem cleanupCommands_kept {ds ds' : List TasmotaDevice}
    (h : List.Forall₂ DeviceKept ds ds') :
    ds'.flatMap cleanupCommands = ds.flatMap cleanupCommands := by
  induction h with
  | nil => rfl
  | @cons d d' _ _ hd _ ih =>
    have e : cleanupCommands d' = cleanupCommands d := by
      unfold cleanupCommands
      rw [hd.1, hd.2.2.2.1]
    rw [List.flatMap_cons, List.flatMap_cons, e, ih]

end FeedingBreak

namespace FeedingBreak

/-! ## The operations of the local controller as runs of command lists -/

theorem tasmotaSendCommandLoop_fields (env : Env) (ip command : String) (n : Nat) :
    ∀ s : State, ∃ (tr : List Event) (hc wp : Nat),
      (tasmotaSendCommandLoop env ip command n s).2 =
        { s with trace := tr, httpCount := hc, wifiPolls := wp } := by
  induction n with
  | zero => intro s; exact ⟨s.trace, s.httpCount, s.wifiPolls, rfl⟩
  | succ n ih =>
    intro s
    unfold tasmotaSendCommandLoop
    simp only []
    split
    · obtain ⟨tr, hc, wp, e⟩ := ih (wifiConnected env s).2
      exact ⟨tr, hc, wp, e.trans rfl⟩
    · split
      · exact ⟨_, _, _, rfl⟩
      · obtain ⟨tr, hc, wp, e⟩ :=
          ih (httpSend env (tasmotaCommandRequest ip command) (wifiConnected env s).2).2
        exact ⟨tr, hc, wp, e.trans rfl⟩

theorem runCommands_fields (env : Env) (cmds : List Command) :
    ∀ s : State, ∃ (tr : List Event) (hc wp : Nat),
      runCommands env cmds s = { s with trace := tr, httpCount := hc, wifiPolls := wp } := by
  induction cmds with
  | nil => intro s; exact ⟨s.trace, s.httpCount, s.wifiPolls, rfl⟩
  | cons c cs ih =>
    intro s
    obtain ⟨tr1, hc1, wp1, e1⟩ := tasmotaSendCommandLoop_fields env c.ip c.command c.retries.toNat s
    obtain ⟨tr, hc, wp, e⟩ := ih (tasmotaSendCommand env c.ip c.command c.retries s).2
    refine ⟨tr, hc, wp, ?_⟩
    show runCommands env cs (tasmotaSendCommand env c.ip c.command c.retries s).2 = _
    rw [e]
    show ({ (tasmotaSendCommandLoop env c.ip c.command c.retries.toNat s).2 with
            trace := tr, httpCount := hc, wifiPolls := wp } : State) = _
    rw [e1]

theorem tasmotaStartFeeding_guard (env : Env) (s : State)
    (h : s.tasmotaEnabled = false ∨ s.tasmotaDevices = []) : tasmotaStartFeeding env s = s := by
  unfold tasmotaStartFeeding
  rw [if_pos (h.imp id (fun e => by rw [e]; rfl))]

theorem tasmotaStopFeeding_guard (env : Env) (s : State)
    (h : s.tasmotaEnabled = false ∨ s.tasmotaDevices = []) : tasmotaStopFeeding env s = s := by
  unfold tasmotaStopFeeding
  rw [if_pos (h.imp id (fun e => by rw [e]; rfl))]

theorem local_guard_open (s : State) (hen : s.tasmotaEnabled = true)
    (hne : s.tasmotaDevices ≠ []) :
    ¬ (s.tasmotaEnabled = false ∨ s.tasmotaDevices.isEmpty = true) := by
  rintro (h | h)
  · rw [hen] at h; cases h
  · exact hne (List.isEmpty_iff.1 h)

theorem tasmotaStartFeeding_run (env : Env) (s : State) (hen : s.tasmotaEnabled = true)
    (hne : s.tasmotaDevices ≠ []) :
    (tasmotaStartFeeding env s).net =
      (runCommands env (s.tasmotaDevices.flatMap (startCommands s.tasmotaPulseTime)) s).net ∧
    (tasmotaStartFeeding env s).tasmotaFeedingActive = true ∧
    List.Forall₂ DeviceKept s.tasmotaDevices (tasmotaStartFeeding env s).tasmotaDevices := by
  have hr := forEachDevice_runCommands env _ _
    (tasmotaStartFeedingDevice_commands env s.tasmotaPulseTime) s.tasmotaDevices s
  unfold tasmotaStartFeeding
  rw [if_neg (local_guard_open s hen hne)]
  refine ⟨?_, rfl, ?_⟩
  · show (forEachDevice _ s.tasmotaDevices s).2.net = _
    rw [hr]
  · exact forEachDevice_kept _ (kept_tasmotaStartFeedingDevice env _) _ _

theorem tasmotaStopFeeding_run (env : Env) (s : State) (hen : s.tasmotaEnabled = true)
    (hne : s.tasmotaDevices ≠ []) :
    (tasmotaStopFeeding env s).net =
      (runCommands env (s.tasmotaDevices.flatMap stopCommands) s).net ∧
    (tasmotaStopFeeding env s).tasmotaFeedingActive = false ∧
    List.Forall₂ DeviceKept s.tasmotaDevices (tasmotaStopFeeding env s).tasmotaDevices := by
  have hr := forEachDevice_runCommands env _ _
    (tasmotaStopFeedingDevice_commands env) s.tasmotaDevices s
  unfold tasmotaStopFeeding
  rw [if_neg (local_guard_open s hen hne)]
  refine ⟨?_, rfl, ?_⟩
  · show (forEachDevice _ s.tasmotaDevices s).2.net = _
    rw [hr]
  · exact forEachDevice_kept _ (kept_tasmotaStopFeedingDevice env) _ _

theorem tasmotaUpdatePowerStates_run (env : Env) (s : State) :
    (tasmotaUpdatePowerStates env s).net =
      (runCommands env (s.tasmotaDevices.flatMap pollCommands) s).net ∧
    List.Forall₂ DeviceKept s.tasmotaDevices (tasmotaUpdatePowerStates env s).tasmotaDevices := by
  have hr := forEachDevice_runCommands env _ _
    (tasmotaUpdatePowerStatesDevice_commands env) s.tasmotaDevices s
  unfold tasmotaUpdatePowerStates
  simp only []
  refine ⟨?_, ?_⟩
  · show (forEachDevice _ s.tasmotaDevices s).2.net = _
    rw [hr]
  · exact forEachDevice_kept _ (kept_tasmotaUpdatePowerStatesDevice env) _ _

theorem onlyEnabled_same (env : Env) (s : State) : OnlyEnabledCommanded env s s :=
  ⟨[], rfl, fun _ h => absurd h (List.not_mem_nil _), devicesKept_same _⟩

theorem onlyEnabled_tasmotaStartFeeding (env : Env) (s : State) :
    OnlyEnabledCommanded env s (tasmotaStartFeeding env s) := by
  by_cases hg : s.tasmotaEnabled = false ∨ s.tasmotaDevices = []
  · rw [tasmotaStartFeeding_guard env s hg]; exact onlyEnabled_same env s
  · have hen : s.tasmotaEnabled = true := by
      cases h : s.tasmotaEnabled with
      | true => rfl
      | false => exact absurd (Or.inl h) hg
    have hne : s.tasmotaDevices ≠ [] := fun h => hg (Or.inr h)
    obtain ⟨h1, _, h3⟩ := tasmotaStartFeeding_run env s hen hne
    exact ⟨_, h1, flatMap_addressees _ (startCommands_addressee _) _, h3⟩

theorem onlyEnabled_tasmotaStopFeeding (env : Env) (s : State) :
    OnlyEnabledCommanded env s (tasmotaStopFeeding env s) := by
  by_cases hg : s.tasmotaEnabled = false ∨ s.tasmotaDevices = []
  · rw [tasmotaStopFeeding_guard env s hg]; exact onlyEnabled_same env s
  · have hen : s.tasmotaEnabled = true := by
      cases h : s.tasmotaEnabled with
      | true => rfl
      | false => exact absurd (Or.inl h) hg
    have hne : s.tasmotaDevices ≠ [] := fun h => hg (Or.inr h)
    obtain ⟨h1, _, h3⟩ := tasmotaStopFeeding_run env s hen hne
    exact ⟨_, h1, flatMap_addressees _ stopCommands_addressee _, h3⟩

theorem onlyEnabled_tasmotaUpdatePowerStates (env : Env) (s : State) :
    OnlyEnabledCommanded env s (tasmotaUpdatePowerStates env s) :=
  ⟨_, (tasmotaUpdatePowerStates_run env s).1, flatMap_addressees _ pollCommands_addressee _,
   (tasmotaUpdatePowerStates_run env s).2⟩

theorem onlyEnabled_tasmotaCheckFeedingComplete (env : Env) (s : State) :
    OnlyEnabledCommanded env s (tasmotaCheckFeedingComplete env s).2 := by
  unfold tasmotaCheckFeedingComplete
  split
  · exact onlyEnabled_same env s
  · simp only []
    refine ⟨s.tasmotaDevices.flatMap pollCommands, ?_,
      flatMap_addressees _ pollCommands_addressee _, ?_⟩
    · show (tasmotaCheckFeedingCompleteLoop env s.tasmotaDevices (0, 0) s).2.net = _
      rw [tasmotaCheckFeedingCompleteLoop_commands]
    · exact kept_tasmotaCheckFeedingCompleteLoop env _ _ _

end FeedingBreak

namespace FeedingBreak

/-! ## The status poll of the local controller -/

theorem feedingStatusLoop_eq (ds : List TasmotaDevice) :
    ∀ acc : List Json × Int × Int, feedingStatusLoop ds acc =
      (acc.1 ++ (ds.filter (fun d => d.enabled)).map feedingStatusEntry,
       acc.2.1 + ((ds.countP (fun d => d.enabled) : Nat) : Int),
       acc.2.2 + ((ds.countP (fun d => d.enabled && (d.powerState != d.turnOn)) : Nat) : Int)) := by
  induction ds with
  | nil => intro acc; simp [feedingStatusLoop]
  | cons d rest ih =>
    intro acc
    unfold feedingStatusLoop
    by_cases he : d.enabled = true
    · rw [if_pos he, ih]
      by_cases hc : (d.powerState == d.turnOn) = false
      · have hb : (d.powerState != d.turnOn) = true := by
          show (!(d.powerState == d.turnOn)) = true
          rw [hc]; rfl
        rw [if_pos hc]
        simp only [List.filter_cons, he, if_true, List.map_cons, List.countP_cons, hb,
          Bool.and_self, Nat.cast_add, Nat.cast_one, List.append_assoc, List.singleton_append]
        refine Prod.ext rfl (Prod.ext ?_ ?_)
        · show acc.2.1 + 1 + _ = acc.2.1 + (_ + 1)
          omega
        · show acc.2.2 + 1 + _ = acc.2.2 + (_ + 1)
          omega
      · have hb : (d.powerState != d.turnOn) = false := by
          show (!(d.powerState == d.turnOn)) = false
          simp only [Bool.not_eq_false] at hc
          rw [hc]; rfl
        rw [if_neg hc]
        simp only [List.filter_cons, he, if_true, List.map_cons, List.countP_cons, hb,
          Bool.and_false, Bool.false_eq_true, if_false, Nat.cast_add, Nat.cast_one,
          List.append_assoc, List.singleton_append, Nat.add_zero]
        refine Prod.ext rfl (Prod.ext ?_ rfl)
        show acc.2.1 + 1 + _ = acc.2.1 + (_ + 1)
        omega
    · rw [if_neg he, ih]
      simp only [Bool.not_eq_true] at he
      simp only [List.filter_cons, he, Bool.false_eq_true, if_false, List.countP_cons,
        Bool.false_and, Nat.add_zero]

theorem statusDoc_fields (a b c dv tv cv av : Json) (extra : List (String × Json))
    (hextra : extra = [] ∨ ∃ v, extra = [("elapsedSeconds", v)]) :
    (Json.obj ([("active", a), ("enabled", b), ("pulseTime", c)] ++ extra ++
        [("devices", dv), ("totalDevices", tv), ("completedDevices", cv),
         ("allComplete", av)])).get "devices" = dv ∧
    (Json.obj ([("active", a), ("enabled", b), ("pulseTime", c)] ++ extra ++
        [("devices", dv), ("totalDevices", tv), ("completedDevices", cv),
         ("allComplete", av)])).get "totalDevices" = tv ∧
    (Json.obj ([("active", a), ("enabled", b), ("pulseTime", c)] ++ extra ++
        [("devices", dv), ("totalDevices", tv), ("completedDevices", cv),
         ("allComplete", av)])).get "completedDevices" = cv ∧
    (Json.obj ([("active", a), ("enabled", b), ("pulseTime", c)] ++ extra ++
        [("devices", dv), ("totalDevices", tv), ("completedDevices", cv),
         ("allComplete", av)])).get "allComplete" = av := by
  rcases hextra with rfl | ⟨v, rfl⟩ <;> exact ⟨rfl, rfl, rfl, rfl⟩

theorem feedingStatusPoll_extra (env : Env) (s : State) :
    (feedingStatusPoll env s).1 = [] ∨ ∃ v, (feedingStatusPoll env s).1 = [("elapsedSeconds", v)] := by
  unfold feedingStatusPoll
  split
  · exact Or.inr ⟨_, rfl⟩
  · exact Or.inl rfl

theorem feedingStatusPoll_state (env : Env) (s : State) :
    (feedingStatusPoll env s).2.net =
      (runCommands env
        (if s.tasmotaFeedingActive = true then s.tasmotaDevices.flatMap pollCommands else [])
        s).net ∧
    List.Forall₂ DeviceKept s.tasmotaDevices (feedingStatusPoll env s).2.tasmotaDevices ∧
    (feedingStatusPoll env s).2.tasmotaFeedingActive = s.tasmotaFeedingActive ∧
    (feedingStatusPoll env s).2.feedingModeActive = s.feedingModeActive := by
  unfold feedingStatusPoll
  by_cases ha : s.tasmotaFeedingActive = true
  · rw [if_pos ha, if_pos ha]
    simp only []
    have hu := tasmotaUpdatePowerStates_run env (readMillis env s).2
    refine ⟨?_, hu.2, ?_, ?_⟩
    · rw [hu.1]
      exact net_runCommands env _ _ _ rfl
    · obtain ⟨tr, hc, wp, e⟩ := runCommands_fields env
        ((readMillis env s).2.tasmotaDevices.flatMap pollCommands) (readMillis env s).2
      have hr := forEachDevice_runCommands env _ _
        (tasmotaUpdatePowerStatesDevice_commands env) (readMillis env s).2.tasmotaDevices
        (readMillis env s).2
      show (forEachDevice _ _ _).2.tasmotaFeedingActive = _
      rw [hr, e]
      rfl
    · obtain ⟨tr, hc, wp, e⟩ := runCommands_fields env
        ((readMillis env s).2.tasmotaDevices.flatMap pollCommands) (readMillis env s).2
      have hr := forEachDevice_runCommands env _ _
        (tasmotaUpdatePowerStatesDevice_commands env) (readMillis env s).2.tasmotaDevices
        (readMillis env s).2
      show (forEachDevice _ _ _).2.feedingModeActive = _
      rw [hr, e]
      rfl
  · rw [if_neg ha, if_neg ha]
    exact ⟨rfl, devicesKept_same _, rfl, rfl⟩

theorem tasmotaGetFeedingStatusDoc_doc (env : Env) (s : State) :
    (tasmotaGetFeedingStatusDoc env s).1 =
      Json.obj ([("active", Json.bool s.tasmotaFeedingActive),
          ("enabled", Json.bool s.tasmotaEnabled), ("pulseTime", Json.int s.tasmotaPulseTime)]
        ++ (feedingStatusPoll env s).1 ++
        [("devices", Json.arr
            (feedingStatusLoop (feedingStatusPoll env s).2.tasmotaDevices ([], 0, 0)).1),
         ("totalDevices", Json.int
            (feedingStatusLoop (feedingStatusPoll env s).2.tasmotaDevices ([], 0, 0)).2.1),
         ("completedDevices", Json.int
            (feedingStatusLoop (feedingStatusPoll env s).2.tasmotaDevices ([], 0, 0)).2.2),
         ("allComplete", Json.bool (decide
            ((feedingStatusLoop (feedingStatusPoll env s).2.tasmotaDevices ([], 0, 0)).2.1 > 0 ∧
             (feedingStatusLoop (feedingStatusPoll env s).2.tasmotaDevices ([], 0, 0)).2.2 =
             (feedingStatusLoop (feedingStatusPoll env s).2.tasmotaDevices ([], 0, 0)).2.1)))]) := by
  unfold tasmotaGetFeedingStatusDoc
  simp only []
  split <;> rfl

theorem tasmotaGetFeedingStatusDoc_ends (env : Env) (s : State)
    (h : (feedingStatusPoll env s).2.tasmotaFeedingActive = true ∧
      (feedingStatusLoop (feedingStatusPoll env s).2.tasmotaDevices ([], 0, 0)).2.1 > 0 ∧
      (feedingStatusLoop (feedingStatusPoll env s).2.tasmotaDevices ([], 0, 0)).2.2 =
        (feedingStatusLoop (feedingStatusPoll env s).2.tasmotaDevices ([], 0, 0)).2.1) :
    (tasmotaGetFeedingStatusDoc env s).2.tasmotaFeedingActive = false ∧
    (tasmotaGetFeedingStatusDoc env s).2.feedingModeActive = false ∧
    (tasmotaGetFeedingStatusDoc env s).2.net =
      (runCommands env ((feedingStatusPoll env s).2.tasmotaDevices.flatMap cleanupCommands)
        (feedingStatusPoll env s).2).net ∧
    (tasmotaGetFeedingStatusDoc env s).2.tasmotaDevices =
      (feedingStatusPoll env s).2.tasmotaDevices := by
  have hr := forEachDevice_runCommands env _ _ (tasmotaCleanupDevice_commands env)
    (feedingStatusPoll env s).2.tasmotaDevices
    { (feedingStatusPoll env s).2 with tasmotaFeedingActive := false, feedingModeActive := false }
  obtain ⟨tr, hc, wp, e⟩ := runCommands_fields env
    ((feedingStatusPoll env s).2.tasmotaDevices.flatMap cleanupCommands)
    { (feedingStatusPoll env s).2 with tasmotaFeedingActive := false, feedingModeActive := false }
  unfold tasmotaGetFeedingStatusDoc
  simp only []
  rw [if_pos h]
  refine ⟨?_, ?_, ?_, ?_⟩
  · show (forEachDevice _ _ _).2.tasmotaFeedingActive = false
    rw [hr, e]
  · show (forEachDevice _ _ _).2.feedingModeActive = false
    rw [hr, e]
  · show (forEachDevice _ _ _).2.net = _
    rw [hr]
    exact net_runCommands env _ _ _ rfl
  · exact forEachDevice_cleanup_devices env _ _

theorem tasmotaGetFeedingStatusDoc_goes_on (env : Env) (s : State)
    (h : ¬ ((feedingStatusPoll env s).2.tasmotaFeedingActive = true ∧
      (feedingStatusLoop (feedingStatusPoll env s).2.tasmotaDevices ([], 0, 0)).2.1 > 0 ∧
      (feedingStatusLoop (feedingStatusPoll env s).2.tasmotaDevices ([], 0, 0)).2.2 =
        (feedingStatusLoop (feedingStatusPoll env s).2.tasmotaDevices ([], 0, 0)).2.1)) :
    (tasmotaGetFeedingStatusDoc env s).2 = (feedingStatusPoll env s).2 := by
  unfold tasmotaGetFeedingStatusDoc
  simp only []
  rw [if_neg h]

theorem onlyEnabled_tasmotaGetFeedingStatus (env : Env) (s : State) :
    OnlyEnabledCommanded env s (tasmotaGetFeedingStatus env s).2 := by
  obtain ⟨p1, p2, _, _⟩ := feedingStatusPoll_state env s
  show OnlyEnabledCommanded env s (tasmotaGetFeedingStatusDoc env s).2
  by_cases h : (feedingStatusPoll env s).2.tasmotaFeedingActive = true ∧
      (feedingStatusLoop (feedingStatusPoll env s).2.tasmotaDevices ([], 0, 0)).2.1 > 0 ∧
      (feedingStatusLoop (feedingStatusPoll env s).2.tasmotaDevices ([], 0, 0)).2.2 =
        (feedingStatusLoop (feedingStatusPoll env s).2.tasmotaDevices ([], 0, 0)).2.1
  · obtain ⟨_, _, e3, e4⟩ := tasmotaGetFeedingStatusDoc_ends env s h
    refine ⟨(if s.tasmotaFeedingActive = true then s.tasmotaDevices.flatMap pollCommands else [])
      ++ s.tasmotaDevices.flatMap cleanupCommands, ?_, ?_, ?_⟩
    · rw [e3, cleanupCommands_kept p2, runCommands_append]
      exact net_runCommands env _ _ _ p1
    · intro c hc
      rcases List.mem_append.1 hc with hc | hc
      · split at hc
        · exact flatMap_addressees _ pollCommands_addressee _ c hc
        · cases hc
      · exact flatMap_addressees _ cleanupCommands_addressee _ c hc
    · rw [e4]; exact p2
  · rw [tasmotaGetFeedingStatusDoc_goes_on env s h]
    refine ⟨_, p1, ?_, p2⟩
    intro c hc
    split at hc
    · exact flatMap_addressees _ pollCommands_addressee _ c hc
    · cases hc

end FeedingBreak

namespace FeedingBreak

/-! ## Claims on the local controller -/

theorem pulseValue_in_range (pt : Int) (h0 : 0 < pt) (h1 : pt + 100 < 2 ^ 31) :
    pulseValue pt = min (pt + 100) 64900 := by
  have hw : wrapInt32 (pt + 100) = pt + 100 := by
    unfold wrapInt32
    rw [Int.emod_eq_of_lt (by omega) (by omega)]
    omega
  unfold pulseValue
  simp only []
  rw [hw]
  split
  · omega
  · omega

/-- C14: A device whose enabled flag is false is never commanded or queried: each of
`tasmotaStartFeeding`, `tasmotaStopFeeding`, `tasmotaUpdatePowerStates`,
`tasmotaCheckFeedingComplete` and `tasmotaGetFeedingStatus` acts on the network as a
sequence of calls of `tasmotaSendCommand` whose addresses all belong to enabled devices of
the list, whatever the devices answer, and leaves every field of a disabled device (and the
address, names, enabled flag and polarity of every device) as it was. -/
theorem disabled_devices_never_commanded (env : Env) (s : State) :
    OnlyEnabledCommanded env s (tasmotaStartFeeding env s) ∧
    OnlyEnabledCommanded env s (tasmotaStopFeeding env s) ∧
    OnlyEnabledCommanded env s (tasmotaUpdatePowerStates env s) ∧
    OnlyEnabledCommanded env s (tasmotaCheckFeedingComplete env s).2 ∧
    OnlyEnabledCommanded env s (tasmotaGetFeedingStatus env s).2 :=
  ⟨onlyEnabled_tasmotaStartFeeding env s, onlyEnabled_tasmotaStopFeeding env s,
   onlyEnabled_tasmotaUpdatePowerStates env s, onlyEnabled_tasmotaCheckFeedingComplete env s,
   onlyEnabled_tasmotaGetFeedingStatus env s⟩

/-- C15, counterexample: with the local backend enabled and an empty device
list `tasmotaStartFeeding` returns at its guard and `tasmotaFeedingActive` stays false. -/
theorem tasmotaStartFeeding_empty_counterexample :
    exampleNoDevices.tasmotaEnabled = true ∧
    (tasmotaStartFeeding (scriptedEnv [] true) exampleNoDevices).tasmotaFeedingActive = false := by
  decide

/-- C15, amended: With the local backend disabled or an empty device list
`tasmotaStartFeeding` changes nothing. With the backend enabled and a non-empty list it
acts on the network as the command lists of the devices issued in list order, whatever the
devices answer, and sets `tasmotaFeedingActive`. The command list of a device is fixed by
its enabled flag and polarity: nothing for a disabled device, `Power ON` for an inverted
one, and for a normal one `PowerOnState 5`, `PulseTime` with `tasmotaPulseTime + 100`
capped at 64900, `Power OFF`, when `tasmotaPulseTime` is positive and the sum fits a 32-bit
int. -/
theorem tasmotaStartFeeding_commands (env : Env) (s : State) :
    (s.tasmotaEnabled = false ∨ s.tasmotaDevices = [] → tasmotaStartFeeding env s = s) ∧
    (s.tasmotaEnabled = true → s.tasmotaDevices ≠ [] →
      (tasmotaStartFeeding env s).net =
        (runCommands env
          (s.tasmotaDevices.flatMap (startCommands s.tasmotaPulseTime)) s).net ∧
      (tasmotaStartFeeding env s).tasmotaFeedingActive = true) ∧
    (∀ d : TasmotaDevice, d.enabled = false → startCommands s.tasmotaPulseTime d = []) ∧
    (∀ d : TasmotaDevice, d.enabled = true → d.turnOn = true →
      startCommands s.tasmotaPulseTime d = [⟨d.ip, "Power ON", 3⟩]) ∧
    (∀ d : TasmotaDevice, d.enabled = true → d.turnOn = false →
      0 < s.tasmotaPulseTime → s.tasmotaPulseTime + 100 < 2 ^ 31 →
      startCommands s.tasmotaPulseTime d =
        [⟨d.ip, "PowerOnState 5", 2⟩,
         ⟨d.ip, "PulseTime " ++ toString (min (s.tasmotaPulseTime + 100) 64900), 2⟩,
         ⟨d.ip, "Power OFF", 3⟩]) := by
  refine ⟨tasmotaStartFeeding_guard env s, ?_, ?_, ?_, ?_⟩
  · intro hen hne
    exact ⟨(tasmotaStartFeeding_run env s hen hne).1, (tasmotaStartFeeding_run env s hen hne).2.1⟩
  · intro d he
    unfold startCommands
    rw [he]; rfl
  · intro d he ht
    unfold startCommands
    rw [he, ht]; rfl
  · intro d he ht h0 h1
    unfold startCommands
    rw [he, ht, if_pos rfl, if_neg (by decide), if_pos h0, pulseValue_in_range _ h0 h1]

/-- C15 amended, worked example: a normal, an inverted and a disabled device with the
pulse time 900; the start issues three commands to the first, one to the second, none to
the third, and sets the local feeding flag. -/
theorem tasmotaStartFeeding_commands_witness :
    (tasmotaStartFeeding (scriptedEnv (scriptOk 4) true) exampleLocal).tasmotaFeedingActive
      = true ∧
    (tasmotaStartFeeding (scriptedEnv (scriptOk 4) true) exampleLocal).net =
      (runCommands (scriptedEnv (scriptOk 4) true)
        [⟨"192.168.1.50", "PowerOnState 5", 2⟩, ⟨"192.168.1.50", "PulseTime 1000", 2⟩,
         ⟨"192.168.1.50", "Power OFF", 3⟩, ⟨"192.168.1.51", "Power ON", 3⟩] exampleLocal).net ∧
    startCommands exampleLocal.tasmotaPulseTime examplePump =
      [⟨"192.168.1.50", "PowerOnState 5", 2⟩, ⟨"192.168.1.50", "PulseTime 1000", 2⟩,
       ⟨"192.168.1.50", "Power OFF", 3⟩] :=
  ⟨((tasmotaStartFeeding_commands (scriptedEnv (scriptOk 4) true) exampleLocal).2.1
      (by decide) (by decide)).2,
   ((tasmotaStartFeeding_commands (scriptedEnv (scriptOk 4) true) exampleLocal).2.1
      (by decide) (by decide)).1,
   (tasmotaStartFeeding_commands (scriptedEnv (scriptOk 4) true) exampleLocal).2.2.2.2
      examplePump (by decide) (by decide) (by decide) (by decide)⟩

/-- C16, counterexample: an enabled inverted device is sent four commands by
`tasmotaStopFeeding`, with a second `PulseTime 0` (from `tasmotaTurnOff`) before
`Power OFF`; the requests differ from those of the three commands of the claim. -/
theorem tasmotaStopFeeding_inverted_counterexample :
    (tasmotaStopFeeding (scriptedEnv (scriptOk 4) true) exampleInvertedOnly).trace =
      [Event.http (tasmotaCommandRequest "192.168.1.51" "PulseTime 0"),
       Event.http (tasmotaCommandRequest "192.168.1.51" "PowerOnState 3"),
       Event.http (tasmotaCommandRequest "192.168.1.51" "PulseTime 0"),
       Event.http (tasmotaCommandRequest "192.168.1.51" "Power OFF")] ∧
    (tasmotaStopFeeding (scriptedEnv (scriptOk 4) true) exampleInvertedOnly).trace ≠
      (runCommands (scriptedEnv (scriptOk 4) true)
        [⟨"192.168.1.51", "PulseTime 0", 3⟩, ⟨"192.168.1.51", "PowerOnState 3", 3⟩,
         ⟨"192.168.1.51", "Power OFF", 3⟩] exampleInvertedOnly).trace := by
  decide

/-- C16, amended: With the local backend disabled or an empty device list
`tasmotaStopFeeding` changes nothing. With the backend enabled and a non-empty list it
acts on the network as the command lists of the devices issued in list order, whatever the
devices answer and whatever their state, and clears `tasmotaFeedingActive`. An enabled
normal device is sent `PulseTime 0`, `PowerOnState 3`, `Power ON`; an enabled inverted
device is sent `PulseTime 0`, `PowerOnState 3`, `PulseTime 0`, `Power OFF`; a disabled
device is sent nothing. -/
theorem tasmotaStopFeeding_commands (env : Env) (s : State) :
    (s.tasmotaEnabled = false ∨ s.tasmotaDevices = [] → tasmotaStopFeeding env s = s) ∧
    (s.tasmotaEnabled = true → s.tasmotaDevices ≠ [] →
      (tasmotaStopFeeding env s).net =
        (runCommands env (s.tasmotaDevices.flatMap stopCommands) s).net ∧
      (tasmotaStopFeeding env s).tasmotaFeedingActive = false) ∧
    (∀ d : TasmotaDevice, d.enabled = false → stopCommands d = []) ∧
    (∀ d : TasmotaDevice, d.enabled = true → d.turnOn = false →
      stopCommands d =
        [⟨d.ip, "PulseTime 0", 3⟩, ⟨d.ip, "PowerOnState 3", 3⟩, ⟨d.ip, "Power ON", 3⟩]) ∧
    (∀ d : TasmotaDevice, d.enabled = true → d.turnOn = true →
      stopCommands d =
        [⟨d.ip, "PulseTime 0", 3⟩, ⟨d.ip, "PowerOnState 3", 3⟩,
         ⟨d.ip, "PulseTime 0", 2⟩, ⟨d.ip, "Power OFF", 3⟩]) := by
  refine ⟨tasmotaStopFeeding_guard env s, ?_, ?_, ?_, ?_⟩
  · intro hen hne
    exact ⟨(tasmotaStopFeeding_run env s hen hne).1, (tasmotaStopFeeding_run env s hen hne).2.1⟩
  · intro d he
    unfold stopCommands
    rw [he]; rfl
  · intro d he ht
    unfold stopCommands
    rw [he, ht]; rfl
  · intro d he ht
    unfold stopCommands
    rw [he, ht]; rfl

/-- C16 amended, worked example: the stop issues three commands to the normal device and
four to the inverted one and clears the local feeding flag; with an empty device list it
changes nothing. -/
theorem tasmotaStopFeeding_commands_witness :
    (tasmotaStopFeeding (scriptedEnv (scriptOk 7) true) exampleLocal).tasmotaFeedingActive
      = false ∧
    (tasmotaStopFeeding (scriptedEnv (scriptOk 7) true) exampleLocal).net =
      (runCommands (scriptedEnv (scriptOk 7) true)
        [⟨"192.168.1.50", "PulseTime 0", 3⟩, ⟨"192.168.1.50", "PowerOnState 3", 3⟩,
         ⟨"192.168.1.50", "Power ON", 3⟩,
         ⟨"192.168.1.51", "PulseTime 0", 3⟩, ⟨"192.168.1.51", "PowerOnState 3", 3⟩,
         ⟨"192.168.1.51", "PulseTime 0", 2⟩, ⟨"192.168.1.51", "Power OFF", 3⟩]
        exampleLocal).net ∧
    tasmotaStopFeeding (scriptedEnv [] true) exampleNoDevices = exampleNoDevices :=
  ⟨((tasmotaStopFeeding_commands (scriptedEnv (scriptOk 7) true) exampleLocal).2.1
      (by decide) (by decide)).2,
   ((tasmotaStopFeeding_commands (scriptedEnv (scriptOk 7) true) exampleLocal).2.1
      (by decide) (by decide)).1,
   (tasmotaStopFeeding_commands (scriptedEnv [] true) exampleNoDevices).1 (Or.inr rfl)⟩

end FeedingBreak

namespace FeedingBreak

/-- The report of `tasmotaGetFeedingStatus` over the device list as it stands after the
poll: the entries of the enabled devices, the two counts and `allComplete`, and the
automatic end of the local feeding with its clean-up commands. -/
theorem tasmotaGetFeedingStatus_report (env : Env) (s : State) :
    (feedingStatusPoll env s).2 =
      (if s.tasmotaFeedingActive = true then tasmotaUpdatePowerStates env (readMillis env s).2
       else s) ∧
    (tasmotaGetFeedingStatus env s).1 =
      env.serializeJson (tasmotaGetFeedingStatusDoc env s).1 ∧
    (tasmotaGetFeedingStatus env s).2 = (tasmotaGetFeedingStatusDoc env s).2 ∧
    (tasmotaGetFeedingStatusDoc env s).1.get "devices" =
      Json.arr (((feedingStatusPoll env s).2.tasmotaDevices.filter
        (fun d => d.enabled)).map feedingStatusEntry) ∧
    (∀ d : TasmotaDevice,
      (feedingStatusEntry d).get "completed" = Json.bool (d.powerState != d.turnOn)) ∧
    (tasmotaGetFeedingStatusDoc env s).1.get "totalDevices" =
      Json.int (((feedingStatusPoll env s).2.tasmotaDevices.countP
        (fun d => d.enabled) : Nat) : Int) ∧
    (tasmotaGetFeedingStatusDoc env s).1.get "completedDevices" =
      Json.int (((feedingStatusPoll env s).2.tasmotaDevices.countP
        (fun d => d.enabled && (d.powerState != d.turnOn)) : Nat) : Int) ∧
    (tasmotaGetFeedingStatusDoc env s).1.get "allComplete" =
      Json.bool (decide
        (0 < (feedingStatusPoll env s).2.tasmotaDevices.countP (fun d => d.enabled) ∧
         (feedingStatusPoll env s).2.tasmotaDevices.countP
            (fun d => d.enabled && (d.powerState != d.turnOn)) =
          (feedingStatusPoll env s).2.tasmotaDevices.countP (fun d => d.enabled))) ∧
    (if autoEnds s.tasmotaFeedingActive (feedingStatusPoll env s).2.tasmotaDevices then
       (tasmotaGetFeedingStatus env s).2.tasmotaFeedingActive = false ∧
       (tasmotaGetFeedingStatus env s).2.net =
         (runCommands env ((feedingStatusPoll env s).2.tasmotaDevices.flatMap cleanupCommands)
           (feedingStatusPoll env s).2).net ∧
       (∀ d : TasmotaDevice, d.enabled = true →
         cleanupCommands d = [⟨d.ip, "PulseTime 0", 3⟩, ⟨d.ip, "PowerOnState 3", 3⟩]) ∧
       (∀ d : TasmotaDevice, d.enabled = false → cleanupCommands d = [])
     else
       (tasmotaGetFeedingStatus env s).2 = (feedingStatusPoll env s).2 ∧
       (tasmotaGetFeedingStatus env s).2.tasmotaFeedingActive = s.tasmotaFeedingActive) := by
  have hl := feedingStatusLoop_eq (feedingStatusPoll env s).2.tasmotaDevices ([], 0, 0)
  have hdoc := tasmotaGetFeedingStatusDoc_doc env s
  obtain ⟨_, _, pa, _⟩ := feedingStatusPoll_state env s
  have hf := statusDoc_fields (Json.bool s.tasmotaFeedingActive) (Json.bool s.tasmotaEnabled)
    (Json.int s.tasmotaPulseTime)
    (Json.arr (feedingStatusLoop (feedingStatusPoll env s).2.tasmotaDevices ([], 0, 0)).1)
    (Json.int (feedingStatusLoop (feedingStatusPoll env s).2.tasmotaDevices ([], 0, 0)).2.1)
    (Json.int (feedingStatusLoop (feedingStatusPoll env s).2.tasmotaDevices ([], 0, 0)).2.2)
    (Json.bool (decide
      ((feedingStatusLoop (feedingStatusPoll env s).2.tasmotaDevices ([], 0, 0)).2.1 > 0 ∧
       (feedingStatusLoop (feedingStatusPoll env s).2.tasmotaDevices ([], 0, 0)).2.2 =
       (feedingStatusLoop (feedingStatusPoll env s).2.tasmotaDevices ([], 0, 0)).2.1)))
    (feedingStatusPoll env s).1 (feedingStatusPoll_extra env s)
  rw [← hdoc] at hf
  obtain ⟨f1, f2, f3, f4⟩ := hf
  have l1 : (feedingStatusLoop (feedingStatusPoll env s).2.tasmotaDevices ([], 0, 0)).1 =
      ((feedingStatusPoll env s).2.tasmotaDevices.filter
        (fun d => d.enabled)).map feedingStatusEntry := by
    rw [hl]; rfl
  have l2 : (feedingStatusLoop (feedingStatusPoll env s).2.tasmotaDevices ([], 0, 0)).2.1 =
      (((feedingStatusPoll env s).2.tasmotaDevices.countP (fun d => d.enabled) : Nat) : Int) := by
    rw [hl]; exact Int.zero_add _
  have l3 : (feedingStatusLoop (feedingStatusPoll env s).2.tasmotaDevices ([], 0, 0)).2.2 =
      (((feedingStatusPoll env s).2.tasmotaDevices.countP
        (fun d => d.enabled && (d.powerState != d.turnOn)) : Nat) : Int) := by
    rw [hl]; exact Int.zero_add _
  have hiff : ((feedingStatusLoop (feedingStatusPoll env s).2.tasmotaDevices ([], 0, 0)).2.1 > 0 ∧
      (feedingStatusLoop (feedingStatusPoll env s).2.tasmotaDevices ([], 0, 0)).2.2 =
      (feedingStatusLoop (feedingStatusPoll env s).2.tasmotaDevices ([], 0, 0)).2.1) ↔
      (0 < (feedingStatusPoll env s).2.tasmotaDevices.countP (fun d => d.enabled) ∧
       (feedingStatusPoll env s).2.tasmotaDevices.countP
          (fun d => d.enabled && (d.powerState != d.turnOn)) =
        (feedingStatusPoll env s).2.tasmotaDevices.countP (fun d => d.enabled)) := by
    rw [l2, l3]
    constructor
    · rintro ⟨a, b⟩; exact ⟨by omega, by omega⟩
    · rintro ⟨a, b⟩; exact ⟨by omega, by omega⟩
  refine ⟨?_, rfl, rfl, ?_, fun _ => rfl, ?_, ?_, ?_, ?_⟩
  · unfold feedingStatusPoll
    split <;> rfl
  · rw [f1, l1]
  · rw [f2, l2]
  · rw [f3, l3]
  · rw [f4, decide_eq_decide.2 hiff]
  · show (if _ then
        (tasmotaGetFeedingStatusDoc env s).2.tasmotaFeedingActive = false ∧
        (tasmotaGetFeedingStatusDoc env s).2.net = _ ∧ _
      else (tasmotaGetFeedingStatusDoc env s).2 = _ ∧
        (tasmotaGetFeedingStatusDoc env s).2.tasmotaFeedingActive = _)
    split
    · rename_i h
      have h' : (feedingStatusPoll env s).2.tasmotaFeedingActive = true ∧
          (feedingStatusLoop (feedingStatusPoll env s).2.tasmotaDevices ([], 0, 0)).2.1 > 0 ∧
          (feedingStatusLoop (feedingStatusPoll env s).2.tasmotaDevices ([], 0, 0)).2.2 =
            (feedingStatusLoop (feedingStatusPoll env s).2.tasmotaDevices ([], 0, 0)).2.1 :=
        ⟨pa.trans h.1, hiff.2 h.2⟩
      obtain ⟨e1, _, e3, _⟩ := tasmotaGetFeedingStatusDoc_ends env s h'
      refine ⟨e1, e3, ?_, ?_⟩
      · intro d he
        unfold cleanupCommands
        rw [he]; rfl
      · intro d he
        unfold cleanupCommands
        rw [he]; rfl
    · rename_i h
      have h' : ¬ ((feedingStatusPoll env s).2.tasmotaFeedingActive = true ∧
          (feedingStatusLoop (feedingStatusPoll env s).2.tasmotaDevices ([], 0, 0)).2.1 > 0 ∧
          (feedingStatusLoop (feedingStatusPoll env s).2.tasmotaDevices ([], 0, 0)).2.2 =
            (feedingStatusLoop (feedingStatusPoll env s).2.tasmotaDevices ([], 0, 0)).2.1) :=
        fun hh => h ⟨pa.symm.trans hh.1, hiff.1 hh.2⟩
      rw [tasmotaGetFeedingStatusDoc_goes_on env s h']
      exact ⟨rfl, pa⟩

end FeedingBreak

namespace FeedingBreak

/-! ## The network scan -/

set_option maxRecDepth 1000000 in
theorem digitsValue_toString : ∀ i : Nat, i < 256 → digitsValue (toString i).data = i := by
  decide

theorem scan_skips_iff (env : Env) (j : Nat) (hj : j < 256) :
    scanBaseIP env ++ toString j = localIPString env ↔ j = env.localIP.2.2.2 % 256 := by
  have hl : localIPString env = scanBaseIP env ++ toString (env.localIP.2.2.2 % 256) := rfl
  constructor
  · intro h
    rw [hl] at h
    have h1 := congrArg String.data h
    rw [String.data_append, String.data_append] at h1
    have h2 := congrArg digitsValue (List.append_cancel_left h1)
    rw [digitsValue_toString _ hj,
      digitsValue_toString _ (Nat.mod_lt _ (by decide))] at h2
    exact h2
  · intro h
    rw [hl, h]

theorem scanHosts_skip (env : Env) (i n : Nat)
    (h : scanBaseIP env ++ toString i = localIPString env) :
    scanHosts env i (n + 1) = scanHosts env (i + 1) n := by
  unfold scanHosts
  rw [List.range'_succ, List.filter_cons, if_neg (by simp [h])]

theorem scanHosts_probe (env : Env) (i n : Nat)
    (h : ¬ scanBaseIP env ++ toString i = localIPString env) :
    scanHosts env i (n + 1) = i :: scanHosts env (i + 1) n := by
  unfold scanHosts
  rw [List.range'_succ, List.filter_cons, if_pos (by simp [h])]

theorem scanResultsSpec_found (env : Env) (i : Nat) (rest : List Nat) (h : Nat)
    (d : TasmotaDevice)
    (hc : checkDeviceAnswer env (scanBaseIP env ++ toString i) (scanFreshDevice env i)
      (env.http h) = some d) :
    scanResultsSpec env (i :: rest) h = d :: scanResultsSpec env rest (h + 1) := by
  unfold scanResultsSpec
  rw [List.enumFrom_cons, List.filterMap_cons]
  simp only [hc]

theorem scanResultsSpec_none (env : Env) (i : Nat) (rest : List Nat) (h : Nat)
    (hc : checkDeviceAnswer env (scanBaseIP env ++ toString i) (scanFreshDevice env i)
      (env.http h) = none) :
    scanResultsSpec env (i :: rest) h = scanResultsSpec env rest (h + 1) := by
  unfold scanResultsSpec
  rw [List.enumFrom_cons, List.filterMap_cons]
  simp only [hc]

theorem tasmotaCheckDevice_found (env : Env) (ip : String) (fresh d : TasmotaDevice)
    (s : State) (hc : checkDeviceAnswer env ip fresh (env.http s.httpCount) = some d) :
    tasmotaCheckDevice env ip fresh s = (true, d, (httpSend env (tasmotaCheckRequest ip) s).2) := by
  unfold tasmotaCheckDevice
  simp only []
  rw [show (httpSend env (tasmotaCheckRequest ip) s).1 = env.http s.httpCount from rfl, hc]

theorem tasmotaCheckDevice_none (env : Env) (ip : String) (fresh : TasmotaDevice)
    (s : State) (hc : checkDeviceAnswer env ip fresh (env.http s.httpCount) = none) :
    tasmotaCheckDevice env ip fresh s =
      (false, fresh, (httpSend env (tasmotaCheckRequest ip) s).2) := by
  unfold tasmotaCheckDevice
  simp only []
  rw [show (httpSend env (tasmotaCheckRequest ip) s).1 = env.http s.httpCount from rfl, hc]

theorem withScan_eq (s : State) {p p' : Int} {tr tr' : List Event} {h h' : Nat}
    {r r' : List TasmotaDevice} {f f' : Int} (e1 : p = p') (e2 : tr = tr') (e3 : h = h')
    (e4 : r = r') (e5 : f = f') : s.withScan p tr h r f = s.withScan p' tr' h' r' f' := by
  rw [e1, e2, e3, e4, e5]

theorem tasmotaScanLoop_run (env : Env) (n : Nat) :
    ∀ (i : Nat) (s : State), s.tasmotaScanRunning = true →
      s.tasmotaScanFound = ((s.tasmotaScanResults.length : Nat) : Int) →
      tasmotaScanLoop env n i s =
        s.withScan
          (if n = 0 then s.tasmotaScanProgress else ((i + n - 1 : Nat) : Int))
          (s.trace ++ (scanHosts env i n).map (probeOf env))
          (s.httpCount + (scanHosts env i n).length)
          (s.tasmotaScanResults ++ scanResultsSpec env (scanHosts env i n) s.httpCount)
          (((s.tasmotaScanResults ++
              scanResultsSpec env (scanHosts env i n) s.httpCount).length : Nat) : Int) := by
  induction n with
  | zero =>
    intro i s _ hf
    have e : s = s.withScan s.tasmotaScanProgress s.trace s.httpCount s.tasmotaScanResults
        s.tasmotaScanFound := rfl
    show s = _
    refine e.trans (withScan_eq s rfl ?_ rfl ?_ ?_)
    · show s.trace = s.trace ++ []
      rw [List.append_nil]
    · show s.tasmotaScanResults = s.tasmotaScanResults ++ []
      rw [List.append_nil]
    · show s.tasmotaScanFound = (((s.tasmotaScanResults ++ []).length : Nat) : Int)
      rw [List.append_nil, hf]
  | succ n ih =>
    intro i s hr hf
    have hprog : (if n = 0 then (i : Int) else ((i + 1 + n - 1 : Nat) : Int)) =
        (if n + 1 = 0 then s.tasmotaScanProgress else ((i + (n + 1) - 1 : Nat) : Int)) := by
      rw [if_neg (Nat.succ_ne_zero n)]
      split
      · rename_i h0; subst h0; rfl
      · have e : i + 1 + n - 1 = i + (n + 1) - 1 := by omega
        rw [e]
    unfold tasmotaScanLoop
    rw [if_neg (by rw [hr]; decide)]
    simp only []
    by_cases hip : scanBaseIP env ++ toString i = localIPString env
    · rw [if_pos hip, ih (i + 1) { s with tasmotaScanProgress := (i : Int) } hr hf,
        scanHosts_skip env i n hip]
      exact withScan_eq s hprog rfl rfl rfl rfl
    · rw [if_neg hip, scanHosts_probe env i n hip]
      cases hc : checkDeviceAnswer env (scanBaseIP env ++ toString i) (scanFreshDevice env i)
          (env.http s.httpCount) with
      | none =>
        rw [tasmotaCheckDevice_none env _ _ { s with tasmotaScanProgress := (i : Int) } hc,
          scanResultsSpec_none env i _ _ hc]
        simp only [Bool.false_eq_true, if_false]
        rw [ih (i + 1) (httpSend env (tasmotaCheckRequest (scanBaseIP env ++ toString i))
          { s with tasmotaScanProgress := (i : Int) }).2 hr hf]
        refine withScan_eq s hprog ?_ ?_ rfl rfl
        · show s.trace ++ [probeOf env i] ++ _ = s.trace ++ (probeOf env i :: _)
          rw [List.append_assoc]; rfl
        · show s.httpCount + 1 + _ = s.httpCount + (_ + 1)
          omega
      | some d =>
        rw [tasmotaCheckDevice_found env _ _ d { s with tasmotaScanProgress := (i : Int) } hc,
          scanResultsSpec_found env i _ _ d hc]
        have key := ih (i + 1)
          { (httpSend env (tasmotaCheckRequest (scanBaseIP env ++ toString i))
              { s with tasmotaScanProgress := (i : Int) }).2 with
            tasmotaScanResults := s.tasmotaScanResults ++ [d],
            tasmotaScanFound := (((s.tasmotaScanResults ++ [d]).length : Nat) : Int) } hr rfl
        refine Eq.trans key ?_
        refine withScan_eq s hprog ?_ ?_ ?_ ?_
        · show s.trace ++ [probeOf env i] ++ _ = s.trace ++ (probeOf env i :: _)
          rw [List.append_assoc]; rfl
        · show s.httpCount + 1 + _ = s.httpCount + (_ + 1)
          omega
        · show s.tasmotaScanResults ++ [d] ++ _ = s.tasmotaScanResults ++ (d :: _)
          rw [List.append_assoc]; rfl
        · show (((s.tasmotaScanResults ++ [d] ++ _).length : Nat) : Int) =
            (((s.tasmotaScanResults ++ (d :: _)).length : Nat) : Int)
          rw [List.append_assoc]; rfl

end FeedingBreak

namespace FeedingBreak

theorem scanHosts_eq_probedHosts (env : Env) :
    scanHosts env 1 254 = probedHosts (env.localIP.2.2.2 % 256) := by
  unfold scanHosts probedHosts
  apply List.filter_congr
  intro j hj
  have hlt : j < 256 := by
    have := (List.mem_range'_1.1 hj).2
    omega
  exact decide_eq_decide.2 (not_congr (scan_skips_iff env j hlt))

theorem tasmotaScanTask_run (env : Env) (s : State) (hrun : s.tasmotaScanRunning = true) :
    tasmotaScanTask env s =
      { s.withScan 254
          (s.trace ++ (probedHosts (env.localIP.2.2.2 % 256)).map (probeOf env))
          (s.httpCount + (probedHosts (env.localIP.2.2.2 % 256)).length)
          (scanResultsSpec env (probedHosts (env.localIP.2.2.2 % 256)) s.httpCount)
          (((scanResultsSpec env (probedHosts (env.localIP.2.2.2 % 256))
              s.httpCount).length : Nat) : Int) with
        tasmotaScanRunning := false, tasmotaScanComplete := true } := by
  have key := tasmotaScanLoop_run env 254 1
    { s with tasmotaScanResults := [], tasmotaScanProgress := 0, tasmotaScanFound := 0 }
    hrun rfl
  unfold tasmotaScanTask
  simp only []
  rw [key, scanHosts_eq_probedHosts]
  rfl

/-! ## Claims on the network scan -/

/-- C19: Function `tasmotaStartScan` called while a scan is running returns the
rejection text and the state as it was, so the scan flags, progress, found count and
result list are unchanged and no task is created; called while no scan is running it
returns the acceptance text, sets `tasmotaScanRunning`, clears `tasmotaScanComplete`,
creates exactly one scan task and changes nothing else. -/
theorem tasmotaStartScan_guard (s : State) :
    (s.tasmotaScanRunning = true →
      tasmotaStartScan s =
        ("\x7b\"success\":false,\"message\":\"Scan already running\"\x7d", s)) ∧
    (s.tasmotaScanRunning = false →
      tasmotaStartScan s =
        ("\x7b\"success\":true,\"message\":\"Scan started\"\x7d",
         { s with tasmotaScanRunning := true, tasmotaScanComplete := false,
                  scanTasksCreated := s.scanTasksCreated + 1 })) := by
  constructor
  · intro h
    unfold tasmotaStartScan
    rw [if_pos h]
  · intro h
    unfold tasmotaStartScan
    rw [if_neg (by rw [h]; decide)]

/-- C19, worked example: a call during a scan is rejected and changes nothing; a call
after boot sets the running flag and creates one task, and a second call right after it
changes nothing. -/
theorem tasmotaStartScan_guard_witness :
    tasmotaStartScan exampleScanning =
      ("\x7b\"success\":false,\"message\":\"Scan already running\"\x7d", exampleScanning) ∧
    (tasmotaStartScan State.boot).2.tasmotaScanRunning = true ∧
    (tasmotaStartScan State.boot).2.scanTasksCreated = 1 ∧
    (tasmotaStartScan (tasmotaStartScan State.boot).2).2 = (tasmotaStartScan State.boot).2 :=
  ⟨(tasmotaStartScan_guard exampleScanning).1 rfl,
   congrArg (fun r => r.2.tasmotaScanRunning) ((tasmotaStartScan_guard State.boot).2 rfl),
   congrArg (fun r => r.2.scanTasksCreated) ((tasmotaStartScan_guard State.boot).2 rfl),
   congrArg (fun r => r.2) ((tasmotaStartScan_guard (tasmotaStartScan State.boot).2).1 rfl)⟩

/-- C20: A scan that is not cancelled, on a board whose address ends in `own`: the
requests it sends are the probes of the hosts 1 to 254 other than `own`, one each, in
ascending order; on completion `tasmotaScanProgress` is 254, `tasmotaScanResults` holds
the devices recognised in the answers to these probes, in the order of the probes,
`tasmotaScanFound` is the length of that list, `tasmotaScanRunning` is false and
`tasmotaScanComplete` is true. -/
theorem tasmotaScanTask_complete (env : Env) (s : State)
    (hrun : s.tasmotaScanRunning = true) :
    (tasmotaScanTask env s).trace =
      s.trace ++ (probedHosts (env.localIP.2.2.2 % 256)).map
        (fun j => Event.http (tasmotaCheckRequest (scanBaseIP env ++ toString j))) ∧
    (∀ j : Nat, j ∈ probedHosts (env.localIP.2.2.2 % 256) ↔
      1 ≤ j ∧ j ≤ 254 ∧ j ≠ env.localIP.2.2.2 % 256) ∧
    List.Pairwise (fun a b => a < b) (probedHosts (env.localIP.2.2.2 % 256)) ∧
    localIPString env = scanBaseIP env ++ toString (env.localIP.2.2.2 % 256) ∧
    (tasmotaScanTask env s).tasmotaScanProgress = 254 ∧
    (tasmotaScanTask env s).tasmotaScanResults =
      scanResultsSpec env (probedHosts (env.localIP.2.2.2 % 256)) s.httpCount ∧
    (tasmotaScanTask env s).tasmotaScanFound =
      (((tasmotaScanTask env s).tasmotaScanResults.length : Nat) : Int) ∧
    (tasmotaScanTask env s).tasmotaScanRunning = false ∧
    (tasmotaScanTask env s).tasmotaScanComplete = true := by
  rw [tasmotaScanTask_run env s hrun]
  refine ⟨rfl, ?_, ?_, rfl, rfl, rfl, rfl, rfl, rfl⟩
  · intro j
    unfold probedHosts
    rw [List.mem_filter, List.mem_range'_1, decide_eq_true_iff]
    constructor
    · rintro ⟨⟨a, b⟩, c⟩; exact ⟨a, by omega, c⟩
    · rintro ⟨a, b, c⟩; exact ⟨⟨a, by omega⟩, c⟩
  · unfold probedHosts
    exact List.Pairwise.filter _ (List.pairwise_lt_range' 1 254)

set_option maxRecDepth 1000000 in
/-- C20, worked example: on the board 192.168.1.10 only the probe of host 37 is
answered; the scan ends with that one device as its result, the found count 1 and the
progress 254. -/
theorem tasmotaScanTask_complete_witness :
    exampleScanning.tasmotaScanRunning = true ∧
    (tasmotaScanTask scanEnv exampleScanning).tasmotaScanResults = [examplePlug] ∧
    (tasmotaScanTask scanEnv exampleScanning).tasmotaScanFound = 1 ∧
    (tasmotaScanTask scanEnv exampleScanning).tasmotaScanProgress = 254 ∧
    (tasmotaScanTask scanEnv exampleScanning).tasmotaScanRunning = false ∧
    (tasmotaScanTask scanEnv exampleScanning).tasmotaScanComplete = true := by
  have h := tasmotaScanTask_complete scanEnv exampleScanning rfl
  have hres : (tasmotaScanTask scanEnv exampleScanning).tasmotaScanResults = [examplePlug] :=
    h.2.2.2.2.2.1.trans (by decide)
  refine ⟨rfl, hres, ?_, h.2.2.2.2.1, h.2.2.2.2.2.2.2.1, h.2.2.2.2.2.2.2.2⟩
  rw [h.2.2.2.2.2.2.1, hres]
  rfl

end FeedingBreak

namespace FeedingBreak

/-! ## Who writes the global feeding flag -/

theorem frame_redseaCheckFeedingStatus (env : Env) (fuel : Nat) :
    ∀ (s : State) (b : Bool) (s' : State),
      redseaCheckFeedingStatus env fuel s = some (b, s') → Frame s s' := by
  induction fuel with
  | zero => intro s b s' h; simp [redseaCheckFeedingStatus] at h
  | succ n ih =>
    intro s b s' h
    have h1 := frame_redseaEnsureToken env s
    have h2 := frame_httpSend env (redseaStatusRequest (redseaEnsureToken env s).2)
      (redseaEnsureToken env s).2
    unfold redseaCheckFeedingStatus at h
    simp only [] at h
    split at h
    · cases h; exact h1
    · split at h
      · split at h <;> (cases h; exact h1.trans h2)
      · split at h
        · have h3 := ih _ _ _ h
          exact h1.trans (h2.trans (Frame.trans ⟨rfl, rfl, rfl, rfl⟩ h3))
        · cases h; exact h1.trans h2

theorem runCommands_feedingModeActive (env : Env) (cmds : List Command) (s : State) :
    (runCommands env cmds s).feedingModeActive = s.feedingModeActive := by
  obtain ⟨tr, hc, wp, e⟩ := runCommands_fields env cmds s
  rw [e]

theorem tasmotaUpdatePowerStates_feedingModeActive (env : Env) (s : State) :
    (tasmotaUpdatePowerStates env s).feedingModeActive = s.feedingModeActive := by
  have hr := forEachDevice_runCommands env _ _
    (tasmotaUpdatePowerStatesDevice_commands env) s.tasmotaDevices s
  show (forEachDevice _ s.tasmotaDevices s).2.feedingModeActive = _
  rw [hr, runCommands_feedingModeActive]

theorem tasmotaCheckFeedingComplete_feedingModeActive (env : Env) (s : State) :
    (tasmotaCheckFeedingComplete env s).2.feedingModeActive = s.feedingModeActive := by
  unfold tasmotaCheckFeedingComplete
  split
  · rfl
  · show (tasmotaCheckFeedingCompleteLoop env s.tasmotaDevices (0, 0) s).2.feedingModeActive = _
    rw [tasmotaCheckFeedingCompleteLoop_commands, runCommands_feedingModeActive]

theorem tasmotaScanLoop_feedingModeActive (env : Env) (n : Nat) :
    ∀ (i : Nat) (s : State),
      (tasmotaScanLoop env n i s).feedingModeActive = s.feedingModeActive := by
  induction n with
  | zero => intro i s; rfl
  | succ n ih =>
    intro i s
    unfold tasmotaScanLoop
    split
    · rfl
    · simp only []
      split
      · rw [ih]
      · rw [ih]
        have hd : ∀ (ip : String) (dev : TasmotaDevice) (t : State),
            (tasmotaCheckDevice env ip dev t).2.2 = (httpSend env (tasmotaCheckRequest ip) t).2 := by
          intro ip dev t
          unfold tasmotaCheckDevice
          simp only []
          split <;> rfl
        split
        · show (tasmotaCheckDevice env _ _ _).2.2.feedingModeActive = _
          rw [hd]
          rfl
        · rw [hd]
          rfl

theorem tasmotaScanTask_feedingModeActive (env : Env) (s : State) :
    (tasmotaScanTask env s).feedingModeActive = s.feedingModeActive := by
  show (tasmotaScanLoop env 254 1 _).feedingModeActive = _
  rw [tasmotaScanLoop_feedingModeActive]

theorem autoEnds_iff (env : Env) (s : State) :
    ((feedingStatusPoll env s).2.tasmotaFeedingActive = true ∧
      (feedingStatusLoop (feedingStatusPoll env s).2.tasmotaDevices ([], 0, 0)).2.1 > 0 ∧
      (feedingStatusLoop (feedingStatusPoll env s).2.tasmotaDevices ([], 0, 0)).2.2 =
        (feedingStatusLoop (feedingStatusPoll env s).2.tasmotaDevices ([], 0, 0)).2.1) ↔
    autoEnds s.tasmotaFeedingActive (feedingStatusPoll env s).2.tasmotaDevices := by
  have hl := feedingStatusLoop_eq (feedingStatusPoll env s).2.tasmotaDevices ([], 0, 0)
  obtain ⟨_, _, pa, _⟩ := feedingStatusPoll_state env s
  have l2 : (feedingStatusLoop (feedingStatusPoll env s).2.tasmotaDevices ([], 0, 0)).2.1 =
      (((feedingStatusPoll env s).2.tasmotaDevices.countP (fun d => d.enabled) : Nat) : Int) := by
    rw [hl]; exact Int.zero_add _
  have l3 : (feedingStatusLoop (feedingStatusPoll env s).2.tasmotaDevices ([], 0, 0)).2.2 =
      (((feedingStatusPoll env s).2.tasmotaDevices.countP
        (fun d => d.enabled && (d.powerState != d.turnOn)) : Nat) : Int) := by
    rw [hl]; exact Int.zero_add _
  unfold autoEnds
  rw [l2, l3, pa]
  constructor
  · rintro ⟨a, b, c⟩; exact ⟨a, by omega, by omega⟩
  · rintro ⟨a, b, c⟩; exact ⟨a, by omega, by omega⟩

theorem tasmotaGetFeedingStatus_feedingModeActive (env : Env) (s : State) :
    (tasmotaGetFeedingStatus env s).2.feedingModeActive =
      (if autoEnds s.tasmotaFeedingActive (feedingStatusPoll env s).2.tasmotaDevices then false
       else s.feedingModeActive) := by
  show (tasmotaGetFeedingStatusDoc env s).2.feedingModeActive = _
  split
  · rename_i h
    exact (tasmotaGetFeedingStatusDoc_ends env s ((autoEnds_iff env s).2 h)).2.1
  · rename_i h
    rw [tasmotaGetFeedingStatusDoc_goes_on env s (fun hh => h ((autoEnds_iff env s).1 hh))]
    exact (feedingStatusPoll_state env s).2.2.2

theorem handleButtonSync_flag (env : Env) (fuel : Nat) (s s1 : State)
    (h : handleButtonSync env fuel s = some s1) :
    (s.ENABLE_redsea = false → s1 = s) ∧
    (s.ENABLE_redsea = true →
      ∃ t, redseaCheckFeedingStatus env fuel s = some (s1.feedingModeActive, t)) := by
  unfold handleButtonSync at h
  by_cases he : s.ENABLE_redsea = true
  · rw [if_pos he] at h
    refine ⟨fun hf => absurd (he.symm.trans hf) (by decide), fun _ => ?_⟩
    cases hr : redseaCheckFeedingStatus env fuel s with
    | none => rw [hr] at h; cases h
    | some r =>
      obtain ⟨b, t⟩ := r
      rw [hr] at h
      simp only [] at h
      by_cases hb : b ≠ t.feedingModeActive
      · rw [if_pos hb] at h
        cases h
        exact ⟨t, rfl⟩
      · rw [if_neg hb] at h
        cases h
        have hb' : b = s1.feedingModeActive := not_not.1 hb
        exact ⟨s1, by rw [hb']⟩
  · rw [if_neg he] at h
    cases h
    exact ⟨fun _ => rfl, fun ht => absurd ht he⟩

end FeedingBreak

namespace FeedingBreak

theorem readMillis_feedingModeActive (env : Env) (t : State) :
    (readMillis env t).2.feedingModeActive = t.feedingModeActive := rfl

theorem digitalReadLow_feedingModeActive (env : Env) (t : State) :
    (digitalReadLow env t).2.feedingModeActive = t.feedingModeActive := rfl

theorem handleButton_flag (env : Env) (fuel : Nat) (s s' : State)
    (h : handleButton env fuel s = some s') :
    s'.feedingModeActive = s.feedingModeActive ∨
    ∃ p p' : State, handleButtonPressed env fuel p = some p' ∧
      p.feedingModeActive = s.feedingModeActive ∧
      s'.feedingModeActive = p'.feedingModeActive := by
  unfold handleButton at h
  split at h
  · cases h; exact Or.inl rfl
  · simp only [] at h
    split at h
    · have e := Option.some.inj h
      rw [← e]
      exact Or.inl (readMillis_feedingModeActive env s)
    · split at h
      · cases h
      · rename_i s2 hafter
        have e := Option.some.inj h
        have hs' : s'.feedingModeActive = s2.feedingModeActive := by
          rw [← e]
          split <;> rfl
        split at hafter
        · split at hafter
          · refine Or.inr ⟨_, s2, hafter, ?_, hs'⟩
            simp only [digitalReadLow_feedingModeActive, readMillis_feedingModeActive]
          · have e2 := Option.some.inj hafter
            rw [← e2] at hs'
            simp only [digitalReadLow_feedingModeActive, readMillis_feedingModeActive] at hs'
            exact Or.inl hs'
        · have e2 := Option.some.inj hafter
          rw [← e2] at hs'
          simp only [digitalReadLow_feedingModeActive, readMillis_feedingModeActive] at hs'
          exact Or.inl hs'

/-! ## The button handler and the feeding flag -/

/-- The state handed to the press handling keeps the feeding flag. -/
theorem pressedState_feedingModeActive (env : Env) (s : State) :
    (pressedState env s).feedingModeActive = s.feedingModeActive := rfl

/-- The state after the two clock readings and the two pin readings of `handleButton`. -/
theorem pressedState_eq (env : Env) (s : State) :
    (digitalReadLow env (digitalReadLow env
      { (readMillis env (readMillis env s).2).2 with
        lastCheck := (readMillis env (readMillis env s).2).1 }).2).2 = pressedState env s := by
  simp only [digitalReadLow, readMillis, pressedState, Nat.add_assoc, Nat.reduceAdd]

/-- On a confirmed press `handleButton` is the press handling, run in the state after
its two clock readings and two pin readings. -/
theorem handleButton_press (env : Env) (fuel : Nat) (s : State)
    (h : confirmedPress env s) :
    handleButton env fuel s = handleButtonPressed env fuel (pressedState env s) := by
  obtain ⟨h1, h2, h3, h4, h5⟩ := h
  unfold handleButton
  split
  · rename_i hp
    exact absurd hp (by omega)
  · simp only []
    split
    · rename_i hr
      have hr' : ((env.millis s.millisReads : Int) - (s.lastCheck : Int)) % 2 ^ 32 < 50 := hr
      omega
    · simp only [digitalReadLow, readMillis, pressedState, h3, h5, Nat.add_assoc,
        Nat.reduceAdd]
      rw [if_pos ⟨trivial, h4⟩, if_pos trivial]
      generalize handleButtonPressed env fuel _ = x
      cases x <;> rfl

/-- Without a confirmed press `handleButton` returns and leaves the feeding flag as it
was. -/
theorem handleButton_no_press (env : Env) (fuel : Nat) (s : State)
    (h : ¬ confirmedPress env s) :
    ∃ s' : State, handleButton env fuel s = some s' ∧
      s'.feedingModeActive = s.feedingModeActive := by
  unfold handleButton
  split
  · exact ⟨s, rfl, rfl⟩
  · rename_i hp
    simp only []
    split
    · exact ⟨_, rfl, rfl⟩
    · rename_i hr
      have hr' : ¬ ((env.millis s.millisReads : Int) - (s.lastCheck : Int)) % 2 ^ 32 < 50 := hr
      simp only [digitalReadLow, readMillis, Nat.add_assoc, Nat.reduceAdd]
      by_cases h3 : env.buttonLow s.pinReads = true
      · by_cases h4 : s.buttonProcessed = false
        · have h5 : env.buttonLow (s.pinReads + 1) = false := by
            cases h5 : env.buttonLow (s.pinReads + 1)
            · rfl
            · exact absurd ⟨by omega, by omega, h3, h4, h5⟩ h
          simp only [h3, h5]
          rw [if_pos ⟨trivial, h4⟩, if_neg Bool.false_ne_true]
          exact ⟨_, rfl, rfl⟩
        · simp only [h3]
          rw [if_neg (fun hh => h4 hh.2)]
          exact ⟨_, rfl, rfl⟩
      · have h3' : env.buttonLow s.pinReads = false := by
          cases h3' : env.buttonLow s.pinReads
          · rfl
          · exact absurd h3' h3
        simp only [h3']
        rw [if_neg (fun hh => Bool.false_ne_true hh.1)]
        exact ⟨_, rfl, rfl⟩

/-- The press handling is the synchronisation step followed by stop or start, chosen by
the flag the synchronisation left. -/
theorem handleButtonPressed_eq (env : Env) (fuel : Nat) (s : State) :
    handleButtonPressed env fuel s =
      (handleButtonSync env fuel s).bind (fun s1 =>
        (if s1.feedingModeActive = true then stopFeedingMode env fuel s1
         else startFeedingMode env fuel s1).map
          (fun s2 => { s2 with buttonProcessed := true })) := by
  unfold handleButtonPressed
  cases handleButtonSync env fuel s with
  | none => rfl
  | some s1 =>
    simp only [Option.some_bind]
    cases (if s1.feedingModeActive = true then stopFeedingMode env fuel s1
      else startFeedingMode env fuel s1) <;> rfl

/-- The synchronisation step: nothing with Cloud-A disabled, else the flag becomes the
result of `redseaCheckFeedingStatus`. -/
theorem handleButtonSync_eq (env : Env) (fuel : Nat) (s : State) :
    (s.ENABLE_redsea = false → handleButtonSync env fuel s = some s) ∧
    (s.ENABLE_redsea = true →
      handleButtonSync env fuel s =
        (redseaCheckFeedingStatus env fuel s).map
          (fun r => { r.2 with feedingModeActive := r.1 })) := by
  unfold handleButtonSync
  constructor
  · intro he
    rw [if_neg (by rw [he]; exact Bool.false_ne_true)]
  · intro he
    rw [if_pos he]
    cases redseaCheckFeedingStatus env fuel s with
    | none => rfl
    | some r =>
      obtain ⟨b, t⟩ := r
      simp only [Option.map_some']
      by_cases hb : b ≠ t.feedingModeActive
      · rw [if_pos hb]
      · rw [if_neg hb]
        have hb' : b = t.feedingModeActive := not_not.1 hb
        rw [hb']

/-! ## Claim on the global feeding flag -/

/-- C18, counterexample: the status poll of the local controller clears
`feedingModeActive` when it ends the feeding by itself (here the inverted device reports
its relay off), and `handleButton` sets the flag to the Cloud-A status before it calls
start or stop. -/
theorem feedingModeActive_poll_counterexample :
    exampleInvertedOnly.feedingModeActive = true ∧
    (tasmotaGetFeedingStatus (scriptedEnv [answerOff] true)
      exampleInvertedOnly).2.feedingModeActive = false ∧
    exampleCached.feedingModeActive = false ∧
    (handleButtonSync (scriptedEnv [answer 200 "\x7b\"properties\":\x7b\"feeding\":true\x7d\x7d"]
      true) 1 exampleCached).map (fun t => t.feedingModeActive) = some true := by
  decide

/-- C18, amended: The flag `feedingModeActive` is written by `startFeedingMode` and
`stopFeedingMode`, by `tasmotaGetFeedingStatus`, which clears it exactly when it ends the
local feeding by itself, and by the synchronisation step of `handleButton`, which sets it
to the Cloud-A status when Cloud-A is enabled. Every other operation returns with the
flag as it was: the Cloud-A and Cloud-B operations, the socket event handler, the local
start, stop, poll and completion check, the scan, and `handleButton` on every path
without a confirmed press: there it returns with the flag unchanged. On a confirmed
press `handleButton` is the press handling run in a state with the same flag, and the
press handling is the synchronisation step, which leaves the state alone when Cloud-A is
disabled and otherwise sets the flag to the result of `redseaCheckFeedingStatus`,
followed by `stopFeedingMode` or `startFeedingMode`. -/
theorem feedingModeActive_writers (env : Env) (fuel : Nat) (s : State) :
    (redseaLogin env s).2.feedingModeActive = s.feedingModeActive ∧
    (∀ (b : Bool) (s' : State), redseaCheckFeedingStatus env fuel s = some (b, s') →
      s'.feedingModeActive = s.feedingModeActive) ∧
    (∀ (b : Bool) (s' : State), redseaStartFeeding env fuel s = some (b, s') →
      s'.feedingModeActive = s.feedingModeActive) ∧
    (∀ (b : Bool) (s' : State), redseaStopFeeding env fuel s = some (b, s') →
      s'.feedingModeActive = s.feedingModeActive) ∧
    (tunzeLogin env s).2.feedingModeActive = s.feedingModeActive ∧
    (tunzeConnect env s).feedingModeActive = s.feedingModeActive ∧
    (∀ (type : WStype) (payload : String),
      (tunzeWebSocketEvent env type payload s).feedingModeActive = s.feedingModeActive) ∧
    (tunzeStartFeeding env s).feedingModeActive = s.feedingModeActive ∧
    (tunzeStopFeeding s).feedingModeActive = s.feedingModeActive ∧
    (tasmotaStartFeeding env s).feedingModeActive = s.feedingModeActive ∧
    (tasmotaStopFeeding env s).feedingModeActive = s.feedingModeActive ∧
    (tasmotaUpdatePowerStates env s).feedingModeActive = s.feedingModeActive ∧
    (tasmotaCheckFeedingComplete env s).2.feedingModeActive = s.feedingModeActive ∧
    (tasmotaStartScan s).2.feedingModeActive = s.feedingModeActive ∧
    (tasmotaScanTask env s).feedingModeActive = s.feedingModeActive ∧
    (tasmotaGetFeedingStatus env s).2.feedingModeActive =
      (if autoEnds s.tasmotaFeedingActive (feedingStatusPoll env s).2.tasmotaDevices then false
       else s.feedingModeActive) ∧
    (∀ s1 : State, handleButtonSync env fuel s = some s1 →
      (s.ENABLE_redsea = false → s1 = s) ∧
      (s.ENABLE_redsea = true →
        ∃ t, redseaCheckFeedingStatus env fuel s = some (s1.feedingModeActive, t))) ∧
    (¬ confirmedPress env s →
      ∃ s' : State, handleButton env fuel s = some s' ∧
        s'.feedingModeActive = s.feedingModeActive) ∧
    (confirmedPress env s →
      handleButton env fuel s = handleButtonPressed env fuel (pressedState env s)) ∧
    (pressedState env s).feedingModeActive = s.feedingModeActive ∧
    (∀ p : State, handleButtonPressed env fuel p =
      (handleButtonSync env fuel p).bind (fun s1 =>
        (if s1.feedingModeActive = true then stopFeedingMode env fuel s1
         else startFeedingMode env fuel s1).map
          (fun s2 => { s2 with buttonProcessed := true }))) ∧
    (∀ s2 : State, ({ s2 with buttonProcessed := true }).feedingModeActive =
      s2.feedingModeActive) ∧
    (∀ p : State,
      (p.ENABLE_redsea = false → handleButtonSync env fuel p = some p) ∧
      (p.ENABLE_redsea = true →
        handleButtonSync env fuel p =
          (redseaCheckFeedingStatus env fuel p).map
            (fun r => { r.2 with feedingModeActive := r.1 }))) := by
  refine ⟨(frame_redseaLogin env s).2.2.1,
    fun b s' h => (frame_redseaCheckFeedingStatus env fuel s b s' h).2.2.1,
    fun b s' h => (frame_redseaStartFeeding env fuel s b s' h).2.2.1,
    fun b s' h => (frame_redseaStopFeeding env fuel s b s' h).2.2.1,
    (frame_tunzeLogin env s).2.2.1, (frame_tunzeConnect env s).2.2.1,
    fun type payload => (frame_tunzeWebSocketEvent env type payload s).2.2.1,
    (frame_tunzeStartFeeding env s).2.2.1, (frame_tunzeStopFeeding s).2.2.1,
    (frame_tasmotaStartFeeding env s).2.2.1, (frame_tasmotaStopFeeding env s).2.2.1,
    tasmotaUpdatePowerStates_feedingModeActive env s,
    tasmotaCheckFeedingComplete_feedingModeActive env s, ?_,
    tasmotaScanTask_feedingModeActive env s,
    tasmotaGetFeedingStatus_feedingModeActive env s,
    fun s1 h => handleButtonSync_flag env fuel s s1 h,
    handleButton_no_press env fuel s, handleButton_press env fuel s, rfl,
    handleButtonPressed_eq env fuel, fun _ => rfl, handleButtonSync_eq env fuel⟩
  unfold tasmotaStartScan
  split <;> rfl

/-- C18 amended, worked example: with a cached token and the cloud reporting an active
feeding, the status check leaves the flag as it was, and the synchronisation step of the
button handler sets it to the reported status; with the button released `handleButton`
returns with the flag as it was; with the button held down it is the press handling. -/
theorem feedingModeActive_writers_witness :
    (∃ (b : Bool) (s' : State),
      redseaCheckFeedingStatus
        (scriptedEnv [answer 200 "\x7b\"properties\":\x7b\"feeding\":true\x7d\x7d"] true) 1
        exampleCached = some (b, s') ∧
      s'.feedingModeActive = exampleCached.feedingModeActive) ∧
    (∃ s1 : State,
      handleButtonSync
        (scriptedEnv [answer 200 "\x7b\"properties\":\x7b\"feeding\":true\x7d\x7d"] true) 1
        exampleCached = some s1 ∧
      ∃ t, redseaCheckFeedingStatus
        (scriptedEnv [answer 200 "\x7b\"properties\":\x7b\"feeding\":true\x7d\x7d"] true) 1
        exampleCached = some (s1.feedingModeActive, t)) ∧
    (∃ s' : State, handleButton (scriptedEnv [] true) 1 exampleCached = some s' ∧
      s'.feedingModeActive = exampleCached.feedingModeActive) ∧
    handleButton
        (pressedEnv [answer 200 "\x7b\"properties\":\x7b\"feeding\":true\x7d\x7d"]) 2
        exampleCached =
      handleButtonPressed
        (pressedEnv [answer 200 "\x7b\"properties\":\x7b\"feeding\":true\x7d\x7d"]) 2
        (pressedState
          (pressedEnv [answer 200 "\x7b\"properties\":\x7b\"feeding\":true\x7d\x7d"])
          exampleCached) := by
  refine ⟨?_, ?_,
    (feedingModeActive_writers (scriptedEnv [] true) 1
      exampleCached).2.2.2.2.2.2.2.2.2.2.2.2.2.2.2.2.2.1 (by decide),
    (feedingModeActive_writers
      (pressedEnv [answer 200 "\x7b\"properties\":\x7b\"feeding\":true\x7d\x7d"]) 2
      exampleCached).2.2.2.2.2.2.2.2.2.2.2.2.2.2.2.2.2.2.1 (by decide)⟩
  · cases h : redseaCheckFeedingStatus
        (scriptedEnv [answer 200 "\x7b\"properties\":\x7b\"feeding\":true\x7d\x7d"] true) 1
        exampleCached with
    | none => exact absurd h (by decide)
    | some r =>
      exact ⟨r.1, r.2, rfl,
        (feedingModeActive_writers
          (scriptedEnv [answer 200 "\x7b\"properties\":\x7b\"feeding\":true\x7d\x7d"] true) 1
          exampleCached).2.1 r.1 r.2 h⟩
  · cases h : handleButtonSync
        (scriptedEnv [answer 200 "\x7b\"properties\":\x7b\"feeding\":true\x7d\x7d"] true) 1
        exampleCached with
    | none => exact absurd h (by decide)
    | some s1 =>
      exact ⟨s1, rfl,
        ((feedingModeActive_writers
          (scriptedEnv [answer 200 "\x7b\"properties\":\x7b\"feeding\":true\x7d\x7d"] true) 1
          exampleCached).2.2.2.2.2.2.2.2.2.2.2.2.2.2.2.2.1 s1 h).2 (by decide)⟩

end FeedingBreak

namespace FeedingBreak

/-! ## The attempts of `tasmotaSendCommand` -/

theorem tasmotaSendCommandLoop_attempts (env : Env) (ip command : String) (n : Nat) :
    ∀ s : State, ∃ k m : Nat, k ≤ m ∧ m ≤ n ∧
      (tasmotaSendCommandLoop env ip command n s).2.wifiPolls = s.wifiPolls + m ∧
      k = (List.range' s.wifiPolls m).countP (fun w => env.wifiStatus w) ∧
      (tasmotaSendCommandLoop env ip command n s).2.httpCount = s.httpCount + k ∧
      (tasmotaSendCommandLoop env ip command n s).2.trace =
        s.trace ++ List.replicate k (Event.http (tasmotaCommandRequest ip command)) ∧
      (∀ j : Nat, j + 1 < k → (env.http (s.httpCount + j)).code ≠ 200) ∧
      ((0 < k ∧ (env.http (s.httpCount + (k - 1))).code = 200 ∧
          (tasmotaSendCommandLoop env ip command n s).1 =
            (env.http (s.httpCount + (k - 1))).body) ∨
       ((∀ j : Nat, j < k → (env.http (s.httpCount + j)).code ≠ 200) ∧
          (tasmotaSendCommandLoop env ip command n s).1 = "")) := by
  induction n with
  | zero =>
    intro s
    refine ⟨0, 0, le_refl _, le_refl _, rfl, rfl, rfl, (List.append_nil _).symm, ?_, Or.inr ⟨?_, rfl⟩⟩
    · intro j hj; omega
    · intro j hj; omega
  | succ n ih =>
    intro s
    unfold tasmotaSendCommandLoop
    simp only []
    by_cases hw : (wifiConnected env s).1 = false
    · rw [if_pos hw]
      obtain ⟨k, m, h1, h2, h3, h4, h5, h6, h7, h8⟩ := ih (wifiConnected env s).2
      have hw' : env.wifiStatus s.wifiPolls = false := hw
      refine ⟨k, m + 1, by omega, by omega, ?_, ?_, h5, h6, h7, h8⟩
      · rw [h3]
        show s.wifiPolls + 1 + m = s.wifiPolls + (m + 1)
        omega
      · rw [List.range'_succ, List.countP_cons, hw']
        simpa using h4
    · rw [if_neg hw]
      have hw' : env.wifiStatus s.wifiPolls = true := by
        have : (wifiConnected env s).1 = env.wifiStatus s.wifiPolls := rfl
        rw [this] at hw
        simpa using hw
      by_cases hc : (httpSend env (tasmotaCommandRequest ip command)
          (wifiConnected env s).2).1.code = 200
      · rw [if_pos hc]
        have hc' : (env.http s.httpCount).code = 200 := hc
        refine ⟨1, 1, le_refl _, by omega, rfl, ?_, rfl, rfl, ?_, Or.inl ⟨by omega, hc', rfl⟩⟩
        · show 1 = List.countP (fun w => env.wifiStatus w) [s.wifiPolls]
          simp [List.countP_cons, hw']
        · intro j hj; omega
      · rw [if_neg hc]
        have hc' : (env.http s.httpCount).code ≠ 200 := hc
        obtain ⟨k, m, h1, h2, h3, h4, h5, h6, h7, h8⟩ :=
          ih (httpSend env (tasmotaCommandRequest ip command) (wifiConnected env s).2).2
        have e5 : (httpSend env (tasmotaCommandRequest ip command)
            (wifiConnected env s).2).2.httpCount = s.httpCount + 1 := rfl
        have e3 : (httpSend env (tasmotaCommandRequest ip command)
            (wifiConnected env s).2).2.wifiPolls = s.wifiPolls + 1 := rfl
        have e6 : (httpSend env (tasmotaCommandRequest ip command)
            (wifiConnected env s).2).2.trace =
            s.trace ++ [Event.http (tasmotaCommandRequest ip command)] := rfl
        rw [e5] at h5 h7 h8
        rw [e3] at h3 h4
        rw [e6] at h6
        refine ⟨k + 1, m + 1, by omega, by omega, ?_, ?_, ?_, ?_, ?_, ?_⟩
        · rw [h3]; omega
        · rw [List.range'_succ, List.countP_cons, hw', ← h4]
          simp
        · rw [h5]; omega
        · rw [h6, List.append_assoc]
          rfl
        · intro j hj
          cases j with
          | zero => exact hc'
          | succ j =>
            have := h7 j (by omega)
            rw [show s.httpCount + (j + 1) = s.httpCount + 1 + j from by omega]
            exact this
        · rcases h8 with ⟨a, b, c⟩ | ⟨a, b⟩
          · refine Or.inl ⟨by omega, ?_, ?_⟩
            · rw [show s.httpCount + (k + 1 - 1) = s.httpCount + 1 + (k - 1) from by omega]
              exact b
            · rw [show s.httpCount + (k + 1 - 1) = s.httpCount + 1 + (k - 1) from by omega]
              exact c
          · refine Or.inr ⟨?_, b⟩
            intro j hj
            cases j with
            | zero => exact hc'
            | succ j =>
              rw [show s.httpCount + (j + 1) = s.httpCount + 1 + j from by omega]
              exact a j (by omega)

end FeedingBreak

namespace FeedingBreak

/-! ## Claim on `tasmotaSendCommand` -/

/-- C21: a call `tasmotaSendCommand(ip, command, retries)` makes `m` rounds, at most
`retries`, each with one WiFi reading, and `k` HTTP attempts, one in every round in which
WiFi was up; so there is no attempt when `retries` is zero or negative or when WiFi is
down at every reading. Only the last attempt can have been answered 200: in that case its
body is returned; otherwise no attempt was answered 200 and the empty string is
returned. -/
theorem tasmotaSendCommand_attempts (env : Env) (ip command : String) (retries : Int)
    (s : State) :
    (retries ≤ 0 → tasmotaSendCommand env ip command retries s = ("", s)) ∧
    ((∀ w : Nat, env.wifiStatus w = false) →
      (tasmotaSendCommand env ip command retries s).1 = "" ∧
      (tasmotaSendCommand env ip command retries s).2.httpCount = s.httpCount ∧
      (tasmotaSendCommand env ip command retries s).2.trace = s.trace) ∧
    ∃ k m : Nat, k ≤ m ∧ (m : Int) ≤ max retries 0 ∧
      (tasmotaSendCommand env ip command retries s).2.wifiPolls = s.wifiPolls + m ∧
      k = (List.range' s.wifiPolls m).countP (fun w => env.wifiStatus w) ∧
      (tasmotaSendCommand env ip command retries s).2.httpCount = s.httpCount + k ∧
      (tasmotaSendCommand env ip command retries s).2.trace =
        s.trace ++ List.replicate k (Event.http (tasmotaCommandRequest ip command)) ∧
      (∀ j : Nat, j + 1 < k → (env.http (s.httpCount + j)).code ≠ 200) ∧
      ((0 < k ∧ (env.http (s.httpCount + (k - 1))).code = 200 ∧
          (tasmotaSendCommand env ip command retries s).1 =
            (env.http (s.httpCount + (k - 1))).body) ∨
       ((∀ j : Nat, j < k → (env.http (s.httpCount + j)).code ≠ 200) ∧
          (tasmotaSendCommand env ip command retries s).1 = "")) := by
  obtain ⟨k, m, h1, h2, h3, h4, h5, h6, h7, h8⟩ :=
    tasmotaSendCommandLoop_attempts env ip command retries.toNat s
  refine ⟨?_, ?_, k, m, h1, ?_, h3, h4, h5, h6, h7, h8⟩
  · intro hr
    unfold tasmotaSendCommand
    rw [Int.toNat_eq_zero.2 hr]
    rfl
  · intro hdown
    have hk : k = 0 := by
      rw [h4]
      apply List.countP_eq_zero.2
      intro w _
      rw [hdown w]
      decide
    subst hk
    refine ⟨?_, h5, ?_⟩
    · rcases h8 with ⟨a, _, _⟩ | ⟨_, b⟩
      · omega
      · exact b
    · rw [show (tasmotaSendCommand env ip command retries s).2.trace = _ from h6]
      exact List.append_nil _
  · have : (m : Int) ≤ (retries.toNat : Int) := by exact_mod_cast h2
    rw [Int.toNat_eq_max] at this
    exact this

/-- C21, worked example: with three attempts allowed, the first request is answered 500
and the second 200 with the body `on`; the call returns `on` after two requests. -/
theorem tasmotaSendCommand_attempts_witness :
    tasmotaSendCommand (scriptedEnv [] true) "192.168.1.50" "Power ON" 0 State.boot
      = ("", State.boot) ∧
    (tasmotaSendCommand (scriptedEnv [answer 500 "", answer 200 "on"] false) "192.168.1.50"
      "Power ON" 3 State.boot).2.trace = [] ∧
    (tasmotaSendCommand (scriptedEnv [answer 500 "", answer 200 "on"] true) "192.168.1.50"
      "Power ON" 3 State.boot).1 = "on" ∧
    (tasmotaSendCommand (scriptedEnv [answer 500 "", answer 200 "on"] true) "192.168.1.50"
      "Power ON" 3 State.boot).2.httpCount = 2 :=
  ⟨(tasmotaSendCommand_attempts (scriptedEnv [] true) "192.168.1.50" "Power ON" 0
      State.boot).1 (by decide),
   ((tasmotaSendCommand_attempts (scriptedEnv [answer 500 "", answer 200 "on"] false)
      "192.168.1.50" "Power ON" 3 State.boot).2.1 (fun _ => rfl)).2.2,
   by decide, by decide⟩

/-! ## Claim on `tasmotaGetPowerStateEx` -/

theorem powerFromStatusSTS_eq (doc : Json) : powerFromStatusSTS doc = stsDecision doc := by
  unfold powerFromStatusSTS stsDecision
  cases h : doc.get "StatusSTS" with
  | obj m =>
    simp only [Json.isObject, if_true]
    cases (Json.obj m).get "POWER" <;> simp [Json.orString]
  | null => simp [Json.isObject, Json.get]
  | bool b => simp [Json.isObject, Json.get]
  | int n => simp [Json.isObject, Json.get]
  | real t => simp [Json.isObject, Json.get]
  | str t => simp [Json.isObject, Json.get]
  | arr a => simp [Json.isObject, Json.get]

theorem powerFromStatus_eq (env : Env) (doc : Json) :
    powerFromStatus env doc = statusDecision doc := by
  unfold powerFromStatus statusDecision
  cases h : doc.get "Status" with
  | obj m =>
    simp only [Json.isObject, if_true]
    cases hp : (Json.obj m).get "Power" with
    | int n =>
      simp only [Json.asInt?]
      by_cases hr : -2 ^ 31 ≤ n ∧ n < 2 ^ 31
      · rw [if_pos hr]
      · rw [if_neg hr]
        simp only [Json.isString, Bool.false_eq_true, if_false]
        have h1 : n ≠ 1 := by intro e; apply hr; rw [e]; decide
        have h0 : n ≠ 0 := by intro e; apply hr; rw [e]; decide
        rw [if_neg h1, if_neg h0]
    | str t => simp [Json.asInt?, Json.isString, Json.asString]
    | null => simp [Json.asInt?, Json.isString]
    | bool b => simp [Json.asInt?, Json.isString]
    | real t => simp [Json.asInt?, Json.isString]
    | arr a => simp [Json.asInt?, Json.isString]
    | obj o => simp [Json.asInt?, Json.isString]
  | null => simp [Json.isObject, Json.get]
  | bool b => simp [Json.isObject, Json.get]
  | int n => simp [Json.isObject, Json.get]
  | real t => simp [Json.isObject, Json.get]
  | str t => simp [Json.isObject, Json.get]
  | arr a => simp [Json.isObject, Json.get]

theorem powerFromTopLevel_eq (doc : Json) : powerFromTopLevel doc = topLevelDecision doc := by
  unfold powerFromTopLevel topLevelDecision
  cases h : (doc.get "POWER").orElse (doc.get "POWER1") with
  | str t =>
    simp only [Json.orString]
    by_cases hl : t.data.length > 0
    · rw [if_pos hl]
    · rw [if_neg hl]
      have ht : t = "" := by
        have : t.data = [] := List.length_eq_zero.1 (by omega)
        exact String.ext this
      rw [ht]
      rfl
  | null => simp [Json.orString]
  | bool b => simp [Json.orString]
  | int n => simp [Json.orString]
  | real t => simp [Json.orString]
  | arr a => simp [Json.orString]
  | obj o => simp [Json.orString]

theorem powerStateOfResponse_eq (env : Env) (response : String) (doc : Json)
    (h : env.deserializeJson response = some doc) :
    powerStateOfResponse env response = powerStateSpec doc := by
  unfold powerStateOfResponse powerStateSpec
  rw [h]
  simp only []
  rw [powerFromStatusSTS_eq, powerFromStatus_eq, powerFromTopLevel_eq]

end FeedingBreak

namespace FeedingBreak

theorem stsDecision_range (doc : Json) (v : Int) (h : stsDecision doc = some v) :
    v = 1 ∨ v = 0 := by
  unfold stsDecision at h
  split at h
  · split at h
    · exact Or.inl (Option.some.inj h).symm
    · split at h
      · exact Or.inr (Option.some.inj h).symm
      · cases h
  · cases h

theorem statusDecision_range (doc : Json) (v : Int) (h : statusDecision doc = some v) :
    v = 1 ∨ v = 0 := by
  unfold statusDecision at h
  split at h
  · split at h
    · exact Or.inl (Option.some.inj h).symm
    · split at h
      · exact Or.inr (Option.some.inj h).symm
      · cases h
  · split at h
    · exact Or.inl (Option.some.inj h).symm
    · split at h
      · exact Or.inr (Option.some.inj h).symm
      · cases h
  · cases h

theorem topLevelDecision_range (doc : Json) (v : Int) (h : topLevelDecision doc = some v) :
    v = 1 ∨ v = 0 := by
  unfold topLevelDecision at h
  split at h
  · split at h
    · exact Or.inl (Option.some.inj h).symm
    · split at h
      · exact Or.inr (Option.some.inj h).symm
      · cases h
  · cases h

theorem powerStateSpec_range (doc : Json) :
    powerStateSpec doc = 1 ∨ powerStateSpec doc = 0 ∨ powerStateSpec doc = -1 := by
  unfold powerStateSpec
  cases h1 : stsDecision doc with
  | some v => rcases stsDecision_range doc v h1 with e | e <;> simp [e]
  | none =>
    cases h2 : statusDecision doc with
    | some v => rcases statusDecision_range doc v h2 with e | e <;> simp [e]
    | none =>
      cases h3 : topLevelDecision doc with
      | some v => rcases topLevelDecision_range doc v h3 with e | e <;> simp [e]
      | none => simp

theorem tasmotaGetPowerStateEx_value (env : Env) (ip : String) (s : State) :
    (tasmotaGetPowerStateEx env ip s).1 =
      (if (tasmotaSendCommand env ip "Status 0" 3 s).1.data.length = 0 then -1
       else powerStateOfResponse env (tasmotaSendCommand env ip "Status 0" 3 s).1) := by
  unfold tasmotaGetPowerStateEx
  simp only []
  split <;> rfl

/-- C22: the result of `tasmotaGetPowerStateEx` is 1, 0 or -1. It is -1 when the response
is empty and when it is not valid JSON. For a response that parses, the first decisive
field decides, in the order `StatusSTS.POWER` (`ON`/`OFF`), `Status.Power` (integer 1/0
or text `1`/`ON`/`0`/`OFF`), top-level `POWER` or, when that is absent, `POWER1`
(`ON`/`OFF`), and the result is -1 when none is decisive. So `StatusSTS.POWER = "OFF"`
gives 0 whatever `Status.Power` is. -/
theorem tasmotaGetPowerStateEx_tristate (env : Env) (ip : String) (s : State) :
    ((tasmotaGetPowerStateEx env ip s).1 = 1 ∨ (tasmotaGetPowerStateEx env ip s).1 = 0 ∨
      (tasmotaGetPowerStateEx env ip s).1 = -1) ∧
    ((tasmotaSendCommand env ip "Status 0" 3 s).1.data.length = 0 →
      (tasmotaGetPowerStateEx env ip s).1 = -1) ∧
    (env.deserializeJson (tasmotaSendCommand env ip "Status 0" 3 s).1 = none →
      (tasmotaGetPowerStateEx env ip s).1 = -1) ∧
    (∀ doc : Json, (tasmotaSendCommand env ip "Status 0" 3 s).1.data.length ≠ 0 →
      env.deserializeJson (tasmotaSendCommand env ip "Status 0" 3 s).1 = some doc →
      (tasmotaGetPowerStateEx env ip s).1 = powerStateSpec doc) ∧
    (∀ doc : Json, (doc.get "StatusSTS").get "POWER" = Json.str "OFF" →
      powerStateSpec doc = 0) ∧
    (∀ doc : Json, (doc.get "StatusSTS").get "POWER" = Json.str "ON" →
      powerStateSpec doc = 1) := by
  have hv := tasmotaGetPowerStateEx_value env ip s
  refine ⟨?_, ?_, ?_, ?_, ?_, ?_⟩
  · rw [hv]
    split
    · exact Or.inr (Or.inr rfl)
    · cases hd : env.deserializeJson (tasmotaSendCommand env ip "Status 0" 3 s).1 with
      | none =>
        refine Or.inr (Or.inr ?_)
        unfold powerStateOfResponse
        rw [hd]
      | some doc =>
        rw [powerStateOfResponse_eq env _ doc hd]
        exact powerStateSpec_range doc
  · intro h
    rw [hv, if_pos h]
  · intro h
    rw [hv]
    split
    · rfl
    · unfold powerStateOfResponse
      rw [h]
  · intro doc hne hd
    rw [hv, if_neg hne, powerStateOfResponse_eq env _ doc hd]
  · intro doc h
    unfold powerStateSpec stsDecision
    rw [h]
    rfl
  · intro doc h
    unfold powerStateSpec stsDecision
    rw [h]
    rfl

/-- C22, worked example: a device answers `{"StatusSTS":{"POWER":"OFF"}}`, the result is
0; and an answer with `StatusSTS.POWER = "OFF"` and `Status.Power = 1` reads as 0. -/
theorem tasmotaGetPowerStateEx_tristate_witness :
    (tasmotaGetPowerStateEx (scriptedEnv [answerOff] true) "192.168.1.50" State.boot).1 = 0 ∧
    powerStateSpec (Json.obj [("StatusSTS", Json.obj [("POWER", Json.str "OFF")]),
      ("Status", Json.obj [("Power", Json.int 1)])]) = 0 ∧
    (tasmotaGetPowerStateEx (scriptedEnv [] false) "192.168.1.50" State.boot).1 = -1 :=
  ⟨((tasmotaGetPowerStateEx_tristate (scriptedEnv [answerOff] true) "192.168.1.50"
      State.boot).2.2.2.1
      (Json.obj [("StatusSTS", Json.obj [("POWER", Json.str "OFF")])])
      (by decide) (by rfl)).trans rfl,
   (tasmotaGetPowerStateEx_tristate (scriptedEnv [] true) "192.168.1.50"
      State.boot).2.2.2.2.1 _ rfl,
   (tasmotaGetPowerStateEx_tristate (scriptedEnv [] false) "192.168.1.50"
      State.boot).2.1 (by decide)⟩

end FeedingBreak

namespace FeedingBreak

/-! ## The flash store -/

theorem lookup_filter_ne (store : List (String × PrefValue)) (key other : String)
    (h : other ≠ key) :
    (store.filter (fun e => decide (e.1 ≠ key))).lookup other = store.lookup other := by
  induction store with
  | nil => rfl
  | cons e rest ih =>
    obtain ⟨k, v⟩ := e
    by_cases hk : k = key
    · have hne : (other == k) = false := by
        rw [hk]; exact beq_false_of_ne h
      rw [List.filter_cons, if_neg (by simp [hk]), ih, List.lookup_cons, hne]
    · rw [List.filter_cons, if_pos (by simp [hk]), List.lookup_cons, List.lookup_cons, ih]

theorem lookup_prefsPut_same (store : List (String × PrefValue)) (key : String)
    (v : PrefValue) : (prefsPut store key v).lookup key = some v := by
  unfold prefsPut
  rw [List.lookup_cons, beq_self_eq_true]

theorem lookup_prefsPut_other (store : List (String × PrefValue)) (key other : String)
    (v : PrefValue) (h : other ≠ key) :
    (prefsPut store key v).lookup other = store.lookup other := by
  unfold prefsPut
  rw [List.lookup_cons, beq_false_of_ne h]
  exact lookup_filter_ne store key other h

theorem prefsPut_again (store : List (String × PrefValue)) (k1 k2 k3 : String)
    (v1 v2 v3 : PrefValue) (h12 : k1 ≠ k2) (h13 : k1 ≠ k3) (h23 : k2 ≠ k3) :
    prefsPut (prefsPut (prefsPut
      (prefsPut (prefsPut (prefsPut store k1 v1) k2 v2) k3 v3) k1 v1) k2 v2) k3 v3 =
    prefsPut (prefsPut (prefsPut store k1 v1) k2 v2) k3 v3 := by
  unfold prefsPut
  simp only [List.filter_cons, List.filter_filter, ne_eq, h12, h13, h23, Ne.symm h12,
    Ne.symm h13, Ne.symm h23, not_true_eq_false, not_false_eq_true, decide_True, decide_False,
    if_true, if_false, Bool.false_eq_true]
  congr 3
  apply List.filter_congr
  intro e _
  cases (decide ¬e.1 = k1) <;> cases (decide ¬e.1 = k2) <;> cases (decide ¬e.1 = k3) <;> rfl

end FeedingBreak

namespace FeedingBreak

/-! ## Saving and reloading the configuration of the local controller -/

theorem withConfig_eq (s : State) {e e' : Bool} {p p' : Int} {ds ds' : List TasmotaDevice}
    (h1 : e = e') (h2 : p = p') (h3 : ds = ds') :
    s.withConfig e p ds = s.withConfig e' p' ds' := by
  rw [h1, h2, h3]

theorem tasmotaSaveConfig_preferences (env : Env) (s : State) :
    (tasmotaSaveConfig env s).preferences =
      prefsPut (prefsPut (prefsPut s.preferences "tasmota_en" (PrefValue.bool s.tasmotaEnabled))
        "tasmota_pulse" (PrefValue.int s.tasmotaPulseTime))
        "tasmota_devs" (PrefValue.str (env.serializeJson (savedDevicesDoc s.tasmotaDevices))) :=
  rfl

theorem tasmotaSaveConfig_eq (env : Env) (s : State) :
    tasmotaSaveConfig env s =
      { s with preferences := (tasmotaSaveConfig env s).preferences } := rfl

theorem saved_lookups (store : List (String × PrefValue)) (e : Bool) (p : Int) (j : String) :
    prefsGetBool (prefsPut (prefsPut (prefsPut store "tasmota_en" (PrefValue.bool e))
        "tasmota_pulse" (PrefValue.int p)) "tasmota_devs" (PrefValue.str j))
        "tasmota_en" false = e ∧
    prefsGetInt (prefsPut (prefsPut (prefsPut store "tasmota_en" (PrefValue.bool e))
        "tasmota_pulse" (PrefValue.int p)) "tasmota_devs" (PrefValue.str j))
        "tasmota_pulse" 900 = p ∧
    prefsGetString (prefsPut (prefsPut (prefsPut store "tasmota_en" (PrefValue.bool e))
        "tasmota_pulse" (PrefValue.int p)) "tasmota_devs" (PrefValue.str j))
        "tasmota_devs" "[]" = j := by
  refine ⟨?_, ?_, ?_⟩
  · unfold prefsGetBool
    rw [lookup_prefsPut_other _ _ _ _ (by decide), lookup_prefsPut_other _ _ _ _ (by decide),
      lookup_prefsPut_same]
  · unfold prefsGetInt
    rw [lookup_prefsPut_other _ _ _ _ (by decide), lookup_prefsPut_same]
  · unfold prefsGetString
    rw [lookup_prefsPut_same]

theorem loadedDevice_saved (env : Env) (d : TasmotaDevice) :
    loadedDevice env (savedDeviceEntry d) = reloaded d := rfl

theorem savedDevicesDoc_reloaded (ds : List TasmotaDevice) :
    savedDevicesDoc ((ds.filter (fun d => d.enabled)).map reloaded) = savedDevicesDoc ds := by
  unfold savedDevicesDoc
  congr 1
  have h1 : ((ds.filter (fun d => d.enabled)).map reloaded).filter (fun d => d.enabled) =
      (ds.filter (fun d => d.enabled)).map reloaded := by
    apply List.filter_eq_self.2
    intro d hd
    obtain ⟨d0, _, e⟩ := List.mem_map.1 hd
    rw [← e]
    rfl
  rw [h1, List.map_map]
  rfl

theorem tasmotaLoadConfig_of_store (env : Env) (t : State) (e : Bool) (p : Int)
    (ds : List TasmotaDevice)
    (hjson : env.deserializeJson (env.serializeJson (savedDevicesDoc ds)) =
      some (savedDevicesDoc ds))
    (hstore : ∃ store, t.preferences =
      prefsPut (prefsPut (prefsPut store "tasmota_en" (PrefValue.bool e))
        "tasmota_pulse" (PrefValue.int p)) "tasmota_devs"
        (PrefValue.str (env.serializeJson (savedDevicesDoc ds)))) :
    tasmotaLoadConfig env t =
      t.withConfig e p ((ds.filter (fun d => d.enabled)).map reloaded) := by
  obtain ⟨store, hs⟩ := hstore
  obtain ⟨l1, l2, l3⟩ := saved_lookups store e p (env.serializeJson (savedDevicesDoc ds))
  rw [← hs] at l1 l2 l3
  unfold tasmotaLoadConfig
  simp only []
  rw [l1, l2, l3, hjson]
  refine withConfig_eq t rfl rfl ?_
  show ((ds.filter (fun d => d.enabled)).map savedDeviceEntry).map (loadedDevice env) = _
  rw [List.map_map]
  rfl

/-- C23: let the store hold what `tasmotaSaveConfig` wrote for the state `s`, and let
the JSON library read back the document it wrote for the device list of `s`. Then
`tasmotaLoadConfig`, in whatever state it runs, yields exactly the devices of `s` that
were enabled, in the same order, each with the same address, name and polarity and
enabled (host name empty, power state and reachability reset); it restores
`tasmotaEnabled` and `tasmotaPulseTime`; devices that were disabled are not in the stored
document; and saving and loading once more gives the same state. -/
theorem tasmotaConfig_round_trip (env : Env) (s t : State)
    (hjson : env.deserializeJson (env.serializeJson (savedDevicesDoc s.tasmotaDevices)) =
      some (savedDevicesDoc s.tasmotaDevices))
    (hstore : t.preferences = (tasmotaSaveConfig env s).preferences) :
    (tasmotaLoadConfig env t).tasmotaDevices =
      (s.tasmotaDevices.filter (fun d => d.enabled)).map reloaded ∧
    (∀ d : TasmotaDevice, (reloaded d).ip = d.ip ∧ (reloaded d).name = d.name ∧
      (reloaded d).turnOn = d.turnOn ∧ (reloaded d).enabled = true) ∧
    (tasmotaLoadConfig env t).tasmotaEnabled = s.tasmotaEnabled ∧
    (tasmotaLoadConfig env t).tasmotaPulseTime = s.tasmotaPulseTime ∧
    savedDevicesDoc s.tasmotaDevices =
      Json.arr ((s.tasmotaDevices.filter (fun d => d.enabled)).map savedDeviceEntry) ∧
    tasmotaLoadConfig env (tasmotaSaveConfig env (tasmotaLoadConfig env t)) =
      tasmotaLoadConfig env t := by
  have hst : ∃ store, t.preferences =
      prefsPut (prefsPut (prefsPut store "tasmota_en" (PrefValue.bool s.tasmotaEnabled))
        "tasmota_pulse" (PrefValue.int s.tasmotaPulseTime)) "tasmota_devs"
        (PrefValue.str (env.serializeJson (savedDevicesDoc s.tasmotaDevices))) :=
    ⟨s.preferences, hstore.trans (tasmotaSaveConfig_preferences env s)⟩
  have hl := tasmotaLoadConfig_of_store env t s.tasmotaEnabled s.tasmotaPulseTime
    s.tasmotaDevices hjson hst
  have hp : (tasmotaSaveConfig env (tasmotaLoadConfig env t)).preferences =
      (tasmotaLoadConfig env t).preferences := by
    rw [tasmotaSaveConfig_preferences, hl]
    show prefsPut (prefsPut (prefsPut t.preferences "tasmota_en"
        (PrefValue.bool s.tasmotaEnabled)) "tasmota_pulse" (PrefValue.int s.tasmotaPulseTime))
        "tasmota_devs" (PrefValue.str (env.serializeJson
          (savedDevicesDoc ((s.tasmotaDevices.filter (fun d => d.enabled)).map reloaded)))) =
      t.preferences
    rw [savedDevicesDoc_reloaded, hstore, tasmotaSaveConfig_preferences]
    exact prefsPut_again _ _ _ _ _ _ _ (by decide) (by decide) (by decide)
  have hsave : tasmotaSaveConfig env (tasmotaLoadConfig env t) = tasmotaLoadConfig env t := by
    rw [tasmotaSaveConfig_eq, hp]
  refine ⟨?_, fun _ => ⟨rfl, rfl, rfl, rfl⟩, ?_, ?_, rfl, ?_⟩
  · rw [hl]; rfl
  · rw [hl]; rfl
  · rw [hl]; rfl
  · rw [hsave]
    have hl2 := tasmotaLoadConfig_of_store env (tasmotaLoadConfig env t) s.tasmotaEnabled
      s.tasmotaPulseTime s.tasmotaDevices hjson (by
        obtain ⟨store, hs⟩ := hst
        refine ⟨store, ?_⟩
        rw [hl]
        exact hs)
    rw [hl2, hl]
    rfl

/-- C23, worked example: the configuration with a normal, an inverted and a disabled
device is saved, the board restarts and loads it: the two enabled devices come back
with address, name and polarity, the disabled one is gone, and the backend flag and the
pulse time are restored. -/
theorem tasmotaConfig_round_trip_witness :
    (tasmotaLoadConfig storeEnv (tasmotaSaveConfig storeEnv exampleLocal).reboot).tasmotaDevices
      = [reloaded examplePump, reloaded exampleLight] ∧
    (tasmotaLoadConfig storeEnv (tasmotaSaveConfig storeEnv exampleLocal).reboot).tasmotaEnabled
      = true ∧
    (tasmotaLoadConfig storeEnv
      (tasmotaSaveConfig storeEnv exampleLocal).reboot).tasmotaPulseTime = 900 :=
  ⟨(tasmotaConfig_round_trip storeEnv exampleLocal
      (tasmotaSaveConfig storeEnv exampleLocal).reboot rfl rfl).1,
   (tasmotaConfig_round_trip storeEnv exampleLocal
      (tasmotaSaveConfig storeEnv exampleLocal).reboot rfl rfl).2.2.1,
   (tasmotaConfig_round_trip storeEnv exampleLocal
      (tasmotaSaveConfig storeEnv exampleLocal).reboot rfl rfl).2.2.2.1⟩

end FeedingBreak

namespace FeedingBreak

/-! ## Polls without an answer -/

theorem tasmotaUpdatePowerStatesDevice_unknown (env : Env) (d : TasmotaDevice) (s : State)
    (hq : (tasmotaGetPowerStateEx env d.ip s).1 < 0) :
    (tasmotaUpdatePowerStatesDevice env d s).1 = d := by
  unfold tasmotaUpdatePowerStatesDevice
  split
  · simp only []
    rw [if_neg (by omega)]
  · rfl

theorem tasmotaSendCommand_loop_down (env : Env) (ip command : String) (retries : Int)
    (s : State) (hdown : ∀ w : Nat, env.wifiStatus w = false) :
    (tasmotaSendCommand env ip command retries s).1 = "" := by
  obtain ⟨k, m, _, _, _, h4, _, _, _, h8⟩ :=
    tasmotaSendCommandLoop_attempts env ip command retries.toNat s
  have hk : k = 0 := by
    rw [h4]
    apply List.countP_eq_zero.2
    intro w _
    rw [hdown w]
    decide
  subst hk
  rcases h8 with ⟨a, _, _⟩ | ⟨_, b⟩
  · omega
  · exact b

theorem tasmotaGetPowerStateEx_wifi_down (env : Env) (ip : String) (s : State)
    (hdown : ∀ w : Nat, env.wifiStatus w = false) :
    (tasmotaGetPowerStateEx env ip s).1 = -1 := by
  have h := (tasmotaSendCommand_loop_down env ip "Status 0" 3 s hdown)
  rw [tasmotaGetPowerStateEx_value, h]
  rfl

end FeedingBreak

namespace FeedingBreak

theorem startCommands_kept (pulseTime : Int) {d d' : TasmotaDevice} (h : DeviceKept d d') :
    startCommands pulseTime d' = startCommands pulseTime d := by
  unfold startCommands
  rw [h.1, h.2.2.2.1, h.2.2.2.2.1]

theorem stopCommands_kept {d d' : TasmotaDevice} (h : DeviceKept d d') :
    stopCommands d' = stopCommands d := by
  unfold stopCommands
  rw [h.1, h.2.2.2.1, h.2.2.2.2.1]

/-! ## Claims on polls without an answer -/

/-- C24, the code at the failing input: when the power-state query of an enabled device
gives no valid answer (result below zero), `tasmotaUpdatePowerStates` leaves the device
exactly as it was, so `reachable` keeps its value and is not set to false. The rest of
the claim holds: the list keeps its devices in their order with address, names, enabled
flag and polarity, and the commands of the next start and stop, which depend on these
fields only, are the same as before. -/
theorem tasmotaUpdatePowerStates_unanswered (env : Env) (d : TasmotaDevice) (s : State)
    (he : d.enabled = true) (hq : (tasmotaGetPowerStateEx env d.ip s).1 < 0) :
    (tasmotaUpdatePowerStatesDevice env d s).2 = (tasmotaGetPowerStateEx env d.ip s).2 ∧
    (tasmotaUpdatePowerStatesDevice env d s).1 = d ∧
    (tasmotaUpdatePowerStatesDevice env d s).1.reachable = d.reachable ∧
    List.Forall₂ DeviceKept s.tasmotaDevices (tasmotaUpdatePowerStates env s).tasmotaDevices ∧
    (∀ (pulseTime : Int) (a b : TasmotaDevice), DeviceKept a b →
      startCommands pulseTime b = startCommands pulseTime a ∧
      stopCommands b = stopCommands a) := by
  have hd := tasmotaUpdatePowerStatesDevice_unknown env d s hq
  refine ⟨?_, hd, by rw [hd], (tasmotaUpdatePowerStates_run env s).2,
    fun pt a b h => ⟨startCommands_kept pt h, stopCommands_kept h⟩⟩
  unfold tasmotaUpdatePowerStatesDevice
  rw [if_pos he]
  simp only []
  rw [if_neg (by omega)]

/-- C24, worked example: WiFi is down while the pump, marked reachable, is polled; after
the poll the device list is unchanged and the pump is still marked reachable. -/
theorem tasmotaUpdatePowerStates_unanswered_witness :
    examplePump.reachable = true ∧
    (tasmotaUpdatePowerStatesDevice (scriptedEnv [] false) examplePump exampleLocal).1.reachable
      = true ∧
    (tasmotaUpdatePowerStates (scriptedEnv [] false) exampleLocal).tasmotaDevices =
      exampleLocal.tasmotaDevices :=
  ⟨rfl,
   (tasmotaUpdatePowerStates_unanswered (scriptedEnv [] false) examplePump exampleLocal rfl
      (by decide)).2.2.1,
   by decide⟩

/-- C25: when the text is not well-formed JSON `tasmotaUpdateSettings` returns false and
the whole state, with `tasmotaEnabled`, `tasmotaPulseTime`, the device list and the
store, is as before. It returns true exactly when the text parses, and then the store
holds the new configuration: the three keys read back as the new `tasmotaEnabled`, the
new `tasmotaPulseTime` and the document of the new device list. -/
theorem tasmotaUpdateSettings_atomic (env : Env) (json : String) (s : State) :
    (env.deserializeJson json = none → tasmotaUpdateSettings env json s = (false, s)) ∧
    ((tasmotaUpdateSettings env json s).1 = true ↔
      (env.deserializeJson json).isSome = true) ∧
    ((tasmotaUpdateSettings env json s).1 = true →
      prefsGetBool (tasmotaUpdateSettings env json s).2.preferences "tasmota_en" false =
        (tasmotaUpdateSettings env json s).2.tasmotaEnabled ∧
      prefsGetInt (tasmotaUpdateSettings env json s).2.preferences "tasmota_pulse" 900 =
        (tasmotaUpdateSettings env json s).2.tasmotaPulseTime ∧
      prefsGetString (tasmotaUpdateSettings env json s).2.preferences "tasmota_devs" "[]" =
        env.serializeJson (savedDevicesDoc (tasmotaUpdateSettings env json s).2.tasmotaDevices))
    := by
  have hsaved : ∀ t : State,
      prefsGetBool (tasmotaSaveConfig env t).preferences "tasmota_en" false =
        (tasmotaSaveConfig env t).tasmotaEnabled ∧
      prefsGetInt (tasmotaSaveConfig env t).preferences "tasmota_pulse" 900 =
        (tasmotaSaveConfig env t).tasmotaPulseTime ∧
      prefsGetString (tasmotaSaveConfig env t).preferences "tasmota_devs" "[]" =
        env.serializeJson (savedDevicesDoc (tasmotaSaveConfig env t).tasmotaDevices) := by
    intro t
    rw [tasmotaSaveConfig_preferences]
    exact saved_lookups _ _ _ _
  cases hd : env.deserializeJson json with
  | none =>
    have e : tasmotaUpdateSettings env json s = (false, s) := by
      unfold tasmotaUpdateSettings
      rw [hd]
    rw [e]
    exact ⟨fun _ => rfl, ⟨fun h => Bool.noConfusion h, fun h => Bool.noConfusion h⟩,
      fun h => Bool.noConfusion h⟩
  | some doc =>
    unfold tasmotaUpdateSettings
    rw [hd]
    exact ⟨fun h => Option.noConfusion h, ⟨fun _ => rfl, fun _ => rfl⟩, fun _ => hsaved _⟩

/-- C25, worked example: the text `oops` is rejected and nothing changes; the text `{}`
is accepted, sets the defaults (backend off, pulse time 900) and rewrites the store. -/
theorem tasmotaUpdateSettings_atomic_witness :
    tasmotaUpdateSettings storeEnv "oops" exampleLocal = (false, exampleLocal) ∧
    (tasmotaUpdateSettings storeEnv "\x7b\x7d" exampleLocal).1 = true ∧
    prefsGetInt (tasmotaUpdateSettings storeEnv "\x7b\x7d" exampleLocal).2.preferences
      "tasmota_pulse" 0 = 900 :=
  ⟨(tasmotaUpdateSettings_atomic storeEnv "oops" exampleLocal).1 (by rfl),
   (tasmotaUpdateSettings_atomic storeEnv "\x7b\x7d" exampleLocal).2.1.2 (by rfl),
   by decide⟩

/-- C26, the code at the failing input: function `tasmotaCheckFeedingComplete` polls with
the two-valued `tasmotaGetPowerState`, so for an enabled device whose query gives no
valid answer (result -1) it stores `powerState = false`, whatever the cached value was,
and counts the device as completed exactly when it is inverted. On the same answer
`tasmotaUpdatePowerStates` leaves the device as it was. -/
theorem tasmotaCheckFeedingComplete_unanswered (env : Env) (d : TasmotaDevice)
    (rest : List TasmotaDevice) (counts : Int × Int) (s : State)
    (he : d.enabled = true) (hq : (tasmotaGetPowerStateEx env d.ip s).1 = -1) :
    (tasmotaCheckFeedingCompleteLoop env (d :: rest) counts s).1.1 =
      { d with powerState := false } ::
        (tasmotaCheckFeedingCompleteLoop env rest
          (counts.1 + 1, if d.turnOn = true then counts.2 + 1 else counts.2)
          (tasmotaGetPowerStateEx env d.ip s).2).1.1 ∧
    (tasmotaCheckFeedingCompleteLoop env (d :: rest) counts s).1.2 =
      (tasmotaCheckFeedingCompleteLoop env rest
        (counts.1 + 1, if d.turnOn = true then counts.2 + 1 else counts.2)
        (tasmotaGetPowerStateEx env d.ip s).2).1.2 ∧
    (tasmotaUpdatePowerStatesDevice env d s).1 = d := by
  have hp : tasmotaGetPowerState env d.ip s = (false, (tasmotaGetPowerStateEx env d.ip s).2) := by
    unfold tasmotaGetPowerState
    simp only []
    rw [hq]
    rfl
  refine ⟨?_, ?_, tasmotaUpdatePowerStatesDevice_unknown env d s (by rw [hq]; decide)⟩
  · rw [tasmotaCheckFeedingCompleteLoop, if_pos he, hp]
    by_cases ht : d.turnOn = true
    · simp [ht]
    · simp [ht]
  · rw [tasmotaCheckFeedingCompleteLoop, if_pos he, hp]
    by_cases ht : d.turnOn = true
    · simp [ht]
    · simp [ht]

/-- C26, worked example: feeding is active, the inverted device is cached as switched
on, WiFi is down; the completion check stores the device as switched off and reports the
feeding as complete. -/
theorem tasmotaCheckFeedingComplete_unanswered_witness :
    exampleLightOn.powerState = true ∧
    (tasmotaCheckFeedingCompleteLoop (scriptedEnv [] false) [exampleLightOn] (0, 0)
      exampleFeedingLight).1.1 = [{ exampleLightOn with powerState := false }] ∧
    tasmotaCheckFeedingComplete (scriptedEnv [] false) exampleFeedingLight =
      (true, { (tasmotaGetPowerStateEx (scriptedEnv [] false) exampleLightOn.ip
                 exampleFeedingLight).2 with
               tasmotaDevices := [{ exampleLightOn with powerState := false }] }) ∧
    (tasmotaUpdatePowerStates (scriptedEnv [] false) exampleFeedingLight).tasmotaDevices =
      [exampleLightOn] :=
  ⟨rfl,
   (tasmotaCheckFeedingComplete_unanswered (scriptedEnv [] false) exampleLightOn []
      (0, 0) exampleFeedingLight rfl (by decide)).1,
   by decide, by decide⟩

end FeedingBreak

namespace FeedingBreak

/-! ## Claim on the pulse timer value -/

/-- C27, the code at the failing input: for a positive delay whose sum with 100 fits a
32-bit int, `tasmotaTurnOff` issues `PowerOnState 5`, `PulseTime` with the value
`autoOnSeconds + 100` capped at 64900, and `Power OFF`. The value lies in 101..64900; it
is below 112, the lower end of the range of second-resolution values named in the
function, exactly for the delays 1 to 11. -/
theorem tasmotaTurnOff_pulse_value (env : Env) (ip : String) (autoOnSeconds : Int)
    (s : State) (h0 : 0 < autoOnSeconds) (h1 : autoOnSeconds + 100 < 2 ^ 31) :
    (tasmotaTurnOff env ip autoOnSeconds s).2 =
      runCommands env
        [⟨ip, "PowerOnState 5", 2⟩,
         ⟨ip, "PulseTime " ++ toString (pulseValue autoOnSeconds), 2⟩,
         ⟨ip, "Power OFF", 3⟩] s ∧
    pulseValue autoOnSeconds = min (autoOnSeconds + 100) 64900 ∧
    101 ≤ pulseValue autoOnSeconds ∧ pulseValue autoOnSeconds ≤ 64900 ∧
    (pulseValue autoOnSeconds < 112 ↔ autoOnSeconds < 12) := by
  have hv := pulseValue_in_range autoOnSeconds h0 h1
  refine ⟨?_, hv, ?_, ?_, ?_⟩
  · unfold tasmotaTurnOff
    simp only []
    rw [if_pos h0]
    rfl
  · rw [hv]; omega
  · rw [hv]; omega
  · rw [hv]; omega

/-- C27, worked example: for the delay of one second the value sent is 101. -/
theorem tasmotaTurnOff_pulse_value_witness :
    pulseValue 1 = 101 ∧
    (tasmotaTurnOff (scriptedEnv (scriptOk 3) true) "192.168.1.50" 1 State.boot).2.trace =
      [Event.http (tasmotaCommandRequest "192.168.1.50" "PowerOnState 5"),
       Event.http (tasmotaCommandRequest "192.168.1.50" "PulseTime 101"),
       Event.http (tasmotaCommandRequest "192.168.1.50" "Power OFF")] :=
  ⟨((tasmotaTurnOff_pulse_value (scriptedEnv (scriptOk 3) true) "192.168.1.50" 1 State.boot
      (by decide) (by decide)).2.1).trans (by decide),
   by decide⟩

end FeedingBreak

namespace FeedingBreak

/-! ## Claim on the body of the Cloud-A login request -/

theorem not_mem_replaceCharList (c x : Char) (rep : List Char) (hrep : x ∉ rep) :
    ∀ l : List Char, (x ∉ l ∨ x = c) → x ∉ replaceCharList c rep l := by
  intro l
  induction l with
  | nil => intro _ h; cases h
  | cons y ys ih =>
    intro hl
    have hys : x ∉ ys ∨ x = c := by
      rcases hl with h | h
      · exact Or.inl (fun hm => h (List.mem_cons_of_mem _ hm))
      · exact Or.inr h
    unfold replaceCharList
    intro hm
    rcases List.mem_append.1 hm with h | h
    · by_cases hy : y = c
      · rw [if_pos hy] at h
        exact hrep h
      · rw [if_neg hy] at h
        have hxy : x = y := List.mem_singleton.1 h
        rcases hl with h2 | h2
        · exact h2 (by rw [hxy]; exact List.mem_cons_self _ _)
        · exact hy (hxy.symm.trans h2)
    · exact ih hys h

theorem replaceCharList_twice (l : List Char) :
    replaceCharList '#' "%23".data (replaceCharList '&' "%26".data l) = l.flatMap escapeChar := by
  induction l with
  | nil => rfl
  | cons x xs ih =>
    have happ : ∀ a b : List Char, replaceCharList '#' "%23".data (a ++ b) =
        replaceCharList '#' "%23".data a ++ replaceCharList '#' "%23".data b := by
      intro a b
      induction a with
      | nil => rfl
      | cons y ys iha =>
        show (if y = '#' then "%23".data else [y]) ++ replaceCharList '#' "%23".data (ys ++ b) = _
        rw [iha]
        show _ = ((if y = '#' then "%23".data else [y]) ++ replaceCharList '#' "%23".data ys) ++ _
        rw [List.append_assoc]
    rw [List.flatMap_cons, ← ih]
    show replaceCharList '#' "%23".data
      ((if x = '&' then "%26".data else [x]) ++ replaceCharList '&' "%26".data xs) = _
    rw [happ]
    congr 1
    unfold escapeChar
    by_cases h1 : x = '&'
    · rw [if_pos h1, if_pos h1]
      rfl
    · rw [if_neg h1, if_neg h1]
      show (if x = '#' then "%23".data else [x]) ++ replaceCharList '#' "%23".data [] = _
      by_cases h2 : x = '#'
      · rw [if_pos h2]; rfl
      · rw [if_neg h2]; rfl

theorem splitOnChar_no_separator (c : Char) (l : List Char) (h : c ∉ l) :
    splitOnChar c l = [l] := by
  induction l with
  | nil => rfl
  | cons x xs ih =>
    have hx : x ≠ c := fun e => h (by rw [e]; exact List.mem_cons_self _ _)
    have hxs : c ∉ xs := fun hm => h (List.mem_cons_of_mem _ hm)
    unfold splitOnChar
    rw [if_neg hx, ih hxs]

theorem splitOnChar_first (c : Char) (a b : List Char) (h : c ∉ a) :
    splitOnChar c (a ++ c :: b) = a :: splitOnChar c b := by
  induction a with
  | nil =>
    show splitOnChar c (c :: b) = _
    rw [splitOnChar, if_pos rfl]
  | cons x xs ih =>
    have hx : x ≠ c := fun e => h (by rw [e]; exact List.mem_cons_self _ _)
    have hxs : c ∉ xs := fun hm => h (List.mem_cons_of_mem _ hm)
    show splitOnChar c (x :: (xs ++ c :: b)) = _
    rw [splitOnChar, if_neg hx, ih hxs]

/-- C28: the body of the login request is `grant_type=password&username=`, the user
name, `&password=` and the escaped password, where the escaping replaces every `&` by
`%26` and every `#` by `%23` and copies every other character. The escaped password
contains neither `&` nor `#`; and when the user name contains no `&`, the body splits at
`&` into exactly the three fields `grant_type`, `username` and `password`. -/
theorem redseaLogin_body (s : State) :
    (redseaLoginRequest s).body =
      "grant_type=password&username=" ++ s.redsea_USERNAME ++ "&password=" ++
        String.mk (s.redsea_PASSWORD.data.flatMap escapeChar) ∧
    (∀ x : Char, escapeChar x =
      if x = '&' then ['%', '2', '6'] else if x = '#' then ['%', '2', '3'] else [x]) ∧
    '&' ∉ s.redsea_PASSWORD.data.flatMap escapeChar ∧
    '#' ∉ s.redsea_PASSWORD.data.flatMap escapeChar ∧
    ('&' ∉ s.redsea_USERNAME.data →
      splitOnChar '&' (redseaLoginRequest s).body.data =
        ["grant_type=password".data,
         "username=".data ++ s.redsea_USERNAME.data,
         "password=".data ++ s.redsea_PASSWORD.data.flatMap escapeChar]) := by
  have henc : replaceChar (replaceChar s.redsea_PASSWORD '&' "%26") '#' "%23" =
      String.mk (s.redsea_PASSWORD.data.flatMap escapeChar) := by
    unfold replaceChar
    rw [replaceCharList_twice]
  have hamp : '&' ∉ s.redsea_PASSWORD.data.flatMap escapeChar := by
    rw [← replaceCharList_twice]
    apply not_mem_replaceCharList '#' '&' _ (by decide)
    exact Or.inl (not_mem_replaceCharList '&' '&' _ (by decide) _ (Or.inr rfl))
  have hhash : '#' ∉ s.redsea_PASSWORD.data.flatMap escapeChar := by
    rw [← replaceCharList_twice]
    exact not_mem_replaceCharList '#' '#' _ (by decide) _ (Or.inr rfl)
  have hbody : (redseaLoginRequest s).body =
      "grant_type=password&username=" ++ s.redsea_USERNAME ++ "&password=" ++
        String.mk (s.redsea_PASSWORD.data.flatMap escapeChar) := by
    show "grant_type=password&username=" ++ s.redsea_USERNAME ++ "&password=" ++
      replaceChar (replaceChar s.redsea_PASSWORD '&' "%26") '#' "%23" = _
    rw [henc]
  refine ⟨hbody, fun _ => rfl, hamp, hhash, ?_⟩
  intro hu
  rw [hbody]
  have hdata : ("grant_type=password&username=" ++ s.redsea_USERNAME ++ "&password=" ++
      String.mk (s.redsea_PASSWORD.data.flatMap escapeChar)).data =
      "grant_type=password".data ++ '&' :: (("username=".data ++ s.redsea_USERNAME.data) ++
        '&' :: ("password=".data ++ s.redsea_PASSWORD.data.flatMap escapeChar)) := by
    rw [String.data_append, String.data_append, String.data_append]
    show ("grant_type=password".data ++ '&' :: "username=".data) ++ s.redsea_USERNAME.data ++
      ('&' :: "password=".data) ++ _ = _
    simp only [List.append_assoc, List.cons_append]
  rw [hdata, splitOnChar_first _ _ _ (by decide), splitOnChar_first, splitOnChar_no_separator]
  · intro hm
    rcases List.mem_append.1 hm with h | h
    · exact absurd h (by decide)
    · exact hamp h
  · intro hm
    rcases List.mem_append.1 hm with h | h
    · exact absurd h (by decide)
    · exact hu h

/-- C28, worked example: the password `a&b#c` is sent as `a%26b%23c`, and the body has
the three fields. -/
theorem redseaLogin_body_witness :
    (redseaLoginRequest exampleLogin).body =
      "grant_type=password&username=me@x.org&password=a%26b%23c" ∧
    splitOnChar '&' (redseaLoginRequest exampleLogin).body.data =
      ["grant_type=password".data, "username=me@x.org".data, "password=a%26b%23c".data] :=
  ⟨by decide, (redseaLogin_body exampleLogin).2.2.2.2 (by decide)⟩

end FeedingBreak

namespace FeedingBreak

/-! ## Credential cipher -/

/-- Every hexadecimal digit written by `%02X` is an upper-case digit, passes the test
of `decryptString` and is read back with its value. -/
theorem hexDigit_facts : ∀ n, n < 16 →
    isUpperHexChar (hexDigit n) = true ∧ isHexChar (hexDigit n) = true ∧
      hexValue (hexDigit n) = n := by
  decide

/-- The two digits of a byte are read back as that byte. -/
theorem hexValue_pair (b : Nat) (hb : b < 256) :
    (hexValue (hexDigit (b / 16)) * 16 + hexValue (hexDigit (b % 16))) % 256 = b := by
  have h1 := (hexDigit_facts (b / 16) (by omega)).2.2
  have h2 := (hexDigit_facts (b % 16) (by omega)).2.2
  rw [h1, h2]
  omega

/-- XOR with the same key byte twice gives the byte back. -/
theorem xor_key_twice (c k : Nat) (hc : c < 256) (hk : k < 256) :
    (((c % 256) ^^^ k) % 256) ^^^ k = c := by
  have hlt : c ^^^ k < 2 ^ 8 := Nat.xor_lt_two_pow (by omega) (by omega)
  rw [Nat.mod_eq_of_lt hc, Nat.mod_eq_of_lt (by omega), Nat.xor_assoc, Nat.xor_self,
    Nat.xor_zero]

/-- A byte XOR a key byte is a byte. -/
theorem xor_byte_lt (c k : Nat) : ((c % 256) ^^^ k) % 256 < 256 :=
  Nat.mod_lt _ (by decide)

/-- The cipher text has two characters per plaintext character. -/
theorem encryptBytes_length (key : Nat → Nat) (p : List Char) (i : Nat) :
    (encryptBytes key i p).length = 2 * p.length := by
  induction p generalizing i with
  | nil => rfl
  | cons c cs ih =>
    simp only [encryptBytes, List.length_cons, ih]
    omega

/-- The cipher text consists of upper-case hexadecimal digits. -/
theorem encryptBytes_upper (key : Nat → Nat) (p : List Char) (i : Nat) :
    ∀ c ∈ encryptBytes key i p, isUpperHexChar c = true := by
  induction p generalizing i with
  | nil => intro c hc; cases hc
  | cons a cs ih =>
    intro c hc
    simp only [encryptBytes, List.mem_cons] at hc
    have hb := xor_byte_lt a.toNat (key (i % 16))
    rcases hc with hc | hc | hc
    · rw [hc]; exact (hexDigit_facts _ (by omega)).1
    · rw [hc]; exact (hexDigit_facts _ (by omega)).1
    · exact ih _ c hc

/-- The cipher text passes the hex test of `decryptString`. -/
theorem encryptBytes_hex (key : Nat → Nat) (p : List Char) (i : Nat) :
    (encryptBytes key i p).all isHexChar = true := by
  induction p generalizing i with
  | nil => rfl
  | cons a cs ih =>
    have hb := xor_byte_lt a.toNat (key (i % 16))
    simp only [encryptBytes, List.all_cons, ih, Bool.and_true]
    rw [(hexDigit_facts _ (by omega)).2.1, (hexDigit_facts _ (by omega)).2.1]
    rfl

/-- The decryption loop gives the plaintext back from the cipher text of a
printable plaintext, for every key of bytes. -/
theorem decryptBytes_encryptBytes (key : Nat → Nat) (hkey : ∀ i, i < 16 → key i < 256)
    (p : List Char) (hp : ∀ c ∈ p, 32 ≤ c.toNat ∧ c.toNat ≤ 126) (i : Nat) :
    decryptBytes key i (encryptBytes key i p) = some p := by
  induction p generalizing i with
  | nil => rfl
  | cons a cs ih =>
    have ha := hp a (List.mem_cons_self _ _)
    have hk := hkey (i % 16) (Nat.mod_lt _ (by decide))
    have hb := xor_byte_lt a.toNat (key (i % 16))
    have hx := xor_key_twice a.toNat (key (i % 16)) (by omega) hk
    have hv := hexValue_pair _ hb
    simp only [encryptBytes, decryptBytes]
    rw [hv, hx, if_neg (by omega), ih (fun c hc => hp c (List.mem_cons_of_mem _ hc)) (i + 1)]
    simp only [Option.map_some', Char.ofNat_toNat]

/-- Decrypting the cipher text of a printable plaintext gives the plaintext, for every
key of bytes. -/
theorem decryptWith_encryptWith (key : Nat → Nat) (hkey : ∀ i, i < 16 → key i < 256)
    (p : String) (hp : ∀ c ∈ p.data, 32 ≤ c.toNat ∧ c.toNat ≤ 126) :
    decryptWith key (encryptWith key p) = p := by
  unfold encryptWith
  by_cases h0 : p.data.length = 0
  · rw [if_pos h0]
    have : p.data = [] := List.length_eq_zero.1 h0
    have hp2 : p = "" := by
      cases p with
      | mk d => simp only at this; rw [this]
    rw [hp2]; rfl
  · rw [if_neg h0]
    unfold decryptWith
    have hl := encryptBytes_length key p.data 0
    have hh := encryptBytes_hex key p.data 0
    have hd := decryptBytes_encryptBytes key hkey p.data hp 0
    simp only at hl hh hd ⊢
    have hc : ¬ ((encryptBytes key 0 p.data).all isHexChar = false ∨
        (encryptBytes key 0 p.data).length % 2 ≠ 0) := by
      rw [hh, hl]
      intro h
      rcases h with h | h
      · exact Bool.noConfusion h
      · omega
    rw [if_neg (by omega), if_neg hc, hd]

/-- The key derived from the MAC address consists of bytes. -/
theorem getEncryptionKey_lt (env : Env) (i : Nat) : getEncryptionKey env i < 256 :=
  Nat.mod_lt _ (by decide)

/-- The cipher text of a plaintext: empty for the empty one, else two upper-case
hexadecimal digits per character. -/
theorem encryptWith_shape (key : Nat → Nat) (p : String) :
    (encryptWith key p).data.length = 2 * p.data.length ∧
      (∀ c ∈ (encryptWith key p).data, isUpperHexChar c = true) ∧
      (p = "" → encryptWith key p = "") := by
  unfold encryptWith
  by_cases h0 : p.data.length = 0
  · rw [if_pos h0]
    refine ⟨?_, ?_, fun _ => rfl⟩
    · rw [h0]; rfl
    · intro c hc
      cases hc
  · rw [if_neg h0]
    refine ⟨encryptBytes_length key p.data 0, encryptBytes_upper key p.data 0, ?_⟩
    intro hp
    rw [hp] at h0
    exact absurd rfl h0

end FeedingBreak

namespace FeedingBreak

/-! ## Credential storage -/

theorem preferences_putString (s : State) (key v : String) :
    (s.putString key v).preferences = prefsPut s.preferences key (PrefValue.str v) := rfl

theorem preferences_putBool (s : State) (key : String) (v : Bool) :
    (s.putBool key v).preferences = prefsPut s.preferences key (PrefValue.bool v) := rfl

/-- What `saveCredentials` leaves in the store under the two password keys. -/
theorem saveCredentials_passwords (env : Env) (s : State) :
    prefsGetString (saveCredentials env s).preferences "redsea_pass" "" =
        encryptString env s.redsea_PASSWORD ∧
      prefsGetString (saveCredentials env s).preferences "tunze_pass" "" =
        encryptString env s.TUNZE_PASSWORD := by
  unfold prefsGetString
  simp only [saveCredentials, preferences_putString, preferences_putBool]
  constructor
  · rw [lookup_prefsPut_other _ _ _ _ (by decide), lookup_prefsPut_other _ _ _ _ (by decide),
      lookup_prefsPut_other _ _ _ _ (by decide), lookup_prefsPut_other _ _ _ _ (by decide),
      lookup_prefsPut_other _ _ _ _ (by decide), lookup_prefsPut_other _ _ _ _ (by decide),
      lookup_prefsPut_other _ _ _ _ (by decide), lookup_prefsPut_other _ _ _ _ (by decide),
      lookup_prefsPut_same]
  · rw [lookup_prefsPut_other _ _ _ _ (by decide), lookup_prefsPut_other _ _ _ _ (by decide),
      lookup_prefsPut_other _ _ _ _ (by decide), lookup_prefsPut_other _ _ _ _ (by decide),
      lookup_prefsPut_same]

/-- The password variable after the load step, when the store holds the cipher text of
a printable password and the variable is empty if the password is. -/
theorem loadedOr_restores (env : Env) (p current : String)
    (hp : ∀ c ∈ p.data, 32 ≤ c.toNat ∧ c.toNat ≤ 126)
    (hcur : p.data.length = 0 → current = p) :
    loadedOr (encryptString env p) (decryptString env (encryptString env p)) current = p := by
  unfold loadedOr
  have hlen := (encryptWith_shape (getEncryptionKey env) p).1
  have hrt := decryptWith_encryptWith (getEncryptionKey env)
    (fun i _ => getEncryptionKey_lt env i) p hp
  by_cases h0 : p.data.length = 0
  · rw [if_neg (by unfold encryptString; omega)]
    exact hcur h0
  · rw [if_pos (by unfold encryptString; omega)]
    exact hrt

theorem loadCredentials_passwords (env : Env) (t : State) :
    (loadCredentials env t).redsea_PASSWORD =
        loadedOr (prefsGetString t.preferences "redsea_pass" "")
          (decryptString env (prefsGetString t.preferences "redsea_pass" ""))
          t.redsea_PASSWORD ∧
      (loadCredentials env t).TUNZE_PASSWORD =
        loadedOr (prefsGetString t.preferences "tunze_pass" "")
          (decryptString env (prefsGetString t.preferences "tunze_pass" ""))
          t.TUNZE_PASSWORD :=
  ⟨rfl, rfl⟩

/-- A text whose character list is empty is the empty text. -/
theorem string_eq_empty (p : String) (h : p.data.length = 0) : "" = p := by
  cases p with
  | mk d =>
    have : d = [] := List.length_eq_zero.1 h
    rw [this]

/-- C29: for every key of 16 bytes and every plaintext of printable ASCII characters
(codes 32..126) decrypting the cipher text gives the plaintext back, and the cipher text
consists of exactly twice as many upper-case hexadecimal digits as the plaintext has
characters (it is empty for the empty plaintext); the same holds for `encryptString` and
`decryptString` with the key of the device, so that the two passwords saved by
`saveCredentials` are restored unchanged by `loadCredentials` after a restart. -/
theorem credential_cipher_round_trip (env : Env) (key : Nat → Nat) (p : String) (s : State)
    (hkey : ∀ i, i < 16 → key i < 256)
    (hp : ∀ c ∈ p.data, 32 ≤ c.toNat ∧ c.toNat ≤ 126)
    (h1 : ∀ c ∈ s.redsea_PASSWORD.data, 32 ≤ c.toNat ∧ c.toNat ≤ 126)
    (h2 : ∀ c ∈ s.TUNZE_PASSWORD.data, 32 ≤ c.toNat ∧ c.toNat ≤ 126) :
    decryptWith key (encryptWith key p) = p ∧
      (encryptWith key p).data.length = 2 * p.data.length ∧
      (∀ c ∈ (encryptWith key p).data, isUpperHexChar c = true) ∧
      (p = "" → encryptWith key p = "") ∧
      decryptString env (encryptString env p) = p ∧
      (encryptString env p).data.length = 2 * p.data.length ∧
      (∀ c ∈ (encryptString env p).data, isUpperHexChar c = true) ∧
      (loadCredentials env (saveCredentials env s).reboot).redsea_PASSWORD =
        s.redsea_PASSWORD ∧
      (loadCredentials env (saveCredentials env s).reboot).TUNZE_PASSWORD =
        s.TUNZE_PASSWORD := by
  have hshape := encryptWith_shape key p
  have hdev := encryptWith_shape (getEncryptionKey env) p
  have hsave := saveCredentials_passwords env s
  have hload := loadCredentials_passwords env (saveCredentials env s).reboot
  have hprefs : (saveCredentials env s).reboot.preferences =
    (saveCredentials env s).preferences := rfl
  refine ⟨decryptWith_encryptWith key hkey p hp, hshape.1, hshape.2.1, hshape.2.2,
    decryptWith_encryptWith _ (fun i _ => getEncryptionKey_lt env i) p hp, hdev.1, hdev.2.1,
    ?_, ?_⟩
  · rw [hload.1, hprefs, hsave.1]
    exact loadedOr_restores env _ _ h1 (string_eq_empty _)
  · rw [hload.2, hprefs, hsave.2]
    exact loadedOr_restores env _ _ h2 (string_eq_empty _)

/-- C29, worked example: with the key `00 01 .. 0F` the text `a&b#c` is encrypted to
`6127602067` and decrypted back, and the passwords `a&b#c` and `hub pass` survive saving,
a restart and loading on the example device. -/
theorem credential_cipher_round_trip_witness :
    encryptWith (fun i => i) "a&b#c" = "6127602067" ∧
      decryptWith (fun i => i) (encryptWith (fun i => i) "a&b#c") = "a&b#c" ∧
      (loadCredentials storeEnv (saveCredentials storeEnv exampleLogin).reboot).redsea_PASSWORD
        = "a&b#c" ∧
      (loadCredentials storeEnv (saveCredentials storeEnv exampleLogin).reboot).TUNZE_PASSWORD
        = "hub pass" := by
  have h := credential_cipher_round_trip storeEnv (fun i => i) "a&b#c" exampleLogin
    (by decide) (by decide) (by decide) (by decide)
  exact ⟨by decide, h.1, h.2.2.2.2.2.2.2.1, h.2.2.2.2.2.2.2.2⟩

end FeedingBreak

namespace FeedingBreak

/-! ## Percent-encoding of the device commands -/

/-- The test of `urlEncode` for a character it copies is the specification of an
unreserved character. -/
theorem isUnreserved_iff (c : Char) :
    (c.isAlphanum ∨ c = '-' ∨ c = '_' ∨ c = '.' ∨ c = '~') ↔ isUnreserved c = true := by
  unfold isUnreserved
  simp only [Bool.or_eq_true, beq_iff_eq, or_assoc]

/-- The percent sign is not an unreserved character. -/
theorem isUnreserved_ne_percent (c : Char) (h : isUnreserved c = true) : c ≠ '%' := by
  intro hc
  rw [hc] at h
  exact absurd h (by decide)

/-- The space is not an unreserved character. -/
theorem isUnreserved_ne_space (c : Char) (h : isUnreserved c = true) : c ≠ ' ' := by
  intro hc
  rw [hc] at h
  exact absurd h (by decide)

/-- The three cases of `urlEncode` for one character. -/
theorem urlEncodeChar_cases (c : Char) :
    (isUnreserved c = true → urlEncodeChar c = [c]) ∧
      (c = ' ' → urlEncodeChar c = ['%', '2', '0']) ∧
      (isUnreserved c = false → c ≠ ' ' →
        ∃ h l, urlEncodeChar c = ['%', h, l] ∧ isUpperHexChar h = true ∧
          isUpperHexChar l = true ∧ hexValue h * 16 + hexValue l = c.toNat % 256) := by
  refine ⟨?_, ?_, ?_⟩
  · intro hu
    unfold urlEncodeChar
    rw [if_pos ((isUnreserved_iff c).2 hu)]
  · intro hs
    rw [hs]
    rfl
  · intro hu hs
    have hn : ¬ (c.isAlphanum ∨ c = '-' ∨ c = '_' ∨ c = '.' ∨ c = '~') := by
      intro h
      rw [(isUnreserved_iff c).1 h] at hu
      exact Bool.noConfusion hu
    have hb : c.toNat % 256 < 256 := Nat.mod_lt _ (by decide)
    have f1 := hexDigit_facts (c.toNat % 256 / 16) (by omega)
    have f2 := hexDigit_facts (c.toNat % 256 % 16) (by omega)
    refine ⟨hexDigit (c.toNat % 256 / 16), hexDigit (c.toNat % 256 % 16), ?_, f1.1, f2.1, ?_⟩
    · unfold urlEncodeChar
      rw [if_neg hn, if_neg hs]
    · rw [f1.2.2, f2.2.2]
      omega

/-- The output of `urlEncode` is the concatenation of what it appends per character. -/
theorem urlEncodeList_flatMap (l : List Char) :
    urlEncodeList l = l.flatMap urlEncodeChar := by
  induction l with
  | nil => rfl
  | cons c cs ih => rw [urlEncodeList, List.flatMap_cons, ih]

/-- Decoding what `urlEncode` appends for a byte gives the byte. -/
theorem percentDecodeFrom_urlEncodeChar (c : Char) (hc : c.toNat < 256) (rest : List Char) :
    percentDecodeFrom none (urlEncodeChar c ++ rest) = c :: percentDecodeFrom none rest := by
  have hcases := urlEncodeChar_cases c
  by_cases hu : isUnreserved c = true
  · rw [hcases.1 hu]
    show percentDecodeFrom none (c :: rest) = _
    rw [percentDecodeFrom, if_neg (isUnreserved_ne_percent c hu)]
  · have hu2 : isUnreserved c = false := by
      cases h : isUnreserved c
      · rfl
      · exact absurd h hu
    by_cases hs : c = ' '
    · rw [hs]
      rfl
    · obtain ⟨h, l, he, _, _, hv⟩ := hcases.2.2 hu2 hs
      rw [he]
      show percentDecodeFrom none ('%' :: h :: l :: rest) = _
      rw [percentDecodeFrom, if_pos rfl, percentDecodeFrom, percentDecodeFrom, hv,
        Nat.mod_eq_of_lt hc, Char.ofNat_toNat]

/-- Percent-decoding the output of `urlEncode` gives back the input bytes. -/
theorem percentDecode_urlEncodeList (l : List Char) (hl : ∀ c ∈ l, c.toNat < 256) :
    percentDecode (urlEncodeList l) = l := by
  unfold percentDecode
  induction l with
  | nil => rfl
  | cons c cs ih =>
    rw [urlEncodeList, percentDecodeFrom_urlEncodeChar c (hl c (List.mem_cons_self _ _)),
      ih (fun x hx => hl x (List.mem_cons_of_mem _ hx))]

/-- The shape of what `urlEncode` appends for one character. -/
theorem wellEscapedFrom_urlEncodeChar (c : Char) (rest : List Char) :
    wellEscapedFrom 0 (urlEncodeChar c ++ rest) = wellEscapedFrom 0 rest := by
  have hcases := urlEncodeChar_cases c
  by_cases hu : isUnreserved c = true
  · rw [hcases.1 hu]
    show wellEscapedFrom 0 (c :: rest) = _
    rw [wellEscapedFrom, if_neg (isUnreserved_ne_percent c hu), hu, Bool.true_and]
  · have hu2 : isUnreserved c = false := by
      cases h : isUnreserved c
      · rfl
      · exact absurd h hu
    by_cases hs : c = ' '
    · rw [hs]
      rfl
    · obtain ⟨h, l, he, hh, hl, _⟩ := hcases.2.2 hu2 hs
      rw [he]
      show wellEscapedFrom 0 ('%' :: h :: l :: rest) = _
      rw [wellEscapedFrom, if_pos rfl, wellEscapedFrom, wellEscapedFrom, hh, hl,
        Bool.true_and, Bool.true_and]

/-- The output of `urlEncode` consists of unreserved characters and escapes. -/
theorem wellEscapedFrom_urlEncodeList (l : List Char) :
    wellEscapedFrom 0 (urlEncodeList l) = true := by
  induction l with
  | nil => rfl
  | cons c cs ih => rw [urlEncodeList, wellEscapedFrom_urlEncodeChar, ih]

/-- An upper-case hexadecimal digit is a digit or a letter. -/
theorem isUpperHexChar_unreserved (c : Char) (h : isUpperHexChar c = true) :
    isUnreserved c = true := by
  have hn : c.toNat < 71 := by
    unfold isUpperHexChar at h
    simp only [Bool.or_eq_true, Bool.and_eq_true, decide_eq_true_eq] at h
    rcases h with h | h
    · have := h.2
      have h9 : c.val.toNat ≤ 57 := this
      show c.val.toNat < 71
      omega
    · have := h.2
      have hF : c.val.toNat ≤ 70 := this
      show c.val.toNat < 71
      omega
  have hall : ∀ n, n < 71 → isUpperHexChar (Char.ofNat n) = true →
      isUnreserved (Char.ofNat n) = true := by decide
  have := hall c.toNat hn
  rw [Char.ofNat_toNat] at this
  exact this h

/-- Every character of the output of `urlEncode` is unreserved or the percent sign. -/
theorem urlEncodeList_chars (l : List Char) :
    ∀ x ∈ urlEncodeList l, isUnreserved x = true ∨ x = '%' := by
  induction l with
  | nil => intro x hx; cases hx
  | cons c cs ih =>
    intro x hx
    rw [urlEncodeList, List.mem_append] at hx
    rcases hx with hx | hx
    · have hcases := urlEncodeChar_cases c
      by_cases hu : isUnreserved c = true
      · rw [hcases.1 hu, List.mem_singleton] at hx
        rw [hx]
        exact Or.inl hu
      · have hu2 : isUnreserved c = false := by
          cases h : isUnreserved c
          · rfl
          · exact absurd h hu
        by_cases hs : c = ' '
        · rw [hcases.2.1 hs] at hx
          simp only [List.mem_cons, List.mem_singleton, List.not_mem_nil, or_false] at hx
          rcases hx with hx | hx | hx
          · exact Or.inr hx
          · rw [hx]; exact Or.inl (by decide)
          · rw [hx]; exact Or.inl (by decide)
        · obtain ⟨h, l, he, hh, hl, _⟩ := hcases.2.2 hu2 hs
          rw [he] at hx
          simp only [List.mem_cons, List.mem_singleton, List.not_mem_nil, or_false] at hx
          rcases hx with hx | hx | hx
          · exact Or.inr hx
          · rw [hx]; exact Or.inl (isUpperHexChar_unreserved h hh)
          · rw [hx]; exact Or.inl (isUpperHexChar_unreserved l hl)
    · exact ih x hx

/-- C30: for every input the output of `urlEncode` consists only of letters, digits,
`-`, `_`, `.`, `~` and escapes made of `%` and two upper-case hexadecimal digits; it is
the concatenation over the input characters of the character itself when that is a
letter, a digit or one of `-`, `_`, `.`, `~`, of `%20` for a space, and of `%` with
the two upper-case hexadecimal digits of the byte otherwise; percent-decoding the output
of a text of bytes gives the text back, so on such texts the encoding is injective; and
`Power ON` becomes `Power%20ON`. -/
theorem urlEncode_shape_and_round_trip (str other : String) :
    wellEscapedFrom 0 (urlEncode str).data = true ∧
      (∀ x ∈ (urlEncode str).data, isUnreserved x = true ∨ x = '%') ∧
      (urlEncode str).data = str.data.flatMap urlEncodeChar ∧
      (∀ c : Char, (isUnreserved c = true → urlEncodeChar c = [c]) ∧
        (c = ' ' → urlEncodeChar c = "%20".data) ∧
        (isUnreserved c = false → c ≠ ' ' →
          ∃ h l, urlEncodeChar c = ['%', h, l] ∧ isUpperHexChar h = true ∧
            isUpperHexChar l = true ∧ hexValue h * 16 + hexValue l = c.toNat % 256)) ∧
      ((∀ c ∈ str.data, c.toNat < 256) → percentDecode (urlEncode str).data = str.data) ∧
      ((∀ c ∈ str.data, c.toNat < 256) → (∀ c ∈ other.data, c.toNat < 256) →
        urlEncode str = urlEncode other → str = other) ∧
      urlEncode "Power ON" = "Power%20ON" := by
  refine ⟨wellEscapedFrom_urlEncodeList str.data, urlEncodeList_chars str.data,
    urlEncodeList_flatMap str.data, urlEncodeChar_cases,
    percentDecode_urlEncodeList str.data, ?_, by decide⟩
  intro h1 h2 he
  have e1 := percentDecode_urlEncodeList str.data h1
  have e2 := percentDecode_urlEncodeList other.data h2
  have hd : urlEncodeList str.data = urlEncodeList other.data :=
    congrArg String.data he
  rw [hd, e2] at e1
  exact String.ext e1.symm

/-- C30, worked example: the command `Backlog Power1 ON; Delay 5` is sent as
`Backlog%20Power1%20ON%3B%20Delay%205`, which is well escaped and decodes to the
command, and it is told apart from `Power ON` by its encoding. -/
theorem urlEncode_shape_and_round_trip_witness :
    urlEncode "Backlog Power1 ON; Delay 5" = "Backlog%20Power1%20ON%3B%20Delay%205" ∧
      wellEscapedFrom 0 (urlEncode "Backlog Power1 ON; Delay 5").data = true ∧
      percentDecode (urlEncode "Backlog Power1 ON; Delay 5").data =
        "Backlog Power1 ON; Delay 5".data ∧
      (urlEncode "Backlog Power1 ON; Delay 5" = urlEncode "Power ON" →
        "Backlog Power1 ON; Delay 5" = "Power ON") := by
  have h := urlEncode_shape_and_round_trip "Backlog Power1 ON; Delay 5" "Power ON"
  exact ⟨by decide, h.1, h.2.2.2.2.1 (by decide),
    h.2.2.2.2.2.1 (by decide) (by decide)⟩

end FeedingBreak

namespace FeedingBreak

/-! ## The power state stored by a poll -/

/-- The result of `tasmotaGetPowerStateEx` is one of its three values. -/
theorem tasmotaGetPowerStateEx_range (env : Env) (ip : String) (s : State) :
    (tasmotaGetPowerStateEx env ip s).1 = 1 ∨ (tasmotaGetPowerStateEx env ip s).1 = 0 ∨
      (tasmotaGetPowerStateEx env ip s).1 = -1 := by
  rw [tasmotaGetPowerStateEx_value]
  split
  · exact Or.inr (Or.inr rfl)
  · cases hd : env.deserializeJson (tasmotaSendCommand env ip "Status 0" 3 s).1 with
    | none =>
      refine Or.inr (Or.inr ?_)
      unfold powerStateOfResponse
      rw [hd]
    | some doc =>
      rw [powerStateOfResponse_eq env _ doc hd]
      exact powerStateSpec_range doc

/-- The loop body of `tasmotaUpdatePowerStates` stores the answer as specified. -/
theorem tasmotaUpdatePowerStatesDevice_polled (env : Env) (d : TasmotaDevice) (s : State) :
    (tasmotaUpdatePowerStatesDevice env d s).1 =
        polledDevice (tasmotaGetPowerStateEx env d.ip s).1 d ∧
      (tasmotaUpdatePowerStatesDevice env d s).2 =
        (if d.enabled then (tasmotaGetPowerStateEx env d.ip s).2 else s) := by
  unfold tasmotaUpdatePowerStatesDevice polledDevice
  by_cases he : d.enabled = true
  · rw [if_pos he, if_pos he]
    simp only []
    rcases tasmotaGetPowerStateEx_range env d.ip s with h | h | h
    · rw [h, if_pos (by decide), if_pos ⟨he, rfl⟩]
      exact ⟨rfl, rfl⟩
    · rw [h, if_pos (by decide), if_neg (fun hh => absurd hh.2 (by decide)), if_pos ⟨he, rfl⟩]
      exact ⟨rfl, rfl⟩
    · rw [h, if_neg (by decide), if_neg (fun hh => absurd hh.2 (by decide)),
        if_neg (fun hh => absurd hh.2 (by decide))]
      exact ⟨rfl, rfl⟩
  · rw [if_neg he, if_neg he, if_neg (fun hh => he hh.1), if_neg (fun hh => he hh.1)]
    exact ⟨rfl, rfl⟩

/-- The loop of `tasmotaUpdatePowerStates` yields the specified device list. -/
theorem forEachDevice_polled (env : Env) (ds : List TasmotaDevice) :
    ∀ s : State, (forEachDevice (tasmotaUpdatePowerStatesDevice env) ds s).1 =
      polledDevices env ds s := by
  induction ds with
  | nil => intro s; rfl
  | cons d ds ih =>
    intro s
    have h := tasmotaUpdatePowerStatesDevice_polled env d s
    show (tasmotaUpdatePowerStatesDevice env d s).1 ::
      (forEachDevice (tasmotaUpdatePowerStatesDevice env) ds
        (tasmotaUpdatePowerStatesDevice env d s).2).1 = _
    rw [ih, h.1, h.2]
    rfl

/-- The device list after `tasmotaUpdatePowerStates` is the specified one. -/
theorem tasmotaUpdatePowerStates_polled (env : Env) (s : State) :
    (tasmotaUpdatePowerStates env s).tasmotaDevices = polledDevices env s.tasmotaDevices s :=
  forEachDevice_polled env s.tasmotaDevices s

/-- The device list `tasmotaGetFeedingStatus` reports on. -/
theorem feedingStatusPoll_polled (env : Env) (s : State) :
    (feedingStatusPoll env s).2.tasmotaDevices =
      (if s.tasmotaFeedingActive = true then
         polledDevices env s.tasmotaDevices (readMillis env s).2
       else s.tasmotaDevices) := by
  unfold feedingStatusPoll
  by_cases ha : s.tasmotaFeedingActive = true
  · rw [if_pos ha, if_pos ha]
    exact tasmotaUpdatePowerStates_polled env (readMillis env s).2
  · rw [if_neg ha, if_neg ha]

/-- The fields of a polled device. -/
theorem polledDevice_fields (answer : Int) (d : TasmotaDevice) :
    (polledDevice answer d).ip = d.ip ∧ (polledDevice answer d).name = d.name ∧
      (polledDevice answer d).enabled = d.enabled ∧
      (polledDevice answer d).turnOn = d.turnOn ∧
      (d.enabled = true → answer = 1 → (polledDevice answer d).powerState = true) ∧
      (d.enabled = true → answer = 0 → (polledDevice answer d).powerState = false) ∧
      (answer = -1 → polledDevice answer d = d) ∧
      (d.enabled = false → polledDevice answer d = d) := by
  unfold polledDevice
  refine ⟨?_, ?_, ?_, ?_, ?_, ?_, ?_, ?_⟩
  · split
    · rfl
    · split <;> rfl
  · split
    · rfl
    · split <;> rfl
  · split
    · rfl
    · split <;> rfl
  · split
    · rfl
    · split <;> rfl
  · intro he ha
    rw [if_pos ⟨he, ha⟩]
  · intro he ha
    rw [if_neg (fun hh => absurd (ha.symm.trans hh.2) (by decide)), if_pos ⟨he, ha⟩]
  · intro ha
    rw [ha, if_neg (fun hh => absurd hh.2 (by decide)),
      if_neg (fun hh => absurd hh.2 (by decide))]
  · intro he
    rw [if_neg (fun hh => absurd (he.symm.trans hh.1) (by decide)),
      if_neg (fun hh => absurd (he.symm.trans hh.1) (by decide))]

/-- Whether the entry of a device polled ON or OFF is marked completed. -/
theorem feedingStatusEntry_polled (answer : Int) (d : TasmotaDevice) (he : d.enabled = true) :
    (answer = 1 → (feedingStatusEntry (polledDevice answer d)).get "completed" =
        Json.bool (!d.turnOn)) ∧
      (answer = 0 → (feedingStatusEntry (polledDevice answer d)).get "completed" =
        Json.bool d.turnOn) := by
  have hf := polledDevice_fields answer d
  have hc : (feedingStatusEntry (polledDevice answer d)).get "completed" =
      Json.bool (!((polledDevice answer d).powerState == (polledDevice answer d).turnOn)) := rfl
  constructor
  · intro ha
    rw [hc, hf.2.2.2.1, hf.2.2.2.2.1 he ha]
    cases d.turnOn <;> rfl
  · intro ha
    rw [hc, hf.2.2.2.1, hf.2.2.2.2.2.1 he ha]
    cases d.turnOn <;> rfl

end FeedingBreak

namespace FeedingBreak

/-! ## Claim on the status report of the local controller -/

/-- C17: Function `tasmotaGetFeedingStatus` first polls the enabled devices when the
local feeding flag is set: each enabled device in turn is asked for its state, the answer
ON or OFF is stored as its power state, and a device that gives no valid answer keeps the
stored one. It then reports over that device list: as `devices` the entries of the
enabled devices, each marked completed exactly when its power state differs from its
in-feeding state `turnOn`, so a normal device polled ON and an inverted device polled OFF
are completed, a normal device polled OFF and an inverted device polled ON are not; as
`totalDevices` the number of enabled devices; as `completedDevices` the number of enabled
devices whose power state differs from `turnOn`; as `allComplete` whether there is an
enabled device and all of them are completed. When the local feeding flag was set and all
are complete, `tasmotaFeedingActive` is false on return and the clean-up commands
`PulseTime 0`, `PowerOnState 3` have been issued to every enabled device, in list order;
otherwise the state is the one after the poll and `tasmotaFeedingActive` is unchanged. -/
theorem tasmotaGetFeedingStatus_completion (env : Env) (s : State) :
    ((feedingStatusPoll env s).2.tasmotaDevices =
      (if s.tasmotaFeedingActive = true then
         polledDevices env s.tasmotaDevices (readMillis env s).2
       else s.tasmotaDevices)) ∧
    (∀ (d : TasmotaDevice) (ds : List TasmotaDevice) (t : State),
      polledDevices env (d :: ds) t =
        polledDevice (tasmotaGetPowerStateEx env d.ip t).1 d ::
          polledDevices env ds
            (if d.enabled = true then (tasmotaGetPowerStateEx env d.ip t).2 else t)) ∧
    (∀ (answer : Int) (d : TasmotaDevice),
      (polledDevice answer d).ip = d.ip ∧ (polledDevice answer d).name = d.name ∧
      (polledDevice answer d).enabled = d.enabled ∧
      (polledDevice answer d).turnOn = d.turnOn ∧
      (d.enabled = true → answer = 1 → (polledDevice answer d).powerState = true) ∧
      (d.enabled = true → answer = 0 → (polledDevice answer d).powerState = false) ∧
      (answer = -1 → polledDevice answer d = d) ∧
      (d.enabled = false → polledDevice answer d = d)) ∧
    (∀ (answer : Int) (d : TasmotaDevice), d.enabled = true →
      (answer = 1 → (feedingStatusEntry (polledDevice answer d)).get "completed" =
        Json.bool (!d.turnOn)) ∧
      (answer = 0 → (feedingStatusEntry (polledDevice answer d)).get "completed" =
        Json.bool d.turnOn)) ∧
    (feedingStatusPoll env s).2 =
      (if s.tasmotaFeedingActive = true then tasmotaUpdatePowerStates env (readMillis env s).2
       else s) ∧
    (tasmotaGetFeedingStatus env s).1 =
      env.serializeJson (tasmotaGetFeedingStatusDoc env s).1 ∧
    (tasmotaGetFeedingStatus env s).2 = (tasmotaGetFeedingStatusDoc env s).2 ∧
    (tasmotaGetFeedingStatusDoc env s).1.get "devices" =
      Json.arr (((feedingStatusPoll env s).2.tasmotaDevices.filter
        (fun d => d.enabled)).map feedingStatusEntry) ∧
    (∀ d : TasmotaDevice,
      (feedingStatusEntry d).get "completed" = Json.bool (d.powerState != d.turnOn)) ∧
    (tasmotaGetFeedingStatusDoc env s).1.get "totalDevices" =
      Json.int (((feedingStatusPoll env s).2.tasmotaDevices.countP
        (fun d => d.enabled) : Nat) : Int) ∧
    (tasmotaGetFeedingStatusDoc env s).1.get "completedDevices" =
      Json.int (((feedingStatusPoll env s).2.tasmotaDevices.countP
        (fun d => d.enabled && (d.powerState != d.turnOn)) : Nat) : Int) ∧
    (tasmotaGetFeedingStatusDoc env s).1.get "allComplete" =
      Json.bool (decide
        (0 < (feedingStatusPoll env s).2.tasmotaDevices.countP (fun d => d.enabled) ∧
         (feedingStatusPoll env s).2.tasmotaDevices.countP
            (fun d => d.enabled && (d.powerState != d.turnOn)) =
          (feedingStatusPoll env s).2.tasmotaDevices.countP (fun d => d.enabled))) ∧
    (if autoEnds s.tasmotaFeedingActive (feedingStatusPoll env s).2.tasmotaDevices then
       (tasmotaGetFeedingStatus env s).2.tasmotaFeedingActive = false ∧
       (tasmotaGetFeedingStatus env s).2.net =
         (runCommands env ((feedingStatusPoll env s).2.tasmotaDevices.flatMap cleanupCommands)
           (feedingStatusPoll env s).2).net ∧
       (∀ d : TasmotaDevice, d.enabled = true →
         cleanupCommands d = [⟨d.ip, "PulseTime 0", 3⟩, ⟨d.ip, "PowerOnState 3", 3⟩]) ∧
       (∀ d : TasmotaDevice, d.enabled = false → cleanupCommands d = [])
     else
       (tasmotaGetFeedingStatus env s).2 = (feedingStatusPoll env s).2 ∧
       (tasmotaGetFeedingStatus env s).2.tasmotaFeedingActive = s.tasmotaFeedingActive) := by
  refine ⟨feedingStatusPoll_polled env s, ?_, polledDevice_fields,
    feedingStatusEntry_polled, tasmotaGetFeedingStatus_report env s⟩
  intro d ds t
  cases he : d.enabled <;> simp [polledDevices, he]

/-- C17, worked example: the local feeding is active and the normal device, cached as
switched off, answers the poll with ON. Its power state is stored as on, it is the one
enabled device and it is completed, so the feeding ends: the flag is cleared and the
requests sent are the poll and the two clean-up commands. Had it answered OFF, nothing
would be completed and the flag would stay set. -/
theorem tasmotaGetFeedingStatus_completion_witness :
    examplePumpOff.powerState = false ∧
    (feedingStatusPoll (scriptedEnv [answerOn, answer 200 "", answer 200 ""] true)
      exampleFeedingPump).2.tasmotaDevices = [{ examplePumpOff with powerState := true }] ∧
    (tasmotaGetFeedingStatusDoc (scriptedEnv [answerOn, answer 200 "", answer 200 ""] true)
      exampleFeedingPump).1.get "totalDevices" = Json.int 1 ∧
    (tasmotaGetFeedingStatusDoc (scriptedEnv [answerOn, answer 200 "", answer 200 ""] true)
      exampleFeedingPump).1.get "completedDevices" = Json.int 1 ∧
    (tasmotaGetFeedingStatusDoc (scriptedEnv [answerOn, answer 200 "", answer 200 ""] true)
      exampleFeedingPump).1.get "allComplete" = Json.bool true ∧
    (tasmotaGetFeedingStatus (scriptedEnv [answerOn, answer 200 "", answer 200 ""] true)
      exampleFeedingPump).2.tasmotaFeedingActive = false ∧
    (tasmotaGetFeedingStatus (scriptedEnv [answerOn, answer 200 "", answer 200 ""] true)
      exampleFeedingPump).2.trace =
      [Event.http (tasmotaCommandRequest "192.168.1.50" "Status 0"),
       Event.http (tasmotaCommandRequest "192.168.1.50" "PulseTime 0"),
       Event.http (tasmotaCommandRequest "192.168.1.50" "PowerOnState 3")] ∧
    (tasmotaGetFeedingStatusDoc (scriptedEnv [answerOff] true)
      exampleFeedingPump).1.get "completedDevices" = Json.int 0 ∧
    (tasmotaGetFeedingStatus (scriptedEnv [answerOff] true)
      exampleFeedingPump).2.tasmotaFeedingActive = true := by
  have h := tasmotaGetFeedingStatus_completion
    (scriptedEnv [answerOn, answer 200 "", answer 200 ""] true) exampleFeedingPump
  have g := tasmotaGetFeedingStatus_completion (scriptedEnv [answerOff] true)
    exampleFeedingPump
  obtain ⟨h1, _, _, _, _, _, _, _, _, h6, h7, h8, h9⟩ := h
  obtain ⟨_, _, _, _, _, _, _, _, _, _, g7, _, g9⟩ := g
  rw [if_pos (by decide)] at h9
  rw [if_neg (by decide)] at g9
  refine ⟨rfl, h1.trans (by decide), h6.trans (congrArg Json.int (by decide)),
    h7.trans (congrArg Json.int (by decide)), h8.trans (congrArg Json.bool (by decide)),
    h9.1, by decide, g7.trans (congrArg Json.int (by decide)), g9.2.trans rfl⟩

end FeedingBreak
